import Mathlib

/-!
# WiFi bootstrap manager of libweave (privet)

A shallow embedding of `libweave/src/privet/wifi_bootstrap_manager.cc`.

The C++ object becomes the record `WifiBootstrapManager`; every member function
becomes a function on that record.  What the collaborators answer while one
entry point runs (the provider's connectivity, the clock, the SSID generator)
is passed in as an `Env`.  Calls made on the collaborators are appended to
logs kept in the record: `posted` (TaskRunner::PostDelayedTask),
`network_calls` (calls on `network_`) and `listener_calls` (runs of the
registered state listeners).

Weak pointers: `tasks_weak_factory_` is a generation counter `tasks_gen`;
`InvalidateWeakPtrs()` increments it, and a callback bound to a weak pointer
taken at generation `g` is live exactly while `tasks_gen = g`.  Callbacks bound
to `lifetime_weak_factory_` are live as long as the object exists.

`CHECK(!privet_ssid_.empty())` aborts the process: functions that can reach it
return `Option`, with `none` for the abort.

Further down: the settings migration, `Config::Save`, `LoadState` and `Commit`
of `src/config.cc`, over a model of the settings dictionary, and
`uw_macaroon_context_create_` of `third_party/libuweave/src/macaroon_context.c`.
-/

namespace Weave

/-- Time as in base::Time: microseconds, where the value 0 is the null time. -/
abbrev Time := Nat

/-- Signed duration in microseconds, as base::TimeDelta. -/
abbrev TimeDelta := Int

def FromSeconds (n : Int) : TimeDelta := n * 1000000

def FromMinutes (n : Int) : TimeDelta := n * 60 * 1000000

def Time.is_null (t : Time) : Bool := t == 0

/-- Lifecycle state, `WifiBootstrapManager::State`. -/
inductive State where
  | kDisabled
  | kBootstrapping
  | kMonitoring
  | kConnecting
  deriving DecidableEq, Repr

/-- Connectivity reported by the provider, `NetworkState`.  The enum is declared
outside the sources at hand; the four named values are the ones the switch in
`UpdateConnectionState` handles, and `kUnknown` stands for any other integer
value, which the code after the switch handles. -/
inductive NetworkState where
  | kOffline
  | kFailure
  | kConnecting
  | kConnected
  | kUnknown (id : Nat)
  deriving DecidableEq, Repr

/-- An error object (`ErrorPtr` holding one error): domain, code and message. -/
structure Error where
  domain : String
  code : String
  message : String
  deriving DecidableEq, Repr

/-- The static helper Error::AddTo, building the error from its three strings. -/
def Error.AddTo (domain code message : String) : Error :=
  { domain := domain, code := code, message := message }

/-! The error domain and code of `libweave/src/privet/constants.h`, a header
outside the sources at hand. -/
namespace errors
def kDomain : String := "privetd"
def kInvalidState : String := "invalidState"
end errors

/-- Modelled from the spec: `ConnectionState` is declared in a header that is
not among the sources.  It is a tagged value: one of the statuses, or an error
carrying a diagnostic.  `kDisabled` is the value the member holds before
`Init()` computes the first projection. -/
inductive ConnectionState where
  | kDisabled
  | kUnconfigured
  | kConnecting
  | kOnline
  | kOffline
  | error (e : Error)
  deriving DecidableEq, Repr

/-- Modelled from the spec: `SetupState` is declared in a header that is not
among the sources.  `kNone` is the idle value held before any request. -/
inductive SetupState where
  | kNone
  | kInProgress
  | kSuccess
  | error (e : Error)
  deriving DecidableEq, Repr

/-- Which weak pointer a bound callback carries. -/
inductive WeakToken where
  | tasks (gen : Nat)
  | lifetime
  deriving DecidableEq, Repr

/-- The member functions that the code binds into delayed tasks. -/
inductive Task where
  | OnBootstrapTimeout
  | OnConnectTimeout
  | OnMonitorTimeout
  | StartConnecting (ssid passphrase : String)
  | NotifyStateListeners (new_state : State)
  deriving DecidableEq, Repr

/-- One `task_runner_->PostDelayedTask(...)` call. -/
structure PostedTask where
  task : Task
  token : WeakToken
  delay : TimeDelta
  posted_at : Time
  deriving DecidableEq, Repr

/-- Absolute time at which a posted task becomes due. -/
def PostedTask.due (p : PostedTask) : Int := (p.posted_at : Int) + p.delay

/-- One call made on `network_`.  `ConnectToService` records the generation of
the weak pointer bound into its success callback `OnConnectSuccess(ssid)`. -/
inductive NetworkCall where
  | AddOnConnectionChangedCallback
  | EnableAccessPoint (ssid : String)
  | DisableAccessPoint
  | ConnectToService (ssid passphrase : String) (gen : Nat)
  deriving DecidableEq, Repr

/-- What the collaborators answer while one entry point runs:
`network_->GetConnectionState()`, `base::Time::Now()` and
`ssid_generator_.GenerateSsid()`. -/
structure Env where
  net : NetworkState
  now : Time
  generated_ssid : String
  deriving DecidableEq, Repr

/-- The fields of `WifiBootstrapManager`, followed by the logs of the calls it
made on its collaborators.  Listeners are named by numbers. -/
structure WifiBootstrapManager where
  state_ : State
  setup_state_ : SetupState
  connection_state_ : ConnectionState
  last_configured_ssid_ : String
  test_privet_ssid_ : String
  ble_setup_enabled_ : Bool
  privet_ssid_ : String
  monitor_until_ : Time
  state_listeners_ : List Nat
  tasks_gen : Nat
  posted : List PostedTask
  network_calls : List NetworkCall
  listener_calls : List (Nat × State)
  deriving DecidableEq, Repr

/-- The constructor: a fresh instance in state `kDisabled`. -/
def WifiBootstrapManager.create (last_configured_ssid test_privet_ssid : String)
    (ble_setup_enabled : Bool) : WifiBootstrapManager :=
  { state_ := State.kDisabled
    setup_state_ := SetupState.kNone
    connection_state_ := ConnectionState.kDisabled
    last_configured_ssid_ := last_configured_ssid
    test_privet_ssid_ := test_privet_ssid
    ble_setup_enabled_ := ble_setup_enabled
    privet_ssid_ := ""
    monitor_until_ := 0
    state_listeners_ := []
    tasks_gen := 0
    posted := []
    network_calls := []
    listener_calls := [] }

/-- The call `task_runner_->PostDelayedTask(FROM_HERE, task, delay)`. -/
def PostDelayedTask (env : Env) (task : Task) (token : WeakToken) (delay : TimeDelta)
    (m : WifiBootstrapManager) : WifiBootstrapManager :=
  { m with posted := m.posted ++ [{ task := task, token := token, delay := delay,
                                    posted_at := env.now }] }

/-- A call on `network_`, appended to the log. -/
def callNetwork (c : NetworkCall) (m : WifiBootstrapManager) : WifiBootstrapManager :=
  { m with network_calls := m.network_calls ++ [c] }

def EndBootstrapping (m : WifiBootstrapManager) : WifiBootstrapManager :=
  { callNetwork NetworkCall.DisableAccessPoint m with privet_ssid_ := "" }

def EndConnecting (m : WifiBootstrapManager) : WifiBootstrapManager := m

def EndMonitoring (m : WifiBootstrapManager) : WifiBootstrapManager := m

def UpdateState (env : Env) (new_state : State) (m : WifiBootstrapManager) :
    WifiBootstrapManager :=
  -- Abort irrelevant tasks.
  let m1 := { m with tasks_gen := m.tasks_gen + 1 }
  let m2 := match m1.state_ with
    | State.kDisabled => m1
    | State.kBootstrapping => EndBootstrapping m1
    | State.kMonitoring => EndMonitoring m1
    | State.kConnecting => EndConnecting m1
  if new_state ≠ m2.state_ then
    PostDelayedTask env (Task.NotifyStateListeners new_state) WeakToken.lifetime 0
      { m2 with state_ := new_state }
  else
    m2

def StartMonitoring (env : Env) (m : WifiBootstrapManager) : WifiBootstrapManager :=
  let m1 := UpdateState env State.kMonitoring m
  if env.net = NetworkState.kConnected then
    { m1 with monitor_until_ := 0 }
  else
    let m2 := if m1.monitor_until_.is_null then
        { m1 with monitor_until_ := env.now + (FromMinutes 2).toNat }
      else m1
    PostDelayedTask env Task.OnMonitorTimeout (WeakToken.tasks m2.tasks_gen)
      ((m2.monitor_until_ : Int) - (env.now : Int)) m2

def GenerateSsid (env : Env) (m : WifiBootstrapManager) : String :=
  if m.test_privet_ssid_ = "" then env.generated_ssid else m.test_privet_ssid_

def StartBootstrapping (env : Env) (m : WifiBootstrapManager) :
    Option WifiBootstrapManager :=
  if env.net = NetworkState.kConnected then
    some (StartMonitoring env m)
  else
    let m1 := UpdateState env State.kBootstrapping m
    let m2 := if ¬ (m1.last_configured_ssid_ = "") then
        PostDelayedTask env Task.OnBootstrapTimeout (WeakToken.tasks m1.tasks_gen)
          (FromMinutes 10) m1
      else m1
    let m3 := { m2 with privet_ssid_ := GenerateSsid env m2 }
    -- CHECK(!privet_ssid_.empty())
    if m3.privet_ssid_ = "" then none
    else some (callNetwork (NetworkCall.EnableAccessPoint m3.privet_ssid_) m3)

def StartConnecting (env : Env) (ssid passphrase : String) (m : WifiBootstrapManager) :
    WifiBootstrapManager :=
  let m1 := UpdateState env State.kConnecting m
  let m2 := PostDelayedTask env Task.OnConnectTimeout (WeakToken.tasks m1.tasks_gen)
      (FromMinutes 3) m1
  callNetwork (NetworkCall.ConnectToService ssid passphrase m2.tasks_gen) m2

/-- The name table of `NetworkState` is outside the sources at hand, so the
strings here are stand-ins; no statement below depends on them.  The call in
`UpdateConnectionState` only ever sees a value that is none of the four named
ones. -/
def EnumToString : NetworkState → String
  | NetworkState.kOffline => "offline"
  | NetworkState.kFailure => "failure"
  | NetworkState.kConnecting => "connecting"
  | NetworkState.kConnected => "connected"
  | NetworkState.kUnknown id => toString id

def UpdateConnectionState (env : Env) (m : WifiBootstrapManager) : WifiBootstrapManager :=
  let m1 := { m with connection_state_ := ConnectionState.kUnconfigured }
  if m1.last_configured_ssid_ = "" then m1
  else
    match env.net with
    | NetworkState.kOffline => { m1 with connection_state_ := ConnectionState.kOffline }
    | NetworkState.kFailure =>
        let error := Error.AddTo errors.kDomain errors.kInvalidState "Unknown WiFi error"
        { m1 with connection_state_ := ConnectionState.error error }
    | NetworkState.kConnecting => { m1 with connection_state_ := ConnectionState.kConnecting }
    | NetworkState.kConnected => { m1 with connection_state_ := ConnectionState.kOnline }
    | NetworkState.kUnknown id =>
        let error := Error.AddTo errors.kDomain errors.kInvalidState
          ("Unknown network state: " ++ EnumToString (NetworkState.kUnknown id))
        { m1 with connection_state_ := ConnectionState.error error }

def Init (env : Env) (m : WifiBootstrapManager) : Option WifiBootstrapManager :=
  let m1 := UpdateConnectionState env m
  let m2 := callNetwork NetworkCall.AddOnConnectionChangedCallback m1
  if m2.last_configured_ssid_ = "" then StartBootstrapping env m2
  else some (StartMonitoring env m2)

def RegisterStateListener (listener : Nat) (m : WifiBootstrapManager) : WifiBootstrapManager :=
  -- Notify about current state.
  { m with listener_calls := m.listener_calls ++ [(listener, m.state_)]
           state_listeners_ := m.state_listeners_ ++ [listener] }

def NotifyStateListeners (new_state : State) (m : WifiBootstrapManager) :
    WifiBootstrapManager :=
  { m with listener_calls :=
      m.listener_calls ++ m.state_listeners_.map (fun listener => (listener, new_state)) }

def GetConnectionState (m : WifiBootstrapManager) : ConnectionState := m.connection_state_

def GetSetupState (m : WifiBootstrapManager) : SetupState := m.setup_state_

/-- The member function returns `true` in every case; the returned record is
the object afterwards. -/
def ConfigureCredentials (env : Env) (ssid passphrase : String) (m : WifiBootstrapManager) :
    Bool × WifiBootstrapManager :=
  let m1 := { m with setup_state_ := SetupState.kInProgress }
  (true, PostDelayedTask env (Task.StartConnecting ssid passphrase)
    (WeakToken.tasks m1.tasks_gen) (FromSeconds 1) m1)

def GetCurrentlyConnectedSsid (m : WifiBootstrapManager) : String := m.last_configured_ssid_

def GetHostedSsid (m : WifiBootstrapManager) : String := m.privet_ssid_

def OnConnectSuccess (env : Env) (ssid : String) (m : WifiBootstrapManager) :
    WifiBootstrapManager :=
  StartMonitoring env
    { m with last_configured_ssid_ := ssid, setup_state_ := SetupState.kSuccess }

def OnBootstrapTimeout (env : Env) (m : WifiBootstrapManager) : WifiBootstrapManager :=
  StartMonitoring env m

def OnConnectTimeout (env : Env) (m : WifiBootstrapManager) : Option WifiBootstrapManager :=
  let error := Error.AddTo errors.kDomain errors.kInvalidState
    "Failed to connect to provided network"
  StartBootstrapping env { m with setup_state_ := SetupState.error error }

def OnConnectivityChange (env : Env) (is_connected : Bool) (m : WifiBootstrapManager) :
    WifiBootstrapManager :=
  let m1 := UpdateConnectionState env m
  if m1.state_ = State.kMonitoring ∨ (m1.state_ = State.kDisabled ∧ is_connected = true) then
    StartMonitoring env m1
  else m1

def OnMonitorTimeout (env : Env) (m : WifiBootstrapManager) : Option WifiBootstrapManager :=
  StartBootstrapping env m

/-! ## Entry points as events

The object is driven by one task queue.  An event is one run of an entry
point: a connectivity notification from the provider, a call from the API
layer, the task runner running one queued task, or the provider running the
success callback of a connect request. -/

inductive Event where
  | OnConnectivityChange (is_connected : Bool)
  | ConfigureCredentials (ssid passphrase : String)
  | RegisterStateListener (listener : Nat)
  | RunTask (i : Nat)
  | ConnectSuccess (i : Nat)
  deriving DecidableEq, Repr

/-- A weak pointer is valid while its factory has not been invalidated since. -/
def WeakToken.live (m : WifiBootstrapManager) : WeakToken → Bool
  | WeakToken.tasks gen => gen == m.tasks_gen
  | WeakToken.lifetime => true

/-- Running the member function bound into a task. -/
def runBound (env : Env) (t : Task) (m : WifiBootstrapManager) : Option WifiBootstrapManager :=
  match t with
  | Task.OnBootstrapTimeout => some (OnBootstrapTimeout env m)
  | Task.OnConnectTimeout => OnConnectTimeout env m
  | Task.OnMonitorTimeout => OnMonitorTimeout env m
  | Task.StartConnecting ssid passphrase => some (StartConnecting env ssid passphrase m)
  | Task.NotifyStateListeners new_state => some (NotifyStateListeners new_state m)

/-- One event.  `RunTask i` takes the i-th queued task off the queue, which the
task runner does no earlier than the task is due, and runs it unless its weak
pointer has been invalidated.  `ConnectSuccess i` is the provider running the
success callback handed over in the i-th call on `network_`.  The result is
`none` when the event cannot happen in this state or the CHECK aborts. -/
def step (env : Env) (ev : Event) (m : WifiBootstrapManager) : Option WifiBootstrapManager :=
  match ev with
  | Event.OnConnectivityChange is_connected => some (OnConnectivityChange env is_connected m)
  | Event.ConfigureCredentials ssid passphrase =>
      some (ConfigureCredentials env ssid passphrase m).2
  | Event.RegisterStateListener listener => some (RegisterStateListener listener m)
  | Event.RunTask i =>
      match m.posted[i]? with
      | none => none
      | some p =>
          if p.due ≤ (env.now : Int) then
            let m1 := { m with posted := m.posted.eraseIdx i }
            if p.token.live m then runBound env p.task m1 else some m1
          else none
  | Event.ConnectSuccess i =>
      match m.network_calls[i]? with
      | some (NetworkCall.ConnectToService ssid _ gen) =>
          if gen = m.tasks_gen then some (OnConnectSuccess env ssid m) else some m
      | _ => none

/-- A sequence of events, each with what the collaborators answer during it. -/
def run : List (Env × Event) → WifiBootstrapManager → Option WifiBootstrapManager
  | [], m => some m
  | (env, ev) :: rest, m => (step env ev m).bind (run rest)


/-! ## Names for the tasks the entry actions post -/

/-- The notification task that a committed transition posts. -/
def notifyTask (env : Env) (s : State) : PostedTask :=
  { task := Task.NotifyStateListeners s, token := WeakToken.lifetime, delay := 0,
    posted_at := env.now }

/-- The offline deadline after a Monitoring entry. -/
def nextDeadline (env : Env) (m : WifiBootstrapManager) : Time :=
  if env.net = NetworkState.kConnected then 0
  else if m.monitor_until_ = 0 then env.now + (FromMinutes 2).toNat else m.monitor_until_

/-- The monitor timeout that a Monitoring entry posts when the provider is not
connected. -/
def monitorTask (env : Env) (m : WifiBootstrapManager) : PostedTask :=
  { task := Task.OnMonitorTimeout, token := WeakToken.tasks (m.tasks_gen + 1),
    delay := (nextDeadline env m : Int) - (env.now : Int), posted_at := env.now }

/-- The bootstrap timeout that a Bootstrapping entry posts when a network was
configured before. -/
def bootstrapTask (env : Env) (m : WifiBootstrapManager) : PostedTask :=
  { task := Task.OnBootstrapTimeout, token := WeakToken.tasks (m.tasks_gen + 1),
    delay := FromMinutes 10, posted_at := env.now }

/-! ## Predicates used in the statements -/

/-- The cached connection state says Unconfigured exactly when no network has
been configured. -/
def UnconfiguredIffNoSsid (m : WifiBootstrapManager) : Prop :=
  GetConnectionState m = ConnectionState.kUnconfigured ↔ GetCurrentlyConnectedSsid m = ""

/-- Whether the cached connection state has been recomputed since the last
connect-success callback: a connectivity notification recomputes it, a
connect-success callback may leave it stale, other events keep it as it is. -/
def recomputedAfter (b : Bool) : Event → Bool
  | Event.OnConnectivityChange _ => true
  | Event.ConnectSuccess _ => false
  | _ => b

/-- Folding `recomputedAfter` over a sequence of events. -/
def recomputedSince : Bool → List (Env × Event) → Bool
  | b, [] => b
  | b, e :: rest => recomputedSince (recomputedAfter b e.2) rest

/-! ## Concrete inputs -/

/-- What the collaborators answer at time `now` (in seconds) when the provider
reports `net`; the generator yields the name the unit tests expect. -/
def envAt (net : NetworkState) (seconds : Nat) : Env :=
  { net := net, now := seconds * 1000000, generated_ssid := "DEVICE_NAME.prv" }

/-- A fresh device without a configured network: Init() while offline, then
ConfigureCredentials("net", "pw"), the delayed StartConnecting after one
second, and the success callback of the provider one second later. -/
def firstSetupEvents : List (Env × Event) :=
  [ (envAt NetworkState.kOffline 0, Event.ConfigureCredentials "net" "pw"),
    (envAt NetworkState.kOffline 1, Event.RunTask 1),
    (envAt NetworkState.kConnected 2, Event.ConnectSuccess 3) ]

/-! ## Connect attempts and their completions -/

/-- The tasks of a connect attempt: the delayed start and the connect timeout. -/
def Task.isAttempt : Task → Bool
  | Task.StartConnecting _ _ => true
  | Task.OnConnectTimeout => true
  | _ => false

def Task.isNotify : Task → Bool
  | Task.NotifyStateListeners _ => true
  | _ => false

/-- A weak pointer taken from `tasks_weak_factory_` before generation `gen`: it
has been invalidated and stays so. -/
def WeakToken.staleAt (gen : Nat) : WeakToken → Bool
  | WeakToken.tasks g => decide (g < gen)
  | WeakToken.lifetime => false

/-- The success callback handed to the provider in this call, if any, has been
invalidated before generation `gen`. -/
def NetworkCall.callbackStaleAt (gen : Nat) : NetworkCall → Bool
  | NetworkCall.ConnectToService _ _ g => decide (g < gen)
  | _ => true

/-- Nothing that could complete or start a connect attempt is live: every
queued StartConnecting or OnConnectTimeout task and every success callback
carries an invalidated weak pointer. -/
def NoLiveAttempt (m : WifiBootstrapManager) : Prop :=
  (∀ p ∈ m.posted, p.task.isAttempt = true → p.token.staleAt m.tasks_gen = true) ∧
  (∀ c ∈ m.network_calls, c.callbackStaleAt m.tasks_gen = true)

instance (m : WifiBootstrapManager) : Decidable (NoLiveAttempt m) := by
  unfold NoLiveAttempt; infer_instance

def Event.isConfigure : Event → Bool
  | Event.ConfigureCredentials _ _ => true
  | _ => false

/-- A sequence of events without a ConfigureCredentials call. -/
def NoConfigure (evs : List (Env × Event)) : Prop :=
  ∀ e ∈ evs, e.2.isConfigure = false

instance (evs : List (Env × Event)) : Decidable (NoConfigure evs) := by
  unfold NoConfigure; infer_instance

/-- A device with the configured network "home": Init() while connected, then
ConfigureCredentials("net", "pw"), and half a second later a connectivity
notification with the provider offline. -/
def cancelledSetupEvents : List (Env × Event) :=
  [ (envAt NetworkState.kConnected 0, Event.ConfigureCredentials "net" "pw"),
    ({ net := NetworkState.kOffline, now := 500000, generated_ssid := "DEVICE_NAME.prv" },
      Event.OnConnectivityChange false) ]

/-- A queued task as the code posts them: a listener notification bound to the
lifetime weak pointer, or another task bound to a per-state weak pointer taken
no later than generation `gen`. -/
def PostedTask.wellFormedAt (gen : Nat) (p : PostedTask) : Bool :=
  match p.token with
  | WeakToken.lifetime => p.task.isNotify
  | WeakToken.tasks g => !p.task.isNotify && decide (g ≤ gen)

/-- The success callback handed to the provider in this call, if any, was bound
no later than generation `gen`. -/
def NetworkCall.callbackKnownAt (gen : Nat) : NetworkCall → Bool
  | NetworkCall.ConnectToService _ _ g => decide (g ≤ gen)
  | _ => true

/-- No queued task and no callback carries a weak pointer of a generation that
does not exist yet.  Holds for a fresh instance and is kept by every event. -/
def WellFormed (m : WifiBootstrapManager) : Prop :=
  (∀ p ∈ m.posted, p.wellFormedAt m.tasks_gen = true) ∧
  (∀ c ∈ m.network_calls, c.callbackKnownAt m.tasks_gen = true)

instance (m : WifiBootstrapManager) : Decidable (WellFormed m) := by
  unfold WellFormed; infer_instance

/-- A queued task that cannot start or end a state other than through the
connect timeout of the current attempt: a listener notification, a task whose
weak pointer has been invalidated, or the live connect timeout. -/
def PostedTask.quietAt (gen : Nat) (p : PostedTask) : Bool :=
  match p.token with
  | WeakToken.lifetime => p.task.isNotify
  | WeakToken.tasks g =>
      !p.task.isNotify && (decide (g < gen) || (decide (g = gen) &&
        decide (p.task = Task.OnConnectTimeout)))

/-- The call handed the provider a success callback bound at generation `gen`. -/
def NetworkCall.isCallbackAt (gen : Nat) : NetworkCall → Bool
  | NetworkCall.ConnectToService _ _ g => decide (g = gen)
  | _ => false

/-- The failure SetupState that OnConnectTimeout stores. -/
def connectFailed : SetupState :=
  SetupState.error (Error.AddTo errors.kDomain errors.kInvalidState
    "Failed to connect to provided network")

/-- A connect attempt is under way and undecided: the state is Connecting,
SetupState is InProgress, the 3-minute connect timeout is queued with a live
weak pointer and the provider holds a live success callback. -/
def AttemptPending (m : WifiBootstrapManager) : Prop :=
  m.state_ = State.kConnecting ∧ GetSetupState m = SetupState.kInProgress ∧
  (∃ p ∈ m.posted, p.task = Task.OnConnectTimeout ∧ p.token = WeakToken.tasks m.tasks_gen ∧
    p.delay = FromMinutes 3) ∧
  (∃ c ∈ m.network_calls, c.isCallbackAt m.tasks_gen = true)

instance (m : WifiBootstrapManager) : Decidable (AttemptPending m) := by
  unfold AttemptPending; infer_instance

/-- Apart from listener notifications, the connect timeout of the current
attempt is the only queued task that is live. -/
def OnlyAttemptLive (m : WifiBootstrapManager) : Prop :=
  (∀ p ∈ m.posted, p.quietAt m.tasks_gen = true) ∧
  (∀ c ∈ m.network_calls, c.callbackKnownAt m.tasks_gen = true)

/-- A fresh device without a configured network after Init() while offline:
it is Bootstrapping. -/
def setupStart : WifiBootstrapManager :=
  (Init (envAt NetworkState.kOffline 0) (WifiBootstrapManager.create "" "" false)).getD
    (WifiBootstrapManager.create "" "" false)

/-- The same device after ConfigureCredentials("net", "pw") at time 0. -/
def setupRequested : WifiBootstrapManager :=
  (ConfigureCredentials (envAt NetworkState.kOffline 0) "net" "pw" setupStart).2

/-- The same device after the delayed StartConnecting has run one second later. -/
def setupConnecting : WifiBootstrapManager :=
  (step (envAt NetworkState.kOffline 1) (Event.RunTask 1) setupRequested).getD setupRequested

/-- The same device after the provider ran the success callback at second 2. -/
def setupSucceeded : WifiBootstrapManager :=
  (run [(envAt NetworkState.kConnected 2, Event.ConnectSuccess 3)] setupConnecting).getD
    setupConnecting

/-- The same device after the task runner took the connect timeout off the
queue at second 181. -/
def setupAfterLateTimeout : WifiBootstrapManager :=
  (run [(envAt NetworkState.kConnected 181, Event.RunTask 2)] setupSucceeded).getD
    setupSucceeded

/-! ## Listener notifications -/

/-- The state carried by a queued listener notification. -/
def Task.notifiedState : Task → Option State
  | Task.NotifyStateListeners s => some s
  | _ => none

/-- The states of the notification tasks still in the queue, in posting order. -/
def pendingNotifications (m : WifiBootstrapManager) : List State :=
  m.posted.filterMap (fun p => p.task.notifiedState)

/-- The states with which a listener has been run so far, in order. -/
def delivered (listener : Nat) (m : WifiBootstrapManager) : List State :=
  (m.listener_calls.filter (fun c => decide (c.1 = listener))).map (fun c => c.2)

/-- The lifecycle states entered along a run, in order: one entry for every
event after which the state differs from the state before it.  Every entry
point calls UpdateState at most once, so these are the committed transitions. -/
def transitions : List (Env × Event) → WifiBootstrapManager → List State
  | [], _ => []
  | (env, ev) :: rest, m =>
      match step env ev m with
      | none => []
      | some m' => (if m'.state_ ≠ m.state_ then [m'.state_] else []) ++ transitions rest m'

/-- The task runner keeps the posting order among listener notifications: when
it runs the i-th queued task and that is a notification, no notification is
queued before it. -/
def Event.keepsNotifyOrder (m : WifiBootstrapManager) : Event → Bool
  | Event.RunTask i =>
      match m.posted[i]? with
      | some p => !p.task.isNotify || (m.posted.take i).all (fun q => !q.task.isNotify)
      | none => true
  | _ => true

/-- Every task run of the sequence keeps the posting order among listener
notifications. -/
def runsNotificationsInOrder : List (Env × Event) → WifiBootstrapManager → Bool
  | [], _ => true
  | (env, ev) :: rest, m =>
      ev.keepsNotifyOrder m &&
        match step env ev m with
        | none => true
        | some m' => runsNotificationsInOrder rest m'

/-- The sequence holds no registration of this listener. -/
def NoRegistrationOf (listener : Nat) (evs : List (Env × Event)) : Prop :=
  ∀ e ∈ evs, e.2 ≠ Event.RegisterStateListener listener

instance (listener : Nat) (evs : List (Env × Event)) :
    Decidable (NoRegistrationOf listener evs) := by
  unfold NoRegistrationOf; infer_instance

/-- What a step that runs at most one UpdateState does to the listeners: it
runs none, registers none, and queues a notification exactly when the state
changes. -/
def QueuesTransition (m m' : WifiBootstrapManager) : Prop :=
  m'.listener_calls = m.listener_calls ∧ m'.state_listeners_ = m.state_listeners_ ∧
  pendingNotifications m' =
    pendingNotifications m ++ (if m'.state_ ≠ m.state_ then [m'.state_] else [])

/-- The Bootstrapping device of `setupStart` once its first notification task
has run: nothing is queued. -/
def listenerDevice : WifiBootstrapManager :=
  (run [(envAt NetworkState.kOffline 0, Event.RunTask 0)] setupStart).getD setupStart

/-- After the registration: ConfigureCredentials, the delayed StartConnecting,
the success callback, the notification of Connecting, a connectivity
notification that re-enters Monitoring, and the notification of Monitoring. -/
def listenerEvents : List (Env × Event) :=
  [ (envAt NetworkState.kOffline 0, Event.ConfigureCredentials "net" "pw"),
    (envAt NetworkState.kOffline 1, Event.RunTask 0),
    (envAt NetworkState.kConnected 2, Event.ConnectSuccess 3),
    (envAt NetworkState.kConnected 2, Event.RunTask 0),
    (envAt NetworkState.kConnected 3, Event.OnConnectivityChange true),
    (envAt NetworkState.kConnected 3, Event.RunTask 1) ]

/-- The device after `listenerEvents`, listener 7 having registered first. -/
def listenerDeviceAfter : WifiBootstrapManager :=
  (run listenerEvents (RegisterStateListener 7 listenerDevice)).getD listenerDevice

/-! ## The task runner of the unit tests -/

/-- Modelled from the spec: the timer service is outside the sources.  This is
the deterministic one the unit tests drive the device with.  It keeps a clock
of its own, `clock`, which only it moves; `base::Time::Now()` is another clock,
which it does not touch.  `queue` holds the tasks of `manager.posted` in the
same order, each stamped with the reading of `clock` at which it was posted, so
that `PostedTask.due` is the reading of `clock` at which the task is due.
`calls` are the calls the device made on `network_` while tasks ran, each with
the reading of `clock` at the call. -/
structure TestBed where
  manager : WifiBootstrapManager
  clock : Time
  net : NetworkState
  queue : List PostedTask
  calls : List (Time × NetworkCall)
  deriving DecidableEq, Repr

/-- Index of the queued task that is due first; among tasks due at the same
time the one posted first. -/
def earliestIndex : List PostedTask → Option Nat
  | [] => none
  | p :: rest =>
      match earliestIndex rest with
      | none => some 0
      | some j =>
          match rest[j]? with
          | some q => if p.due ≤ q.due then some 0 else some (j + 1)
          | none => some 0

/-- What the task runner does with the i-th queued task once it has found the
task due, as `step` does at `Event.RunTask`: the task leaves the queue, and its
member function runs unless its weak pointer has been invalidated. -/
def runQueued (env : Env) (i : Nat) (m : WifiBootstrapManager) : Option WifiBootstrapManager :=
  match m.posted[i]? with
  | none => none
  | some p =>
      let m1 := { m with posted := m.posted.eraseIdx i }
      if p.token.live m then runBound env p.task m1 else some m1

/-- The scenario of the unit test StartOnlineWithPrevSsid: the device has the
configured network `ssid`, the provider is connected when Init() runs, and then
the provider goes offline for good and notifies the device; at that moment the
task runner's clock shows 0 and `base::Time::Now()` answers `now`. -/
def offlineBed (ssid : String) (now : Time) : TestBed :=
  let m0 := WifiBootstrapManager.create ssid "" false
  let online : Env := { net := NetworkState.kConnected, now := now,
                        generated_ssid := "DEVICE_NAME.prv" }
  let offline : Env := { net := NetworkState.kOffline, now := now,
                         generated_ssid := "DEVICE_NAME.prv" }
  let m := OnConnectivityChange offline false ((Init online m0).getD m0)
  { manager := m
    clock := 0
    net := NetworkState.kOffline
    queue := m.posted.map (fun p => { p with posted_at := 0 })
    calls := [] }

/-- The scenario with the configured network "TEST_ssid" of the unit test,
`base::Time::Now()` answering 0 when the device goes offline. -/
def offlineWithPrevSsid : TestBed := offlineBed "TEST_ssid" 0

/-- While the device of `offlineWithPrevSsid` is offline: a second offline
notification after 30 seconds, and the monitor timeout it posts, run at
minute 2. -/
def stillOfflineEvents : List (Env × Event) :=
  [ (envAt NetworkState.kOffline 30, Event.OnConnectivityChange false),
    (envAt NetworkState.kOffline 120, Event.RunTask 2) ]

/-- The device of `offlineWithPrevSsid` after `stillOfflineEvents`. -/
def stillOfflineDevice : WifiBootstrapManager :=
  (run stillOfflineEvents offlineWithPrevSsid.manager).getD offlineWithPrevSsid.manager

/-! ## The connection-state projection as the specification words it -/

/-- The five values of the specification's ConnectionState, the diagnostic of
Error left out. -/
inductive Projection where
  | Unconfigured
  | Offline
  | Connecting
  | Online
  | Error
  deriving DecidableEq, Repr

/-- The projection in the specification's words: an empty identifier gives
Unconfigured; else offline gives Offline, connecting gives Connecting,
connected gives Online, and anything else gives Error. -/
def projectionSpec (identifier : String) (connectivity : NetworkState) : Projection :=
  if identifier = "" then Projection.Unconfigured
  else match connectivity with
    | NetworkState.kOffline => Projection.Offline
    | NetworkState.kConnecting => Projection.Connecting
    | NetworkState.kConnected => Projection.Online
    | _ => Projection.Error

/-- Which value of the specification a cached ConnectionState stands for; the
value held before Init() stands for none. -/
def ConnectionState.projection : ConnectionState → Option Projection
  | ConnectionState.kDisabled => none
  | ConnectionState.kUnconfigured => some Projection.Unconfigured
  | ConnectionState.kConnecting => some Projection.Connecting
  | ConnectionState.kOnline => some Projection.Online
  | ConnectionState.kOffline => some Projection.Offline
  | ConnectionState.error _ => some Projection.Error

/-- The diagnostic string an Error value carries. -/
def ConnectionState.diagnostic : ConnectionState → Option String
  | ConnectionState.error e => some e.message
  | _ => none

/-- The SSIDs of the EnableAccessPoint calls in a log of provider calls. -/
def enableCalls (calls : List NetworkCall) : List String :=
  calls.filterMap (fun c => match c with
    | NetworkCall.EnableAccessPoint ssid => some ssid
    | _ => none)

/-- What a Bootstrapping entry leaves behind when it redirects to Monitoring:
the state is Monitoring, no EnableAccessPoint call is added (the only call it
may add on the provider is the DisableAccessPoint of leaving Bootstrapping),
and the broadcast SSID is empty if it was empty or the state left was
Bootstrapping. -/
def RedirectedToMonitoring (m m' : WifiBootstrapManager) : Prop :=
  m'.state_ = State.kMonitoring ∧
  enableCalls m'.network_calls = enableCalls m.network_calls ∧
  m'.network_calls = m.network_calls ++
    (if m.state_ = State.kBootstrapping then [NetworkCall.DisableAccessPoint] else []) ∧
  GetHostedSsid m' = (if m.state_ = State.kBootstrapping then "" else GetHostedSsid m)

/-! ## Waiting in Monitoring for the offline deadline -/

def Event.isRunTask : Event → Bool
  | Event.RunTask _ => true
  | _ => false

/-- A sequence of events in which the device gets no input: the task runner
running queued tasks is all that happens. -/
def OnlyTaskRuns (evs : List (Env × Event)) : Prop :=
  ∀ e ∈ evs, e.2.isRunTask = true

instance (evs : List (Env × Event)) : Decidable (OnlyTaskRuns evs) := by
  unfold OnlyTaskRuns; infer_instance

/-- A queued task that does nothing to the state before `deadline`: a listener
notification, a task whose weak pointer has been invalidated, or the live
monitor timeout, due at `deadline`. -/
def PostedTask.idleAt (gen : Nat) (deadline : Int) (p : PostedTask) : Bool :=
  match p.token with
  | WeakToken.lifetime => p.task.isNotify
  | WeakToken.tasks g =>
      !p.task.isNotify && (decide (g < gen) || (decide (g = gen) &&
        decide (p.task = Task.OnMonitorTimeout) && decide (p.due = deadline)))

/-- The device is Monitoring, the live monitor timeout is queued and due at
`deadline`, and no other queued task can change the state. -/
def WaitingForDeadline (deadline : Int) (m : WifiBootstrapManager) : Prop :=
  m.state_ = State.kMonitoring ∧
  (∀ p ∈ m.posted, p.idleAt m.tasks_gen deadline = true) ∧
  (∃ p ∈ m.posted, p.task = Task.OnMonitorTimeout ∧
    p.token = WeakToken.tasks m.tasks_gen ∧ p.due = deadline)

/-- A device without a configured network whose provider is connected at
Init(): it is Monitoring (the scenario of the unit test
StartOnlineNoPrevSsid). -/
def onlineNoPrevSsid : WifiBootstrapManager :=
  (Init (envAt NetworkState.kConnected 0) (WifiBootstrapManager.create "" "" false)).getD
    (WifiBootstrapManager.create "" "" false)

/-- The same device after the provider went offline at second 10. -/
def wentOffline : WifiBootstrapManager :=
  OnConnectivityChange (envAt NetworkState.kOffline 10) false onlineNoPrevSsid

/-- The broadcast SSID is non-empty exactly while the state is Bootstrapping. -/
def HostedIffBootstrapping (m : WifiBootstrapManager) : Prop :=
  GetHostedSsid m ≠ "" ↔ m.state_ = State.kBootstrapping

instance (m : WifiBootstrapManager) : Decidable (HostedIffBootstrapping m) := by
  unfold HostedIffBootstrapping; infer_instance

/-! ## Events that run no state entry -/

/-- What holds between two objects when no UpdateState ran in between: the
lifecycle state, the per-state weak pointers, the last-configured SSID, the
broadcast SSID, the offline deadline and the log of provider calls are the
same; SetupState is the same or was set to InProgress by ConfigureCredentials;
and every queued task bound to the current per-state weak pointer is still
queued. -/
def Undisturbed (m m' : WifiBootstrapManager) : Prop :=
  m'.state_ = m.state_ ∧ m'.tasks_gen = m.tasks_gen ∧
  m'.last_configured_ssid_ = m.last_configured_ssid_ ∧
  m'.test_privet_ssid_ = m.test_privet_ssid_ ∧
  m'.privet_ssid_ = m.privet_ssid_ ∧ m'.monitor_until_ = m.monitor_until_ ∧
  m'.network_calls = m.network_calls ∧
  (m'.setup_state_ = m.setup_state_ ∨ m'.setup_state_ = SetupState.kInProgress) ∧
  (∀ p ∈ m.posted, p.token = WeakToken.tasks m.tasks_gen → p.task.isNotify = false →
    p ∈ m'.posted)

/-- A queued task that can do nothing to the state any more: a listener
notification, or a task whose per-state weak pointer has been invalidated. -/
def PostedTask.inertAt (gen : Nat) (p : PostedTask) : Bool :=
  match p.token with
  | WeakToken.lifetime => p.task.isNotify
  | WeakToken.tasks g => !p.task.isNotify && decide (g < gen)

/-- No queued timer is live: every queued task is a listener notification or
has been invalidated. -/
def AllInert (m : WifiBootstrapManager) : Prop :=
  ∀ p ∈ m.posted, p.inertAt m.tasks_gen = true

instance (m : WifiBootstrapManager) : Decidable (AllInert m) := by
  unfold AllInert; infer_instance

/-- The device of `wentOffline` after the task runner ran the queued
notification at second 10. -/
def wentOfflineNotified : WifiBootstrapManager :=
  (run [(envAt NetworkState.kOffline 10, Event.RunTask 0)] wentOffline).getD wentOffline

/-- The same device after the provider reported connected again at second 20. -/
def reconnected : WifiBootstrapManager :=
  OnConnectivityChange (envAt NetworkState.kConnected 20) true wentOfflineNotified

/-- The connect timeout that StartConnecting posts. -/
def connectTimeoutTask (env : Env) (m : WifiBootstrapManager) : PostedTask :=
  { task := Task.OnConnectTimeout, token := WeakToken.tasks (m.tasks_gen + 1),
    delay := FromMinutes 3, posted_at := env.now }

/-- The device of `setupConnecting` after its connect timeout ran at second
181 while the provider reported connected. -/
def setupTimedOutConnected : WifiBootstrapManager :=
  (step (envAt NetworkState.kConnected 181) (Event.RunTask 2) setupConnecting).getD
    setupConnecting

/-- The device of `setupConnecting` after its connect timeout ran at second
181 while the provider reported offline. -/
def setupTimedOutOffline : WifiBootstrapManager :=
  (step (envAt NetworkState.kOffline 181) (Event.RunTask 2) setupConnecting).getD
    setupConnecting

/-- The device of `setupConnecting` after a second ConfigureCredentials call
at second 2 whose delayed StartConnecting ran at second 3: a second attempt
has replaced the first. -/
def setupSuperseded : WifiBootstrapManager :=
  (run [(envAt NetworkState.kOffline 2, Event.ConfigureCredentials "other" "pw2"),
        (envAt NetworkState.kOffline 3, Event.RunTask 3)] setupConnecting).getD
    setupConnecting

/-- A connect attempt started on the Bootstrapping device of `setupStart`. -/
def directAttempt : WifiBootstrapManager :=
  StartConnecting (envAt NetworkState.kOffline 1) "net" "pw" setupStart

/-! ## The order in which the task runner runs tasks -/

/-- Modelled from the spec: the timer service is outside the sources.  A task
runner runs the queued task that is due first, and among tasks due at the same
time the one posted first; `earliestIndex` names it. -/
def Event.earliestFirst (m : WifiBootstrapManager) : Event → Bool
  | Event.RunTask i => decide (earliestIndex m.posted = some i)
  | _ => true

/-- Modelled from the spec: a sequence of events as a single task queue
produces it.  Time never goes back from one event to the next, starting at
`clock`, and every task run takes the task that is due first. -/
def followsTaskRunner : Time → List (Env × Event) → WifiBootstrapManager → Bool
  | _, [], _ => true
  | clock, (env, ev) :: rest, m =>
      decide (clock ≤ env.now) && ev.earliestFirst m &&
        match step env ev m with
        | none => true
        | some m' => followsTaskRunner env.now rest m'

/-- Of two listener notifications, the first is due no later than the second. -/
def NotifyDueOrder (p q : PostedTask) : Prop :=
  p.task.isNotify = true → q.task.isNotify = true → p.due ≤ q.due

/-- The queued listener notifications are all due by `clock` and stand in the
queue in the order in which they are due. -/
def NotifyOrdered (clock : Time) (m : WifiBootstrapManager) : Prop :=
  (∀ p ∈ m.posted, p.task.isNotify = true → p.due ≤ (clock : Int)) ∧
  m.posted.Pairwise NotifyDueOrder

/-- The queue of `m'` is `base` followed by tasks posted during an entry point
that ran at the time of `env`: the notifications among them are due at once. -/
def Grows (env : Env) (base : List PostedTask) (m' : WifiBootstrapManager) : Prop :=
  ∃ extra, m'.posted = base ++ extra ∧
    ∀ p ∈ extra, p.task.isNotify = true → p.due = (env.now : Int)

/-- The state with which an event runs the listeners, if it is the run of a
live notification task. -/
def notifiedBy (m : WifiBootstrapManager) : Event → List State
  | Event.RunTask i =>
      match m.posted[i]? with
      | some p => if p.token.live m then p.task.notifiedState.toList else []
      | none => []
  | _ => []

/-- The states with which notification tasks ran along a run, in order. -/
def notificationsRun : List (Env × Event) → WifiBootstrapManager → List State
  | [], _ => []
  | (env, ev) :: rest, m =>
      match step env ev m with
      | none => []
      | some m' => notifiedBy m ev ++ notificationsRun rest m'

/-- The time of the last event of a sequence that starts at `clock`. -/
def clockAfter : Time → List (Env × Event) → Time
  | clock, [] => clock
  | _, (env, _) :: rest => clockAfter env.now rest

instance (p q : PostedTask) : Decidable (NotifyDueOrder p q) := by
  unfold NotifyDueOrder; infer_instance

instance (clock : Time) (m : WifiBootstrapManager) : Decidable (NotifyOrdered clock m) := by
  unfold NotifyOrdered; infer_instance

/-- A fresh device without a configured network, two listeners registered after
Init(): ConfigureCredentials, the notification of Bootstrapping, the delayed
StartConnecting, the success callback of the provider, which arrives before
the notification of Connecting has run, and then that notification. -/
def orderEvents : List (Env × Event) :=
  [ (envAt NetworkState.kOffline 0, Event.RegisterStateListener 7),
    (envAt NetworkState.kOffline 0, Event.RegisterStateListener 8),
    (envAt NetworkState.kOffline 0, Event.ConfigureCredentials "net" "pw"),
    (envAt NetworkState.kOffline 0, Event.RunTask 0),
    (envAt NetworkState.kOffline 1, Event.RunTask 0),
    (envAt NetworkState.kConnected 2, Event.ConnectSuccess 3),
    (envAt NetworkState.kConnected 2, Event.RunTask 0) ]

/-- The device of `setupStart` after `orderEvents`. -/
def orderDeviceAfter : WifiBootstrapManager :=
  (run orderEvents setupStart).getD setupStart

/-! ## SetupState between requests -/

/-- Unless a request is in progress, nothing that could complete or start a
connect attempt is live.  Holds after Init() and is kept by every event. -/
def Settled (m : WifiBootstrapManager) : Prop :=
  m.setup_state_ ≠ SetupState.kInProgress → NoLiveAttempt m

/-- The device of `setupSucceeded` after a connectivity loss at second 200, the
monitor timeout at second 320 and the bootstrap timeout at second 920. -/
def setupSucceededLater : WifiBootstrapManager :=
  (run [(envAt NetworkState.kOffline 200, Event.OnConnectivityChange false),
        (envAt NetworkState.kOffline 320, Event.RunTask 4),
        (envAt NetworkState.kOffline 920, Event.RunTask 5)] setupSucceeded).getD setupSucceeded

/-- The device of `offlineWithPrevSsid` at minute 2, its monitor timeout taken
off the queue: what OnMonitorTimeout starts from. -/
def bootstrapEntryBase : WifiBootstrapManager :=
  { offlineWithPrevSsid.manager with
    posted := offlineWithPrevSsid.manager.posted.eraseIdx 1 }

/-- The same device after StartBootstrapping at minute 2, the provider still
offline. -/
def bootstrapEntered : WifiBootstrapManager :=
  (StartBootstrapping (envAt NetworkState.kOffline 120) bootstrapEntryBase).getD
    bootstrapEntryBase

/-- The same device after the two queued notifications have run. -/
def bootstrapWaiting : WifiBootstrapManager :=
  (run [(envAt NetworkState.kOffline 120, Event.RunTask 0),
        (envAt NetworkState.kOffline 120, Event.RunTask 0)] bootstrapEntered).getD
    bootstrapEntered

/-! ## Settings migration (src/config.cc) -/

/-- Modelled from the spec: base::DictionaryValue is declared outside the
sources at hand.  It maps string keys to values, each key at most once; here it
is the list of its entries.  The keys used below hold no dot, so the paths the
member functions take are plain keys.  The type of the values is left open:
MigrateFromV1 moves values and never looks into one. -/
abbrev DictionaryValue (V : Type) := List (String × V)

/-- Modelled from the spec: the value stored under a key, if any. -/
def DictionaryValue.Get {V : Type} (dict : DictionaryValue V) (key : String) : Option V :=
  dict.lookup key

/-- Modelled from the spec: `Remove(key, &out)`: takes the entry of the key out
of the dictionary.  The first component is the value handed back through
`out`, `none` when the member function returns false. -/
def DictionaryValue.Remove {V : Type} (dict : DictionaryValue V) (key : String) :
    Option V × DictionaryValue V :=
  (dict.lookup key, dict.filter (fun e => e.1 != key))

/-- Modelled from the spec: `Set(key, value)`: stores the value under the key,
replacing the entry of the key if there is one. -/
def DictionaryValue.Set {V : Type} (dict : DictionaryValue V) (key : String) (value : V) :
    DictionaryValue V :=
  (key, value) :: dict.filter (fun e => e.1 != key)

namespace config_keys
def kLocalAccessEnabled : String := "local_access_enabled"
end config_keys

def MigrateFromV1 {V : Type} (dict : DictionaryValue V) : DictionaryValue V :=
  -- Use the value of "local_discovery_enabled" for "local_access_enabled" and
  -- remove "local_pairing_enabled".
  let dict1 := match dict.Remove "local_discovery_enabled" with
    | (some bool_val, d) => d.Set config_keys.kLocalAccessEnabled bool_val
    | (none, d) => d
  (dict1.Remove "local_pairing_enabled").2

/-! ## The access-point calls in the log of provider calls -/

/-- The access-point calls of a log, in order: `true` for EnableAccessPoint,
`false` for DisableAccessPoint. -/
def accessPointCalls (calls : List NetworkCall) : List Bool :=
  calls.filterMap (fun c => match c with
    | NetworkCall.EnableAccessPoint _ => some true
    | NetworkCall.DisableAccessPoint => some false
    | _ => none)

/-- The list alternates strictly, beginning with `expected`. -/
def alternatesFrom : Bool → List Bool → Bool
  | _, [] => true
  | expected, b :: rest => (b == expected) && alternatesFrom (!expected) rest

/-- The last element of the list, `d` for the empty list. -/
def lastOr (d : Bool) : List Bool → Bool
  | [] => d
  | b :: rest => lastOr b rest

/-- The access point is requested on: the last access-point call of the log is
EnableAccessPoint (and there is one). -/
def accessPointOn (calls : List NetworkCall) : Bool :=
  lastOr false (accessPointCalls calls)

/-- The access-point calls made so far alternate strictly, beginning with
EnableAccessPoint, and the access point is requested on exactly when the state
is Bootstrapping. -/
def ApTracksState (m : WifiBootstrapManager) : Prop :=
  alternatesFrom true (accessPointCalls m.network_calls) = true ∧
  accessPointOn m.network_calls = decide (m.state_ = State.kBootstrapping)

instance (m : WifiBootstrapManager) : Decidable (ApTracksState m) := by
  unfold ApTracksState; infer_instance

/-- A device with the configured network "TEST_ssid" after Init() while the
provider is connected: it is Monitoring. -/
def onlineWithPrevSsid : WifiBootstrapManager :=
  (Init (envAt NetworkState.kConnected 0) (WifiBootstrapManager.create "TEST_ssid" "" false)).getD
    (WifiBootstrapManager.create "TEST_ssid" "" false)

/-- The provider goes offline at time 0 and stays so: the monitor timeout at
minute 2, the bootstrap timeout at minute 12, and the monitor timeout that the
Monitoring entry of minute 12 posts. -/
def accessPointCycleEvents : List (Env × Event) :=
  [ (envAt NetworkState.kOffline 0, Event.OnConnectivityChange false),
    (envAt NetworkState.kOffline 120, Event.RunTask 1),
    (envAt NetworkState.kOffline 720, Event.RunTask 2),
    (envAt NetworkState.kOffline 720, Event.RunTask 3) ]

/-- The device of `onlineWithPrevSsid` after `accessPointCycleEvents`. -/
def accessPointCycleDevice : WifiBootstrapManager :=
  (run accessPointCycleEvents onlineWithPrevSsid).getD onlineWithPrevSsid

/-! ## Live timeouts and the state that armed them -/

/-- The three timeout handlers. -/
def Task.isTimeout : Task → Bool
  | Task.OnBootstrapTimeout => true
  | Task.OnConnectTimeout => true
  | Task.OnMonitorTimeout => true
  | _ => false

/-- A queued timeout bound to the per-state weak pointer of generation `gen`:
at that generation it is live. -/
def PostedTask.liveTimeoutAt (gen : Nat) (p : PostedTask) : Bool :=
  p.task.isTimeout && decide (p.token = WeakToken.tasks gen)

/-- The object is in the state whose entry arms this timeout: Bootstrapping
with a configured network for the bootstrap timeout, Connecting for the connect
timeout, Monitoring with an offline deadline for the monitor timeout. -/
def Task.armedIn (m : WifiBootstrapManager) : Task → Bool
  | Task.OnBootstrapTimeout =>
      decide (m.state_ = State.kBootstrapping ∧ m.last_configured_ssid_ ≠ "")
  | Task.OnConnectTimeout => decide (m.state_ = State.kConnecting)
  | Task.OnMonitorTimeout => decide (m.state_ = State.kMonitoring ∧ m.monitor_until_ ≠ 0)
  | _ => true

/-- Every live timeout was armed by the current state, at most one timeout is
live, and a success callback is live only while the state is Connecting. -/
def TimersMatchState (m : WifiBootstrapManager) : Prop :=
  (∀ p ∈ m.posted, p.liveTimeoutAt m.tasks_gen = true → p.task.armedIn m = true) ∧
  (m.posted.filter (fun p => p.liveTimeoutAt m.tasks_gen)).length ≤ 1 ∧
  (∀ c ∈ m.network_calls, c.isCallbackAt m.tasks_gen = true → m.state_ = State.kConnecting)

/-! ## Bootstrapping without a configured network -/

def Task.isStartConnecting : Task → Bool
  | Task.StartConnecting _ _ => true
  | _ => false

/-- The event is the task runner running a delayed StartConnecting whose weak
pointer is valid, so that StartConnecting executes. -/
def Event.startsConnecting (m : WifiBootstrapManager) : Event → Bool
  | Event.RunTask i =>
      match m.posted[i]? with
      | some p => p.task.isStartConnecting && p.token.live m
      | none => false
  | _ => false

/-- No event of the sequence executes StartConnecting. -/
def noStartConnecting : List (Env × Event) → WifiBootstrapManager → Bool
  | [], _ => true
  | (env, ev) :: rest, m =>
      !ev.startsConnecting m &&
        match step env ev m with
        | none => true
        | some m' => noStartConnecting rest m'

/-- On the Bootstrapping device of `setupStart`: the provider reports
connected, the notification of Bootstrapping runs, ConfigureCredentials is
called, and the provider reports offline again an hour later. -/
def unconfiguredEvents : List (Env × Event) :=
  [ (envAt NetworkState.kConnected 5, Event.OnConnectivityChange true),
    (envAt NetworkState.kConnected 5, Event.RunTask 0),
    (envAt NetworkState.kConnected 6, Event.ConfigureCredentials "net" "pw"),
    (envAt NetworkState.kOffline 3600, Event.OnConnectivityChange false) ]

/-- The device of `setupStart` after `unconfiguredEvents`. -/
def unconfiguredDevice : WifiBootstrapManager :=
  (run unconfiguredEvents setupStart).getD setupStart

/-! ## Connect requests and the credentials submitted -/

/-- The credentials of the ConnectToService calls in a log of provider calls,
in order. -/
def connectRequests (calls : List NetworkCall) : List (String × String) :=
  calls.filterMap (fun c => match c with
    | NetworkCall.ConnectToService ssid passphrase _ => some (ssid, passphrase)
    | _ => none)

/-- The credentials a task carries if it is a delayed StartConnecting. -/
def Task.credentials : Task → Option (String × String)
  | Task.StartConnecting ssid passphrase => some (ssid, passphrase)
  | _ => none

/-- The credentials of the delayed StartConnecting tasks in a queue. -/
def queuedStarts (posted : List PostedTask) : List (String × String) :=
  posted.filterMap (fun p => p.task.credentials)

/-- The credentials an event submits, if it is a ConfigureCredentials call. -/
def Event.credentials : Event → List (String × String)
  | Event.ConfigureCredentials ssid passphrase => [(ssid, passphrase)]
  | _ => []

/-- The credentials of the ConfigureCredentials calls of a sequence of events,
in order. -/
def credentialCalls : List (Env × Event) → List (String × String)
  | [] => []
  | e :: rest => e.2.credentials ++ credentialCalls rest

/-- The credentials with which an event executes StartConnecting, if it is the
run of a delayed StartConnecting whose weak pointer is valid. -/
def startedBy (m : WifiBootstrapManager) : Event → List (String × String)
  | Event.RunTask i =>
      match m.posted[i]? with
      | some p => if p.token.live m then p.task.credentials.toList else []
      | none => []
  | _ => []

/-- The credentials of the StartConnecting executions along a run, in order. -/
def startConnectingRuns : List (Env × Event) → WifiBootstrapManager → List (String × String)
  | [], _ => []
  | (env, ev) :: rest, m =>
      match step env ev m with
      | none => []
      | some m' => startedBy m ev ++ startConnectingRuns rest m'

/-- On the Connecting device of `setupConnecting`: a second and a third
ConfigureCredentials call at second 2, the delayed StartConnecting of the
second at second 3, and the run of the third, which that invalidated. -/
def resubmitEvents : List (Env × Event) :=
  [ (envAt NetworkState.kOffline 0, Event.ConfigureCredentials "net" "pw"),
    (envAt NetworkState.kOffline 1, Event.RunTask 1),
    (envAt NetworkState.kOffline 2, Event.ConfigureCredentials "other" "pw2"),
    (envAt NetworkState.kOffline 2, Event.ConfigureCredentials "third" "pw3"),
    (envAt NetworkState.kOffline 3, Event.RunTask 3),
    (envAt NetworkState.kOffline 3, Event.RunTask 3) ]

/-- The device of `setupStart` after `resubmitEvents`. -/
def resubmitDevice : WifiBootstrapManager :=
  (run resubmitEvents setupStart).getD setupStart

/-! ## The last-configured SSID -/

def Event.isConnectSuccess : Event → Bool
  | Event.ConnectSuccess _ => true
  | _ => false

/-- A sequence of events in which the provider runs no success callback. -/
def NoConnectSuccess (evs : List (Env × Event)) : Prop :=
  ∀ e ∈ evs, e.2.isConnectSuccess = false

instance (evs : List (Env × Event)) : Decidable (NoConnectSuccess evs) := by
  unfold NoConnectSuccess; infer_instance

/-- On the device of `onlineWithPrevSsid`, whose configured network is
"TEST_ssid": ConfigureCredentials("bad", "pw"), the delayed StartConnecting, a
connectivity notification, and the connect timeout 3 minutes later. -/
def failedSetupEvents : List (Env × Event) :=
  [ (envAt NetworkState.kConnected 10, Event.ConfigureCredentials "bad" "pw"),
    (envAt NetworkState.kOffline 11, Event.RunTask 1),
    (envAt NetworkState.kOffline 12, Event.OnConnectivityChange false),
    (envAt NetworkState.kOffline 191, Event.RunTask 2) ]

/-- The device of `onlineWithPrevSsid` after `failedSetupEvents`. -/
def failedSetupDevice : WifiBootstrapManager :=
  (run failedSetupEvents onlineWithPrevSsid).getD onlineWithPrevSsid

/-! ## Macaroon context (third_party/libuweave/src/macaroon_context.c) -/

/-- Modelled from the spec: `UwMacaroonContext` is declared in
macaroon_context.h, outside the sources at hand; its members here are the ones
the function assigns.  A pointer is `none` for NULL and the address it holds
otherwise; `uint32_t` and `size_t` values are natural numbers in their range
(the function does no arithmetic on them). -/
structure UwMacaroonContext where
  current_time : Nat
  ble_session_id : Option Nat
  ble_session_id_len : Nat
  auth_challenge_str : Option Nat
  auth_challenge_str_len : Nat
  deriving DecidableEq, Repr

/-- The value of the compound literal `(UwMacaroonContext){}`: every member is
zero, every pointer NULL. -/
def UwMacaroonContext.zero : UwMacaroonContext :=
  { current_time := 0, ble_session_id := none, ble_session_id_len := 0,
    auth_challenge_str := none, auth_challenge_str_len := 0 }

/-- The argument `new_context` is `none` for a NULL pointer and otherwise the
contents of the object it points to.  The result is the return value and the
contents of that object afterwards (`none` when there is no object). -/
def uw_macaroon_context_create_ (current_time : Nat) (ble_session_id : Option Nat)
    (ble_session_id_len : Nat) (auth_challenge_str : Option Nat)
    (auth_challenge_str_len : Nat) (new_context : Option UwMacaroonContext) :
    Bool × Option UwMacaroonContext :=
  if (ble_session_id = none ∧ ble_session_id_len ≠ 0) ∨
      (auth_challenge_str = none ∧ auth_challenge_str_len ≠ 0) then
    (false, new_context)
  else
    match new_context with
    | none => (false, none)
    | some _ =>
        let c0 := UwMacaroonContext.zero
        let c1 := { c0 with current_time := current_time }
        let c2 := { c1 with ble_session_id := ble_session_id }
        let c3 := { c2 with ble_session_id_len := ble_session_id_len }
        let c4 := { c3 with auth_challenge_str := auth_challenge_str }
        let c5 := { c4 with auth_challenge_str_len := auth_challenge_str_len }
        (true, some c5)

/-! ## Typed values in the settings dictionary -/

/-- Modelled from the spec: base::Value is declared outside the sources at
hand.  A value has a type; the three types the settings code reads and writes
are spelled out, `other` stands for a value of any further type (double,
binary, list, dictionary), which no function here looks into. -/
inductive Value where
  | null
  | boolean (b : Bool)
  | integer (i : Int)
  | string (s : String)
  | other (kind : Nat)
  deriving DecidableEq, Repr

/-- Modelled from the spec: `GetString(key, &out)`: the string stored under the
key; `none` (the member function returns false and leaves `out` alone) when
the key is absent or its value is not a string. -/
def DictionaryValue.GetString (dict : DictionaryValue Value) (key : String) : Option String :=
  match dict.Get key with
  | some (Value.string s) => some s
  | _ => none

/-- Modelled from the spec: `GetBoolean(key, &out)`, as GetString. -/
def DictionaryValue.GetBoolean (dict : DictionaryValue Value) (key : String) : Option Bool :=
  match dict.Get key with
  | some (Value.boolean b) => some b
  | _ => none

/-- Modelled from the spec: `GetInteger(key, &out)`, as GetString. -/
def DictionaryValue.GetInteger (dict : DictionaryValue Value) (key : String) : Option Int :=
  match dict.Get key with
  | some (Value.integer i) => some i
  | _ => none

/-- Modelled from the spec: `SetString(key, value)`. -/
def DictionaryValue.SetString (dict : DictionaryValue Value) (key value : String) :
    DictionaryValue Value :=
  dict.Set key (Value.string value)

/-- Modelled from the spec: `SetBoolean(key, value)`. -/
def DictionaryValue.SetBoolean (dict : DictionaryValue Value) (key : String) (value : Bool) :
    DictionaryValue Value :=
  dict.Set key (Value.boolean value)

/-- Modelled from the spec: `SetInteger(key, value)`. -/
def DictionaryValue.SetInteger (dict : DictionaryValue Value) (key : String) (value : Int) :
    DictionaryValue Value :=
  dict.Set key (Value.integer value)

def kConfigName : String := "config"

namespace config_keys

def kVersion : String := "version"

def kClientId : String := "client_id"
def kClientSecret : String := "client_secret"
def kApiKey : String := "api_key"
def kOAuthUrl : String := "oauth_url"
def kServiceUrl : String := "service_url"
def kXmppEndpoint : String := "xmpp_endpoint"
def kName : String := "name"
def kDescription : String := "description"
def kLocation : String := "location"
def kLocalAnonymousAccessRole : String := "local_anonymous_access_role"
def kRefreshToken : String := "refresh_token"
def kCloudId : String := "cloud_id"
def kDeviceId : String := "device_id"
def kRobotAccount : String := "robot_account"
def kLastConfiguredSsid : String := "last_configured_ssid"
def kSecret : String := "secret"
def kRootClientTokenOwner : String := "root_client_token_owner"

end config_keys

def kWeaveUrl : String := "https://www.googleapis.com/weave/v1/"
def kDeprecatedUrl : String := "https://www.googleapis.com/clouddevices/v1/"
def kXmppEndpoint : String := "talk.google.com:5223"

def kCurrentConfigVersion : Int := 2

def MigrateFromV0 (dict : DictionaryValue Value) : DictionaryValue Value :=
  let has_cloud_id := match dict.GetString config_keys.kCloudId with
    | some cloud_id => decide (cloud_id ≠ "")
    | none => false
  if has_cloud_id then dict
  else
    match dict.Remove config_keys.kDeviceId with
    | (some tmp, d) => d.Set config_keys.kCloudId tmp
    | (none, d) => d

/-! ## Config: settings, Save, LoadState and Commit (src/config.cc) -/

/-- Modelled from the spec: `AuthScope` is declared in privet_types.h, outside
the sources at hand. -/
inductive AuthScope where
  | kNone
  | kViewer
  | kUser
  | kManager
  | kOwner
  deriving DecidableEq, Repr

/-- The values the name table `kRootClientTokenOwnerMap` lists. -/
inductive RootClientTokenOwner where
  | kNone
  | kClient
  | kCloud
  deriving DecidableEq, Repr

/-- The two values of `PairingType` that config.cc names. -/
inductive PairingType where
  | kPinCode
  | kEmbeddedCode
  deriving DecidableEq, Repr

def kRootClientTokenOwnerMap : List (RootClientTokenOwner × String) :=
  [ (RootClientTokenOwner.kNone, "none"),
    (RootClientTokenOwner.kClient, "client"),
    (RootClientTokenOwner.kCloud, "cloud") ]

/-- Modelled from the spec: `EnumToString` of weave/enum_to_string.h, a header
outside the sources at hand: the name the table gives for the value. -/
def EnumToStringMap {T : Type} [DecidableEq T] (map : List (T × String)) (id : T) : String :=
  match map.find? (fun e => decide (e.1 = id)) with
  | some e => e.2
  | none => ""

/-- Modelled from the spec: `StringToEnum` of weave/enum_to_string.h: the value
the table gives for the name; `none` when the function returns false. -/
def StringToEnum {T : Type} (map : List (T × String)) (name : String) : Option T :=
  match map.find? (fun e => decide (e.2 = name)) with
  | some e => some e.1
  | none => none

/-- Modelled from the spec: `Config::Settings` is declared in a header outside
the sources at hand; its members here are the ones config.cc names.  The
secret is a vector of bytes. -/
structure Settings where
  client_id : String
  client_secret : String
  api_key : String
  oauth_url : String
  service_url : String
  xmpp_endpoint : String
  oem_name : String
  model_name : String
  model_id : String
  name : String
  description : String
  location : String
  local_anonymous_access_role : AuthScope
  local_access_enabled : Bool
  embedded_code : String
  pairing_modes : List PairingType
  cloud_id : String
  device_id : String
  refresh_token : String
  robot_account : String
  last_configured_ssid : String
  secret : List Nat
  root_client_token_owner : RootClientTokenOwner
  deriving DecidableEq, Repr

/-- Functions config.cc calls that are defined outside the sources at hand:
Base64Encode and Base64Decode (`none` when it returns false), the name table
of AuthScope, and the JSON writer and reader (the reader followed by
GetAsDictionary; `none` when either fails). -/
structure External where
  Base64Encode : List Nat → String
  Base64Decode : String → Option (List Nat)
  kAuthScopeMap : List (AuthScope × String)
  WriteJson : DictionaryValue Value → String
  ReadJson : String → Option (DictionaryValue Value)

/-- What the settings store answers: `LoadSettings(name)` and the older
`LoadSettings()`. -/
structure ConfigStore where
  LoadSettings : String → String
  LoadSettingsLegacy : String

/-- The members of `Config`, followed by the logs of the calls it made:
`SaveSettings(name, json, ...)` on the store, and the runs of the on-changed
callbacks, each with the settings it was given.  Callbacks are named by
numbers. -/
structure Config where
  defaults_ : Settings
  settings_ : Settings
  config_store_ : Option ConfigStore
  on_changed_ : List Nat
  save_settings_calls : List (String × String)
  callback_runs : List (Nat × Settings)

/-- The members of `Config::Transaction`.  The pointer `config_` is modelled by
whether it is non-null; `settings_` points to the settings of the Config, so
the functions below take and return the Config together with the
transaction. -/
structure Transaction where
  config_ : Bool
  save_ : Bool
  deriving DecidableEq, Repr

/-- The dictionary that Config::Save builds from the settings. -/
def SaveDictionary (ext : External) (settings_ : Settings) : DictionaryValue Value :=
  let dict : DictionaryValue Value := []
  let dict := dict.SetInteger config_keys.kVersion kCurrentConfigVersion
  let dict := dict.SetString config_keys.kClientId settings_.client_id
  let dict := dict.SetString config_keys.kClientSecret settings_.client_secret
  let dict := dict.SetString config_keys.kApiKey settings_.api_key
  let dict := dict.SetString config_keys.kOAuthUrl settings_.oauth_url
  let dict := dict.SetString config_keys.kServiceUrl settings_.service_url
  let dict := dict.SetString config_keys.kXmppEndpoint settings_.xmpp_endpoint
  let dict := dict.SetString config_keys.kRefreshToken settings_.refresh_token
  let dict := dict.SetString config_keys.kCloudId settings_.cloud_id
  let dict := dict.SetString config_keys.kDeviceId settings_.device_id
  let dict := dict.SetString config_keys.kRobotAccount settings_.robot_account
  let dict := dict.SetString config_keys.kLastConfiguredSsid settings_.last_configured_ssid
  let dict := dict.SetString config_keys.kSecret (ext.Base64Encode settings_.secret)
  let dict := dict.SetString config_keys.kRootClientTokenOwner
    (EnumToStringMap kRootClientTokenOwnerMap settings_.root_client_token_owner)
  let dict := dict.SetString config_keys.kName settings_.name
  let dict := dict.SetString config_keys.kDescription settings_.description
  let dict := dict.SetString config_keys.kLocation settings_.location
  let dict := dict.SetString config_keys.kLocalAnonymousAccessRole
    (EnumToStringMap ext.kAuthScopeMap settings_.local_anonymous_access_role)
  let dict := dict.SetBoolean config_keys.kLocalAccessEnabled settings_.local_access_enabled
  dict

/-- The function `Config::Save`.  The completion callback it hands to the store
is not modelled. -/
def Config.Save (ext : External) (c : Config) : Config :=
  match c.config_store_ with
  | none => c
  | some _ =>
      let dict := SaveDictionary ext c.settings_
      let json_string := ext.WriteJson dict
      { c with save_settings_calls := c.save_settings_calls ++ [(kConfigName, json_string)] }

/-! The setters of `Config::Transaction` are declared in config.h, outside the
sources at hand.  Each stores its argument in the member of the settings it is
named after; here they act on the settings the transaction points to. -/

/-- Modelled from the spec: the setter `set_client_id` of config.h. -/
def Settings.set_client_id (value : String) (s : Settings) : Settings :=
  { s with client_id := value }

/-- Modelled from the spec: the setter `set_client_secret` of config.h. -/
def Settings.set_client_secret (value : String) (s : Settings) : Settings :=
  { s with client_secret := value }

/-- Modelled from the spec: the setter `set_api_key` of config.h. -/
def Settings.set_api_key (value : String) (s : Settings) : Settings :=
  { s with api_key := value }

/-- Modelled from the spec: the setter `set_oauth_url` of config.h. -/
def Settings.set_oauth_url (value : String) (s : Settings) : Settings :=
  { s with oauth_url := value }

/-- Modelled from the spec: the setter `set_service_url` of config.h. -/
def Settings.set_service_url (value : String) (s : Settings) : Settings :=
  { s with service_url := value }

/-- Modelled from the spec: the setter `set_xmpp_endpoint` of config.h. -/
def Settings.set_xmpp_endpoint (value : String) (s : Settings) : Settings :=
  { s with xmpp_endpoint := value }

/-- Modelled from the spec: the setter `set_name` of config.h. -/
def Settings.set_name (value : String) (s : Settings) : Settings :=
  { s with name := value }

/-- Modelled from the spec: the setter `set_description` of config.h. -/
def Settings.set_description (value : String) (s : Settings) : Settings :=
  { s with description := value }

/-- Modelled from the spec: the setter `set_location` of config.h. -/
def Settings.set_location (value : String) (s : Settings) : Settings :=
  { s with location := value }

/-- Modelled from the spec: the setter `set_local_anonymous_access_role` of config.h. -/
def Settings.set_local_anonymous_access_role (value : AuthScope) (s : Settings) : Settings :=
  { s with local_anonymous_access_role := value }

/-- Modelled from the spec: the setter `set_local_access_enabled` of config.h. -/
def Settings.set_local_access_enabled (value : Bool) (s : Settings) : Settings :=
  { s with local_access_enabled := value }

/-- Modelled from the spec: the setter `set_cloud_id` of config.h. -/
def Settings.set_cloud_id (value : String) (s : Settings) : Settings :=
  { s with cloud_id := value }

/-- Modelled from the spec: the setter `set_device_id` of config.h. -/
def Settings.set_device_id (value : String) (s : Settings) : Settings :=
  { s with device_id := value }

/-- Modelled from the spec: the setter `set_refresh_token` of config.h. -/
def Settings.set_refresh_token (value : String) (s : Settings) : Settings :=
  { s with refresh_token := value }

/-- Modelled from the spec: the setter `set_robot_account` of config.h. -/
def Settings.set_robot_account (value : String) (s : Settings) : Settings :=
  { s with robot_account := value }

/-- Modelled from the spec: the setter `set_last_configured_ssid` of config.h. -/
def Settings.set_last_configured_ssid (value : String) (s : Settings) : Settings :=
  { s with last_configured_ssid := value }

/-- Modelled from the spec: the setter `set_secret` of config.h. -/
def Settings.set_secret (value : List Nat) (s : Settings) : Settings :=
  { s with secret := value }

/-- Modelled from the spec: the setter `set_root_client_token_owner` of config.h. -/
def Settings.set_root_client_token_owner (value : RootClientTokenOwner) (s : Settings) : Settings :=
  { s with root_client_token_owner := value }

/-- The second half of `Config::Transaction::LoadState`: every setting that the
dictionary holds with the right type is stored through its setter. -/
def Transaction.LoadStateFields (ext : External) (dict : DictionaryValue Value)
    (s : Settings) : Settings :=
  let s := match dict.GetString config_keys.kClientId with
    | some tmp => s.set_client_id tmp
    | none => s
  let s := match dict.GetString config_keys.kClientSecret with
    | some tmp => s.set_client_secret tmp
    | none => s
  let s := match dict.GetString config_keys.kApiKey with
    | some tmp => s.set_api_key tmp
    | none => s
  let s := match dict.GetString config_keys.kOAuthUrl with
    | some tmp => s.set_oauth_url tmp
    | none => s
  let s := match dict.GetString config_keys.kServiceUrl with
    | some tmp => s.set_service_url (if tmp = kDeprecatedUrl then kWeaveUrl else tmp)
    | none => s
  let s := match dict.GetString config_keys.kXmppEndpoint with
    | some tmp => s.set_xmpp_endpoint tmp
    | none => s
  let s := match dict.GetString config_keys.kName with
    | some tmp => s.set_name tmp
    | none => s
  let s := match dict.GetString config_keys.kDescription with
    | some tmp => s.set_description tmp
    | none => s
  let s := match dict.GetString config_keys.kLocation with
    | some tmp => s.set_location tmp
    | none => s
  let s := match dict.GetString config_keys.kLocalAnonymousAccessRole with
    | some tmp =>
        match StringToEnum ext.kAuthScopeMap tmp with
        | some scope => s.set_local_anonymous_access_role scope
        | none => s
    | none => s
  let s := match dict.GetBoolean config_keys.kLocalAccessEnabled with
    | some tmp_bool => s.set_local_access_enabled tmp_bool
    | none => s
  let s := match dict.GetString config_keys.kCloudId with
    | some tmp => s.set_cloud_id tmp
    | none => s
  let s := match dict.GetString config_keys.kDeviceId with
    | some tmp => s.set_device_id tmp
    | none => s
  let s := match dict.GetString config_keys.kRefreshToken with
    | some tmp => s.set_refresh_token tmp
    | none => s
  let s := match dict.GetString config_keys.kRobotAccount with
    | some tmp => s.set_robot_account tmp
    | none => s
  let s := match dict.GetString config_keys.kLastConfiguredSsid with
    | some tmp => s.set_last_configured_ssid tmp
    | none => s
  let s := match dict.GetString config_keys.kSecret with
    | some tmp =>
        match ext.Base64Decode tmp with
        | some secret => s.set_secret secret
        | none => s
    | none => s
  let s := match dict.GetString config_keys.kRootClientTokenOwner with
    | some tmp =>
        match StringToEnum kRootClientTokenOwnerMap tmp with
        | some token_owner => s.set_root_client_token_owner token_owner
        | none => s
    | none => s
  s

/-- The function `Config::Transaction::LoadState`; its second half, the reading
of the settings, is `Transaction.LoadStateFields`. -/
def Transaction.LoadState (ext : External) (c : Config) (t : Transaction) :
    Config × Transaction :=
  match c.config_store_ with
  | none => (c, t)
  | some config_store =>
      let json_string0 := config_store.LoadSettings kConfigName
      let json_string :=
        if json_string0 = "" then config_store.LoadSettingsLegacy else json_string0
      if json_string = "" then (c, t)
      else
        match ext.ReadJson json_string with
        | none => (c, t)
        | some dict0 =>
            let loaded_version : Int := (dict0.GetInteger config_keys.kVersion).getD 0
            let t1 := if loaded_version ≠ kCurrentConfigVersion then
                { t with save_ := true } else t
            let dict :=
              if loaded_version = 0 then MigrateFromV0 dict0
              else if loaded_version = 1 then MigrateFromV1 dict0
              else dict0
            ({ c with settings_ := Transaction.LoadStateFields ext dict c.settings_ }, t1)

/-- The function `Config::Transaction::Commit`. -/
def Transaction.Commit (ext : External) (c : Config) (t : Transaction) :
    Config × Transaction :=
  if t.config_ = false then (c, t)
  else
    let c1 := if t.save_ = true then Config.Save ext c else c
    let c2 := { c1 with callback_runs :=
      c1.callback_runs ++ c1.on_changed_.map (fun cb => (cb, c1.settings_)) }
    (c2, { t with config_ := false })

/-- The destructor `Config::Transaction::~Transaction`. -/
def Transaction.destroy (ext : External) (c : Config) (t : Transaction) :
    Config × Transaction :=
  Transaction.Commit ext c t

/-- A stand-in for the functions defined outside the sources: a byte codec that
writes each byte as one letter, the names of the AuthScope values, a JSON
writer that returns the fixed text "settings" and a reader that reads
nothing. -/
def sampleCodec : External :=
  { Base64Encode := fun bytes => String.mk (bytes.map (fun b => Char.ofNat (b + 65)))
    Base64Decode := fun text => some (text.toList.map (fun ch => ch.toNat - 65))
    kAuthScopeMap :=
      [ (AuthScope.kNone, "none"), (AuthScope.kViewer, "viewer"), (AuthScope.kUser, "user"),
        (AuthScope.kManager, "manager"), (AuthScope.kOwner, "owner") ]
    WriteJson := fun _ => "settings"
    ReadJson := fun _ => none }

/-- Settings of a registered device whose service URL is still the deprecated
one. -/
def sampleSettings : Settings :=
  { client_id := "id", client_secret := "cs", api_key := "key",
    oauth_url := "https://accounts.google.com/o/oauth2/",
    service_url := "https://www.googleapis.com/clouddevices/v1/",
    xmpp_endpoint := "talk.google.com:5223",
    oem_name := "oem", model_name := "model", model_id := "ABCDE",
    name := "lamp", description := "a lamp", location := "hall",
    local_anonymous_access_role := AuthScope.kViewer, local_access_enabled := true,
    embedded_code := "", pairing_modes := [PairingType.kPinCode],
    cloud_id := "cloud", device_id := "device", refresh_token := "token",
    robot_account := "robot", last_configured_ssid := "TEST_ssid", secret := [1, 2, 3],
    root_client_token_owner := RootClientTokenOwner.kCloud }

/-- The settings a fresh Config starts from before it loads its state. -/
def sampleDefaults : Settings :=
  { client_id := "id0", client_secret := "cs0", api_key := "key0",
    oauth_url := "https://accounts.google.com/o/oauth2/",
    service_url := "https://www.googleapis.com/weave/v1/",
    xmpp_endpoint := "talk.google.com:5223",
    oem_name := "oem", model_name := "model", model_id := "ABCDE",
    name := "device", description := "", location := "",
    local_anonymous_access_role := AuthScope.kNone, local_access_enabled := false,
    embedded_code := "", pairing_modes := [PairingType.kPinCode],
    cloud_id := "", device_id := "guid", refresh_token := "",
    robot_account := "", last_configured_ssid := "", secret := [],
    root_client_token_owner := RootClientTokenOwner.kNone }

/-- The stand-in of `sampleCodec` with a JSON reader that reads the text
"settings" as the dictionary saved for `sampleSettings`. -/
def sampleExternal : External :=
  { sampleCodec with
    ReadJson := fun json =>
      if json = "settings" then some (SaveDictionary sampleCodec sampleSettings) else none }

/-- A store that holds the text "settings" under the name "config". -/
def sampleStore : ConfigStore :=
  { LoadSettings := fun name => if name = "config" then "settings" else ""
    LoadSettingsLegacy := "" }

/-- A Config with `sampleStore`, the default settings and two on-changed
callbacks. -/
def sampleConfig : Config :=
  { defaults_ := sampleDefaults, settings_ := sampleDefaults,
    config_store_ := some sampleStore, on_changed_ := [4, 9],
    save_settings_calls := [], callback_runs := [] }

/-! ## Theorems -/

/-! ## What each member function does to each field -/

section Frame

variable (env : Env) (m : WifiBootstrapManager)
theorem UpdateState_eq (s : State) :
    UpdateState env s m =
      { m with
        state_ := s
        tasks_gen := m.tasks_gen + 1
        privet_ssid_ := if m.state_ = State.kBootstrapping then "" else m.privet_ssid_
        network_calls := m.network_calls ++
          (if m.state_ = State.kBootstrapping then [NetworkCall.DisableAccessPoint] else [])
        posted := m.posted ++ (if s ≠ m.state_ then [notifyTask env s] else []) } := by
  unfold UpdateState
  cases h : m.state_ <;> cases s <;>
    simp [h, PostDelayedTask, EndBootstrapping, EndMonitoring, EndConnecting, callNetwork,
      notifyTask]

@[simp] theorem UpdateState_state (s : State) : (UpdateState env s m).state_ = s := by
  rw [UpdateState_eq]
@[simp] theorem UpdateState_setup_state (s : State) :
    (UpdateState env s m).setup_state_ = m.setup_state_ := by rw [UpdateState_eq]
@[simp] theorem UpdateState_connection_state (s : State) :
    (UpdateState env s m).connection_state_ = m.connection_state_ := by rw [UpdateState_eq]
@[simp] theorem UpdateState_last_configured_ssid (s : State) :
    (UpdateState env s m).last_configured_ssid_ = m.last_configured_ssid_ := by
  rw [UpdateState_eq]
@[simp] theorem UpdateState_test_privet_ssid (s : State) :
    (UpdateState env s m).test_privet_ssid_ = m.test_privet_ssid_ := by rw [UpdateState_eq]
@[simp] theorem UpdateState_monitor_until (s : State) :
    (UpdateState env s m).monitor_until_ = m.monitor_until_ := by rw [UpdateState_eq]
@[simp] theorem UpdateState_state_listeners (s : State) :
    (UpdateState env s m).state_listeners_ = m.state_listeners_ := by rw [UpdateState_eq]
@[simp] theorem UpdateState_listener_calls (s : State) :
    (UpdateState env s m).listener_calls = m.listener_calls := by rw [UpdateState_eq]
@[simp] theorem UpdateState_tasks_gen (s : State) :
    (UpdateState env s m).tasks_gen = m.tasks_gen + 1 := by rw [UpdateState_eq]
@[simp] theorem UpdateState_privet_ssid (s : State) :
    (UpdateState env s m).privet_ssid_ =
      if m.state_ = State.kBootstrapping then "" else m.privet_ssid_ := by
  rw [UpdateState_eq]
@[simp] theorem UpdateState_network_calls (s : State) :
    (UpdateState env s m).network_calls = m.network_calls ++
      (if m.state_ = State.kBootstrapping then [NetworkCall.DisableAccessPoint] else []) := by
  rw [UpdateState_eq]
@[simp] theorem UpdateState_posted (s : State) :
    (UpdateState env s m).posted =
      m.posted ++ (if s ≠ m.state_ then [notifyTask env s] else []) := by
  rw [UpdateState_eq]

theorem StartMonitoring_eq :
    StartMonitoring env m =
      { UpdateState env State.kMonitoring m with
        monitor_until_ := nextDeadline env m
        posted := (UpdateState env State.kMonitoring m).posted ++
          (if env.net = NetworkState.kConnected then [] else [monitorTask env m]) } := by
  unfold StartMonitoring nextDeadline monitorTask nextDeadline
  by_cases hc : env.net = NetworkState.kConnected
  · simp [hc]
  · by_cases hn : m.monitor_until_ = 0 <;>
      simp [hc, hn, PostDelayedTask, Time.is_null]

@[simp] theorem StartMonitoring_state : (StartMonitoring env m).state_ = State.kMonitoring := by
  rw [StartMonitoring_eq]; simp
@[simp] theorem StartMonitoring_setup_state :
    (StartMonitoring env m).setup_state_ = m.setup_state_ := by rw [StartMonitoring_eq]; simp
@[simp] theorem StartMonitoring_connection_state :
    (StartMonitoring env m).connection_state_ = m.connection_state_ := by
  rw [StartMonitoring_eq]; simp
@[simp] theorem StartMonitoring_last_configured_ssid :
    (StartMonitoring env m).last_configured_ssid_ = m.last_configured_ssid_ := by
  rw [StartMonitoring_eq]; simp
@[simp] theorem StartMonitoring_test_privet_ssid :
    (StartMonitoring env m).test_privet_ssid_ = m.test_privet_ssid_ := by
  rw [StartMonitoring_eq]; simp
@[simp] theorem StartMonitoring_monitor_until :
    (StartMonitoring env m).monitor_until_ = nextDeadline env m := by
  rw [StartMonitoring_eq]
@[simp] theorem StartMonitoring_state_listeners :
    (StartMonitoring env m).state_listeners_ = m.state_listeners_ := by
  rw [StartMonitoring_eq]; simp
@[simp] theorem StartMonitoring_listener_calls :
    (StartMonitoring env m).listener_calls = m.listener_calls := by
  rw [StartMonitoring_eq]; simp
@[simp] theorem StartMonitoring_tasks_gen :
    (StartMonitoring env m).tasks_gen = m.tasks_gen + 1 := by rw [StartMonitoring_eq]; simp
@[simp] theorem StartMonitoring_privet_ssid :
    (StartMonitoring env m).privet_ssid_ =
      if m.state_ = State.kBootstrapping then "" else m.privet_ssid_ := by
  rw [StartMonitoring_eq]; simp
@[simp] theorem StartMonitoring_network_calls :
    (StartMonitoring env m).network_calls = m.network_calls ++
      (if m.state_ = State.kBootstrapping then [NetworkCall.DisableAccessPoint] else []) := by
  rw [StartMonitoring_eq]; simp
@[simp] theorem StartMonitoring_posted :
    (StartMonitoring env m).posted =
      m.posted ++ (if State.kMonitoring ≠ m.state_ then [notifyTask env State.kMonitoring] else [])
        ++ (if env.net = NetworkState.kConnected then [] else [monitorTask env m]) := by
  rw [StartMonitoring_eq]; simp

theorem StartBootstrapping_connected (h : env.net = NetworkState.kConnected) :
    StartBootstrapping env m = some (StartMonitoring env m) := by
  simp [StartBootstrapping, h]

theorem StartBootstrapping_abort (h : env.net ≠ NetworkState.kConnected)
    (hg : GenerateSsid env m = "") : StartBootstrapping env m = none := by
  simp [StartBootstrapping, h, GenerateSsid, PostDelayedTask] at hg ⊢
  split <;> simp_all

theorem StartBootstrapping_eq (h : env.net ≠ NetworkState.kConnected)
    (hg : GenerateSsid env m ≠ "") :
    StartBootstrapping env m = some
      { UpdateState env State.kBootstrapping m with
        privet_ssid_ := GenerateSsid env m
        network_calls := (UpdateState env State.kBootstrapping m).network_calls ++
          [NetworkCall.EnableAccessPoint (GenerateSsid env m)]
        posted := (UpdateState env State.kBootstrapping m).posted ++
          (if m.last_configured_ssid_ = "" then [] else [bootstrapTask env m]) } := by
  unfold StartBootstrapping
  by_cases hs : m.last_configured_ssid_ = "" <;>
    simp_all [GenerateSsid, PostDelayedTask, callNetwork, bootstrapTask]


/-- The object a Bootstrapping entry leaves behind when it does start the
access point. -/
theorem StartBootstrapping_cases {env : Env} {m m' : WifiBootstrapManager}
    (h : StartBootstrapping env m = some m') :
    (env.net = NetworkState.kConnected ∧ m' = StartMonitoring env m) ∨
    (env.net ≠ NetworkState.kConnected ∧ GenerateSsid env m ≠ "" ∧
      m' = { UpdateState env State.kBootstrapping m with
        privet_ssid_ := GenerateSsid env m
        network_calls := (UpdateState env State.kBootstrapping m).network_calls ++
          [NetworkCall.EnableAccessPoint (GenerateSsid env m)]
        posted := (UpdateState env State.kBootstrapping m).posted ++
          (if m.last_configured_ssid_ = "" then [] else [bootstrapTask env m]) }) := by
  by_cases hc : env.net = NetworkState.kConnected
  · rw [StartBootstrapping_connected env m hc] at h
    exact Or.inl ⟨hc, (Option.some.inj h).symm⟩
  · by_cases hg : GenerateSsid env m = ""
    · rw [StartBootstrapping_abort env m hc hg] at h
      exact absurd h (by simp)
    · rw [StartBootstrapping_eq env m hc hg] at h
      exact Or.inr ⟨hc, hg, (Option.some.inj h).symm⟩

theorem StartBootstrapping_connection_state {env : Env} {m m' : WifiBootstrapManager}
    (h : StartBootstrapping env m = some m') : m'.connection_state_ = m.connection_state_ := by
  rcases StartBootstrapping_cases h with ⟨_, rfl⟩ | ⟨_, _, rfl⟩ <;> simp

theorem StartBootstrapping_last_configured_ssid {env : Env} {m m' : WifiBootstrapManager}
    (h : StartBootstrapping env m = some m') :
    m'.last_configured_ssid_ = m.last_configured_ssid_ := by
  rcases StartBootstrapping_cases h with ⟨_, rfl⟩ | ⟨_, _, rfl⟩ <;> simp

theorem StartBootstrapping_setup_state {env : Env} {m m' : WifiBootstrapManager}
    (h : StartBootstrapping env m = some m') : m'.setup_state_ = m.setup_state_ := by
  rcases StartBootstrapping_cases h with ⟨_, rfl⟩ | ⟨_, _, rfl⟩ <;> simp

theorem StartBootstrapping_tasks_gen {env : Env} {m m' : WifiBootstrapManager}
    (h : StartBootstrapping env m = some m') : m'.tasks_gen = m.tasks_gen + 1 := by
  rcases StartBootstrapping_cases h with ⟨_, rfl⟩ | ⟨_, _, rfl⟩ <;> simp

theorem StartConnecting_eq (ssid passphrase : String) :
    StartConnecting env ssid passphrase m =
      { UpdateState env State.kConnecting m with
        posted := (UpdateState env State.kConnecting m).posted ++
          [{ task := Task.OnConnectTimeout, token := WeakToken.tasks (m.tasks_gen + 1),
             delay := FromMinutes 3, posted_at := env.now }]
        network_calls := (UpdateState env State.kConnecting m).network_calls ++
          [NetworkCall.ConnectToService ssid passphrase (m.tasks_gen + 1)] } := by
  simp [StartConnecting, PostDelayedTask, callNetwork]

theorem UpdateConnectionState_eq :
    UpdateConnectionState env m = { m with connection_state_ :=
      (UpdateConnectionState env m).connection_state_ } := by
  unfold UpdateConnectionState
  by_cases hs : m.last_configured_ssid_ = ""
  · simp [hs]
  · cases hn : env.net <;> simp [hs]

end Frame

/-! ## C1: Unconfigured and the empty SSID -/

theorem UpdateConnectionState_unconfigured_iff (env : Env) (m : WifiBootstrapManager) :
    UnconfiguredIffNoSsid (UpdateConnectionState env m) := by
  unfold UnconfiguredIffNoSsid GetConnectionState GetCurrentlyConnectedSsid UpdateConnectionState
  by_cases hs : m.last_configured_ssid_ = ""
  · simp [hs]
  · cases hn : env.net <;> simp [hs]

theorem runBound_connection_state {env : Env} {t : Task} {m m' : WifiBootstrapManager}
    (h : runBound env t m = some m') : m'.connection_state_ = m.connection_state_ := by
  cases t <;> simp only [runBound, OnBootstrapTimeout, OnConnectTimeout, OnMonitorTimeout,
    Option.some.injEq] at h
  · subst h; simp
  · simpa using StartBootstrapping_connection_state h
  · exact StartBootstrapping_connection_state h
  · subst h; simp [StartConnecting_eq]
  · subst h; simp [NotifyStateListeners]

theorem runBound_last_configured_ssid {env : Env} {t : Task} {m m' : WifiBootstrapManager}
    (h : runBound env t m = some m') : m'.last_configured_ssid_ = m.last_configured_ssid_ := by
  cases t <;> simp only [runBound, OnBootstrapTimeout, OnConnectTimeout, OnMonitorTimeout,
    Option.some.injEq] at h
  · subst h; simp
  · simpa using StartBootstrapping_last_configured_ssid h
  · exact StartBootstrapping_last_configured_ssid h
  · subst h; simp [StartConnecting_eq]
  · subst h; simp [NotifyStateListeners]

theorem OnConnectivityChange_unconfigured_iff (env : Env) (b : Bool) (m : WifiBootstrapManager) :
    UnconfiguredIffNoSsid (OnConnectivityChange env b m) := by
  have h := UpdateConnectionState_unconfigured_iff env m
  unfold UnconfiguredIffNoSsid GetConnectionState GetCurrentlyConnectedSsid at h ⊢
  unfold OnConnectivityChange
  simp only []
  split
  · simpa using h
  · exact h

theorem step_unconfigured_iff {env : Env} {ev : Event} {m m' : WifiBootstrapManager} {b : Bool}
    (hm : b = true → UnconfiguredIffNoSsid m) (hstep : step env ev m = some m')
    (hb : recomputedAfter b ev = true) : UnconfiguredIffNoSsid m' := by
  cases ev with
  | OnConnectivityChange c =>
      simp only [step, Option.some.injEq] at hstep
      subst hstep
      exact OnConnectivityChange_unconfigured_iff env c m
  | ConfigureCredentials s p =>
      simp only [step, Option.some.injEq] at hstep
      subst hstep
      exact hm hb
  | RegisterStateListener l =>
      simp only [step, Option.some.injEq] at hstep
      subst hstep
      exact hm hb
  | RunTask i =>
      have h0 := hm hb
      unfold UnconfiguredIffNoSsid GetConnectionState GetCurrentlyConnectedSsid at h0 ⊢
      simp only [step] at hstep
      split at hstep
      · exact absurd hstep (by simp)
      · split at hstep
        · split at hstep
          · rw [runBound_connection_state hstep, runBound_last_configured_ssid hstep]
            exact h0
          · simp only [Option.some.injEq] at hstep
            subst hstep
            exact h0
        · exact absurd hstep (by simp)
  | ConnectSuccess i => simp [recomputedAfter] at hb

theorem run_unconfigured_iff (evs : List (Env × Event)) :
    ∀ (b : Bool) (m m' : WifiBootstrapManager), (b = true → UnconfiguredIffNoSsid m) →
      run evs m = some m' → recomputedSince b evs = true → UnconfiguredIffNoSsid m' := by
  induction evs with
  | nil =>
      intro b m m' hm hrun hb
      simp only [run, Option.some.injEq] at hrun
      subst hrun
      exact hm hb
  | cons e rest ih =>
      intro b m m' hm hrun hb
      obtain ⟨env, ev⟩ := e
      simp only [run] at hrun
      cases hs : step env ev m with
      | none => simp [hs] at hrun
      | some m1 =>
          rw [hs] at hrun
          exact ih (recomputedAfter b ev) m1 m'
            (fun hb1 => step_unconfigured_iff hm hs hb1) hrun hb

theorem Init_unconfigured_iff {env : Env} {m m' : WifiBootstrapManager}
    (h : Init env m = some m') : UnconfiguredIffNoSsid m' := by
  have h0 := UpdateConnectionState_unconfigured_iff env m
  unfold UnconfiguredIffNoSsid GetConnectionState GetCurrentlyConnectedSsid at h0 ⊢
  unfold Init at h
  simp only [callNetwork] at h
  split at h
  · rw [StartBootstrapping_connection_state h, StartBootstrapping_last_configured_ssid h]
    exact h0
  · simp only [Option.some.injEq] at h
    subst h
    simpa using h0

/-- C1 (as amended): after Init() and any sequence of events in which no
connect-success callback has run since the last connectivity notification,
GetConnectionState() is Unconfigured if and only if the last-configured SSID is
empty, whatever the lifecycle state is. -/
theorem C1_unconfigured_iff_empty_ssid_when_recomputed (env0 : Env)
    (m0 m1 m' : WifiBootstrapManager) (evs : List (Env × Event))
    (hinit : Init env0 m0 = some m1) (hrun : run evs m1 = some m')
    (hrec : recomputedSince true evs = true) :
    GetConnectionState m' = ConnectionState.kUnconfigured ↔ GetCurrentlyConnectedSsid m' = "" :=
  run_unconfigured_iff evs true m1 m' (fun _ => Init_unconfigured_iff hinit) hrun hrec

/-- C1, counterexample: on a fresh device without a configured network, after
Init(), ConfigureCredentials("net","pw"), the delayed StartConnecting and the
success callback, the last-configured SSID is "net" while GetConnectionState()
still says Unconfigured. -/
theorem C1_counterexample_stale_after_connect_success :
    ∃ m1 m', Init (envAt NetworkState.kOffline 0) (WifiBootstrapManager.create "" "" false)
        = some m1 ∧
      run firstSetupEvents m1 = some m' ∧
      GetCurrentlyConnectedSsid m' = "net" ∧
      ¬ (GetConnectionState m' = ConnectionState.kUnconfigured ↔
          GetCurrentlyConnectedSsid m' = "") := by
  refine ⟨_, _, rfl, rfl, ?_, ?_⟩ <;> decide

/-- Witness for C1: the first setup of a fresh device followed by a connectivity
notification; the cache then says Online and the SSID is "net". -/
theorem C1_unconfigured_iff_empty_ssid_when_recomputed_witness :
    ∃ m1 m', Init (envAt NetworkState.kOffline 0) (WifiBootstrapManager.create "" "" false)
        = some m1 ∧
      run (firstSetupEvents ++
        [(envAt NetworkState.kConnected 3, Event.OnConnectivityChange true)]) m1 = some m' ∧
      GetConnectionState m' = ConnectionState.kOnline ∧
      (GetConnectionState m' = ConnectionState.kUnconfigured ↔
          GetCurrentlyConnectedSsid m' = "") := by
  refine ⟨_, _, rfl, rfl, by decide, ?_⟩
  exact C1_unconfigured_iff_empty_ssid_when_recomputed (envAt NetworkState.kOffline 0)
    (WifiBootstrapManager.create "" "" false) _ _
    (firstSetupEvents ++ [(envAt NetworkState.kConnected 3, Event.OnConnectivityChange true)])
    rfl rfl (by decide)

/-! ## C2: terminal outcome of ConfigureCredentials -/

theorem staleAt_succ {gen : Nat} {t : WeakToken} (h : t.staleAt gen = true) :
    t.staleAt (gen + 1) = true := by
  cases t <;> simp_all [WeakToken.staleAt]
  omega

theorem callbackStaleAt_succ {gen : Nat} {c : NetworkCall}
    (h : c.callbackStaleAt gen = true) : c.callbackStaleAt (gen + 1) = true := by
  cases c <;> simp_all [NetworkCall.callbackStaleAt]
  omega

theorem staleAt_not_live {m : WifiBootstrapManager} {t : WeakToken}
    (h : t.staleAt m.tasks_gen = true) : t.live m = false := by
  cases t <;> simp_all [WeakToken.staleAt, WeakToken.live]
  omega

theorem StartMonitoring_noLiveAttempt {env : Env} {m : WifiBootstrapManager}
    (h : NoLiveAttempt m) : NoLiveAttempt (StartMonitoring env m) := by
  obtain ⟨hp, hc⟩ := h
  constructor
  · intro p hmem hatt
    simp only [StartMonitoring_posted, StartMonitoring_tasks_gen, List.mem_append] at hmem ⊢
    rcases hmem with (hmem | hmem) | hmem
    · exact staleAt_succ (hp p hmem hatt)
    · split at hmem
      · simp only [List.mem_singleton] at hmem
        subst hmem
        simp [notifyTask, Task.isAttempt] at hatt
      · simp at hmem
    · split at hmem
      · simp at hmem
      · simp only [List.mem_singleton] at hmem
        subst hmem
        simp [monitorTask, Task.isAttempt] at hatt
  · intro c hmem
    simp only [StartMonitoring_network_calls, StartMonitoring_tasks_gen, List.mem_append] at hmem ⊢
    rcases hmem with hmem | hmem
    · exact callbackStaleAt_succ (hc c hmem)
    · split at hmem
      · simp only [List.mem_singleton] at hmem
        subst hmem
        rfl
      · simp at hmem

theorem StartBootstrapping_noLiveAttempt {env : Env} {m m' : WifiBootstrapManager}
    (h : NoLiveAttempt m) (hs : StartBootstrapping env m = some m') : NoLiveAttempt m' := by
  rcases StartBootstrapping_cases hs with ⟨_, rfl⟩ | ⟨_, _, rfl⟩
  · exact StartMonitoring_noLiveAttempt h
  · obtain ⟨hp, hc⟩ := h
    constructor
    · intro p hmem hatt
      simp only [UpdateState_posted, UpdateState_tasks_gen, List.mem_append] at hmem ⊢
      rcases hmem with (hmem | hmem) | hmem
      · exact staleAt_succ (hp p hmem hatt)
      · split at hmem
        · simp only [List.mem_singleton] at hmem
          subst hmem
          simp [notifyTask, Task.isAttempt] at hatt
        · simp at hmem
      · split at hmem
        · simp at hmem
        · simp only [List.mem_singleton] at hmem
          subst hmem
          simp [bootstrapTask, Task.isAttempt] at hatt
    · intro c hmem
      simp only [UpdateState_network_calls, UpdateState_tasks_gen, List.mem_append] at hmem ⊢
      rcases hmem with (hmem | hmem) | hmem
      · exact callbackStaleAt_succ (hc c hmem)
      · split at hmem
        · simp only [List.mem_singleton] at hmem
          subst hmem
          rfl
        · simp at hmem
      · simp only [List.mem_singleton] at hmem
        subst hmem
        rfl

theorem runBound_noLiveAttempt {env : Env} {t : Task} {m m' : WifiBootstrapManager}
    (h : NoLiveAttempt m) (hatt : t.isAttempt = false) (hr : runBound env t m = some m') :
    NoLiveAttempt m' ∧ m'.setup_state_ = m.setup_state_ := by
  cases t with
  | OnBootstrapTimeout =>
      simp only [runBound, OnBootstrapTimeout, Option.some.injEq] at hr
      subst hr
      exact ⟨StartMonitoring_noLiveAttempt h, by simp⟩
  | OnConnectTimeout => simp [Task.isAttempt] at hatt
  | OnMonitorTimeout =>
      simp only [runBound, OnMonitorTimeout] at hr
      exact ⟨StartBootstrapping_noLiveAttempt h hr, StartBootstrapping_setup_state hr⟩
  | StartConnecting s p => simp [Task.isAttempt] at hatt
  | NotifyStateListeners s =>
      simp only [runBound, Option.some.injEq] at hr
      subst hr
      exact ⟨h, rfl⟩

theorem eraseIdx_noLiveAttempt {m : WifiBootstrapManager} (i : Nat) (h : NoLiveAttempt m) :
    NoLiveAttempt { m with posted := m.posted.eraseIdx i } :=
  ⟨fun p hmem hatt => h.1 p (List.mem_of_mem_eraseIdx hmem) hatt, h.2⟩

theorem UpdateConnectionState_noLiveAttempt {env : Env} {m : WifiBootstrapManager}
    (h : NoLiveAttempt m) : NoLiveAttempt (UpdateConnectionState env m) := by
  rw [UpdateConnectionState_eq]
  exact h

theorem UpdateConnectionState_setup_state (env : Env) (m : WifiBootstrapManager) :
    (UpdateConnectionState env m).setup_state_ = m.setup_state_ := by
  rw [UpdateConnectionState_eq]

/-- While nothing of a connect attempt is live, an event other than
ConfigureCredentials keeps it so and does not touch SetupState. -/
theorem step_noLiveAttempt {env : Env} {ev : Event} {m m' : WifiBootstrapManager}
    (h : NoLiveAttempt m) (hev : ev.isConfigure = false) (hstep : step env ev m = some m') :
    NoLiveAttempt m' ∧ m'.setup_state_ = m.setup_state_ := by
  cases ev with
  | OnConnectivityChange c =>
      simp only [step, Option.some.injEq] at hstep
      subst hstep
      unfold OnConnectivityChange
      simp only []
      split
      · exact ⟨StartMonitoring_noLiveAttempt (UpdateConnectionState_noLiveAttempt h),
          by simp [UpdateConnectionState_setup_state]⟩
      · exact ⟨UpdateConnectionState_noLiveAttempt h, UpdateConnectionState_setup_state env m⟩
  | ConfigureCredentials s p => simp [Event.isConfigure] at hev
  | RegisterStateListener l =>
      simp only [step, Option.some.injEq] at hstep
      subst hstep
      exact ⟨h, rfl⟩
  | RunTask i =>
      simp only [step] at hstep
      split at hstep
      · exact absurd hstep (by simp)
      · rename_i p hp
        split at hstep
        · split at hstep
          · rename_i hlive
            have hmem : p ∈ m.posted := List.getElem?_mem hp
            have hatt : p.task.isAttempt = false := by
              cases hq : p.task.isAttempt
              · rfl
              · have := staleAt_not_live (h.1 p hmem hq)
                simp [this] at hlive
            have hr := runBound_noLiveAttempt (eraseIdx_noLiveAttempt i h) hatt hstep
            exact ⟨hr.1, hr.2⟩
          · simp only [Option.some.injEq] at hstep
            subst hstep
            exact ⟨eraseIdx_noLiveAttempt i h, rfl⟩
        · exact absurd hstep (by simp)
  | ConnectSuccess i =>
      simp only [step] at hstep
      split at hstep
      · rename_i ssid pw gen hc
        have hmem := List.getElem?_mem hc
        have hst := h.2 _ hmem
        simp only [NetworkCall.callbackStaleAt, decide_eq_true_eq] at hst
        split at hstep
        · omega
        · simp only [Option.some.injEq] at hstep
          subst hstep
          exact ⟨h, rfl⟩
      · exact absurd hstep (by simp)

theorem run_noLiveAttempt (evs : List (Env × Event)) :
    ∀ (m m' : WifiBootstrapManager), NoLiveAttempt m → NoConfigure evs →
      run evs m = some m' → NoLiveAttempt m' ∧ m'.setup_state_ = m.setup_state_ := by
  induction evs with
  | nil =>
      intro m m' h _ hrun
      simp only [run, Option.some.injEq] at hrun
      subst hrun
      exact ⟨h, rfl⟩
  | cons e rest ih =>
      intro m m' h hn hrun
      obtain ⟨env, ev⟩ := e
      simp only [run] at hrun
      cases hs : step env ev m with
      | none => simp [hs] at hrun
      | some m1 =>
          rw [hs] at hrun
          have hev : ev.isConfigure = false := hn (env, ev) (List.mem_cons_self _ _)
          have hrest : NoConfigure rest := fun e he => hn e (List.mem_cons_of_mem _ he)
          obtain ⟨h1, hs1⟩ := step_noLiveAttempt h hev hs
          obtain ⟨h2, hs2⟩ := ih m1 m' h1 hrest hrun
          exact ⟨h2, hs2.trans hs1⟩

/-- C2, the code at the failing input: the device is Monitoring the configured
network "home"; ConfigureCredentials("net","pw") returns true and sets
SetupState to InProgress, and a connectivity notification half a second later
re-enters Monitoring, which invalidates the delayed StartConnecting.  From then
on SetupState stays InProgress under every sequence of events that holds no new
ConfigureCredentials call: neither Success nor Error is ever reached. -/
theorem C2_dropped_request_stays_in_progress_forever :
    ∃ m1 m', Init (envAt NetworkState.kConnected 0)
        (WifiBootstrapManager.create "home" "" false) = some m1 ∧
      (ConfigureCredentials (envAt NetworkState.kConnected 0) "net" "pw" m1).1 = true ∧
      run cancelledSetupEvents m1 = some m' ∧
      GetSetupState m' = SetupState.kInProgress ∧
      ∀ (evs : List (Env × Event)) (m'' : WifiBootstrapManager), NoConfigure evs →
        run evs m' = some m'' → GetSetupState m'' = SetupState.kInProgress := by
  refine ⟨_, _, rfl, rfl, rfl, by decide, ?_⟩
  intro evs m'' hn hrun
  have h := run_noLiveAttempt evs _ m'' (by decide) hn hrun
  unfold GetSetupState
  rw [h.2]
  decide

theorem wellFormedAt_succ {gen : Nat} {p : PostedTask} (h : p.wellFormedAt gen = true) :
    p.wellFormedAt (gen + 1) = true := by
  unfold PostedTask.wellFormedAt at h ⊢
  cases ht : p.token <;> simp_all
  omega

theorem callbackKnownAt_succ {gen : Nat} {c : NetworkCall}
    (h : c.callbackKnownAt gen = true) : c.callbackKnownAt (gen + 1) = true := by
  cases c <;> simp_all [NetworkCall.callbackKnownAt]
  omega

theorem UpdateState_wellFormed (env : Env) {m : WifiBootstrapManager} (s : State)
    (h : WellFormed m) : WellFormed (UpdateState env s m) := by
  obtain ⟨hp, hc⟩ := h
  constructor
  · intro p hmem
    simp only [UpdateState_posted, UpdateState_tasks_gen, List.mem_append] at hmem ⊢
    rcases hmem with hmem | hmem
    · exact wellFormedAt_succ (hp p hmem)
    · split at hmem
      · simp only [List.mem_singleton] at hmem
        subst hmem
        rfl
      · simp at hmem
  · intro c hmem
    simp only [UpdateState_network_calls, UpdateState_tasks_gen, List.mem_append] at hmem ⊢
    rcases hmem with hmem | hmem
    · exact callbackKnownAt_succ (hc c hmem)
    · split at hmem
      · simp only [List.mem_singleton] at hmem
        subst hmem
        rfl
      · simp at hmem

theorem StartMonitoring_wellFormed {env : Env} {m : WifiBootstrapManager}
    (h : WellFormed m) : WellFormed (StartMonitoring env m) := by
  obtain ⟨hp, hc⟩ := UpdateState_wellFormed env State.kMonitoring h
  rw [StartMonitoring_eq]
  constructor
  · intro p hmem
    simp only [List.mem_append] at hmem
    rcases hmem with hmem | hmem
    · exact hp p hmem
    · split at hmem
      · simp at hmem
      · simp only [List.mem_singleton] at hmem
        subst hmem
        simp [monitorTask, PostedTask.wellFormedAt, Task.isNotify]
  · exact hc

theorem StartBootstrapping_wellFormed {env : Env} {m m' : WifiBootstrapManager}
    (h : WellFormed m) (hs : StartBootstrapping env m = some m') : WellFormed m' := by
  rcases StartBootstrapping_cases hs with ⟨_, rfl⟩ | ⟨_, _, rfl⟩
  · exact StartMonitoring_wellFormed h
  · obtain ⟨hp, hc⟩ := UpdateState_wellFormed env State.kBootstrapping h
    constructor
    · intro p hmem
      simp only [List.mem_append] at hmem
      rcases hmem with hmem | hmem
      · exact hp p hmem
      · split at hmem
        · simp at hmem
        · simp only [List.mem_singleton] at hmem
          subst hmem
          simp [bootstrapTask, PostedTask.wellFormedAt, Task.isNotify]
    · intro c hmem
      simp only [List.mem_append] at hmem
      rcases hmem with hmem | hmem
      · exact hc c hmem
      · simp only [List.mem_singleton] at hmem
        subst hmem
        rfl

theorem StartConnecting_wellFormed {env : Env} {m : WifiBootstrapManager} (ssid pw : String)
    (h : WellFormed m) : WellFormed (StartConnecting env ssid pw m) := by
  obtain ⟨hp, hc⟩ := UpdateState_wellFormed env State.kConnecting h
  rw [StartConnecting_eq]
  constructor
  · intro p hmem
    simp only [List.mem_append] at hmem
    rcases hmem with hmem | hmem
    · exact hp p hmem
    · simp only [List.mem_singleton] at hmem
      subst hmem
      simp [PostedTask.wellFormedAt, Task.isNotify]
  · intro c hmem
    simp only [List.mem_append] at hmem
    rcases hmem with hmem | hmem
    · exact hc c hmem
    · simp only [List.mem_singleton] at hmem
      subst hmem
      simp [NetworkCall.callbackKnownAt]

theorem runBound_wellFormed {env : Env} {t : Task} {m m' : WifiBootstrapManager}
    (h : WellFormed m) (hr : runBound env t m = some m') : WellFormed m' := by
  cases t with
  | OnBootstrapTimeout =>
      simp only [runBound, OnBootstrapTimeout, Option.some.injEq] at hr
      subst hr
      exact StartMonitoring_wellFormed h
  | OnConnectTimeout =>
      simp only [runBound, OnConnectTimeout] at hr
      refine StartBootstrapping_wellFormed ?_ hr
      exact h
  | OnMonitorTimeout =>
      simp only [runBound, OnMonitorTimeout] at hr
      exact StartBootstrapping_wellFormed h hr
  | StartConnecting s p =>
      simp only [runBound, Option.some.injEq] at hr
      subst hr
      exact StartConnecting_wellFormed s p h
  | NotifyStateListeners s =>
      simp only [runBound, Option.some.injEq] at hr
      subst hr
      exact h

theorem step_wellFormed {env : Env} {ev : Event} {m m' : WifiBootstrapManager}
    (h : WellFormed m) (hstep : step env ev m = some m') : WellFormed m' := by
  cases ev with
  | OnConnectivityChange c =>
      simp only [step, Option.some.injEq] at hstep
      subst hstep
      have h1 : WellFormed (UpdateConnectionState env m) := by
        rw [UpdateConnectionState_eq]; exact h
      unfold OnConnectivityChange
      simp only []
      split
      · exact StartMonitoring_wellFormed h1
      · exact h1
  | ConfigureCredentials s p =>
      simp only [step, Option.some.injEq] at hstep
      subst hstep
      obtain ⟨hp, hc⟩ := h
      constructor
      · intro q hmem
        simp only [ConfigureCredentials, PostDelayedTask, List.mem_append,
          List.mem_singleton] at hmem
        rcases hmem with hmem | hmem
        · exact hp q hmem
        · subst hmem
          simp [ConfigureCredentials, PostDelayedTask, PostedTask.wellFormedAt, Task.isNotify]
      · exact hc
  | RegisterStateListener l =>
      simp only [step, Option.some.injEq] at hstep
      subst hstep
      exact h
  | RunTask i =>
      have h1 : WellFormed { m with posted := m.posted.eraseIdx i } :=
        ⟨fun p hmem => h.1 p (List.mem_of_mem_eraseIdx hmem), h.2⟩
      simp only [step] at hstep
      split at hstep
      · exact absurd hstep (by simp)
      · split at hstep
        · split at hstep
          · exact runBound_wellFormed h1 hstep
          · simp only [Option.some.injEq] at hstep
            subst hstep
            exact h1
        · exact absurd hstep (by simp)
  | ConnectSuccess i =>
      simp only [step] at hstep
      split at hstep
      · split at hstep
        · simp only [Option.some.injEq, OnConnectSuccess] at hstep
          subst hstep
          refine StartMonitoring_wellFormed ?_
          exact h
        · simp only [Option.some.injEq] at hstep
          subst hstep
          exact h
      · exact absurd hstep (by simp)

theorem run_wellFormed (evs : List (Env × Event)) :
    ∀ (m m' : WifiBootstrapManager), WellFormed m → run evs m = some m' → WellFormed m' := by
  induction evs with
  | nil =>
      intro m m' h hrun
      simp only [run, Option.some.injEq] at hrun
      subst hrun
      exact h
  | cons e rest ih =>
      intro m m' h hrun
      obtain ⟨env, ev⟩ := e
      simp only [run] at hrun
      cases hs : step env ev m with
      | none => simp [hs] at hrun
      | some m1 =>
          rw [hs] at hrun
          exact ih m1 m' (step_wellFormed h hs) hrun

theorem Init_wellFormed {env : Env} {m m' : WifiBootstrapManager}
    (h : WellFormed m) (hi : Init env m = some m') : WellFormed m' := by
  have h1 : WellFormed (callNetwork NetworkCall.AddOnConnectionChangedCallback
      (UpdateConnectionState env m)) := by
    rw [UpdateConnectionState_eq]
    refine ⟨h.1, ?_⟩
    intro c hmem
    simp only [callNetwork, List.mem_append, List.mem_singleton] at hmem
    rcases hmem with hmem | hmem
    · exact h.2 c hmem
    · subst hmem
      rfl
  unfold Init at hi
  simp only [] at hi
  split at hi
  · exact StartBootstrapping_wellFormed h1 hi
  · simp only [Option.some.injEq] at hi
    subst hi
    exact StartMonitoring_wellFormed h1

theorem runBound_tasks_gen {env : Env} {t : Task} {m m' : WifiBootstrapManager}
    (hr : runBound env t m = some m') :
    m'.tasks_gen = m.tasks_gen + 1 ∨
      (m'.tasks_gen = m.tasks_gen ∧ m'.setup_state_ = m.setup_state_) := by
  cases t with
  | OnBootstrapTimeout =>
      simp only [runBound, OnBootstrapTimeout, Option.some.injEq] at hr
      subst hr
      exact Or.inl (by simp)
  | OnConnectTimeout =>
      simp only [runBound, OnConnectTimeout] at hr
      have h := StartBootstrapping_tasks_gen hr
      exact Or.inl h
  | OnMonitorTimeout =>
      simp only [runBound, OnMonitorTimeout] at hr
      exact Or.inl (StartBootstrapping_tasks_gen hr)
  | StartConnecting s p =>
      simp only [runBound, Option.some.injEq] at hr
      subst hr
      exact Or.inl (by simp [StartConnecting_eq])
  | NotifyStateListeners s =>
      simp only [runBound, Option.some.injEq] at hr
      subst hr
      exact Or.inr ⟨rfl, rfl⟩

/-- An event either invalidates the per-state weak pointers, or leaves
SetupState alone unless it is ConfigureCredentials, which stores InProgress. -/
theorem step_tasks_gen {env : Env} {ev : Event} {m m' : WifiBootstrapManager}
    (hstep : step env ev m = some m') :
    m'.tasks_gen = m.tasks_gen + 1 ∨
      (m'.tasks_gen = m.tasks_gen ∧
        (m'.setup_state_ = m.setup_state_ ∨ m'.setup_state_ = SetupState.kInProgress)) := by
  cases ev with
  | OnConnectivityChange c =>
      simp only [step, Option.some.injEq] at hstep
      subst hstep
      unfold OnConnectivityChange
      simp only []
      split
      · refine Or.inl ?_
        rw [StartMonitoring_tasks_gen, UpdateConnectionState_eq]
      · refine Or.inr ⟨?_, Or.inl (UpdateConnectionState_setup_state env m)⟩
        rw [UpdateConnectionState_eq]
  | ConfigureCredentials s p =>
      simp only [step, Option.some.injEq] at hstep
      subst hstep
      exact Or.inr ⟨rfl, Or.inr rfl⟩
  | RegisterStateListener l =>
      simp only [step, Option.some.injEq] at hstep
      subst hstep
      exact Or.inr ⟨rfl, Or.inl rfl⟩
  | RunTask i =>
      simp only [step] at hstep
      split at hstep
      · exact absurd hstep (by simp)
      · split at hstep
        · split at hstep
          · rcases runBound_tasks_gen hstep with h | ⟨h1, h2⟩
            · exact Or.inl h
            · exact Or.inr ⟨h1, Or.inl h2⟩
          · simp only [Option.some.injEq] at hstep
            subst hstep
            exact Or.inr ⟨rfl, Or.inl rfl⟩
        · exact absurd hstep (by simp)
  | ConnectSuccess i =>
      simp only [step] at hstep
      split at hstep
      · split at hstep
        · simp only [Option.some.injEq, OnConnectSuccess] at hstep
          subst hstep
          exact Or.inl (by simp)
        · simp only [Option.some.injEq] at hstep
          subst hstep
          exact Or.inr ⟨rfl, Or.inl rfl⟩
      · exact absurd hstep (by simp)

/-- As long as no event has invalidated the per-state weak pointers, an
InProgress SetupState is still InProgress. -/
theorem run_inProgress_of_tasks_gen_eq (evs : List (Env × Event)) :
    ∀ (m m' : WifiBootstrapManager), run evs m = some m' →
      m.tasks_gen ≤ m'.tasks_gen ∧
      (m'.tasks_gen = m.tasks_gen → m.setup_state_ = SetupState.kInProgress →
        m'.setup_state_ = SetupState.kInProgress) := by
  induction evs with
  | nil =>
      intro m m' hrun
      simp only [run, Option.some.injEq] at hrun
      subst hrun
      exact ⟨le_refl _, fun _ h => h⟩
  | cons e rest ih =>
      intro m m' hrun
      obtain ⟨env, ev⟩ := e
      simp only [run] at hrun
      cases hs : step env ev m with
      | none => simp [hs] at hrun
      | some m1 =>
          rw [hs] at hrun
          obtain ⟨hle, himp⟩ := ih m1 m' hrun
          rcases step_tasks_gen hs with h | ⟨h1, h2⟩
          · exact ⟨by omega, fun heq _ => absurd heq (by omega)⟩
          · refine ⟨by omega, fun heq hin => himp (by omega) ?_⟩
            rcases h2 with h2 | h2
            · rw [h2]; exact hin
            · exact h2

theorem wellFormedAt_stale_succ {gen : Nat} {p : PostedTask}
    (h : p.wellFormedAt gen = true) (hatt : p.task.isAttempt = true) :
    p.token.staleAt (gen + 1) = true := by
  unfold PostedTask.wellFormedAt at h
  cases ht : p.token with
  | lifetime =>
      rw [ht] at h
      cases hk : p.task <;> simp_all [Task.isAttempt, Task.isNotify]
  | tasks g =>
      rw [ht] at h
      simp only [Bool.and_eq_true, decide_eq_true_eq] at h
      simp only [WeakToken.staleAt, decide_eq_true_eq]
      omega

theorem callbackKnownAt_stale_succ {gen : Nat} {c : NetworkCall}
    (h : c.callbackKnownAt gen = true) : c.callbackStaleAt (gen + 1) = true := by
  cases c <;> simp_all [NetworkCall.callbackKnownAt, NetworkCall.callbackStaleAt]
  omega

theorem quietAt_wellFormedAt {gen : Nat} {p : PostedTask} (h : p.quietAt gen = true) :
    p.wellFormedAt gen = true := by
  unfold PostedTask.quietAt at h
  unfold PostedTask.wellFormedAt
  cases ht : p.token with
  | lifetime => rw [ht] at h; exact h
  | tasks g =>
      rw [ht] at h
      simp only [Bool.and_eq_true, Bool.or_eq_true, decide_eq_true_eq] at h ⊢
      refine ⟨h.1, ?_⟩
      rcases h.2 with h2 | h2
      · omega
      · omega

theorem OnlyAttemptLive.wellFormed {m : WifiBootstrapManager} (h : OnlyAttemptLive m) :
    WellFormed m :=
  ⟨fun p hmem => quietAt_wellFormedAt (h.1 p hmem), h.2⟩

/-- A Monitoring entry invalidates everything a connect attempt had armed. -/
theorem StartMonitoring_noLiveAttempt_of_wellFormed {env : Env} {m : WifiBootstrapManager}
    (h : WellFormed m) : NoLiveAttempt (StartMonitoring env m) := by
  obtain ⟨hp, hc⟩ := h
  constructor
  · intro p hmem hatt
    simp only [StartMonitoring_posted, StartMonitoring_tasks_gen, List.mem_append] at hmem ⊢
    rcases hmem with (hmem | hmem) | hmem
    · exact wellFormedAt_stale_succ (hp p hmem) hatt
    · split at hmem
      · simp only [List.mem_singleton] at hmem
        subst hmem
        simp [notifyTask, Task.isAttempt] at hatt
      · simp at hmem
    · split at hmem
      · simp at hmem
      · simp only [List.mem_singleton] at hmem
        subst hmem
        simp [monitorTask, Task.isAttempt] at hatt
  · intro c hmem
    simp only [StartMonitoring_network_calls, StartMonitoring_tasks_gen, List.mem_append] at hmem ⊢
    rcases hmem with hmem | hmem
    · exact callbackKnownAt_stale_succ (hc c hmem)
    · split at hmem
      · simp only [List.mem_singleton] at hmem
        subst hmem
        rfl
      · simp at hmem

/-- A Bootstrapping entry invalidates everything a connect attempt had armed. -/
theorem StartBootstrapping_noLiveAttempt_of_wellFormed {env : Env}
    {m m' : WifiBootstrapManager} (h : WellFormed m)
    (hs : StartBootstrapping env m = some m') : NoLiveAttempt m' := by
  rcases StartBootstrapping_cases hs with ⟨_, rfl⟩ | ⟨_, _, rfl⟩
  · exact StartMonitoring_noLiveAttempt_of_wellFormed h
  · obtain ⟨hp, hc⟩ := h
    constructor
    · intro p hmem hatt
      simp only [UpdateState_posted, UpdateState_tasks_gen, List.mem_append] at hmem ⊢
      rcases hmem with (hmem | hmem) | hmem
      · exact wellFormedAt_stale_succ (hp p hmem) hatt
      · split at hmem
        · simp only [List.mem_singleton] at hmem
          subst hmem
          simp [notifyTask, Task.isAttempt] at hatt
        · simp at hmem
      · split at hmem
        · simp at hmem
        · simp only [List.mem_singleton] at hmem
          subst hmem
          simp [bootstrapTask, Task.isAttempt] at hatt
    · intro c hmem
      simp only [UpdateState_network_calls, UpdateState_tasks_gen, List.mem_append] at hmem ⊢
      rcases hmem with (hmem | hmem) | hmem
      · exact callbackKnownAt_stale_succ (hc c hmem)
      · split at hmem
        · simp only [List.mem_singleton] at hmem
          subst hmem
          rfl
        · simp at hmem
      · simp only [List.mem_singleton] at hmem
        subst hmem
        rfl

theorem wellFormedAt_quiet_succ {gen : Nat} {p : PostedTask}
    (h : p.wellFormedAt gen = true) : p.quietAt (gen + 1) = true := by
  unfold PostedTask.wellFormedAt at h
  unfold PostedTask.quietAt
  cases ht : p.token with
  | lifetime => rw [ht] at h; exact h
  | tasks g =>
      rw [ht] at h
      simp only [Bool.and_eq_true, Bool.or_eq_true, decide_eq_true_eq] at h ⊢
      exact ⟨h.1, Or.inl (by omega)⟩

/-- The delayed StartConnecting, run on a well-formed object whose SetupState
is InProgress, starts an attempt that is pending. -/
theorem StartConnecting_pending (env : Env) {m : WifiBootstrapManager} (ssid pw : String)
    (h : WellFormed m) (hin : m.setup_state_ = SetupState.kInProgress) :
    AttemptPending (StartConnecting env ssid pw m) ∧
      OnlyAttemptLive (StartConnecting env ssid pw m) := by
  obtain ⟨hp, hc⟩ := UpdateState_wellFormed env State.kConnecting h
  rw [StartConnecting_eq]
  refine ⟨⟨by simp, by simpa [GetSetupState] using hin, ?_, ?_⟩, ?_, ?_⟩
  · refine ⟨_, List.mem_append_right _ (List.mem_singleton_self _), ?_⟩
    simp
  · refine ⟨_, List.mem_append_right _ (List.mem_singleton_self _), ?_⟩
    simp [NetworkCall.isCallbackAt]
  · intro p hmem
    simp only [UpdateState_posted, UpdateState_tasks_gen, List.mem_append,
      List.mem_singleton] at hmem ⊢
    rcases hmem with (hmem | hmem) | hmem
    · exact wellFormedAt_quiet_succ (h.1 p hmem)
    · split at hmem
      · simp only [List.mem_singleton] at hmem
        subst hmem
        rfl
      · simp at hmem
    · subst hmem
      simp [PostedTask.quietAt, Task.isNotify]
  · intro c hmem
    simp only [List.mem_append, List.mem_singleton] at hmem
    rcases hmem with hmem | hmem
    · exact hc c hmem
    · subst hmem
      simp [NetworkCall.callbackKnownAt]

theorem mem_eraseIdx_of_ne {α : Type} {l : List α} {i : Nat} {p q : α} (hq : q ∈ l)
    (hp : l[i]? = some p) (hne : q ≠ p) : q ∈ l.eraseIdx i := by
  rw [List.mem_eraseIdx_iff_getElem?]
  obtain ⟨j, hj⟩ := List.mem_iff_getElem?.mp hq
  refine ⟨j, ?_, hj⟩
  intro hji
  subst hji
  rw [hp] at hj
  exact hne (Option.some.inj hj).symm

theorem AttemptPending_eraseIdx {m : WifiBootstrapManager} {i : Nat} {p : PostedTask}
    (h : AttemptPending m) (hp : m.posted[i]? = some p)
    (hne : p.task ≠ Task.OnConnectTimeout ∨ p.token ≠ WeakToken.tasks m.tasks_gen) :
    AttemptPending { m with posted := m.posted.eraseIdx i } := by
  obtain ⟨hs, hin, ⟨q, hq, hqt, hqk, hqd⟩, hc⟩ := h
  refine ⟨hs, hin, ⟨q, mem_eraseIdx_of_ne hq hp ?_, hqt, hqk, hqd⟩, hc⟩
  intro heq
  subst heq
  rcases hne with hne | hne
  · exact hne hqt
  · exact hne hqk

theorem OnlyAttemptLive_eraseIdx {m : WifiBootstrapManager} (i : Nat)
    (h : OnlyAttemptLive m) : OnlyAttemptLive { m with posted := m.posted.eraseIdx i } :=
  ⟨fun p hmem => h.1 p (List.mem_of_mem_eraseIdx hmem), h.2⟩

/-- While an attempt is pending, an event other than ConfigureCredentials
either leaves it pending or decides it: the connect timeout stores the
failure, the success callback stores Success, and either one invalidates
whatever the attempt had armed. -/
theorem step_pending {env : Env} {ev : Event} {m m' : WifiBootstrapManager}
    (hp : AttemptPending m) (hq : OnlyAttemptLive m) (hev : ev.isConfigure = false)
    (hstep : step env ev m = some m') :
    (AttemptPending m' ∧ OnlyAttemptLive m') ∨
      (NoLiveAttempt m' ∧
        (m'.setup_state_ = SetupState.kSuccess ∨ m'.setup_state_ = connectFailed)) := by
  cases ev with
  | OnConnectivityChange c =>
      simp only [step, Option.some.injEq] at hstep
      subst hstep
      have hst : (UpdateConnectionState env m).state_ = State.kConnecting := by
        rw [UpdateConnectionState_eq]; exact hp.1
      unfold OnConnectivityChange
      simp only [hst]
      simp only [reduceCtorEq, false_and, or_self, if_false]
      rw [UpdateConnectionState_eq]
      exact Or.inl ⟨hp, hq⟩
  | ConfigureCredentials s p => simp [Event.isConfigure] at hev
  | RegisterStateListener l =>
      simp only [step, Option.some.injEq] at hstep
      subst hstep
      exact Or.inl ⟨hp, hq⟩
  | RunTask i =>
      simp only [step] at hstep
      split at hstep
      · exact absurd hstep (by simp)
      · rename_i p hpi
        have hquiet := hq.1 p (List.getElem?_mem hpi)
        split at hstep
        · split at hstep
          · rename_i hlive
            unfold PostedTask.quietAt at hquiet
            cases htok : p.token with
            | lifetime =>
                rw [htok] at hquiet
                cases htask : p.task with
                | NotifyStateListeners s =>
                    rw [htask] at hstep
                    simp only [runBound, Option.some.injEq] at hstep
                    subst hstep
                    have hne : p.task ≠ Task.OnConnectTimeout ∨
                        p.token ≠ WeakToken.tasks m.tasks_gen := Or.inl (by simp [htask])
                    exact Or.inl ⟨AttemptPending_eraseIdx hp hpi hne,
                      OnlyAttemptLive_eraseIdx i hq⟩
                | OnBootstrapTimeout => simp [htask, Task.isNotify] at hquiet
                | OnConnectTimeout => simp [htask, Task.isNotify] at hquiet
                | OnMonitorTimeout => simp [htask, Task.isNotify] at hquiet
                | StartConnecting s pw => simp [htask, Task.isNotify] at hquiet
            | tasks g =>
                rw [htok] at hquiet hlive
                simp only [WeakToken.live, beq_iff_eq] at hlive
                simp only [Bool.and_eq_true, Bool.or_eq_true, decide_eq_true_eq] at hquiet
                have htask : p.task = Task.OnConnectTimeout := by
                  rcases hquiet.2 with h | h
                  · omega
                  · exact h.2
                rw [htask] at hstep
                simp only [runBound, OnConnectTimeout] at hstep
                refine Or.inr ⟨?_, ?_⟩
                · refine StartBootstrapping_noLiveAttempt_of_wellFormed ?_ hstep
                  exact (OnlyAttemptLive_eraseIdx i hq).wellFormed
                · have h := StartBootstrapping_setup_state hstep
                  exact Or.inr h
          · rename_i hlive
            simp only [Option.some.injEq] at hstep
            subst hstep
            have hne : p.task ≠ Task.OnConnectTimeout ∨
                p.token ≠ WeakToken.tasks m.tasks_gen := by
              refine Or.inr ?_
              intro h
              rw [h] at hlive
              simp [WeakToken.live] at hlive
            exact Or.inl ⟨AttemptPending_eraseIdx hp hpi hne, OnlyAttemptLive_eraseIdx i hq⟩
        · exact absurd hstep (by simp)
  | ConnectSuccess i =>
      simp only [step] at hstep
      split at hstep
      · split at hstep
        · simp only [Option.some.injEq, OnConnectSuccess] at hstep
          subst hstep
          refine Or.inr ⟨?_, Or.inl (by simp)⟩
          refine StartMonitoring_noLiveAttempt_of_wellFormed ?_
          exact hq.wellFormed
        · simp only [Option.some.injEq] at hstep
          subst hstep
          exact Or.inl ⟨hp, hq⟩
      · exact absurd hstep (by simp)

theorem run_pending (evs : List (Env × Event)) :
    ∀ (m m' : WifiBootstrapManager), AttemptPending m → OnlyAttemptLive m →
      NoConfigure evs → run evs m = some m' →
      (AttemptPending m' ∧ OnlyAttemptLive m') ∨
        (NoLiveAttempt m' ∧
          (m'.setup_state_ = SetupState.kSuccess ∨ m'.setup_state_ = connectFailed)) := by
  induction evs with
  | nil =>
      intro m m' hp hq _ hrun
      simp only [run, Option.some.injEq] at hrun
      subst hrun
      exact Or.inl ⟨hp, hq⟩
  | cons e rest ih =>
      intro m m' hp hq hn hrun
      obtain ⟨env, ev⟩ := e
      simp only [run] at hrun
      cases hs : step env ev m with
      | none => simp [hs] at hrun
      | some m1 =>
          rw [hs] at hrun
          have hev : ev.isConfigure = false := hn (env, ev) (List.mem_cons_self _ _)
          have hrest : NoConfigure rest := fun e he => hn e (List.mem_cons_of_mem _ he)
          rcases step_pending hp hq hev hs with ⟨hp1, hq1⟩ | ⟨hd, ht⟩
          · exact ih m1 m' hp1 hq1 hrest hrun
          · obtain ⟨h2, hs2⟩ := run_noLiveAttempt rest m1 m' hd hrest hrun
            exact Or.inr ⟨h2, by rw [hs2]; exact ht⟩

/-- What does hold once the delayed StartConnecting of a request runs: take a
ConfigureCredentials call and suppose no state entry invalidates the per-state
weak pointers before a delayed StartConnecting runs.  Then SetupState is
InProgress when the attempt starts, and under every later sequence of events
without a new ConfigureCredentials call the attempt is either still pending
(InProgress, with its connect timeout queued and its success callback live) or
decided as exactly one of Success and the connect failure; once decided,
SetupState never changes again, so the other outcome cannot follow. -/
theorem started_attempt_has_exactly_one_outcome
    (m mm m2 m3 m4 : WifiBootstrapManager) (env0 env1 : Env) (ssid pw ssid1 pw1 : String)
    (mid evs1 evs2 : List (Env × Event)) (i : Nat) (p : PostedTask)
    (hwf : WellFormed m)
    (hmid : run mid (ConfigureCredentials env0 ssid pw m).2 = some mm)
    (hgen : mm.tasks_gen = m.tasks_gen)
    (hp : mm.posted[i]? = some p) (htask : p.task = Task.StartConnecting ssid1 pw1)
    (htok : p.token = WeakToken.tasks mm.tasks_gen)
    (hstart : step env1 (Event.RunTask i) mm = some m2)
    (hn1 : NoConfigure evs1) (h1 : run evs1 m2 = some m3)
    (hn2 : NoConfigure evs2) (h2 : run evs2 m3 = some m4) :
    GetSetupState m2 = SetupState.kInProgress ∧
    (AttemptPending m3 ∨ GetSetupState m3 = SetupState.kSuccess ∨
      GetSetupState m3 = connectFailed) ∧
    (GetSetupState m3 ≠ SetupState.kInProgress → GetSetupState m4 = GetSetupState m3) := by
  have hwfc : WellFormed (ConfigureCredentials env0 ssid pw m).2 :=
    @step_wellFormed env0 (Event.ConfigureCredentials ssid pw) m _ hwf rfl
  have hwfm : WellFormed mm := run_wellFormed mid _ mm hwfc hmid
  have hin : mm.setup_state_ = SetupState.kInProgress :=
    (run_inProgress_of_tasks_gen_eq mid _ mm hmid).2 hgen rfl
  have hm2 : m2 = StartConnecting env1 ssid1 pw1 { mm with posted := mm.posted.eraseIdx i } := by
    simp only [step, hp, htok, htask, WeakToken.live, beq_self_eq_true, if_true, runBound] at hstart
    split at hstart
    · exact (Option.some.inj hstart).symm
    · exact absurd hstart (by simp)
  have hwfe : WellFormed { mm with posted := mm.posted.eraseIdx i } :=
    ⟨fun q hmem => hwfm.1 q (List.mem_of_mem_eraseIdx hmem), hwfm.2⟩
  obtain ⟨hpend, hquiet⟩ := StartConnecting_pending env1 ssid1 pw1 hwfe hin
  rw [← hm2] at hpend hquiet
  refine ⟨hpend.2.1, ?_, ?_⟩
  · rcases run_pending evs1 m2 m3 hpend hquiet hn1 h1 with ⟨h, _⟩ | ⟨_, h⟩
    · exact Or.inl h
    · exact Or.inr h
  · intro hne
    rcases run_pending evs1 m2 m3 hpend hquiet hn1 h1 with ⟨h, _⟩ | ⟨hd, _⟩
    · exact absurd h.2.1 hne
    · exact (run_noLiveAttempt evs2 m3 m4 hd hn2 h2).2

/-- The first setup of a fresh device as an instance: the success callback
decides the attempt and the late connect timeout changes nothing. -/
theorem started_attempt_has_exactly_one_outcome_witness :
    WellFormed setupStart ∧
    step (envAt NetworkState.kOffline 1) (Event.RunTask 1) setupRequested
      = some setupConnecting ∧
    run [(envAt NetworkState.kConnected 2, Event.ConnectSuccess 3)] setupConnecting
      = some setupSucceeded ∧
    run [(envAt NetworkState.kConnected 181, Event.RunTask 2)] setupSucceeded
      = some setupAfterLateTimeout ∧
    GetSetupState setupSucceeded = SetupState.kSuccess ∧
    GetSetupState setupAfterLateTimeout = GetSetupState setupSucceeded := by
  refine ⟨by decide, by decide, by decide, by decide, by decide, ?_⟩
  exact (started_attempt_has_exactly_one_outcome setupStart setupRequested setupConnecting
    setupSucceeded setupAfterLateTimeout
    (envAt NetworkState.kOffline 0) (envAt NetworkState.kOffline 1) "net" "pw" "net" "pw"
    [] [(envAt NetworkState.kConnected 2, Event.ConnectSuccess 3)]
    [(envAt NetworkState.kConnected 181, Event.RunTask 2)] 1
    { task := Task.StartConnecting "net" "pw", token := WeakToken.tasks 1,
      delay := FromSeconds 1, posted_at := 0 }
    (by decide) (by decide) (by decide) (by decide) rfl (by decide) (by decide) (by decide)
    (by decide) (by decide) (by decide)).2.2
    (by decide)

/-! ## C3: what a late listener receives -/

/-- C3, counterexample: after Init() the transition to Bootstrapping is
committed and its notification task is queued.  A listener registered at that
point is run at once with Bootstrapping, and again with Bootstrapping when the
queued task runs, although no transition happened after the registration. -/
theorem C3_counterexample_duplicate_for_pending_notification :
    ∃ m', run [(envAt NetworkState.kOffline 0, Event.RegisterStateListener 7),
               (envAt NetworkState.kOffline 0, Event.RunTask 0)] setupStart = some m' ∧
      transitions [(envAt NetworkState.kOffline 0, Event.RunTask 0)]
        (RegisterStateListener 7 setupStart) = [] ∧
      delivered 7 m' = [State.kBootstrapping, State.kBootstrapping] ∧
      delivered 7 m' ++ pendingNotifications m' ≠
        setupStart.state_ :: transitions [(envAt NetworkState.kOffline 0, Event.RunTask 0)]
          (RegisterStateListener 7 setupStart) := by
  refine ⟨_, rfl, by decide, by decide, by decide⟩

theorem pendingNotifications_append (m : WifiBootstrapManager) (extra : List PostedTask) :
    pendingNotifications { m with posted := m.posted ++ extra } =
      pendingNotifications m ++ extra.filterMap (fun p => p.task.notifiedState) := by
  simp [pendingNotifications, List.filterMap_append]

theorem UpdateState_queuesTransition (env : Env) (s : State) (m : WifiBootstrapManager) :
    QueuesTransition m (UpdateState env s m) := by
  refine ⟨by simp, by simp, ?_⟩
  simp only [pendingNotifications, UpdateState_posted, UpdateState_state, List.filterMap_append]
  by_cases h : s = m.state_
  · simp [h]
  · simp [h, notifyTask, Task.notifiedState]

theorem StartMonitoring_queuesTransition (env : Env) (m : WifiBootstrapManager) :
    QueuesTransition m (StartMonitoring env m) := by
  obtain ⟨_, _, h3⟩ := UpdateState_queuesTransition env State.kMonitoring m
  refine ⟨by simp, by simp, ?_⟩
  rw [UpdateState_state] at h3
  rw [StartMonitoring_state, ← h3]
  simp only [pendingNotifications, StartMonitoring_posted, UpdateState_posted,
    List.filterMap_append]
  by_cases hc : env.net = NetworkState.kConnected
  · simp [hc]
  · simp [hc, monitorTask, Task.notifiedState]

theorem StartBootstrapping_queuesTransition {env : Env} {m m' : WifiBootstrapManager}
    (hs : StartBootstrapping env m = some m') : QueuesTransition m m' := by
  rcases StartBootstrapping_cases hs with ⟨_, rfl⟩ | ⟨_, _, rfl⟩
  · exact StartMonitoring_queuesTransition env m
  · obtain ⟨_, _, h3⟩ := UpdateState_queuesTransition env State.kBootstrapping m
    refine ⟨by simp, by simp, ?_⟩
    rw [UpdateState_state] at h3
    simp only [UpdateState_state]
    rw [← h3]
    simp only [pendingNotifications, UpdateState_posted, List.filterMap_append]
    by_cases hl : m.last_configured_ssid_ = ""
    · simp [hl]
    · simp [hl, bootstrapTask, Task.notifiedState]

theorem StartConnecting_queuesTransition (env : Env) (ssid pw : String)
    (m : WifiBootstrapManager) : QueuesTransition m (StartConnecting env ssid pw m) := by
  obtain ⟨_, _, h3⟩ := UpdateState_queuesTransition env State.kConnecting m
  rw [StartConnecting_eq]
  refine ⟨by simp, by simp, ?_⟩
  rw [UpdateState_state] at h3
  simp only [UpdateState_state]
  rw [← h3]
  simp [pendingNotifications, List.filterMap_append, Task.notifiedState]

theorem delivered_notify (listener : Nat) (s : State) (listeners : List Nat)
    (calls : List (Nat × State)) :
    ((calls ++ listeners.map (fun l => (l, s))).filter
        (fun c => decide (c.1 = listener))).map (fun c => c.2) =
      (calls.filter (fun c => decide (c.1 = listener))).map (fun c => c.2) ++
        List.replicate (listeners.count listener) s := by
  induction listeners generalizing calls with
  | nil => simp
  | cons a rest ih =>
      have h := ih (calls ++ [(a, s)])
      simp only [List.map_cons, List.append_assoc, List.singleton_append] at h ⊢
      rw [h]
      by_cases ha : a = listener
      · subst ha
        simp [List.filter_append, List.count_cons, List.replicate_succ]
      · have ha' : ¬ (a == listener) = true := by simpa using ha
        simp [List.filter_append, List.count_cons, ha, ha']

theorem notifiedState_of_not_isNotify {t : Task} (h : (!t.isNotify) = true) :
    t.notifiedState = none := by
  cases t <;> simp [Task.isNotify, Task.notifiedState] at h ⊢

theorem pendingNotifications_eraseIdx_other {m : WifiBootstrapManager} {i : Nat}
    {p : PostedTask} (hp : m.posted[i]? = some p) (hn : p.task.notifiedState = none) :
    pendingNotifications { m with posted := m.posted.eraseIdx i } = pendingNotifications m := by
  have hi : i < m.posted.length := by
    rcases Nat.lt_or_ge i m.posted.length with h | h
    · exact h
    · rw [List.getElem?_eq_none h] at hp
      exact absurd hp (by simp)
  have hget : m.posted[i] = p := by
    rw [List.getElem?_eq_getElem hi] at hp
    exact Option.some.inj hp
  have hsplit : m.posted = m.posted.take i ++ p :: m.posted.drop (i + 1) := by
    rw [← hget]
    exact (List.take_append_drop i m.posted).symm.trans (by rw [List.drop_eq_getElem_cons hi])
  simp only [pendingNotifications]
  rw [List.eraseIdx_eq_take_drop_succ]
  conv_rhs => rw [hsplit]
  simp [List.filterMap_append, List.filterMap_cons, hn]

theorem pendingNotifications_eraseIdx_first {m : WifiBootstrapManager} {i : Nat}
    {p : PostedTask} {s : State} (hp : m.posted[i]? = some p)
    (hn : p.task = Task.NotifyStateListeners s)
    (hfirst : (m.posted.take i).all (fun q => !q.task.isNotify) = true) :
    pendingNotifications m =
      s :: pendingNotifications { m with posted := m.posted.eraseIdx i } := by
  have hi : i < m.posted.length := by
    rcases Nat.lt_or_ge i m.posted.length with h | h
    · exact h
    · rw [List.getElem?_eq_none h] at hp
      exact absurd hp (by simp)
  have hget : m.posted[i] = p := by
    rw [List.getElem?_eq_getElem hi] at hp
    exact Option.some.inj hp
  have hsplit : m.posted = m.posted.take i ++ p :: m.posted.drop (i + 1) := by
    rw [← hget]
    exact (List.take_append_drop i m.posted).symm.trans (by rw [List.drop_eq_getElem_cons hi])
  have hnone : (m.posted.take i).filterMap (fun q => q.task.notifiedState) = [] := by
    rw [List.filterMap_eq_nil_iff]
    intro q hq
    exact notifiedState_of_not_isNotify (List.all_eq_true.mp hfirst q hq)
  simp only [pendingNotifications]
  rw [List.eraseIdx_eq_take_drop_succ]
  conv_lhs => rw [hsplit]
  have hsome : p.task.notifiedState = some s := by rw [hn]; rfl
  simp only [List.filterMap_append, List.filterMap_cons, hnone, hsome, List.nil_append]

theorem ledger_of_queuesTransition (m : WifiBootstrapManager) {m1 m' : WifiBootstrapManager}
    (listener : Nat)
    (h : QueuesTransition m1 m') (hs : m1.state_ = m.state_)
    (hc : m1.listener_calls = m.listener_calls)
    (hl : m1.state_listeners_ = m.state_listeners_)
    (hp : pendingNotifications m1 = pendingNotifications m) :
    m'.state_listeners_ = m.state_listeners_ ∧
    delivered listener m' ++ pendingNotifications m' =
      delivered listener m ++ pendingNotifications m ++
        (if m'.state_ ≠ m.state_ then [m'.state_] else []) := by
  obtain ⟨h1, h2, h3⟩ := h
  refine ⟨h2.trans hl, ?_⟩
  rw [h3, hp, hs]
  simp only [delivered, h1, hc, List.append_assoc]

theorem ledger_refl (listener : Nat) (m : WifiBootstrapManager) :
    delivered listener m ++ pendingNotifications m =
      delivered listener m ++ pendingNotifications m ++
        (if m.state_ ≠ m.state_ then [m.state_] else []) := by
  simp

/-- One event, seen from a listener that is registered exactly once: the calls
it has received followed by the queued notifications grow by exactly the
state entered, if the event changed the state, and by nothing otherwise. -/
theorem step_ledger {env : Env} {ev : Event} {m m' : WifiBootstrapManager} {listener : Nat}
    (hwf : WellFormed m) (hcount : m.state_listeners_.count listener = 1)
    (hev : ev ≠ Event.RegisterStateListener listener)
    (hord : ev.keepsNotifyOrder m = true) (hstep : step env ev m = some m') :
    m'.state_listeners_.count listener = 1 ∧
    delivered listener m' ++ pendingNotifications m' =
      delivered listener m ++ pendingNotifications m ++
        (if m'.state_ ≠ m.state_ then [m'.state_] else []) := by
  cases ev with
  | OnConnectivityChange c =>
      simp only [step, Option.some.injEq] at hstep
      subst hstep
      unfold OnConnectivityChange
      simp only []
      split
      · have h := ledger_of_queuesTransition m listener
          (StartMonitoring_queuesTransition env (UpdateConnectionState env m))
          (by rw [UpdateConnectionState_eq]) (by rw [UpdateConnectionState_eq])
          (by rw [UpdateConnectionState_eq])
          (by rw [UpdateConnectionState_eq]; rfl)
        exact ⟨by rw [h.1]; exact hcount, h.2⟩
      · rw [UpdateConnectionState_eq]
        exact ⟨hcount, ledger_refl listener m⟩
  | ConfigureCredentials s p =>
      simp only [step, Option.some.injEq] at hstep
      subst hstep
      refine ⟨hcount, ?_⟩
      simp [ConfigureCredentials, PostDelayedTask, delivered, pendingNotifications,
        List.filterMap_append, Task.notifiedState]
  | RegisterStateListener l =>
      simp only [step, Option.some.injEq] at hstep
      subst hstep
      have hne : l ≠ listener := fun h => hev (by rw [h])
      constructor
      · simp only [RegisterStateListener, List.count_append, hcount]
        simp [List.count_cons, hne]
      · simp [RegisterStateListener, delivered, pendingNotifications, List.filter_append, hne]
  | RunTask i =>
      simp only [step] at hstep
      split at hstep
      · exact absurd hstep (by simp)
      · rename_i p hpi
        simp only [Event.keepsNotifyOrder, hpi] at hord
        have hpwf := hwf.1 p (List.getElem?_mem hpi)
        unfold PostedTask.wellFormedAt at hpwf
        split at hstep
        · split at hstep
          · cases htask : p.task with
            | NotifyStateListeners s =>
                rw [htask] at hstep
                simp only [runBound, Option.some.injEq] at hstep
                subst hstep
                have hfirst : (m.posted.take i).all (fun q => !q.task.isNotify) = true := by
                  simpa [htask, Task.isNotify] using hord
                refine ⟨hcount, ?_⟩
                rw [pendingNotifications_eraseIdx_first hpi htask hfirst]
                simp only [NotifyStateListeners, delivered, ne_eq, not_true_eq_false, if_false,
                  List.append_nil]
                rw [delivered_notify, hcount]
                simp [pendingNotifications]
            | OnBootstrapTimeout =>
                rw [htask] at hstep
                simp only [runBound, OnBootstrapTimeout, Option.some.injEq] at hstep
                subst hstep
                have h := ledger_of_queuesTransition m listener
                  (StartMonitoring_queuesTransition env { m with posted := m.posted.eraseIdx i })
                  rfl rfl rfl
                  (pendingNotifications_eraseIdx_other hpi (by rw [htask]; rfl))
                exact ⟨by rw [h.1]; exact hcount, h.2⟩
            | OnConnectTimeout =>
                rw [htask] at hstep
                simp only [runBound, OnConnectTimeout] at hstep
                have h := ledger_of_queuesTransition m listener
                  (StartBootstrapping_queuesTransition hstep) rfl rfl rfl
                  (pendingNotifications_eraseIdx_other hpi (by rw [htask]; rfl))
                exact ⟨by rw [h.1]; exact hcount, h.2⟩
            | OnMonitorTimeout =>
                rw [htask] at hstep
                simp only [runBound, OnMonitorTimeout] at hstep
                have h := ledger_of_queuesTransition m listener
                  (StartBootstrapping_queuesTransition hstep) rfl rfl rfl
                  (pendingNotifications_eraseIdx_other hpi (by rw [htask]; rfl))
                exact ⟨by rw [h.1]; exact hcount, h.2⟩
            | StartConnecting s pw =>
                rw [htask] at hstep
                simp only [runBound, Option.some.injEq] at hstep
                subst hstep
                have h := ledger_of_queuesTransition m listener
                  (StartConnecting_queuesTransition env s pw
                    { m with posted := m.posted.eraseIdx i })
                  rfl rfl rfl
                  (pendingNotifications_eraseIdx_other hpi (by rw [htask]; rfl))
                exact ⟨by rw [h.1]; exact hcount, h.2⟩
          · rename_i hlive
            simp only [Option.some.injEq] at hstep
            subst hstep
            have hnot : p.task.notifiedState = none := by
              cases htok : p.token with
              | lifetime => simp [htok, WeakToken.live] at hlive
              | tasks g =>
                  rw [htok] at hpwf
                  simp only [Bool.and_eq_true] at hpwf
                  exact notifiedState_of_not_isNotify hpwf.1
            refine ⟨hcount, ?_⟩
            rw [pendingNotifications_eraseIdx_other hpi hnot]
            simp [delivered]
        · exact absurd hstep (by simp)
  | ConnectSuccess i =>
      simp only [step] at hstep
      split at hstep
      · split at hstep
        · simp only [Option.some.injEq, OnConnectSuccess] at hstep
          subst hstep
          rename_i ssid pw gen hc hg
          have h := ledger_of_queuesTransition m listener
            (StartMonitoring_queuesTransition env
              { m with last_configured_ssid_ := ssid, setup_state_ := SetupState.kSuccess })
            rfl rfl rfl rfl
          exact ⟨by rw [h.1]; exact hcount, h.2⟩
        · simp only [Option.some.injEq] at hstep
          subst hstep
          exact ⟨hcount, ledger_refl listener m⟩
      · exact absurd hstep (by simp)

theorem run_ledger (listener : Nat) (evs : List (Env × Event)) :
    ∀ (m m' : WifiBootstrapManager), WellFormed m → m.state_listeners_.count listener = 1 →
      NoRegistrationOf listener evs → runsNotificationsInOrder evs m = true →
      run evs m = some m' →
      delivered listener m' ++ pendingNotifications m' =
        delivered listener m ++ pendingNotifications m ++ transitions evs m := by
  induction evs with
  | nil =>
      intro m m' _ _ _ _ hrun
      simp only [run, Option.some.injEq] at hrun
      subst hrun
      simp [transitions]
  | cons e rest ih =>
      intro m m' hwf hcount hreg hord hrun
      obtain ⟨env, ev⟩ := e
      simp only [run] at hrun
      cases hs : step env ev m with
      | none => simp [hs] at hrun
      | some m1 =>
          rw [hs] at hrun
          simp only [runsNotificationsInOrder, hs, Bool.and_eq_true] at hord
          have hev : ev ≠ Event.RegisterStateListener listener :=
            hreg (env, ev) (List.mem_cons_self _ _)
          have hrest : NoRegistrationOf listener rest :=
            fun e he => hreg e (List.mem_cons_of_mem _ he)
          obtain ⟨hc1, hl1⟩ := step_ledger hwf hcount hev hord.1 hs
          have h := ih m1 m' (step_wellFormed hwf hs) hc1 hrest hord.2 hrun
          rw [h, hl1]
          simp only [transitions, hs, List.append_assoc]

/-- C3 (as amended): a listener that registers at a point where no
notification task is queued is run once, at once, with the current state; and
under every later sequence of events in which the task runner keeps the
posting order of the notification tasks, the calls it has received, followed
by the notifications still queued, are exactly the current state at
registration and then the state of each later transition, in commit order.
So it gets one call per later transition, no duplicate, and no call for a
re-entry of the same state. -/
theorem C3_listener_registered_with_empty_queue_gets_each_transition_once
    (m m' : WifiBootstrapManager) (listener : Nat) (evs : List (Env × Event))
    (hwf : WellFormed m) (hqueue : pendingNotifications m = [])
    (hnew : listener ∉ m.state_listeners_) (hcalls : delivered listener m = [])
    (hreg : NoRegistrationOf listener evs)
    (hord : runsNotificationsInOrder evs (RegisterStateListener listener m) = true)
    (hrun : run evs (RegisterStateListener listener m) = some m') :
    delivered listener (RegisterStateListener listener m) = [m.state_] ∧
    delivered listener m' ++ pendingNotifications m' =
      m.state_ :: transitions evs (RegisterStateListener listener m) := by
  have hd : delivered listener (RegisterStateListener listener m) = [m.state_] := by
    simp only [delivered, RegisterStateListener, List.filter_append, List.map_append] at hcalls ⊢
    rw [hcalls]
    simp
  have hcount : (RegisterStateListener listener m).state_listeners_.count listener = 1 := by
    simp [RegisterStateListener, List.count_append, List.count_eq_zero_of_not_mem hnew]
  have hp : pendingNotifications (RegisterStateListener listener m) = [] := hqueue
  have h := run_ledger listener evs (RegisterStateListener listener m) m' hwf hcount hreg hord hrun
  rw [hd, hp] at h
  exact ⟨hd, by simpa using h⟩

/-- Witness for C3: listener 7 registers on a Bootstrapping device with an empty
queue and then sees Connecting and Monitoring, once each. -/
theorem C3_listener_registered_with_empty_queue_gets_each_transition_once_witness :
    WellFormed listenerDevice ∧ pendingNotifications listenerDevice = [] ∧
    run listenerEvents (RegisterStateListener 7 listenerDevice) = some listenerDeviceAfter ∧
    delivered 7 listenerDeviceAfter =
      [State.kBootstrapping, State.kConnecting, State.kMonitoring] ∧
    (delivered 7 (RegisterStateListener 7 listenerDevice) = [listenerDevice.state_] ∧
      delivered 7 listenerDeviceAfter ++ pendingNotifications listenerDeviceAfter =
        listenerDevice.state_ ::
          transitions listenerEvents (RegisterStateListener 7 listenerDevice)) :=
  ⟨by decide, by decide, by decide, by decide,
    C3_listener_registered_with_empty_queue_gets_each_transition_once listenerDevice
      listenerDeviceAfter 7 listenerEvents (by decide) (by decide) (by decide) (by decide)
      (by decide) (by decide) (by decide)⟩

/-! ## C4: the access-point cycle while offline -/

/-- Once the task is due, `step` runs a queued task exactly as the test bed
does. -/
theorem step_runTask_eq_runQueued (env : Env) (i : Nat) (m : WifiBootstrapManager)
    (p : PostedTask) (hp : m.posted[i]? = some p) (hdue : p.due ≤ (env.now : Int)) :
    step env (Event.RunTask i) m = runQueued env i m := by
  simp [step, runQueued, hp, hdue]

theorem StartBootstrapping_monitor_until {env : Env} {m m' : WifiBootstrapManager}
    (h : StartBootstrapping env m = some m') :
    (env.net = NetworkState.kConnected ∧ m'.monitor_until_ = 0 ∧
        m'.state_ = State.kMonitoring) ∨
      (env.net ≠ NetworkState.kConnected ∧ m'.monitor_until_ = m.monitor_until_) := by
  rcases StartBootstrapping_cases h with ⟨hc, rfl⟩ | ⟨hc, _, rfl⟩
  · exact Or.inl ⟨hc, by simp [nextDeadline, hc], by simp⟩
  · exact Or.inr ⟨hc, by simp⟩

/-- A Monitoring entry clears the deadline when the provider is connected and
otherwise keeps a deadline that is set. -/
theorem StartMonitoring_deadline (env : Env) (m : WifiBootstrapManager)
    (hset : m.monitor_until_ ≠ 0) :
    (env.net = NetworkState.kConnected ∧ (StartMonitoring env m).monitor_until_ = 0) ∨
      (env.net ≠ NetworkState.kConnected ∧
        (StartMonitoring env m).monitor_until_ = m.monitor_until_) := by
  by_cases hc : env.net = NetworkState.kConnected
  · exact Or.inl ⟨hc, by simp [nextDeadline, hc]⟩
  · exact Or.inr ⟨hc, by simp [nextDeadline, hc, hset]⟩

theorem runBound_deadline {env : Env} {t : Task} {m m' : WifiBootstrapManager}
    (hset : m.monitor_until_ ≠ 0) (hr : runBound env t m = some m') :
    m'.monitor_until_ = m.monitor_until_ ∨
      (env.net = NetworkState.kConnected ∧ m'.monitor_until_ = 0 ∧
        m'.state_ = State.kMonitoring) := by
  cases t with
  | OnBootstrapTimeout =>
      simp only [runBound, OnBootstrapTimeout, Option.some.injEq] at hr
      subst hr
      rcases StartMonitoring_deadline env m hset with ⟨hc, h⟩ | ⟨_, h⟩
      · exact Or.inr ⟨hc, h, by simp⟩
      · exact Or.inl h
  | OnConnectTimeout =>
      simp only [runBound, OnConnectTimeout] at hr
      rcases StartBootstrapping_monitor_until hr with h | ⟨_, h⟩
      · exact Or.inr h
      · exact Or.inl h
  | OnMonitorTimeout =>
      simp only [runBound, OnMonitorTimeout] at hr
      rcases StartBootstrapping_monitor_until hr with h | ⟨_, h⟩
      · exact Or.inr h
      · exact Or.inl h
  | StartConnecting s p =>
      simp only [runBound, Option.some.injEq] at hr
      subst hr
      exact Or.inl (by simp [StartConnecting_eq])
  | NotifyStateListeners s =>
      simp only [runBound, Option.some.injEq] at hr
      subst hr
      exact Or.inl rfl

/-- One event on an object whose deadline is set: the deadline stays as it is,
or a Monitoring entry that sees the provider connected clears it. -/
theorem step_deadline {env : Env} {ev : Event} {m m' : WifiBootstrapManager}
    (hset : m.monitor_until_ ≠ 0) (hstep : step env ev m = some m') :
    m'.monitor_until_ = m.monitor_until_ ∨
      (env.net = NetworkState.kConnected ∧ m'.monitor_until_ = 0 ∧
        m'.state_ = State.kMonitoring) := by
  cases ev with
  | OnConnectivityChange c =>
      simp only [step, Option.some.injEq] at hstep
      subst hstep
      unfold OnConnectivityChange
      simp only []
      have hu : (UpdateConnectionState env m).monitor_until_ = m.monitor_until_ := by
        rw [UpdateConnectionState_eq]
      split
      · rcases StartMonitoring_deadline env (UpdateConnectionState env m) (by rw [hu]; exact hset)
          with ⟨hc, h⟩ | ⟨_, h⟩
        · exact Or.inr ⟨hc, h, by simp⟩
        · exact Or.inl (h.trans hu)
      · exact Or.inl hu
  | ConfigureCredentials s p =>
      simp only [step, Option.some.injEq] at hstep
      subst hstep
      exact Or.inl rfl
  | RegisterStateListener l =>
      simp only [step, Option.some.injEq] at hstep
      subst hstep
      exact Or.inl rfl
  | RunTask i =>
      simp only [step] at hstep
      split at hstep
      · exact absurd hstep (by simp)
      · split at hstep
        · split at hstep
          · have h := @runBound_deadline env _ { m with posted := m.posted.eraseIdx i } m'
              hset hstep
            exact h
          · simp only [Option.some.injEq] at hstep
            subst hstep
            exact Or.inl rfl
        · exact absurd hstep (by simp)
  | ConnectSuccess i =>
      simp only [step] at hstep
      split at hstep
      · split at hstep
        · simp only [Option.some.injEq, OnConnectSuccess] at hstep
          subst hstep
          rename_i ssid pw gen hc hg
          rcases StartMonitoring_deadline env
              { m with last_configured_ssid_ := ssid, setup_state_ := SetupState.kSuccess } hset
            with ⟨hc, h⟩ | ⟨_, h⟩
          · exact Or.inr ⟨hc, h, by simp⟩
          · exact Or.inl h
        · simp only [Option.some.injEq] at hstep
          subst hstep
          exact Or.inl rfl
      · exact absurd hstep (by simp)

theorem run_deadline (evs : List (Env × Event)) :
    ∀ (m m' : WifiBootstrapManager), m.monitor_until_ ≠ 0 → run evs m = some m' →
      m'.monitor_until_ = m.monitor_until_ ∨
        ∃ (pre post : List (Env × Event)) (env : Env) (ev : Event)
          (m1 m2 : WifiBootstrapManager),
          evs = pre ++ (env, ev) :: post ∧ run pre m = some m1 ∧
          m1.monitor_until_ = m.monitor_until_ ∧ step env ev m1 = some m2 ∧
          env.net = NetworkState.kConnected ∧ m2.monitor_until_ = 0 ∧
          m2.state_ = State.kMonitoring := by
  induction evs with
  | nil =>
      intro m m' _ hrun
      simp only [run, Option.some.injEq] at hrun
      subst hrun
      exact Or.inl rfl
  | cons e rest ih =>
      intro m m' hset hrun
      obtain ⟨env, ev⟩ := e
      simp only [run] at hrun
      cases hs : step env ev m with
      | none => simp [hs] at hrun
      | some m1 =>
          rw [hs] at hrun
          rcases step_deadline hset hs with hkeep | ⟨hc, hz, hst⟩
          · rcases ih m1 m' (by rw [hkeep]; exact hset) hrun with h | h
            · exact Or.inl (h.trans hkeep)
            · obtain ⟨pre, post, env1, ev1, ma, mb, heq, hpre, hmu, hstep, hc, hz, hst⟩ := h
              refine Or.inr ⟨(env, ev) :: pre, post, env1, ev1, ma, mb, ?_, ?_, ?_, hstep, hc,
                hz, hst⟩
              · rw [heq]; rfl
              · simp only [run, hs]; exact hpre
              · exact hmu.trans hkeep
          · exact Or.inr ⟨[], rest, env, ev, m, m1, rfl, rfl, rfl, hs, hc, hz, hst⟩

theorem run_deadline_offline (evs : List (Env × Event)) :
    ∀ (m m' : WifiBootstrapManager), m.monitor_until_ ≠ 0 → run evs m = some m' →
      (∀ e ∈ evs, e.1.net ≠ NetworkState.kConnected) →
      m'.monitor_until_ = m.monitor_until_ := by
  intro m m' hset hrun hoff
  rcases run_deadline evs m m' hset hrun with h | h
  · exact h
  · obtain ⟨pre, post, env, ev, _, _, heq, _, _, _, hc, _, _⟩ := h
    exact absurd hc (hoff (env, ev) (by rw [heq]; simp))

/-- C5: once the offline deadline is set, a re-entry of Monitoring that finds
the provider not connected leaves it exactly as it is; over any sequence of
events it keeps its value as long as the provider is never seen connected;
and if it does change, the first change is a Monitoring entry that sees the
provider connected and clears it.  A Monitoring entry that finds no deadline
and the provider not connected sets it to now + 2 minutes. -/
theorem C5_offline_deadline_is_never_extended (m m' : WifiBootstrapManager)
    (evs : List (Env × Event)) (hset : m.monitor_until_.is_null = false)
    (hrun : run evs m = some m') :
    (∀ env : Env, env.net ≠ NetworkState.kConnected →
      (StartMonitoring env m).monitor_until_ = m.monitor_until_) ∧
    (∀ (env : Env) (m0 : WifiBootstrapManager), env.net ≠ NetworkState.kConnected →
      m0.monitor_until_.is_null = true →
      ((StartMonitoring env m0).monitor_until_ : Int) = (env.now : Int) + FromMinutes 2 ∧
      (StartMonitoring env m0).monitor_until_.is_null = false) ∧
    ((∀ e ∈ evs, e.1.net ≠ NetworkState.kConnected) →
      m'.monitor_until_ = m.monitor_until_) ∧
    (m'.monitor_until_ = m.monitor_until_ ∨
      ∃ (pre post : List (Env × Event)) (env : Env) (ev : Event)
        (m1 m2 : WifiBootstrapManager),
        evs = pre ++ (env, ev) :: post ∧ run pre m = some m1 ∧
        m1.monitor_until_ = m.monitor_until_ ∧ step env ev m1 = some m2 ∧
        env.net = NetworkState.kConnected ∧ m2.monitor_until_.is_null = true ∧
        m2.state_ = State.kMonitoring) := by
  have hset' : m.monitor_until_ ≠ 0 := by simpa [Time.is_null] using hset
  refine ⟨?_, ?_, ?_, ?_⟩
  · intro env hc
    simp [nextDeadline, hc, hset']
  · intro env m0 hc hnull
    have h0 : m0.monitor_until_ = 0 := by simpa [Time.is_null] using hnull
    simp [nextDeadline, hc, h0, FromMinutes, Time.is_null]
  · exact run_deadline_offline evs m m' hset' hrun
  · rcases run_deadline evs m m' hset' hrun with h | h
    · exact Or.inl h
    · obtain ⟨pre, post, env, ev, m1, m2, heq, hpre, hmu, hstep, hc, hz, hst⟩ := h
      exact Or.inr ⟨pre, post, env, ev, m1, m2, heq, hpre, hmu, hstep, hc,
        by simp [Time.is_null, hz], hst⟩

/-- Witness for C5: the deadline of minute 2 survives a second offline
notification and the entry into Bootstrapping. -/
theorem C5_offline_deadline_is_never_extended_witness :
    offlineWithPrevSsid.manager.monitor_until_ = 120000000 ∧
    run stillOfflineEvents offlineWithPrevSsid.manager = some stillOfflineDevice ∧
    stillOfflineDevice.state_ = State.kBootstrapping ∧
    stillOfflineDevice.monitor_until_ = offlineWithPrevSsid.manager.monitor_until_ :=
  ⟨by decide, by decide, by decide,
    (C5_offline_deadline_is_never_extended offlineWithPrevSsid.manager stillOfflineDevice
      stillOfflineEvents (by decide) (by decide)).2.2.1 (by decide)⟩

/-! ## C6: the cached connection state is the projection -/

theorem UpdateConnectionState_projection (env : Env) (m : WifiBootstrapManager) :
    (UpdateConnectionState env m).connection_state_.projection =
        some (projectionSpec m.last_configured_ssid_ env.net) ∧
    (projectionSpec m.last_configured_ssid_ env.net = Projection.Error →
      ∃ d, (UpdateConnectionState env m).connection_state_.diagnostic = some d ∧ d ≠ "") := by
  unfold UpdateConnectionState projectionSpec
  by_cases hs : m.last_configured_ssid_ = ""
  · simp [hs, ConnectionState.projection]
  · cases hn : env.net with
    | kOffline => simp [hs, ConnectionState.projection]
    | kFailure =>
        simp only [hs, if_false, ConnectionState.projection, ConnectionState.diagnostic,
          Error.AddTo, true_and]
        intro _
        exact ⟨_, rfl, by decide⟩
    | kConnecting => simp [hs, ConnectionState.projection]
    | kConnected => simp [hs, ConnectionState.projection]
    | kUnknown id =>
        simp only [hs, if_false, ConnectionState.projection, ConnectionState.diagnostic,
          Error.AddTo, true_and]
        intro _
        refine ⟨_, rfl, ?_⟩
        intro h
        have hl := congrArg String.length h
        simp only [String.length_append] at hl
        have h0 : "Unknown network state: ".length = 23 := by decide
        have h1 : "".length = 0 := by decide
        omega

theorem Init_connection_state {env : Env} {m m' : WifiBootstrapManager}
    (h : Init env m = some m') :
    m'.connection_state_ = (UpdateConnectionState env m).connection_state_ ∧
      m'.last_configured_ssid_ = m.last_configured_ssid_ := by
  have hu : (UpdateConnectionState env m).last_configured_ssid_ = m.last_configured_ssid_ := by
    rw [UpdateConnectionState_eq]
  unfold Init at h
  simp only [callNetwork] at h
  split at h
  · rw [StartBootstrapping_connection_state h, StartBootstrapping_last_configured_ssid h]
    exact ⟨rfl, hu⟩
  · simp only [Option.some.injEq] at h
    subst h
    simp [hu]

/-- Init() returns unless the CHECK on the generated SSID fails. -/
theorem Init_returns (env : Env) (m : WifiBootstrapManager) (hgen : GenerateSsid env m ≠ "") :
    ∃ m', Init env m = some m' := by
  have ht : (callNetwork NetworkCall.AddOnConnectionChangedCallback
      (UpdateConnectionState env m)).test_privet_ssid_ = m.test_privet_ssid_ := by
    rw [UpdateConnectionState_eq]; rfl
  unfold Init
  simp only []
  split
  · by_cases hc : env.net = NetworkState.kConnected
    · exact ⟨_, StartBootstrapping_connected env _ hc⟩
    · refine ⟨_, StartBootstrapping_eq env _ hc ?_⟩
      simpa [GenerateSsid, ht] using hgen
  · exact ⟨_, rfl⟩

/-- C6: immediately after Init() and after every OnConnectivityChange the
cached connection state is the projection of the last-configured SSID and the
provider connectivity at that moment: Unconfigured for an empty SSID, else
Offline, Connecting or Online as the provider says, and Error with a
non-empty diagnostic for failure and for any other value.  Init() returns
whenever the generated SSID is not empty. -/
theorem C6_cached_connection_state_is_the_projection (env : Env) (m : WifiBootstrapManager)
    (is_connected : Bool) (hgen : GenerateSsid env m ≠ "") :
    (∃ m', Init env m = some m' ∧
      GetCurrentlyConnectedSsid m' = GetCurrentlyConnectedSsid m ∧
      (GetConnectionState m').projection =
        some (projectionSpec (GetCurrentlyConnectedSsid m') env.net) ∧
      (projectionSpec (GetCurrentlyConnectedSsid m') env.net = Projection.Error →
        ∃ d, (GetConnectionState m').diagnostic = some d ∧ d ≠ "")) ∧
    (GetCurrentlyConnectedSsid (OnConnectivityChange env is_connected m) =
        GetCurrentlyConnectedSsid m ∧
      (GetConnectionState (OnConnectivityChange env is_connected m)).projection =
        some (projectionSpec (GetCurrentlyConnectedSsid m) env.net) ∧
      (projectionSpec (GetCurrentlyConnectedSsid m) env.net = Projection.Error →
        ∃ d, (GetConnectionState (OnConnectivityChange env is_connected m)).diagnostic =
          some d ∧ d ≠ "")) := by
  obtain ⟨hproj, hdiag⟩ := UpdateConnectionState_projection env m
  have hu : (UpdateConnectionState env m).last_configured_ssid_ = m.last_configured_ssid_ := by
    rw [UpdateConnectionState_eq]
  constructor
  · obtain ⟨m', hm'⟩ := Init_returns env m hgen
    obtain ⟨hcs, hssid⟩ := Init_connection_state hm'
    refine ⟨m', hm', hssid, ?_, ?_⟩
    · simp only [GetConnectionState, GetCurrentlyConnectedSsid, hcs, hssid]
      exact hproj
    · simp only [GetConnectionState, GetCurrentlyConnectedSsid, hcs, hssid]
      exact hdiag
  · have hcs : (OnConnectivityChange env is_connected m).connection_state_ =
        (UpdateConnectionState env m).connection_state_ := by
      unfold OnConnectivityChange
      simp only []
      split
      · simp
      · rfl
    have hssid : (OnConnectivityChange env is_connected m).last_configured_ssid_ =
        m.last_configured_ssid_ := by
      unfold OnConnectivityChange
      simp only []
      split
      · simp [hu]
      · exact hu
    refine ⟨hssid, ?_, ?_⟩
    · simp only [GetConnectionState, GetCurrentlyConnectedSsid, hcs]
      exact hproj
    · simp only [GetConnectionState, GetCurrentlyConnectedSsid, hcs]
      exact hdiag

/-- Witness for C6: Init() with the stored SSID "home" and a failed provider
caches the WiFi error; a notification with a connecting provider caches
Connecting. -/
theorem C6_cached_connection_state_is_the_projection_witness :
    GenerateSsid (envAt NetworkState.kFailure 0) (WifiBootstrapManager.create "home" "" false)
      ≠ "" ∧
    (∃ m', Init (envAt NetworkState.kFailure 0) (WifiBootstrapManager.create "home" "" false)
        = some m' ∧
      GetConnectionState m' = ConnectionState.error
        (Error.AddTo "privetd" "invalidState" "Unknown WiFi error")) ∧
    (GetConnectionState (OnConnectivityChange (envAt NetworkState.kConnecting 5) false
        setupSucceeded)).projection = some Projection.Connecting := by
  have h := C6_cached_connection_state_is_the_projection (envAt NetworkState.kFailure 0)
    (WifiBootstrapManager.create "home" "" false) false (by decide)
  have h2 := C6_cached_connection_state_is_the_projection (envAt NetworkState.kConnecting 5)
    setupSucceeded false (by decide)
  refine ⟨by decide, ?_, ?_⟩
  · obtain ⟨m', hm', _, _, _⟩ := h.1
    refine ⟨m', hm', ?_⟩
    have hm2 : Init (envAt NetworkState.kFailure 0)
        (WifiBootstrapManager.create "home" "" false) = some
          ((Init (envAt NetworkState.kFailure 0)
            (WifiBootstrapManager.create "home" "" false)).getD
              (WifiBootstrapManager.create "home" "" false)) := by decide
    rw [hm2] at hm'
    rw [← Option.some.inj hm']
    decide
  · rw [h2.2.2.1]
    decide

/-! ## C7, C8, C9: what Init() does -/

/-- C7: on a fresh instance with an empty last-configured SSID and the
provider offline, Init() returns (the generated SSID being non-empty) and
leaves the state Bootstrapping, a non-empty broadcast SSID, exactly one
EnableAccessPoint call, made with that SSID, only the notification of
Bootstrapping in the task queue (no bootstrap timeout), and ConnectionState
Unconfigured. -/
theorem C7_init_fresh_offline_starts_bootstrapping (env : Env) (test_privet_ssid : String)
    (ble_setup_enabled : Bool) (hoff : env.net = NetworkState.kOffline)
    (hgen : GenerateSsid env (WifiBootstrapManager.create "" test_privet_ssid
      ble_setup_enabled) ≠ "") :
    ∃ m', Init env (WifiBootstrapManager.create "" test_privet_ssid ble_setup_enabled)
        = some m' ∧
      m'.state_ = State.kBootstrapping ∧
      GetHostedSsid m' ≠ "" ∧
      m'.network_calls = [NetworkCall.AddOnConnectionChangedCallback,
        NetworkCall.EnableAccessPoint (GetHostedSsid m')] ∧
      m'.posted = [notifyTask env State.kBootstrapping] ∧
      (∀ p ∈ m'.posted, p.task ≠ Task.OnBootstrapTimeout) ∧
      GetConnectionState m' = ConnectionState.kUnconfigured := by
  have hg : ¬ (if test_privet_ssid = "" then env.generated_ssid else test_privet_ssid) = "" := by
    simpa [GenerateSsid, WifiBootstrapManager.create] using hgen
  have hinit : Init env (WifiBootstrapManager.create "" test_privet_ssid ble_setup_enabled) =
      some { state_ := State.kBootstrapping
             setup_state_ := SetupState.kNone
             connection_state_ := ConnectionState.kUnconfigured
             last_configured_ssid_ := ""
             test_privet_ssid_ := test_privet_ssid
             ble_setup_enabled_ := ble_setup_enabled
             privet_ssid_ :=
               if test_privet_ssid = "" then env.generated_ssid else test_privet_ssid
             monitor_until_ := 0
             state_listeners_ := []
             tasks_gen := 1
             posted := [notifyTask env State.kBootstrapping]
             network_calls := [NetworkCall.AddOnConnectionChangedCallback,
               NetworkCall.EnableAccessPoint
                 (if test_privet_ssid = "" then env.generated_ssid else test_privet_ssid)]
             listener_calls := [] } := by
    simp [Init, WifiBootstrapManager.create, UpdateConnectionState, callNetwork,
      StartBootstrapping, hoff, UpdateState, PostDelayedTask, GenerateSsid, notifyTask, hg]
  exact ⟨_, hinit, rfl, hg, rfl, rfl, by simp [notifyTask], rfl⟩

/-- Witness for C7: the fresh device of the unit tests, offline at time 0. -/
theorem C7_init_fresh_offline_starts_bootstrapping_witness :
    GenerateSsid (envAt NetworkState.kOffline 0) (WifiBootstrapManager.create "" "" false)
      ≠ "" ∧
    ∃ m', Init (envAt NetworkState.kOffline 0) (WifiBootstrapManager.create "" "" false)
        = some m' ∧
      m'.state_ = State.kBootstrapping ∧
      GetHostedSsid m' ≠ "" ∧
      m'.network_calls = [NetworkCall.AddOnConnectionChangedCallback,
        NetworkCall.EnableAccessPoint (GetHostedSsid m')] ∧
      m'.posted = [notifyTask (envAt NetworkState.kOffline 0) State.kBootstrapping] ∧
      (∀ p ∈ m'.posted, p.task ≠ Task.OnBootstrapTimeout) ∧
      GetConnectionState m' = ConnectionState.kUnconfigured :=
  ⟨by decide, C7_init_fresh_offline_starts_bootstrapping (envAt NetworkState.kOffline 0) ""
    false rfl (by decide)⟩

theorem StartBootstrapping_redirected (env : Env) (m : WifiBootstrapManager)
    (hc : env.net = NetworkState.kConnected) :
    ∃ m', StartBootstrapping env m = some m' ∧ RedirectedToMonitoring m m' :=
  ⟨_, StartBootstrapping_connected env m hc, by simp,
    by simp only [StartMonitoring_network_calls, enableCalls, List.filterMap_append]
       split <;> simp,
    by simp, by simp [GetHostedSsid]⟩

/-- C8: whenever the Bootstrapping entry runs while the provider reports
connected (directly, from OnMonitorTimeout, from OnConnectTimeout or from
Init() of a fresh instance without a configured SSID), it returns with the
state Monitoring; it calls no EnableAccessPoint (the only call it may add is
the DisableAccessPoint of leaving Bootstrapping) and an empty broadcast SSID
stays empty.  Init() with no configured SSID and a connected provider ends in
Monitoring with the subscription as its only call on the provider. -/
theorem C8_bootstrapping_entry_redirects_when_connected (env : Env)
    (m : WifiBootstrapManager) (test_privet_ssid : String) (ble_setup_enabled : Bool)
    (hc : env.net = NetworkState.kConnected) :
    (∃ m', StartBootstrapping env m = some m' ∧ RedirectedToMonitoring m m') ∧
    (∃ m', OnMonitorTimeout env m = some m' ∧ RedirectedToMonitoring m m') ∧
    (∃ m', OnConnectTimeout env m = some m' ∧ RedirectedToMonitoring m m') ∧
    (∃ m', Init env (WifiBootstrapManager.create "" test_privet_ssid ble_setup_enabled)
        = some m' ∧
      m'.state_ = State.kMonitoring ∧
      m'.network_calls = [NetworkCall.AddOnConnectionChangedCallback] ∧
      GetHostedSsid m' = "" ∧
      m'.posted = [notifyTask env State.kMonitoring]) := by
  refine ⟨StartBootstrapping_redirected env m hc, StartBootstrapping_redirected env m hc, ?_, ?_⟩
  · obtain ⟨m', hm', h1, h2, h3, h4⟩ := StartBootstrapping_redirected env
      { m with setup_state_ := connectFailed } hc
    exact ⟨m', hm', h1, h2, h3, h4⟩
  · have hinit : Init env (WifiBootstrapManager.create "" test_privet_ssid ble_setup_enabled) =
        some { state_ := State.kMonitoring
               setup_state_ := SetupState.kNone
               connection_state_ := ConnectionState.kUnconfigured
               last_configured_ssid_ := ""
               test_privet_ssid_ := test_privet_ssid
               ble_setup_enabled_ := ble_setup_enabled
               privet_ssid_ := ""
               monitor_until_ := 0
               state_listeners_ := []
               tasks_gen := 1
               posted := [notifyTask env State.kMonitoring]
               network_calls := [NetworkCall.AddOnConnectionChangedCallback]
               listener_calls := [] } := by
      simp [Init, WifiBootstrapManager.create, UpdateConnectionState, callNetwork,
        StartBootstrapping, hc, StartMonitoring, UpdateState, PostDelayedTask, notifyTask]
    exact ⟨_, hinit, rfl, rfl, rfl, rfl⟩

/-- Witness for C8: a connect timeout and an Init() while the provider is
connected. -/
theorem C8_bootstrapping_entry_redirects_when_connected_witness :
    (envAt NetworkState.kConnected 181).net = NetworkState.kConnected ∧
    (∃ m', OnConnectTimeout (envAt NetworkState.kConnected 181) setupConnecting = some m' ∧
      RedirectedToMonitoring setupConnecting m') ∧
    (∃ m', Init (envAt NetworkState.kConnected 181) (WifiBootstrapManager.create "" "" false)
        = some m' ∧
      m'.state_ = State.kMonitoring ∧
      m'.network_calls = [NetworkCall.AddOnConnectionChangedCallback] ∧
      GetHostedSsid m' = "" ∧
      m'.posted = [notifyTask (envAt NetworkState.kConnected 181) State.kMonitoring]) :=
  ⟨rfl,
    (C8_bootstrapping_entry_redirects_when_connected (envAt NetworkState.kConnected 181)
      setupConnecting "" false rfl).2.2.1,
    (C8_bootstrapping_entry_redirects_when_connected (envAt NetworkState.kConnected 181)
      setupConnecting "" false rfl).2.2.2⟩

/-- C9: on a fresh instance with a non-empty last-configured SSID and the
provider connected, Init() returns and leaves the state Monitoring, with only
the notification of Monitoring in the task queue (Bootstrapping was never
entered and no monitor timeout is scheduled), the subscription as the only
call on the provider (no access point), ConnectionState Online and the
offline deadline null. -/
theorem C9_init_with_ssid_connected_starts_monitoring (env : Env)
    (last_configured_ssid test_privet_ssid : String) (ble_setup_enabled : Bool)
    (hssid : last_configured_ssid ≠ "") (hc : env.net = NetworkState.kConnected) :
    ∃ m', Init env (WifiBootstrapManager.create last_configured_ssid test_privet_ssid
        ble_setup_enabled) = some m' ∧
      m'.state_ = State.kMonitoring ∧
      GetConnectionState m' = ConnectionState.kOnline ∧
      m'.monitor_until_.is_null = true ∧
      m'.posted = [notifyTask env State.kMonitoring] ∧
      (∀ p ∈ m'.posted, p.task ≠ Task.OnMonitorTimeout) ∧
      m'.network_calls = [NetworkCall.AddOnConnectionChangedCallback] ∧
      GetHostedSsid m' = "" ∧
      GetCurrentlyConnectedSsid m' = last_configured_ssid := by
  have hinit : Init env (WifiBootstrapManager.create last_configured_ssid test_privet_ssid
      ble_setup_enabled) =
      some { state_ := State.kMonitoring
             setup_state_ := SetupState.kNone
             connection_state_ := ConnectionState.kOnline
             last_configured_ssid_ := last_configured_ssid
             test_privet_ssid_ := test_privet_ssid
             ble_setup_enabled_ := ble_setup_enabled
             privet_ssid_ := ""
             monitor_until_ := 0
             state_listeners_ := []
             tasks_gen := 1
             posted := [notifyTask env State.kMonitoring]
             network_calls := [NetworkCall.AddOnConnectionChangedCallback]
             listener_calls := [] } := by
    simp [Init, WifiBootstrapManager.create, UpdateConnectionState, callNetwork,
      hc, hssid, StartMonitoring, UpdateState, PostDelayedTask, notifyTask]
  exact ⟨_, hinit, rfl, rfl, rfl, rfl, by simp [notifyTask], rfl, rfl, rfl⟩

/-- Witness for C9: the stored SSID "home", the provider connected at time 0. -/
theorem C9_init_with_ssid_connected_starts_monitoring_witness :
    "home" ≠ "" ∧ (envAt NetworkState.kConnected 0).net = NetworkState.kConnected ∧
    ∃ m', Init (envAt NetworkState.kConnected 0) (WifiBootstrapManager.create "home" "" false)
        = some m' ∧
      m'.state_ = State.kMonitoring ∧
      GetConnectionState m' = ConnectionState.kOnline ∧
      m'.monitor_until_.is_null = true ∧
      m'.posted = [notifyTask (envAt NetworkState.kConnected 0) State.kMonitoring] ∧
      (∀ p ∈ m'.posted, p.task ≠ Task.OnMonitorTimeout) ∧
      m'.network_calls = [NetworkCall.AddOnConnectionChangedCallback] ∧
      GetHostedSsid m' = "" ∧
      GetCurrentlyConnectedSsid m' = "home" :=
  ⟨by decide, rfl, C9_init_with_ssid_connected_starts_monitoring
    (envAt NetworkState.kConnected 0) "home" "" false (by decide) rfl⟩

/-! ## C10: the monitor timeout fires two minutes after going offline -/

theorem wellFormedAt_idle_succ {gen : Nat} {deadline : Int} {p : PostedTask}
    (h : p.wellFormedAt gen = true) : p.idleAt (gen + 1) deadline = true := by
  unfold PostedTask.wellFormedAt at h
  unfold PostedTask.idleAt
  cases ht : p.token with
  | lifetime => rw [ht] at h; exact h
  | tasks g =>
      rw [ht] at h
      simp only [Bool.and_eq_true, Bool.or_eq_true, decide_eq_true_eq] at h ⊢
      exact ⟨h.1, Or.inl (by omega)⟩

/-- A Monitoring entry that finds no deadline and the provider not connected
sets the deadline to now + 2 minutes and leaves the device waiting for it. -/
theorem StartMonitoring_waiting (env : Env) {m : WifiBootstrapManager} (hwf : WellFormed m)
    (hnull : m.monitor_until_ = 0) (hoff : env.net ≠ NetworkState.kConnected) :
    ((StartMonitoring env m).monitor_until_ : Int) = (env.now : Int) + FromMinutes 2 ∧
      WaitingForDeadline ((env.now : Int) + FromMinutes 2) (StartMonitoring env m) := by
  have hd : (nextDeadline env m : Int) = (env.now : Int) + FromMinutes 2 := by
    simp [nextDeadline, hoff, hnull, FromMinutes]
  refine ⟨by simpa using hd, by simp, ?_, ?_⟩
  · intro p hmem
    simp only [StartMonitoring_posted, StartMonitoring_tasks_gen, List.mem_append] at hmem ⊢
    rcases hmem with (hmem | hmem) | hmem
    · exact wellFormedAt_idle_succ (hwf.1 p hmem)
    · split at hmem
      · simp only [List.mem_singleton] at hmem
        subst hmem
        rfl
      · simp at hmem
    · simp only [hoff, if_false, List.mem_singleton] at hmem
      subst hmem
      simp only [PostedTask.idleAt, monitorTask, Task.isNotify, PostedTask.due, hd]
      simp
  · refine ⟨monitorTask env m, ?_, rfl, by simp [monitorTask], ?_⟩
    · simp [StartMonitoring_posted, hoff]
    · simp only [monitorTask, PostedTask.due, hd]
      omega

/-- Before the deadline, a task run leaves a waiting device waiting: it changes
neither the state nor the calls made on the provider. -/
theorem step_waiting {env : Env} {i : Nat} {m m' : WifiBootstrapManager} {deadline : Int}
    (hw : WaitingForDeadline deadline m) (hbefore : (env.now : Int) < deadline)
    (hstep : step env (Event.RunTask i) m = some m') :
    WaitingForDeadline deadline m' ∧ m'.network_calls = m.network_calls ∧
      m'.monitor_until_ = m.monitor_until_ := by
  obtain ⟨hs, hidle, q, hq, hqt, hqk, hqd⟩ := hw
  simp only [step] at hstep
  split at hstep
  · exact absurd hstep (by simp)
  · rename_i p hpi
    have hp := hidle p (List.getElem?_mem hpi)
    unfold PostedTask.idleAt at hp
    split at hstep
    · rename_i hdue
      split at hstep
      · rename_i hlive
        cases htok : p.token with
        | lifetime =>
            rw [htok] at hp
            cases htask : p.task with
            | NotifyStateListeners s =>
                rw [htask] at hstep
                simp only [runBound, Option.some.injEq] at hstep
                subst hstep
                refine ⟨⟨hs, fun r hr => hidle r (List.mem_of_mem_eraseIdx hr), q, ?_, hqt, hqk,
                  hqd⟩, rfl, rfl⟩
                refine mem_eraseIdx_of_ne hq hpi ?_
                intro h
                rw [h, htask] at hqt
                exact absurd hqt (by simp)
            | OnBootstrapTimeout => simp [htask, Task.isNotify] at hp
            | OnConnectTimeout => simp [htask, Task.isNotify] at hp
            | OnMonitorTimeout => simp [htask, Task.isNotify] at hp
            | StartConnecting s pw => simp [htask, Task.isNotify] at hp
        | tasks g =>
            rw [htok] at hp hlive
            simp only [WeakToken.live, beq_iff_eq] at hlive
            simp only [Bool.and_eq_true, Bool.or_eq_true, decide_eq_true_eq] at hp
            rcases hp.2 with h | h
            · omega
            · omega
      · rename_i hlive
        simp only [Option.some.injEq] at hstep
        subst hstep
        refine ⟨⟨hs, fun r hr => hidle r (List.mem_of_mem_eraseIdx hr), q, ?_, hqt, hqk, hqd⟩,
          rfl, rfl⟩
        refine mem_eraseIdx_of_ne hq hpi ?_
        intro h
        rw [h] at hqk
        rw [hqk] at hlive
        simp [WeakToken.live] at hlive
    · exact absurd hstep (by simp)

theorem run_waiting (evs : List (Env × Event)) :
    ∀ (m m' : WifiBootstrapManager) (deadline : Int), WaitingForDeadline deadline m →
      OnlyTaskRuns evs → (∀ e ∈ evs, (e.1.now : Int) < deadline) → run evs m = some m' →
      WaitingForDeadline deadline m' ∧ m'.network_calls = m.network_calls ∧
        m'.monitor_until_ = m.monitor_until_ := by
  induction evs with
  | nil =>
      intro m m' d hw _ _ hrun
      simp only [run, Option.some.injEq] at hrun
      subst hrun
      exact ⟨hw, rfl, rfl⟩
  | cons e rest ih =>
      intro m m' d hw honly hbefore hrun
      obtain ⟨env, ev⟩ := e
      simp only [run] at hrun
      cases hs : step env ev m with
      | none => simp [hs] at hrun
      | some m1 =>
          rw [hs] at hrun
          have hev := honly (env, ev) (List.mem_cons_self _ _)
          have hnow := hbefore (env, ev) (List.mem_cons_self _ _)
          cases ev with
          | RunTask i =>
              obtain ⟨hw1, hc1, hm1⟩ := step_waiting hw hnow hs
              obtain ⟨hw2, hc2, hm2⟩ := ih m1 m' d hw1
                (fun e he => honly e (List.mem_cons_of_mem _ he))
                (fun e he => hbefore e (List.mem_cons_of_mem _ he)) hrun
              exact ⟨hw2, hc2.trans hc1, hm2.trans hm1⟩
          | OnConnectivityChange c => simp [Event.isRunTask] at hev
          | ConfigureCredentials s p => simp [Event.isRunTask] at hev
          | RegisterStateListener l => simp [Event.isRunTask] at hev
          | ConnectSuccess j => simp [Event.isRunTask] at hev

/-- When the task runner runs the live monitor timeout of a waiting device
and the provider is still not connected, the device enters Bootstrapping and
enables the access point with a non-empty SSID. -/
theorem step_monitor_timeout_fires {env : Env} {i : Nat} {m : WifiBootstrapManager}
    {p : PostedTask} (hs : m.state_ = State.kMonitoring) (hpi : m.posted[i]? = some p)
    (hpt : p.task = Task.OnMonitorTimeout) (hpk : p.token = WeakToken.tasks m.tasks_gen)
    (hdue : p.due ≤ (env.now : Int)) (hoff : env.net ≠ NetworkState.kConnected)
    (hgen : GenerateSsid env m ≠ "") :
    ∃ m2, step env (Event.RunTask i) m = some m2 ∧ m2.state_ = State.kBootstrapping ∧
      GetHostedSsid m2 ≠ "" ∧
      m2.network_calls = m.network_calls ++ [NetworkCall.EnableAccessPoint (GetHostedSsid m2)] := by
  have hg : GenerateSsid env { m with posted := m.posted.eraseIdx i } ≠ "" := hgen
  have hstep : step env (Event.RunTask i) m =
      StartBootstrapping env { m with posted := m.posted.eraseIdx i } := by
    simp only [step, hpi, hdue, if_true, hpk, WeakToken.live, beq_self_eq_true, hpt, runBound,
      OnMonitorTimeout]
  rw [StartBootstrapping_eq env _ hoff hg] at hstep
  exact ⟨_, hstep, by simp, hg, by simp [GetHostedSsid, hs]⟩

theorem UpdateConnectionState_wellFormed {env : Env} {m : WifiBootstrapManager}
    (h : WellFormed m) : WellFormed (UpdateConnectionState env m) := by
  rw [UpdateConnectionState_eq]
  exact h

/-- C10: let the device see the provider not connected at time t0 while its
offline deadline is null, either in Monitoring at a connectivity
notification or in Init() with a stored SSID.  Then it is Monitoring with the
deadline t0 + 2 minutes and has called no EnableAccessPoint.  As long as the
task runner only runs queued tasks at times before t0 + 2 minutes, the state
stays Monitoring and no EnableAccessPoint call is made; the monitor timeout
stays queued, due at t0 + 2 minutes.  When the task runner runs it then, the
provider still not connected, the state becomes Bootstrapping and
EnableAccessPoint is called with a non-empty broadcast SSID. -/
theorem C10_bootstrapping_two_minutes_after_going_offline
    (m m1 : WifiBootstrapManager) (env0 : Env) (is_connected : Bool)
    (hwf : WellFormed m) (hnull : m.monitor_until_.is_null = true)
    (hoff : env0.net ≠ NetworkState.kConnected)
    (hentry : (m.state_ = State.kMonitoring ∧ m1 = OnConnectivityChange env0 is_connected m) ∨
      (m.last_configured_ssid_ ≠ "" ∧ Init env0 m = some m1)) :
    m1.state_ = State.kMonitoring ∧
    (m1.monitor_until_ : Int) = (env0.now : Int) + FromMinutes 2 ∧
    enableCalls m1.network_calls = enableCalls m.network_calls ∧
    ∀ (evs : List (Env × Event)) (m' : WifiBootstrapManager), OnlyTaskRuns evs →
      (∀ e ∈ evs, (e.1.now : Int) < (env0.now : Int) + FromMinutes 2) →
      run evs m1 = some m' →
      m'.state_ = State.kMonitoring ∧
      m'.network_calls = m1.network_calls ∧
      ∃ (i : Nat) (p : PostedTask), m'.posted[i]? = some p ∧
        p.task = Task.OnMonitorTimeout ∧ p.due = (env0.now : Int) + FromMinutes 2 ∧
        ∀ env2 : Env, (env0.now : Int) + FromMinutes 2 ≤ (env2.now : Int) →
          env2.net ≠ NetworkState.kConnected → GenerateSsid env2 m' ≠ "" →
          ∃ m2, step env2 (Event.RunTask i) m' = some m2 ∧
            m2.state_ = State.kBootstrapping ∧ GetHostedSsid m2 ≠ "" ∧
            m2.network_calls =
              m'.network_calls ++ [NetworkCall.EnableAccessPoint (GetHostedSsid m2)] := by
  have h0 : m.monitor_until_ = 0 := by simpa [Time.is_null] using hnull
  have hu : (UpdateConnectionState env0 m).monitor_until_ = 0 := by
    rw [UpdateConnectionState_eq]; exact h0
  -- the entry is a Monitoring entry on a well-formed object without a deadline
  have hstart : ∃ mx, WellFormed mx ∧ mx.monitor_until_ = 0 ∧ m1 = StartMonitoring env0 mx ∧
      enableCalls (StartMonitoring env0 mx).network_calls = enableCalls m.network_calls := by
    rcases hentry with ⟨hs, rfl⟩ | ⟨hssid, hinit⟩
    · refine ⟨UpdateConnectionState env0 m, UpdateConnectionState_wellFormed hwf, hu, ?_, ?_⟩
      · unfold OnConnectivityChange
        have hst : (UpdateConnectionState env0 m).state_ = State.kMonitoring := by
          rw [UpdateConnectionState_eq]; exact hs
        simp [hst]
      · rw [StartMonitoring_network_calls]
        rw [UpdateConnectionState_eq]
        simp [hs, enableCalls]
    · have hwf1 : WellFormed (callNetwork NetworkCall.AddOnConnectionChangedCallback
          (UpdateConnectionState env0 m)) := by
        rw [UpdateConnectionState_eq]
        refine ⟨hwf.1, ?_⟩
        intro c hmem
        simp only [callNetwork, List.mem_append, List.mem_singleton] at hmem
        rcases hmem with hmem | hmem
        · exact hwf.2 c hmem
        · subst hmem
          rfl
      refine ⟨_, hwf1, hu, ?_, ?_⟩
      · have hl : (UpdateConnectionState env0 m).last_configured_ssid_ ≠ "" := by
          rw [UpdateConnectionState_eq]; exact hssid
        unfold Init at hinit
        simp only [callNetwork, hl, if_false, Option.some.injEq] at hinit
        exact hinit.symm
      · rw [StartMonitoring_network_calls]
        rw [UpdateConnectionState_eq]
        simp only [callNetwork, enableCalls, List.filterMap_append]
        split <;> simp
  obtain ⟨mx, hwfx, hmx, rfl, hcalls⟩ := hstart
  obtain ⟨hdl, hwait⟩ := StartMonitoring_waiting env0 hwfx hmx hoff
  refine ⟨by simp, hdl, hcalls, ?_⟩
  intro evs m' honly hbefore hrun
  obtain ⟨⟨hs', hidle', q, hq, hqt, hqk, hqd⟩, hc', _⟩ :=
    run_waiting evs _ m' _ hwait honly hbefore hrun
  obtain ⟨i, hi⟩ := List.mem_iff_getElem?.mp hq
  refine ⟨hs', hc', i, q, hi, hqt, hqd, ?_⟩
  intro env2 hnow hoff2 hgen
  exact step_monitor_timeout_fires hs' hi hqt hqk (by rw [hqd]; exact hnow) hoff2 hgen

/-- Witness for C10: the device of the unit test StartOnlineNoPrevSsid goes
offline at second 10; the monitor timeout cannot run at second 129 and enters
Bootstrapping at second 130. -/
theorem C10_bootstrapping_two_minutes_after_going_offline_witness :
    WellFormed onlineNoPrevSsid ∧ onlineNoPrevSsid.monitor_until_.is_null = true ∧
    onlineNoPrevSsid.state_ = State.kMonitoring ∧
    (wentOffline.state_ = State.kMonitoring ∧
      (wentOffline.monitor_until_ : Int) =
        ((envAt NetworkState.kOffline 10).now : Int) + FromMinutes 2 ∧
      enableCalls wentOffline.network_calls = enableCalls onlineNoPrevSsid.network_calls) ∧
    wentOffline.monitor_until_ = 130000000 ∧
    (step (envAt NetworkState.kOffline 129) (Event.RunTask 1) wentOffline = none) ∧
    (step (envAt NetworkState.kOffline 130) (Event.RunTask 1) wentOffline).map
        (fun m2 => (m2.state_, m2.network_calls)) =
      some (State.kBootstrapping, [NetworkCall.AddOnConnectionChangedCallback,
        NetworkCall.EnableAccessPoint "DEVICE_NAME.prv"]) := by
  have h := C10_bootstrapping_two_minutes_after_going_offline onlineNoPrevSsid wentOffline
    (envAt NetworkState.kOffline 10) false (by decide) (by decide) (by decide)
    (Or.inl ⟨by decide, rfl⟩)
  exact ⟨by decide, by decide, by decide, ⟨h.1, h.2.1, h.2.2.1⟩, by decide, by decide,
    by decide⟩

/-! ## Reachable objects are well-formed -/

/-- Every object reached from the constructor by Init() and any sequence of
events is well-formed. -/
theorem wellFormed_of_reachable (last_configured_ssid test_privet_ssid : String)
    (ble_setup_enabled : Bool) (env0 : Env) (m0 m : WifiBootstrapManager)
    (evs : List (Env × Event))
    (hinit : Init env0 (WifiBootstrapManager.create last_configured_ssid test_privet_ssid
      ble_setup_enabled) = some m0)
    (hrun : run evs m0 = some m) : WellFormed m := by
  refine run_wellFormed evs m0 m (Init_wellFormed ?_ hinit) hrun
  constructor <;> intro x hx <;> simp [WifiBootstrapManager.create] at hx

/-! ## C15, C16, C17, C20: what single entry points change -/

/-- C15: for every object and every (ssid, passphrase), ConfigureCredentials
returns true, stores InProgress in SetupState, posts exactly one task
(StartConnecting with those credentials, delay 1 second, bound to the
per-state weak pointer) and changes nothing else: the lifecycle state,
ConnectionState, broadcast SSID, last-configured SSID, offline deadline,
listeners and the log of provider calls are as before. -/
theorem C15_configure_credentials_sets_in_progress_and_posts_one_task (env : Env)
    (ssid passphrase : String) (m : WifiBootstrapManager) :
    (ConfigureCredentials env ssid passphrase m).1 = true ∧
    (ConfigureCredentials env ssid passphrase m).2 =
      { m with
        setup_state_ := SetupState.kInProgress
        posted := m.posted ++
          [{ task := Task.StartConnecting ssid passphrase,
             token := WeakToken.tasks m.tasks_gen,
             delay := 1000000, posted_at := env.now }] } ∧
    GetSetupState (ConfigureCredentials env ssid passphrase m).2 = SetupState.kInProgress ∧
    (ConfigureCredentials env ssid passphrase m).2.state_ = m.state_ ∧
    GetConnectionState (ConfigureCredentials env ssid passphrase m).2 = GetConnectionState m ∧
    GetHostedSsid (ConfigureCredentials env ssid passphrase m).2 = GetHostedSsid m ∧
    GetCurrentlyConnectedSsid (ConfigureCredentials env ssid passphrase m).2 =
      GetCurrentlyConnectedSsid m ∧
    (ConfigureCredentials env ssid passphrase m).2.monitor_until_ = m.monitor_until_ ∧
    (ConfigureCredentials env ssid passphrase m).2.network_calls = m.network_calls ∧
    (ConfigureCredentials env ssid passphrase m).2.posted.length = m.posted.length + 1 := by
  refine ⟨rfl, ?_, rfl, rfl, rfl, rfl, rfl, rfl, rfl, ?_⟩
  · simp [ConfigureCredentials, PostDelayedTask, FromSeconds]
  · simp [ConfigureCredentials, PostDelayedTask]

/-- C16: RegisterStateListener(l) runs l exactly once, with the current
lifecycle state, and appends l at the end of the registry; the listeners
registered before keep their places, and no other field changes. -/
theorem C16_register_state_listener_notifies_once_and_appends (listener : Nat)
    (m : WifiBootstrapManager) :
    RegisterStateListener listener m =
      { m with
        listener_calls := m.listener_calls ++ [(listener, m.state_)]
        state_listeners_ := m.state_listeners_ ++ [listener] } ∧
    (RegisterStateListener listener m).listener_calls.drop m.listener_calls.length =
      [(listener, m.state_)] ∧
    (RegisterStateListener listener m).listener_calls.take m.listener_calls.length =
      m.listener_calls ∧
    (RegisterStateListener listener m).state_listeners_.take m.state_listeners_.length =
      m.state_listeners_ ∧
    (RegisterStateListener listener m).state_listeners_.getLast? = some listener ∧
    (RegisterStateListener listener m).state_listeners_.length =
      m.state_listeners_.length + 1 ∧
    (RegisterStateListener listener m).state_ = m.state_ ∧
    (RegisterStateListener listener m).posted = m.posted ∧
    (RegisterStateListener listener m).network_calls = m.network_calls := by
  refine ⟨rfl, ?_, ?_, ?_, ?_, ?_, rfl, rfl, rfl⟩ <;> simp [RegisterStateListener]

/-- C17: for every old state and every new_state, UpdateState(new_state)
invalidates the per-state weak pointers and runs the exit action of the old
state (leaving Bootstrapping disables the access point and clears the
broadcast SSID; the other exit actions do nothing); the state afterwards is
new_state; and the task queue grows by exactly one zero-delay notification
task carrying new_state, bound to the lifetime weak pointer, if new_state
differs from the old state, and by nothing if it equals it. -/
theorem C17_update_state_posts_one_notification_iff_state_differs (env : Env)
    (new_state : State) (m : WifiBootstrapManager) :
    (UpdateState env new_state m).state_ = new_state ∧
    (UpdateState env new_state m).tasks_gen = m.tasks_gen + 1 ∧
    (UpdateState env new_state m).posted = m.posted ++
      (if new_state ≠ m.state_ then
        [{ task := Task.NotifyStateListeners new_state, token := WeakToken.lifetime,
           delay := 0, posted_at := env.now }]
       else []) ∧
    pendingNotifications (UpdateState env new_state m) = pendingNotifications m ++
      (if new_state ≠ m.state_ then [new_state] else []) ∧
    (UpdateState env new_state m).network_calls = m.network_calls ++
      (if m.state_ = State.kBootstrapping then [NetworkCall.DisableAccessPoint] else []) ∧
    GetHostedSsid (UpdateState env new_state m) =
      (if m.state_ = State.kBootstrapping then "" else GetHostedSsid m) ∧
    (UpdateState env new_state m).listener_calls = m.listener_calls := by
  refine ⟨by simp, by simp, by simp [notifyTask], ?_, by simp, by simp [GetHostedSsid], by simp⟩
  have h := (UpdateState_queuesTransition env new_state m).2.2
  simpa using h

/-- C20: OnConnectivityChange(is_connected) recomputes ConnectionState and
then re-runs the Monitoring entry action exactly when the lifecycle state is
Monitoring, or is Disabled with is_connected true; in every other case the
recomputed ConnectionState is its only change, so the lifecycle state, the
queued timers, the per-state weak pointers, the offline deadline, the
broadcast SSID and SetupState are as before.  When the state is Monitoring
already, the re-entry queues no listener notification. -/
theorem C20_connectivity_change_reenters_monitoring_only_when_monitoring_or_disabled_connected
    (env : Env) (is_connected : Bool) (m : WifiBootstrapManager) :
    OnConnectivityChange env is_connected m =
      (if m.state_ = State.kMonitoring ∨ (m.state_ = State.kDisabled ∧ is_connected = true) then
        StartMonitoring env
          { m with connection_state_ := (UpdateConnectionState env m).connection_state_ }
       else { m with connection_state_ := (UpdateConnectionState env m).connection_state_ }) ∧
    (OnConnectivityChange env is_connected m).tasks_gen =
      (if m.state_ = State.kMonitoring ∨ (m.state_ = State.kDisabled ∧ is_connected = true) then
        m.tasks_gen + 1 else m.tasks_gen) ∧
    pendingNotifications (OnConnectivityChange env is_connected m) =
      pendingNotifications m ++
        (if m.state_ = State.kDisabled ∧ is_connected = true then [State.kMonitoring] else []) := by
  have hu := UpdateConnectionState_eq env m
  have hst : (UpdateConnectionState env m).state_ = m.state_ := by rw [hu]
  have hoc : OnConnectivityChange env is_connected m =
      (if m.state_ = State.kMonitoring ∨ (m.state_ = State.kDisabled ∧ is_connected = true) then
        StartMonitoring env
          { m with connection_state_ := (UpdateConnectionState env m).connection_state_ }
       else { m with connection_state_ := (UpdateConnectionState env m).connection_state_ }) := by
    unfold OnConnectivityChange
    simp only [hst]
    rw [← hu]
  refine ⟨hoc, ?_, ?_⟩
  · rw [hoc]
    split <;> simp
  · rw [hoc]
    by_cases h1 : m.state_ = State.kMonitoring
    · have h2 : ¬ (m.state_ = State.kDisabled ∧ is_connected = true) := by simp [h1]
      simp only [h1, true_or, if_true, h2, if_false, List.append_nil]
      have hq := (StartMonitoring_queuesTransition env
        { m with connection_state_ := (UpdateConnectionState env m).connection_state_ }).2.2
      simpa [h1, pendingNotifications] using hq
    · by_cases h2 : m.state_ = State.kDisabled ∧ is_connected = true
      · simp only [h2, and_self, or_true, if_true]
        have hq := (StartMonitoring_queuesTransition env
          { m with connection_state_ := (UpdateConnectionState env m).connection_state_ }).2.2
        simpa [h2.1, pendingNotifications] using hq
      · simp only [h1, h2, or_self, if_false, List.append_nil]
        rfl

/-! ## C19: the broadcast SSID is set exactly while Bootstrapping -/

theorem StartMonitoring_hostedIff (env : Env) {m : WifiBootstrapManager}
    (h : HostedIffBootstrapping m) : HostedIffBootstrapping (StartMonitoring env m) := by
  unfold HostedIffBootstrapping GetHostedSsid at h ⊢
  simp only [StartMonitoring_privet_ssid, StartMonitoring_state]
  by_cases hb : m.state_ = State.kBootstrapping
  · simp [hb]
  · have : m.privet_ssid_ = "" := by
      by_contra hne
      exact hb (h.mp hne)
    simp [hb, this]

theorem StartBootstrapping_hostedIff {env : Env} {m m' : WifiBootstrapManager}
    (h : HostedIffBootstrapping m) (hs : StartBootstrapping env m = some m') :
    HostedIffBootstrapping m' := by
  rcases StartBootstrapping_cases hs with ⟨_, rfl⟩ | ⟨_, hg, rfl⟩
  · exact StartMonitoring_hostedIff env h
  · unfold HostedIffBootstrapping GetHostedSsid
    simp [hg]

theorem StartConnecting_hostedIff (env : Env) (ssid pw : String) {m : WifiBootstrapManager}
    (h : HostedIffBootstrapping m) :
    HostedIffBootstrapping (StartConnecting env ssid pw m) := by
  unfold HostedIffBootstrapping GetHostedSsid at h ⊢
  rw [StartConnecting_eq]
  simp only [UpdateState_privet_ssid, UpdateState_state]
  by_cases hb : m.state_ = State.kBootstrapping
  · simp [hb]
  · have : m.privet_ssid_ = "" := by
      by_contra hne
      exact hb (h.mp hne)
    simp [hb, this]

theorem runBound_hostedIff {env : Env} {t : Task} {m m' : WifiBootstrapManager}
    (h : HostedIffBootstrapping m) (hr : runBound env t m = some m') :
    HostedIffBootstrapping m' := by
  cases t with
  | OnBootstrapTimeout =>
      simp only [runBound, OnBootstrapTimeout, Option.some.injEq] at hr
      subst hr
      exact StartMonitoring_hostedIff env h
  | OnConnectTimeout =>
      simp only [runBound, OnConnectTimeout] at hr
      refine StartBootstrapping_hostedIff ?_ hr
      exact h
  | OnMonitorTimeout =>
      simp only [runBound, OnMonitorTimeout] at hr
      exact StartBootstrapping_hostedIff h hr
  | StartConnecting s p =>
      simp only [runBound, Option.some.injEq] at hr
      subst hr
      exact StartConnecting_hostedIff env s p h
  | NotifyStateListeners s =>
      simp only [runBound, Option.some.injEq] at hr
      subst hr
      exact h

theorem step_hostedIff {env : Env} {ev : Event} {m m' : WifiBootstrapManager}
    (h : HostedIffBootstrapping m) (hstep : step env ev m = some m') :
    HostedIffBootstrapping m' := by
  cases ev with
  | OnConnectivityChange c =>
      simp only [step, Option.some.injEq] at hstep
      subst hstep
      have h1 : HostedIffBootstrapping (UpdateConnectionState env m) := by
        rw [UpdateConnectionState_eq]; exact h
      unfold OnConnectivityChange
      simp only []
      split
      · exact StartMonitoring_hostedIff env h1
      · exact h1
  | ConfigureCredentials s p =>
      simp only [step, Option.some.injEq] at hstep
      subst hstep
      exact h
  | RegisterStateListener l =>
      simp only [step, Option.some.injEq] at hstep
      subst hstep
      exact h
  | RunTask i =>
      have h1 : HostedIffBootstrapping { m with posted := m.posted.eraseIdx i } := h
      simp only [step] at hstep
      split at hstep
      · exact absurd hstep (by simp)
      · split at hstep
        · split at hstep
          · exact runBound_hostedIff h1 hstep
          · simp only [Option.some.injEq] at hstep
            subst hstep
            exact h1
        · exact absurd hstep (by simp)
  | ConnectSuccess i =>
      simp only [step] at hstep
      split at hstep
      · split at hstep
        · simp only [Option.some.injEq, OnConnectSuccess] at hstep
          subst hstep
          refine StartMonitoring_hostedIff env ?_
          exact h
        · simp only [Option.some.injEq] at hstep
          subst hstep
          exact h
      · exact absurd hstep (by simp)

theorem run_hostedIff (evs : List (Env × Event)) :
    ∀ (m m' : WifiBootstrapManager), HostedIffBootstrapping m → run evs m = some m' →
      HostedIffBootstrapping m' := by
  induction evs with
  | nil =>
      intro m m' h hrun
      simp only [run, Option.some.injEq] at hrun
      subst hrun
      exact h
  | cons e rest ih =>
      intro m m' h hrun
      obtain ⟨env, ev⟩ := e
      simp only [run] at hrun
      cases hs : step env ev m with
      | none => simp [hs] at hrun
      | some m1 =>
          rw [hs] at hrun
          exact ih m1 m' (step_hostedIff h hs) hrun

theorem Init_hostedIff {env : Env} {m m' : WifiBootstrapManager}
    (h : HostedIffBootstrapping m) (hi : Init env m = some m') : HostedIffBootstrapping m' := by
  have h1 : HostedIffBootstrapping (callNetwork NetworkCall.AddOnConnectionChangedCallback
      (UpdateConnectionState env m)) := by
    rw [UpdateConnectionState_eq]; exact h
  unfold Init at hi
  simp only [] at hi
  split at hi
  · exact StartBootstrapping_hostedIff h1 hi
  · simp only [Option.some.injEq] at hi
    subst hi
    exact StartMonitoring_hostedIff env h1

/-- C19: on a constructed instance, after Init() and after every event that
follows, GetHostedSsid is non-empty if and only if the lifecycle state is
Bootstrapping.  The exit action of Bootstrapping, run by every UpdateState
that leaves (or re-enters) it, disables the access point and clears the SSID;
the exit actions of the other states change neither. -/
theorem C19_hosted_ssid_nonempty_iff_bootstrapping
    (last_configured_ssid test_privet_ssid : String) (ble_setup_enabled : Bool) (env0 : Env)
    (m0 m : WifiBootstrapManager) (evs : List (Env × Event))
    (hinit : Init env0 (WifiBootstrapManager.create last_configured_ssid test_privet_ssid
      ble_setup_enabled) = some m0)
    (hrun : run evs m0 = some m) :
    (GetHostedSsid (WifiBootstrapManager.create last_configured_ssid test_privet_ssid
        ble_setup_enabled) ≠ "" ↔
      (WifiBootstrapManager.create last_configured_ssid test_privet_ssid
        ble_setup_enabled).state_ = State.kBootstrapping) ∧
    (GetHostedSsid m0 ≠ "" ↔ m0.state_ = State.kBootstrapping) ∧
    (GetHostedSsid m ≠ "" ↔ m.state_ = State.kBootstrapping) ∧
    (∀ (env : Env) (new_state : State) (x : WifiBootstrapManager),
      GetHostedSsid (UpdateState env new_state x) =
        (if x.state_ = State.kBootstrapping then "" else GetHostedSsid x) ∧
      (UpdateState env new_state x).network_calls = x.network_calls ++
        (if x.state_ = State.kBootstrapping then [NetworkCall.DisableAccessPoint] else [])) := by
  have hc : HostedIffBootstrapping (WifiBootstrapManager.create last_configured_ssid
      test_privet_ssid ble_setup_enabled) := by
    simp [HostedIffBootstrapping, GetHostedSsid, WifiBootstrapManager.create]
  have h0 := Init_hostedIff hc hinit
  exact ⟨hc, h0, run_hostedIff evs m0 m h0 hrun,
    fun env s x => ⟨by simp [GetHostedSsid], by simp⟩⟩

/-- Witness for C19: the first setup of a fresh device; it ends in Monitoring
with an empty broadcast SSID, after Bootstrapping with "DEVICE_NAME.prv". -/
theorem C19_hosted_ssid_nonempty_iff_bootstrapping_witness :
    Init (envAt NetworkState.kOffline 0) (WifiBootstrapManager.create "" "" false)
      = some setupStart ∧
    GetHostedSsid setupStart = "DEVICE_NAME.prv" ∧
    run [(envAt NetworkState.kOffline 0, Event.ConfigureCredentials "net" "pw"),
         (envAt NetworkState.kOffline 1, Event.RunTask 1),
         (envAt NetworkState.kConnected 2, Event.ConnectSuccess 3)] setupStart
      = some setupSucceeded ∧
    setupSucceeded.state_ = State.kMonitoring ∧
    (GetHostedSsid setupSucceeded ≠ "" ↔ setupSucceeded.state_ = State.kBootstrapping) :=
  ⟨by decide, by decide, by decide, by decide,
    (C19_hosted_ssid_nonempty_iff_bootstrapping "" "" false (envAt NetworkState.kOffline 0)
      setupStart setupSucceeded
      [(envAt NetworkState.kOffline 0, Event.ConfigureCredentials "net" "pw"),
       (envAt NetworkState.kOffline 1, Event.RunTask 1),
       (envAt NetworkState.kConnected 2, Event.ConnectSuccess 3)]
      (by decide) (by decide)).2.2.1⟩

/-! ## Events that run no state entry leave the object undisturbed -/

theorem Undisturbed.refl (m : WifiBootstrapManager) : Undisturbed m m :=
  ⟨rfl, rfl, rfl, rfl, rfl, rfl, rfl, Or.inl rfl, fun _ hp _ _ => hp⟩

theorem Undisturbed.trans {a b c : WifiBootstrapManager} (h1 : Undisturbed a b)
    (h2 : Undisturbed b c) : Undisturbed a c := by
  obtain ⟨s1, g1, l1, t1, p1, m1, n1, u1, q1⟩ := h1
  obtain ⟨s2, g2, l2, t2, p2, m2, n2, u2, q2⟩ := h2
  refine ⟨s2.trans s1, g2.trans g1, l2.trans l1, t2.trans t1, p2.trans p1, m2.trans m1,
    n2.trans n1, ?_, ?_⟩
  · rcases u2 with u2 | u2
    · rcases u1 with u1 | u1
      · exact Or.inl (u2.trans u1)
      · exact Or.inr (u2.trans u1)
    · exact Or.inr u2
  · intro p hp htok hn
    exact q2 p (q1 p hp htok hn) (by rw [g1]; exact htok) hn

theorem runBound_isNotify_of_tasks_gen_eq {env : Env} {t : Task} {m m' : WifiBootstrapManager}
    (hr : runBound env t m = some m') (hgen : m'.tasks_gen = m.tasks_gen) :
    t.isNotify = true := by
  cases t with
  | OnBootstrapTimeout =>
      simp only [runBound, OnBootstrapTimeout, Option.some.injEq] at hr
      subst hr
      simp at hgen
  | OnConnectTimeout =>
      simp only [runBound, OnConnectTimeout] at hr
      have h := StartBootstrapping_tasks_gen hr
      simp only [] at h
      omega
  | OnMonitorTimeout =>
      simp only [runBound, OnMonitorTimeout] at hr
      have h := StartBootstrapping_tasks_gen hr
      omega
  | StartConnecting s p =>
      simp only [runBound, Option.some.injEq] at hr
      subst hr
      simp [StartConnecting_eq] at hgen
  | NotifyStateListeners s => rfl

/-- An event that leaves the per-state weak pointers valid ran no state entry:
the object is undisturbed. -/
theorem step_undisturbed {env : Env} {ev : Event} {m m' : WifiBootstrapManager}
    (hstep : step env ev m = some m') (hgen : m'.tasks_gen = m.tasks_gen) :
    Undisturbed m m' := by
  cases ev with
  | OnConnectivityChange c =>
      simp only [step, Option.some.injEq] at hstep
      subst hstep
      unfold OnConnectivityChange at hgen ⊢
      simp only [] at hgen ⊢
      split at hgen
      · rw [StartMonitoring_tasks_gen, UpdateConnectionState_eq] at hgen
        simp at hgen
      · rename_i hc
        simp only [hc, if_false]
        rw [UpdateConnectionState_eq]
        exact ⟨rfl, rfl, rfl, rfl, rfl, rfl, rfl, Or.inl rfl, fun _ hp _ _ => hp⟩
  | ConfigureCredentials s p =>
      simp only [step, Option.some.injEq] at hstep
      subst hstep
      refine ⟨rfl, rfl, rfl, rfl, rfl, rfl, rfl, Or.inr rfl, ?_⟩
      intro q hq _ _
      simp only [ConfigureCredentials, PostDelayedTask, List.mem_append]
      exact Or.inl hq
  | RegisterStateListener l =>
      simp only [step, Option.some.injEq] at hstep
      subst hstep
      exact ⟨rfl, rfl, rfl, rfl, rfl, rfl, rfl, Or.inl rfl, fun _ hp _ _ => hp⟩
  | RunTask i =>
      simp only [step] at hstep
      split at hstep
      · exact absurd hstep (by simp)
      · rename_i p hpi
        split at hstep
        · split at hstep
          · rename_i hlive
            have hn := runBound_isNotify_of_tasks_gen_eq hstep hgen
            cases htask : p.task with
            | NotifyStateListeners s =>
                rw [htask] at hstep
                simp only [runBound, Option.some.injEq] at hstep
                subst hstep
                refine ⟨rfl, rfl, rfl, rfl, rfl, rfl, rfl, Or.inl rfl, ?_⟩
                intro q hq _ hqn
                refine mem_eraseIdx_of_ne hq hpi ?_
                intro h
                rw [h, htask] at hqn
                simp [Task.isNotify] at hqn
            | OnBootstrapTimeout => simp [htask, Task.isNotify] at hn
            | OnConnectTimeout => simp [htask, Task.isNotify] at hn
            | OnMonitorTimeout => simp [htask, Task.isNotify] at hn
            | StartConnecting s pw => simp [htask, Task.isNotify] at hn
          · rename_i hlive
            simp only [Option.some.injEq] at hstep
            subst hstep
            refine ⟨rfl, rfl, rfl, rfl, rfl, rfl, rfl, Or.inl rfl, ?_⟩
            intro q hq hqk _
            refine mem_eraseIdx_of_ne hq hpi ?_
            intro h
            rw [h] at hqk
            rw [hqk] at hlive
            simp [WeakToken.live] at hlive
        · exact absurd hstep (by simp)
  | ConnectSuccess i =>
      simp only [step] at hstep
      split at hstep
      · split at hstep
        · simp only [Option.some.injEq, OnConnectSuccess] at hstep
          subst hstep
          simp at hgen
        · simp only [Option.some.injEq] at hstep
          subst hstep
          exact Undisturbed.refl m
      · exact absurd hstep (by simp)

theorem step_tasks_gen_le {env : Env} {ev : Event} {m m' : WifiBootstrapManager}
    (hstep : step env ev m = some m') : m.tasks_gen ≤ m'.tasks_gen := by
  rcases step_tasks_gen hstep with h | ⟨h, _⟩ <;> omega

theorem run_tasks_gen_le (evs : List (Env × Event)) :
    ∀ (m m' : WifiBootstrapManager), run evs m = some m' → m.tasks_gen ≤ m'.tasks_gen :=
  fun m m' h => (run_inProgress_of_tasks_gen_eq evs m m' h).1

/-- A sequence of events after which the per-state weak pointers are still
valid ran no state entry: the object is undisturbed. -/
theorem run_undisturbed (evs : List (Env × Event)) :
    ∀ (m m' : WifiBootstrapManager), run evs m = some m' → m'.tasks_gen = m.tasks_gen →
      Undisturbed m m' := by
  induction evs with
  | nil =>
      intro m m' hrun _
      simp only [run, Option.some.injEq] at hrun
      subst hrun
      exact Undisturbed.refl m
  | cons e rest ih =>
      intro m m' hrun hgen
      obtain ⟨env, ev⟩ := e
      simp only [run] at hrun
      cases hs : step env ev m with
      | none => simp [hs] at hrun
      | some m1 =>
          rw [hs] at hrun
          have h1 := step_tasks_gen_le hs
          have h2 := run_tasks_gen_le rest m1 m' hrun
          have hu1 := step_undisturbed hs (by omega)
          have hu2 := ih m1 m' hrun (by omega)
          exact hu1.trans hu2

/-! ## C11: a short disconnect -/

theorem wellFormedAt_inert_succ {gen : Nat} {p : PostedTask}
    (h : p.wellFormedAt gen = true) : p.inertAt (gen + 1) = true := by
  unfold PostedTask.wellFormedAt at h
  unfold PostedTask.inertAt
  cases ht : p.token with
  | lifetime => rw [ht] at h; exact h
  | tasks g =>
      rw [ht] at h
      simp only [Bool.and_eq_true, decide_eq_true_eq] at h ⊢
      exact ⟨h.1, by omega⟩

/-- A Monitoring entry that sees the provider connected clears the deadline and
leaves no live timer behind. -/
theorem StartMonitoring_connected_allInert (env : Env) {m : WifiBootstrapManager}
    (hwf : WellFormed m) (hc : env.net = NetworkState.kConnected) :
    AllInert (StartMonitoring env m) ∧ (StartMonitoring env m).monitor_until_ = 0 := by
  constructor
  · intro p hmem
    simp only [StartMonitoring_posted, StartMonitoring_tasks_gen, hc, if_true,
      List.append_nil, List.mem_append] at hmem ⊢
    rcases hmem with hmem | hmem
    · exact wellFormedAt_inert_succ (hwf.1 p hmem)
    · split at hmem
      · simp only [List.mem_singleton] at hmem
        subst hmem
        rfl
      · simp at hmem
  · simp [nextDeadline, hc]

theorem step_runTask_allInert {env : Env} {i : Nat} {m m' : WifiBootstrapManager}
    (h : AllInert m) (hstep : step env (Event.RunTask i) m = some m') :
    AllInert m' ∧ m'.tasks_gen = m.tasks_gen := by
  simp only [step] at hstep
  split at hstep
  · exact absurd hstep (by simp)
  · rename_i p hpi
    have hp := h p (List.getElem?_mem hpi)
    unfold PostedTask.inertAt at hp
    have he : AllInert { m with posted := m.posted.eraseIdx i } :=
      fun q hq => h q (List.mem_of_mem_eraseIdx hq)
    split at hstep
    · split at hstep
      · rename_i hlive
        cases htok : p.token with
        | lifetime =>
            rw [htok] at hp
            cases htask : p.task with
            | NotifyStateListeners s =>
                rw [htask] at hstep
                simp only [runBound, Option.some.injEq] at hstep
                subst hstep
                exact ⟨he, rfl⟩
            | OnBootstrapTimeout => simp [htask, Task.isNotify] at hp
            | OnConnectTimeout => simp [htask, Task.isNotify] at hp
            | OnMonitorTimeout => simp [htask, Task.isNotify] at hp
            | StartConnecting s pw => simp [htask, Task.isNotify] at hp
        | tasks g =>
            rw [htok] at hp hlive
            simp only [WeakToken.live, beq_iff_eq] at hlive
            simp only [Bool.and_eq_true, decide_eq_true_eq] at hp
            omega
      · simp only [Option.some.injEq] at hstep
        subst hstep
        exact ⟨he, rfl⟩
    · exact absurd hstep (by simp)

/-- With no live timer queued, task runs alone leave the object undisturbed. -/
theorem run_allInert (evs : List (Env × Event)) :
    ∀ (m m' : WifiBootstrapManager), AllInert m → OnlyTaskRuns evs → run evs m = some m' →
      AllInert m' ∧ Undisturbed m m' := by
  induction evs with
  | nil =>
      intro m m' h _ hrun
      simp only [run, Option.some.injEq] at hrun
      subst hrun
      exact ⟨h, Undisturbed.refl m⟩
  | cons e rest ih =>
      intro m m' h honly hrun
      obtain ⟨env, ev⟩ := e
      simp only [run] at hrun
      cases hs : step env ev m with
      | none => simp [hs] at hrun
      | some m1 =>
          rw [hs] at hrun
          have hev := honly (env, ev) (List.mem_cons_self _ _)
          cases ev with
          | RunTask i =>
              obtain ⟨h1, hg1⟩ := step_runTask_allInert h hs
              obtain ⟨h2, hu2⟩ := ih m1 m' h1
                (fun e he => honly e (List.mem_cons_of_mem _ he)) hrun
              exact ⟨h2, (step_undisturbed hs hg1).trans hu2⟩
          | OnConnectivityChange c => simp [Event.isRunTask] at hev
          | ConfigureCredentials s p => simp [Event.isRunTask] at hev
          | RegisterStateListener l => simp [Event.isRunTask] at hev
          | ConnectSuccess j => simp [Event.isRunTask] at hev

theorem inertAt_stale {gen : Nat} {p : PostedTask} (h : p.inertAt gen = true)
    (hn : p.task.isNotify = false) : p.token.staleAt gen = true := by
  unfold PostedTask.inertAt at h
  cases ht : p.token with
  | lifetime =>
      rw [ht] at h
      have h' : p.task.isNotify = true := h
      rw [h'] at hn
      exact absurd hn (by simp)
  | tasks g =>
      rw [ht] at h
      simp only [Bool.and_eq_true, decide_eq_true_eq] at h
      simp [WeakToken.staleAt, h.2]

/-- C11: a device in Monitoring with a null offline deadline sees the provider
offline at time t0; the task runner runs queued tasks at times before
t0 + 2 minutes; then the provider reports connected again.  Up to and after
the reconnect notification the state is Monitoring and no call at all was made
on the provider (so no EnableAccessPoint); the monitor timeout, queued and
live until then, is invalidated by the reconnect and no timer is live any
more; the offline deadline is null; and whatever the task runner runs
afterwards, the state stays Monitoring without a call on the provider. -/
theorem C11_short_disconnect_never_starts_bootstrapping
    (m m2 : WifiBootstrapManager) (env0 env1 : Env) (b0 b1 : Bool)
    (evs1 : List (Env × Event))
    (hwf : WellFormed m) (hs : m.state_ = State.kMonitoring)
    (hnull : m.monitor_until_.is_null = true)
    (hoff : env0.net ≠ NetworkState.kConnected)
    (honly1 : OnlyTaskRuns evs1)
    (hbefore : ∀ e ∈ evs1, (e.1.now : Int) < (env0.now : Int) + FromMinutes 2)
    (hrun1 : run evs1 (OnConnectivityChange env0 b0 m) = some m2)
    (hon : env1.net = NetworkState.kConnected) :
    -- before the reconnect
    (m2.state_ = State.kMonitoring ∧ m2.network_calls = m.network_calls ∧
      ∃ p ∈ m2.posted, p.task = Task.OnMonitorTimeout ∧ p.token.live m2 = true) ∧
    -- after the reconnect notification
    ((OnConnectivityChange env1 b1 m2).state_ = State.kMonitoring ∧
      (OnConnectivityChange env1 b1 m2).network_calls = m.network_calls ∧
      (OnConnectivityChange env1 b1 m2).monitor_until_.is_null = true ∧
      (∀ p ∈ (OnConnectivityChange env1 b1 m2).posted, p.task.isNotify = false →
        p.token.live (OnConnectivityChange env1 b1 m2) = false)) ∧
    -- from then on
    (∀ (evs2 : List (Env × Event)) (m4 : WifiBootstrapManager), OnlyTaskRuns evs2 →
      run evs2 (OnConnectivityChange env1 b1 m2) = some m4 →
      m4.state_ = State.kMonitoring ∧ m4.network_calls = m.network_calls ∧
      m4.monitor_until_.is_null = true) := by
  have h0 : m.monitor_until_ = 0 := by simpa [Time.is_null] using hnull
  -- the offline notification is a Monitoring entry
  have hu : UpdateConnectionState env0 m =
      { m with connection_state_ := (UpdateConnectionState env0 m).connection_state_ } :=
    UpdateConnectionState_eq env0 m
  have hm1 : OnConnectivityChange env0 b0 m = StartMonitoring env0 (UpdateConnectionState env0 m) := by
    unfold OnConnectivityChange
    have hst : (UpdateConnectionState env0 m).state_ = State.kMonitoring := by rw [hu]; exact hs
    simp [hst]
  have hwfu : WellFormed (UpdateConnectionState env0 m) := UpdateConnectionState_wellFormed hwf
  have hmu : (UpdateConnectionState env0 m).monitor_until_ = 0 := by rw [hu]; exact h0
  obtain ⟨_, hwait⟩ := StartMonitoring_waiting env0 hwfu hmu hoff
  have hcalls1 : (OnConnectivityChange env0 b0 m).network_calls = m.network_calls := by
    rw [hm1, StartMonitoring_network_calls, hu]
    simp [hs]
  rw [← hm1] at hwait
  obtain ⟨⟨hs2, _, q, hq, hqt, hqk, _⟩, hc2, _⟩ :=
    run_waiting evs1 _ m2 _ hwait honly1 hbefore hrun1
  have hwf2 : WellFormed m2 :=
    run_wellFormed evs1 _ m2 (by rw [hm1]; exact StartMonitoring_wellFormed hwfu) hrun1
  -- the reconnect notification is a Monitoring entry that sees the provider connected
  have hu2 : UpdateConnectionState env1 m2 =
      { m2 with connection_state_ := (UpdateConnectionState env1 m2).connection_state_ } :=
    UpdateConnectionState_eq env1 m2
  have hm3 : OnConnectivityChange env1 b1 m2 =
      StartMonitoring env1 (UpdateConnectionState env1 m2) := by
    unfold OnConnectivityChange
    have hst : (UpdateConnectionState env1 m2).state_ = State.kMonitoring := by
      rw [hu2]; exact hs2
    simp [hst]
  obtain ⟨hin3, hmu3⟩ := StartMonitoring_connected_allInert env1
    (UpdateConnectionState_wellFormed hwf2) hon
  rw [← hm3] at hin3 hmu3
  have hs3 : (OnConnectivityChange env1 b1 m2).state_ = State.kMonitoring := by
    rw [hm3]; simp
  have hc3 : (OnConnectivityChange env1 b1 m2).network_calls = m.network_calls := by
    rw [hm3, StartMonitoring_network_calls, hu2]
    simp [hs2, hc2, hcalls1]
  refine ⟨⟨hs2, by rw [hc2, hcalls1], q, hq, hqt, by simp [hqk, WeakToken.live]⟩,
    ⟨hs3, hc3, by simp [Time.is_null, hmu3], ?_⟩, ?_⟩
  · intro p hp hn
    exact staleAt_not_live (inertAt_stale (hin3 p hp) hn)
  · intro evs2 m4 honly2 hrun2
    obtain ⟨_, hu4⟩ := run_allInert evs2 _ m4 hin3 honly2 hrun2
    obtain ⟨s4, _, _, _, _, mu4, n4, _, _⟩ := hu4
    exact ⟨s4.trans hs3, n4.trans hc3, by simp [Time.is_null, mu4, hmu3]⟩

/-- Witness for C11: the device of the unit test StartOnlineNoPrevSsid goes
offline at second 10 and is connected again at second 20; the monitor timeout
of second 130 is then dropped when the task runner reaches it. -/
theorem C11_short_disconnect_never_starts_bootstrapping_witness :
    WellFormed onlineNoPrevSsid ∧
    run [(envAt NetworkState.kOffline 10, Event.RunTask 0)] wentOffline
      = some wentOfflineNotified ∧
    (reconnected.state_ = State.kMonitoring ∧
      reconnected.network_calls = onlineNoPrevSsid.network_calls ∧
      reconnected.monitor_until_.is_null = true ∧
      (∀ p ∈ reconnected.posted, p.task.isNotify = false →
        p.token.live reconnected = false)) ∧
    reconnected.posted.map (fun p => p.task) = [Task.OnMonitorTimeout] ∧
    (step (envAt NetworkState.kConnected 130) (Event.RunTask 0) reconnected).map
      (fun m => (m.state_, m.posted, m.network_calls)) =
      some (State.kMonitoring, [], [NetworkCall.AddOnConnectionChangedCallback]) :=
  ⟨by decide, by decide,
    (C11_short_disconnect_never_starts_bootstrapping onlineNoPrevSsid wentOfflineNotified
      (envAt NetworkState.kOffline 10) (envAt NetworkState.kConnected 20) false true
      [(envAt NetworkState.kOffline 10, Event.RunTask 0)]
      (by decide) (by decide) (by decide) (by decide) (by decide) (by decide) (by decide)
      rfl).2.1,
    by decide, by decide⟩

/-! ## The two completions of a connect attempt -/

/-- Running a queued task whose weak pointer is not valid only takes it off
the queue. -/
theorem step_runTask_dead {env : Env} {i : Nat} {m : WifiBootstrapManager} {p : PostedTask}
    (hpi : m.posted[i]? = some p) (hdue : p.due ≤ (env.now : Int))
    (hdead : p.token.live m = false) :
    step env (Event.RunTask i) m = some { m with posted := m.posted.eraseIdx i } := by
  simp [step, hpi, hdue, hdead]

/-- Running a success callback whose weak pointer is not valid does nothing. -/
theorem step_connectSuccess_dead {env : Env} {j : Nat} {m : WifiBootstrapManager}
    {ssid pw : String} {gen : Nat}
    (hc : m.network_calls[j]? = some (NetworkCall.ConnectToService ssid pw gen))
    (hg : gen ≠ m.tasks_gen) : step env (Event.ConnectSuccess j) m = some m := by
  simp [step, hc, hg]

/-- Running a live success callback is OnConnectSuccess. -/
theorem step_connectSuccess_live {env : Env} {j : Nat} {m : WifiBootstrapManager}
    {ssid pw : String}
    (hc : m.network_calls[j]? = some (NetworkCall.ConnectToService ssid pw m.tasks_gen)) :
    step env (Event.ConnectSuccess j) m = some (OnConnectSuccess env ssid m) := by
  simp [step, hc]

/-- Running the delayed StartConnecting while its weak pointer is valid. -/
theorem step_runTask_startConnecting {env : Env} {i : Nat} {m m' : WifiBootstrapManager}
    {p : PostedTask} {ssid pw : String} (hpi : m.posted[i]? = some p)
    (htask : p.task = Task.StartConnecting ssid pw)
    (htok : p.token = WeakToken.tasks m.tasks_gen)
    (hstep : step env (Event.RunTask i) m = some m') :
    m' = StartConnecting env ssid pw { m with posted := m.posted.eraseIdx i } := by
  simp only [step, hpi, htok, htask, WeakToken.live, beq_self_eq_true, if_true, runBound] at hstep
  split at hstep
  · exact (Option.some.inj hstep).symm
  · exact absurd hstep (by simp)

/-- What StartConnecting leaves behind: the state Connecting, the connect
timeout at the end of the queue and the connect request, with its success
callback, as the last call on the provider. -/
theorem StartConnecting_started (env : Env) (ssid pw : String) (m : WifiBootstrapManager) :
    (StartConnecting env ssid pw m).state_ = State.kConnecting ∧
    (StartConnecting env ssid pw m).tasks_gen = m.tasks_gen + 1 ∧
    (StartConnecting env ssid pw m).setup_state_ = m.setup_state_ ∧
    (StartConnecting env ssid pw m).last_configured_ssid_ = m.last_configured_ssid_ ∧
    connectTimeoutTask env m ∈ (StartConnecting env ssid pw m).posted ∧
    (StartConnecting env ssid pw m).network_calls.getLast? =
      some (NetworkCall.ConnectToService ssid pw (m.tasks_gen + 1)) := by
  rw [StartConnecting_eq]
  refine ⟨by simp, by simp, by simp, by simp, ?_, ?_⟩
  · simp [connectTimeoutTask]
  · simp

/-- What OnConnectSuccess leaves behind on a well-formed object. -/
theorem OnConnectSuccess_decides (env : Env) (ssid : String) {m : WifiBootstrapManager}
    (hwf : WellFormed m) :
    (OnConnectSuccess env ssid m).setup_state_ = SetupState.kSuccess ∧
    (OnConnectSuccess env ssid m).last_configured_ssid_ = ssid ∧
    (OnConnectSuccess env ssid m).state_ = State.kMonitoring ∧
    (OnConnectSuccess env ssid m).tasks_gen = m.tasks_gen + 1 ∧
    NoLiveAttempt (OnConnectSuccess env ssid m) ∧
    (∀ p ∈ m.posted, p ∈ (OnConnectSuccess env ssid m).posted) := by
  unfold OnConnectSuccess
  refine ⟨by simp, by simp, by simp, by simp, ?_, ?_⟩
  · refine StartMonitoring_noLiveAttempt_of_wellFormed ?_
    exact hwf
  · intro p hp
    simp only [StartMonitoring_posted, List.mem_append]
    exact Or.inl (Or.inl hp)

/-- What a connect timeout that runs leaves behind on a well-formed object:
the failure in SetupState, the SSID as it was, and Bootstrapping with the
access point enabled unless the provider is connected, in which case
Monitoring without a new access point. -/
theorem OnConnectTimeout_decides {env : Env} {m m' : WifiBootstrapManager}
    (hwf : WellFormed m) (h : OnConnectTimeout env m = some m') :
    m'.setup_state_ = connectFailed ∧
    m'.last_configured_ssid_ = m.last_configured_ssid_ ∧
    m'.tasks_gen = m.tasks_gen + 1 ∧
    NoLiveAttempt m' ∧
    (env.net = NetworkState.kConnected → m'.state_ = State.kMonitoring ∧
      enableCalls m'.network_calls = enableCalls m.network_calls) ∧
    (env.net ≠ NetworkState.kConnected → m'.state_ = State.kBootstrapping ∧
      GetHostedSsid m' ≠ "" ∧
      m'.network_calls = m.network_calls ++
        (if m.state_ = State.kBootstrapping then [NetworkCall.DisableAccessPoint] else []) ++
        [NetworkCall.EnableAccessPoint (GetHostedSsid m')]) := by
  simp only [OnConnectTimeout] at h
  have h1 := StartBootstrapping_setup_state h
  have h2 := StartBootstrapping_last_configured_ssid h
  have h3 := StartBootstrapping_tasks_gen h
  have h4 : NoLiveAttempt m' := by
    refine StartBootstrapping_noLiveAttempt_of_wellFormed ?_ h
    exact hwf
  refine ⟨h1, h2, h3, h4, ?_, ?_⟩
  · intro hc
    rcases StartBootstrapping_cases h with ⟨_, rfl⟩ | ⟨hn, _, _⟩
    · refine ⟨by simp, ?_⟩
      simp only [StartMonitoring_network_calls, enableCalls, List.filterMap_append]
      split <;> simp
    · exact absurd hc hn
  · intro hn
    rcases StartBootstrapping_cases h with ⟨hc, _⟩ | ⟨_, hg, rfl⟩
    · exact absurd hc hn
    · exact ⟨by simp, hg, by simp [GetHostedSsid]⟩

/-- The connect timeout runs, and returns, whenever it is queued, live and
due, unless the CHECK on the generated SSID aborts. -/
theorem step_runTask_connectTimeout {env : Env} {i : Nat} {m : WifiBootstrapManager}
    {p : PostedTask} (hpi : m.posted[i]? = some p) (htask : p.task = Task.OnConnectTimeout)
    (htok : p.token = WeakToken.tasks m.tasks_gen) (hdue : p.due ≤ (env.now : Int)) :
    step env (Event.RunTask i) m =
      OnConnectTimeout env { m with posted := m.posted.eraseIdx i } := by
  simp [step, hpi, hdue, htok, WeakToken.live, htask, runBound]

theorem OnConnectTimeout_returns (env : Env) (m : WifiBootstrapManager)
    (hgen : env.net = NetworkState.kConnected ∨ GenerateSsid env m ≠ "") :
    ∃ m', OnConnectTimeout env m = some m' := by
  simp only [OnConnectTimeout]
  by_cases hc : env.net = NetworkState.kConnected
  · exact ⟨_, StartBootstrapping_connected env _ hc⟩
  · rcases hgen with h | h
    · exact absurd h hc
    · exact ⟨_, StartBootstrapping_eq env _ hc h⟩

/-- As long as no state entry has run since StartConnecting, the attempt is
the current one: the state is Connecting, its success callback is the last
call on the provider and live, and its connect timeout is queued, live and due
3 minutes after the start. -/
theorem StartConnecting_current {env1 : Env} {ssid pw : String}
    {x m3 : WifiBootstrapManager} {evs1 : List (Env × Event)} (hwf : WellFormed x)
    (hwait : run evs1 (StartConnecting env1 ssid pw x) = some m3)
    (hcur : m3.tasks_gen = (StartConnecting env1 ssid pw x).tasks_gen) :
    WellFormed m3 ∧ m3.state_ = State.kConnecting ∧
    m3.last_configured_ssid_ = x.last_configured_ssid_ ∧
    (m3.setup_state_ = x.setup_state_ ∨ m3.setup_state_ = SetupState.kInProgress) ∧
    m3.network_calls.getLast? = some (NetworkCall.ConnectToService ssid pw m3.tasks_gen) ∧
    ∃ t ∈ m3.posted, t.task = Task.OnConnectTimeout ∧
      t.token = WeakToken.tasks m3.tasks_gen ∧
      t.due = (env1.now : Int) + FromMinutes 3 := by
  obtain ⟨hs, hg, hsetup, hssid, ht, hlast⟩ := StartConnecting_started env1 ssid pw x
  obtain ⟨us, ug, ul, _, _, _, un, usetup, uq⟩ := run_undisturbed evs1 _ m3 hwait hcur
  refine ⟨run_wellFormed evs1 _ m3 (StartConnecting_wellFormed ssid pw hwf) hwait,
    us.trans hs, ul.trans hssid, ?_, ?_, connectTimeoutTask env1 x, ?_, rfl, ?_, ?_⟩
  · rcases usetup with h | h
    · exact Or.inl (h.trans hsetup)
    · exact Or.inr h
  · rw [un, hlast, ug, hg]
  · exact uq _ ht (by simp [connectTimeoutTask, hg]) rfl
  · simp [connectTimeoutTask, ug, hg]
  · simp [connectTimeoutTask, PostedTask.due]

/-- The attempt that a ConfigureCredentials call starts, if no state entry runs
before its delayed StartConnecting nor since: it is the current one and
SetupState is InProgress. -/
theorem configured_attempt_current {m mm m2 m3 : WifiBootstrapManager} {env0 env1 : Env}
    {ssid pw : String} {mid evs1 : List (Env × Event)} {i : Nat} {p : PostedTask}
    (hwf : WellFormed m)
    (hmid : run mid (ConfigureCredentials env0 ssid pw m).2 = some mm)
    (hgen : mm.tasks_gen = m.tasks_gen)
    (hp : mm.posted[i]? = some p) (htask : p.task = Task.StartConnecting ssid pw)
    (htok : p.token = WeakToken.tasks mm.tasks_gen)
    (hstart : step env1 (Event.RunTask i) mm = some m2)
    (hwait : run evs1 m2 = some m3) (hcur : m3.tasks_gen = m2.tasks_gen) :
    WellFormed m3 ∧ m3.state_ = State.kConnecting ∧
    m3.last_configured_ssid_ = m.last_configured_ssid_ ∧
    m3.setup_state_ = SetupState.kInProgress ∧
    m3.network_calls.getLast? = some (NetworkCall.ConnectToService ssid pw m3.tasks_gen) ∧
    ∃ t ∈ m3.posted, t.task = Task.OnConnectTimeout ∧
      t.token = WeakToken.tasks m3.tasks_gen ∧
      t.due = (env1.now : Int) + FromMinutes 3 := by
  have hwfc : WellFormed (ConfigureCredentials env0 ssid pw m).2 :=
    @step_wellFormed env0 (Event.ConfigureCredentials ssid pw) m _ hwf rfl
  have hwfm : WellFormed mm := run_wellFormed mid _ mm hwfc hmid
  have hin : mm.setup_state_ = SetupState.kInProgress :=
    (run_inProgress_of_tasks_gen_eq mid _ mm hmid).2 hgen rfl
  have hum := run_undisturbed mid _ mm hmid hgen
  have hm2 := step_runTask_startConnecting hp htask htok hstart
  subst hm2
  have hwfe : WellFormed { mm with posted := mm.posted.eraseIdx i } :=
    ⟨fun q hmem => hwfm.1 q (List.mem_of_mem_eraseIdx hmem), hwfm.2⟩
  obtain ⟨h1, h2, h3, h4, h5, h6⟩ := StartConnecting_current hwfe hwait hcur
  refine ⟨h1, h2, h3.trans hum.2.2.1, ?_, h5, h6⟩
  rcases h4 with h | h
  · exact h.trans hin
  · exact h

/-- C12: ConfigureCredentials(s, pw) is called, the delayed StartConnecting
runs (no state entry having invalidated it), and the provider then runs the
success callback while the attempt is still the current one, that is, before
its connect timeout or any other state entry has run.  Then the callback is
the last provider call of the object, it returns, and afterwards SetupState is
Success, the last-configured SSID is s and the state is Monitoring.  The
connect timeout of the attempt is still queued but invalidated: when the task
runner runs it, it is only taken off the queue; and SetupState stays Success
under every later sequence of events without a new ConfigureCredentials. -/
theorem C12_connect_success_sets_success_ssid_and_monitoring
    (m mm m2 m3 : WifiBootstrapManager) (env0 env1 env2 : Env) (ssid pw : String)
    (mid evs1 : List (Env × Event)) (i : Nat) (p : PostedTask)
    (hwf : WellFormed m)
    (hmid : run mid (ConfigureCredentials env0 ssid pw m).2 = some mm)
    (hgen : mm.tasks_gen = m.tasks_gen)
    (hp : mm.posted[i]? = some p) (htask : p.task = Task.StartConnecting ssid pw)
    (htok : p.token = WeakToken.tasks mm.tasks_gen)
    (hstart : step env1 (Event.RunTask i) mm = some m2)
    (hwait : run evs1 m2 = some m3) (hcur : m3.tasks_gen = m2.tasks_gen) :
    m3.network_calls[m3.network_calls.length - 1]? =
      some (NetworkCall.ConnectToService ssid pw m3.tasks_gen) ∧
    ∃ m4, step env2 (Event.ConnectSuccess (m3.network_calls.length - 1)) m3 = some m4 ∧
      GetSetupState m4 = SetupState.kSuccess ∧
      GetCurrentlyConnectedSsid m4 = ssid ∧
      m4.state_ = State.kMonitoring ∧
      (∃ t ∈ m4.posted, t.task = Task.OnConnectTimeout ∧
        t.due = (env1.now : Int) + FromMinutes 3) ∧
      (∀ (k : Nat) (t : PostedTask) (env3 : Env), m4.posted[k]? = some t →
        t.task = Task.OnConnectTimeout → t.due ≤ (env3.now : Int) →
        step env3 (Event.RunTask k) m4 = some { m4 with posted := m4.posted.eraseIdx k }) ∧
      (∀ (evs : List (Env × Event)) (m5 : WifiBootstrapManager), NoConfigure evs →
        run evs m4 = some m5 → GetSetupState m5 = SetupState.kSuccess) := by
  obtain ⟨hwf3, _, _, _, hlast, t, ht, htt, _, htd⟩ :=
    configured_attempt_current hwf hmid hgen hp htask htok hstart hwait hcur
  rw [List.getLast?_eq_getElem?] at hlast
  obtain ⟨d1, d2, d3, _, d5, d6⟩ := OnConnectSuccess_decides env2 ssid hwf3
  refine ⟨hlast, OnConnectSuccess env2 ssid m3, step_connectSuccess_live hlast, d1, d2, d3,
    ⟨t, d6 t ht, htt, htd⟩, ?_, ?_⟩
  · intro k q env3 hk hq hdue
    refine step_runTask_dead hk hdue ?_
    exact staleAt_not_live (d5.1 q (List.getElem?_mem hk) (by rw [hq]; rfl))
  · intro evs m5 hn hrun
    have h := (run_noLiveAttempt evs _ m5 d5 hn hrun).2
    simp only [GetSetupState, h, d1]

/-- Witness for C12: the first setup of a fresh device; the success callback
arrives at second 2. -/
theorem C12_connect_success_sets_success_ssid_and_monitoring_witness :
    WellFormed setupStart ∧
    step (envAt NetworkState.kOffline 1) (Event.RunTask 1) setupRequested
      = some setupConnecting ∧
    setupConnecting.network_calls[setupConnecting.network_calls.length - 1]? =
      some (NetworkCall.ConnectToService "net" "pw" setupConnecting.tasks_gen) ∧
    step (envAt NetworkState.kConnected 2) (Event.ConnectSuccess 3) setupConnecting
      = some setupSucceeded ∧
    GetSetupState setupSucceeded = SetupState.kSuccess ∧
    GetCurrentlyConnectedSsid setupSucceeded = "net" ∧
    setupSucceeded.state_ = State.kMonitoring :=
  ⟨by decide, by decide,
    (C12_connect_success_sets_success_ssid_and_monitoring setupStart setupRequested
      setupConnecting setupConnecting (envAt NetworkState.kOffline 0)
      (envAt NetworkState.kOffline 1) (envAt NetworkState.kConnected 2) "net" "pw" [] [] 1
      { task := Task.StartConnecting "net" "pw", token := WeakToken.tasks 1,
        delay := FromSeconds 1, posted_at := 0 }
      (by decide) (by decide) (by decide) (by decide) rfl (by decide) (by decide)
      (by decide) rfl).1,
    by decide, by decide, by decide, by decide⟩

/-! ## C13: the connect timeout -/

/-- C13, counterexample: the connect attempt of a fresh device times out at
second 181 while the provider reports connected.  SetupState becomes the
connect failure, but the state becomes Monitoring, not Bootstrapping, and no
access point is enabled. -/
theorem C13_counterexample_timeout_while_connected_enters_monitoring :
    setupConnecting.state_ = State.kConnecting ∧
    step (envAt NetworkState.kConnected 181) (Event.RunTask 2) setupConnecting
      = some setupTimedOutConnected ∧
    GetSetupState setupTimedOutConnected = connectFailed ∧
    setupTimedOutConnected.state_ = State.kMonitoring ∧
    GetHostedSsid setupTimedOutConnected = "" ∧
    setupTimedOutConnected.network_calls = setupConnecting.network_calls := by
  refine ⟨by decide, by decide, by decide, by decide, by decide, by decide⟩

theorem noLiveAttempt_callback_dead {env : Env} {j : Nat} {m : WifiBootstrapManager}
    {ssid pw : String} {gen : Nat} (h : NoLiveAttempt m)
    (hc : m.network_calls[j]? = some (NetworkCall.ConnectToService ssid pw gen)) :
    step env (Event.ConnectSuccess j) m = some m := by
  refine step_connectSuccess_dead hc ?_
  have hst := h.2 _ (List.getElem?_mem hc)
  simp only [NetworkCall.callbackStaleAt, decide_eq_true_eq] at hst
  omega

/-- C13 (as amended): ConfigureCredentials is called, the delayed
StartConnecting runs, and no success callback nor any other state entry runs
before the connect timeout, which the task runner runs 3 minutes after the
start or later.  Then the timeout is queued and live, it returns (the CHECK on
the generated SSID apart), and afterwards SetupState is the error "Failed to
connect to provided network" and the last-configured SSID is as before.  If
the provider does not report connected at that moment the state is
Bootstrapping and the access point is enabled with a non-empty SSID; if it
reports connected the state is Monitoring and no access point is enabled.  In
both cases every success callback handed out so far is dead. -/
theorem C13_connect_timeout_sets_error_and_restarts_bootstrapping_unless_connected
    (m mm m2 m3 : WifiBootstrapManager) (env0 env1 env2 : Env) (ssid pw : String)
    (mid evs1 : List (Env × Event)) (i : Nat) (p : PostedTask)
    (hwf : WellFormed m)
    (hmid : run mid (ConfigureCredentials env0 ssid pw m).2 = some mm)
    (hgen : mm.tasks_gen = m.tasks_gen)
    (hp : mm.posted[i]? = some p) (htask : p.task = Task.StartConnecting ssid pw)
    (htok : p.token = WeakToken.tasks mm.tasks_gen)
    (hstart : step env1 (Event.RunTask i) mm = some m2)
    (hwait : run evs1 m2 = some m3) (hcur : m3.tasks_gen = m2.tasks_gen)
    (hlate : (env1.now : Int) + FromMinutes 3 ≤ (env2.now : Int))
    (hcheck : env2.net = NetworkState.kConnected ∨ GenerateSsid env2 m3 ≠ "") :
    ∃ (k : Nat) (t : PostedTask), m3.posted[k]? = some t ∧
      t.task = Task.OnConnectTimeout ∧ t.due = (env1.now : Int) + FromMinutes 3 ∧
      ∃ m4, step env2 (Event.RunTask k) m3 = some m4 ∧
        GetSetupState m4 = SetupState.error
          (Error.AddTo errors.kDomain errors.kInvalidState
            "Failed to connect to provided network") ∧
        GetCurrentlyConnectedSsid m4 = GetCurrentlyConnectedSsid m ∧
        (env2.net ≠ NetworkState.kConnected →
          m4.state_ = State.kBootstrapping ∧ GetHostedSsid m4 ≠ "" ∧
          m4.network_calls =
            m3.network_calls ++ [NetworkCall.EnableAccessPoint (GetHostedSsid m4)]) ∧
        (env2.net = NetworkState.kConnected →
          m4.state_ = State.kMonitoring ∧
          enableCalls m4.network_calls = enableCalls m3.network_calls) ∧
        (∀ (j : Nat) (s1 pw1 : String) (g : Nat) (env3 : Env),
          m4.network_calls[j]? = some (NetworkCall.ConnectToService s1 pw1 g) →
          step env3 (Event.ConnectSuccess j) m4 = some m4) := by
  obtain ⟨hwf3, hs3, hssid3, _, _, t, ht, htt, htk, htd⟩ :=
    configured_attempt_current hwf hmid hgen hp htask htok hstart hwait hcur
  obtain ⟨k, hk⟩ := List.mem_iff_getElem?.mp ht
  have hstep := @step_runTask_connectTimeout env2 k m3 t hk htt htk (by rw [htd]; exact hlate)
  have hwfe : WellFormed { m3 with posted := m3.posted.eraseIdx k } :=
    ⟨fun q hmem => hwf3.1 q (List.mem_of_mem_eraseIdx hmem), hwf3.2⟩
  obtain ⟨m4, hm4⟩ := OnConnectTimeout_returns env2 { m3 with posted := m3.posted.eraseIdx k }
    hcheck
  obtain ⟨d1, d2, _, d4, d5, d6⟩ := OnConnectTimeout_decides hwfe hm4
  rw [hm4] at hstep
  refine ⟨k, t, hk, htt, htd, m4, hstep, d1, d2.trans hssid3, ?_, d5, ?_⟩
  · intro hn
    obtain ⟨e1, e2, e3⟩ := d6 hn
    refine ⟨e1, e2, ?_⟩
    rw [e3]
    simp [hs3]
  · intro j s1 pw1 g env3 hj
    exact noLiveAttempt_callback_dead d4 hj

/-- Witness for C13: the connect attempt of a fresh device times out at second
181 while the provider is offline; the device is Bootstrapping again. -/
theorem C13_connect_timeout_sets_error_and_restarts_bootstrapping_unless_connected_witness :
    WellFormed setupStart ∧
    step (envAt NetworkState.kOffline 1) (Event.RunTask 1) setupRequested
      = some setupConnecting ∧
    step (envAt NetworkState.kOffline 181) (Event.RunTask 2) setupConnecting
      = some setupTimedOutOffline ∧
    GetSetupState setupTimedOutOffline = connectFailed ∧
    setupTimedOutOffline.state_ = State.kBootstrapping ∧
    enableCalls setupTimedOutOffline.network_calls = ["DEVICE_NAME.prv", "DEVICE_NAME.prv"] ∧
    ∃ (k : Nat) (t : PostedTask), setupConnecting.posted[k]? = some t ∧
      t.task = Task.OnConnectTimeout ∧
      t.due = ((envAt NetworkState.kOffline 1).now : Int) + FromMinutes 3 ∧
      ∃ m4, step (envAt NetworkState.kOffline 181) (Event.RunTask k) setupConnecting
          = some m4 ∧
        GetSetupState m4 = SetupState.error
          (Error.AddTo errors.kDomain errors.kInvalidState
            "Failed to connect to provided network") := by
  obtain ⟨k, t, h1, h2, h3, m4, h4, h5, _⟩ :=
    C13_connect_timeout_sets_error_and_restarts_bootstrapping_unless_connected setupStart
      setupRequested setupConnecting setupConnecting (envAt NetworkState.kOffline 0)
      (envAt NetworkState.kOffline 1) (envAt NetworkState.kOffline 181) "net" "pw" [] [] 1
      { task := Task.StartConnecting "net" "pw", token := WeakToken.tasks 1,
        delay := FromSeconds 1, posted_at := 0 }
      (by decide) (by decide) (by decide) (by decide) rfl (by decide) (by decide)
      (by decide) rfl (by decide) (Or.inr (by decide))
  exact ⟨by decide, by decide, by decide, by decide, by decide, by decide,
    k, t, h1, h2, h3, m4, h4, h5⟩

/-! ## C14: the race between success callback and connect timeout -/

/-- C14, counterexample: the attempt for "net" is under way when a second
ConfigureCredentials call arrives; its delayed StartConnecting re-enters
Connecting and invalidates both completions of the first attempt.  The success
callback of the first attempt then does nothing and its connect timeout is
only taken off the queue: neither outcome of the first attempt takes effect,
and SetupState, SSID and state are those of the second attempt under way. -/
theorem C14_counterexample_superseded_attempt_has_no_outcome :
    run [(envAt NetworkState.kOffline 2, Event.ConfigureCredentials "other" "pw2"),
         (envAt NetworkState.kOffline 3, Event.RunTask 3)] setupConnecting
      = some setupSuperseded ∧
    setupSuperseded.network_calls[3]? = some (NetworkCall.ConnectToService "net" "pw" 2) ∧
    step (envAt NetworkState.kConnected 4) (Event.ConnectSuccess 3) setupSuperseded
      = some setupSuperseded ∧
    setupSuperseded.posted[2]? =
      some { task := Task.OnConnectTimeout, token := WeakToken.tasks 2,
             delay := 180000000, posted_at := 1000000 } ∧
    step (envAt NetworkState.kOffline 181) (Event.RunTask 2) setupSuperseded
      = some { setupSuperseded with posted := setupSuperseded.posted.eraseIdx 2 } ∧
    GetSetupState setupSuperseded = SetupState.kInProgress ∧
    GetCurrentlyConnectedSsid setupSuperseded = "" ∧
    setupSuperseded.state_ = State.kConnecting := by
  refine ⟨by decide, by decide, by decide, by decide, by decide, by decide, by decide,
    by decide⟩

/-- C14 (as amended): take a connect attempt started by StartConnecting on a
well-formed object and a later point at which no state entry has run since.
There both completions are live.  If the success callback runs first it takes
effect (Success, the new SSID) and every queued connect timeout is then only
taken off the queue when run.  If the connect timeout runs first it takes
effect (the connect failure, the SSID kept) and every success callback handed
out so far then does nothing.  If instead another StartConnecting runs first,
both completions of the attempt are invalidated and neither takes effect.  In
each case nothing of the attempt is live afterwards, so at most one of its two
outcomes ever takes effect and the other cannot change SetupState, the
last-configured SSID or the lifecycle state. -/
theorem C14_first_completion_takes_effect_and_invalidates_the_other
    (x m3 : WifiBootstrapManager) (env1 env2 : Env) (ssid pw : String)
    (evs1 : List (Env × Event)) (hwf : WellFormed x)
    (hwait : run evs1 (StartConnecting env1 ssid pw x) = some m3)
    (hcur : m3.tasks_gen = (StartConnecting env1 ssid pw x).tasks_gen) :
    -- both completions are live
    (m3.network_calls[m3.network_calls.length - 1]? =
        some (NetworkCall.ConnectToService ssid pw m3.tasks_gen) ∧
      ∃ t ∈ m3.posted, t.task = Task.OnConnectTimeout ∧ t.token.live m3 = true) ∧
    -- the success callback first
    (∃ m4, step env2 (Event.ConnectSuccess (m3.network_calls.length - 1)) m3 = some m4 ∧
      GetSetupState m4 = SetupState.kSuccess ∧ GetCurrentlyConnectedSsid m4 = ssid ∧
      NoLiveAttempt m4 ∧
      ∀ (k : Nat) (t : PostedTask) (env3 : Env), m4.posted[k]? = some t →
        t.task = Task.OnConnectTimeout → t.due ≤ (env3.now : Int) →
        step env3 (Event.RunTask k) m4 = some { m4 with posted := m4.posted.eraseIdx k }) ∧
    -- the connect timeout first
    (∀ (k : Nat) (t : PostedTask) (m4 : WifiBootstrapManager), m3.posted[k]? = some t →
      t.task = Task.OnConnectTimeout → t.token = WeakToken.tasks m3.tasks_gen →
      step env2 (Event.RunTask k) m3 = some m4 →
      GetSetupState m4 = connectFailed ∧
      GetCurrentlyConnectedSsid m4 = GetCurrentlyConnectedSsid x ∧
      NoLiveAttempt m4 ∧
      ∀ (j : Nat) (s1 pw1 : String) (g : Nat) (env3 : Env),
        m4.network_calls[j]? = some (NetworkCall.ConnectToService s1 pw1 g) →
        step env3 (Event.ConnectSuccess j) m4 = some m4) ∧
    -- another StartConnecting first
    (∀ (ssid2 pw2 : String),
      (∀ t ∈ m3.posted, t.task = Task.OnConnectTimeout →
        t.token.live (StartConnecting env2 ssid2 pw2 m3) = false) ∧
      (∀ env3 : Env, step env3 (Event.ConnectSuccess (m3.network_calls.length - 1))
          (StartConnecting env2 ssid2 pw2 m3) = some (StartConnecting env2 ssid2 pw2 m3))) := by
  obtain ⟨hwf3, hs3, hssid3, _, hlast, t, ht, htt, htk, _⟩ :=
    StartConnecting_current hwf hwait hcur
  rw [List.getLast?_eq_getElem?] at hlast
  refine ⟨⟨hlast, t, ht, htt, by simp [htk, WeakToken.live]⟩, ?_, ?_, ?_⟩
  · obtain ⟨d1, d2, _, _, d5, _⟩ := OnConnectSuccess_decides env2 ssid hwf3
    refine ⟨OnConnectSuccess env2 ssid m3, step_connectSuccess_live hlast, d1, d2, d5, ?_⟩
    intro k q env3 hk hq hdue
    refine step_runTask_dead hk hdue ?_
    exact staleAt_not_live (d5.1 q (List.getElem?_mem hk) (by rw [hq]; rfl))
  · intro k q m4 hk hq hqk hstep
    have hdue : q.due ≤ (env2.now : Int) := by
      by_contra hnot
      simp [step, hk, hnot] at hstep
    rw [step_runTask_connectTimeout hk hq hqk hdue] at hstep
    have hwfe : WellFormed { m3 with posted := m3.posted.eraseIdx k } :=
      ⟨fun r hmem => hwf3.1 r (List.mem_of_mem_eraseIdx hmem), hwf3.2⟩
    obtain ⟨d1, d2, _, d4, _, _⟩ := OnConnectTimeout_decides hwfe hstep
    refine ⟨d1, d2.trans hssid3, d4, ?_⟩
    intro j s1 pw1 g env3 hj
    exact noLiveAttempt_callback_dead d4 hj
  · intro ssid2 pw2
    have hg : (StartConnecting env2 ssid2 pw2 m3).tasks_gen = m3.tasks_gen + 1 :=
      (StartConnecting_started env2 ssid2 pw2 m3).2.1
    constructor
    · intro q hq hqt
      have hq1 := wellFormedAt_stale_succ (hwf3.1 q hq) (by rw [hqt]; rfl)
      have : q.token.staleAt (StartConnecting env2 ssid2 pw2 m3).tasks_gen = true := by
        rw [hg]; exact hq1
      exact staleAt_not_live this
    · intro env3
      have hlen : m3.network_calls.length - 1 < m3.network_calls.length := by
        rcases Nat.lt_or_ge (m3.network_calls.length - 1) m3.network_calls.length with h | h
        · exact h
        · rw [List.getElem?_eq_none h] at hlast
          exact absurd hlast (by simp)
      have hc : (StartConnecting env2 ssid2 pw2 m3).network_calls[m3.network_calls.length - 1]?
          = some (NetworkCall.ConnectToService ssid pw m3.tasks_gen) := by
        rw [StartConnecting_eq]
        simp only [UpdateState_network_calls, List.append_assoc]
        rw [List.getElem?_append_left hlen]
        exact hlast
      exact step_connectSuccess_dead hc (by rw [hg]; omega)

/-- Witness for C14: an attempt started on a Bootstrapping device; its success
callback and its connect timeout are both live. -/
theorem C14_first_completion_takes_effect_and_invalidates_the_other_witness :
    WellFormed setupStart ∧ run [] directAttempt = some directAttempt ∧
    directAttempt.network_calls[directAttempt.network_calls.length - 1]? =
        some (NetworkCall.ConnectToService "net" "pw" directAttempt.tasks_gen) ∧
    (∃ t ∈ directAttempt.posted, t.task = Task.OnConnectTimeout ∧
      t.token.live directAttempt = true) ∧
    (step (envAt NetworkState.kConnected 2) (Event.ConnectSuccess 3) directAttempt).map
      (fun m => (m.setup_state_, m.last_configured_ssid_, m.state_)) =
      some (SetupState.kSuccess, "net", State.kMonitoring) := by
  have h := (C14_first_completion_takes_effect_and_invalidates_the_other setupStart
    directAttempt (envAt NetworkState.kOffline 1) (envAt NetworkState.kConnected 2) "net" "pw"
    [] (by decide) (by decide) rfl).1
  exact ⟨by decide, by decide, h.1, h.2, by decide⟩

/-! ## C18: notification tasks run in commit order -/

theorem grows_self (env : Env) (m : WifiBootstrapManager) : Grows env m.posted m :=
  ⟨[], by simp, by simp⟩

theorem UpdateState_grows (env : Env) (s : State) (m : WifiBootstrapManager) :
    Grows env m.posted (UpdateState env s m) := by
  refine ⟨_, UpdateState_posted env m s, ?_⟩
  intro p hp _
  split at hp
  · simp only [List.mem_singleton] at hp
    subst hp
    simp [notifyTask, PostedTask.due]
  · simp at hp

theorem StartMonitoring_grows (env : Env) (m : WifiBootstrapManager) :
    Grows env m.posted (StartMonitoring env m) := by
  refine ⟨_, by rw [StartMonitoring_posted, List.append_assoc], ?_⟩
  intro p hp hn
  simp only [List.mem_append] at hp
  rcases hp with hp | hp
  · split at hp
    · simp only [List.mem_singleton] at hp
      subst hp
      simp [notifyTask, PostedTask.due]
    · simp at hp
  · split at hp
    · simp at hp
    · simp only [List.mem_singleton] at hp
      subst hp
      simp [monitorTask, Task.isNotify] at hn

theorem StartBootstrapping_grows {env : Env} {m m' : WifiBootstrapManager}
    (h : StartBootstrapping env m = some m') : Grows env m.posted m' := by
  rcases StartBootstrapping_cases h with ⟨_, rfl⟩ | ⟨_, _, rfl⟩
  · exact StartMonitoring_grows env m
  · refine ⟨_, by simp only [UpdateState_posted, List.append_assoc]; rfl, ?_⟩
    intro p hp hn
    simp only [List.mem_append] at hp
    rcases hp with hp | hp
    · split at hp
      · simp only [List.mem_singleton] at hp
        subst hp
        simp [notifyTask, PostedTask.due]
      · simp at hp
    · split at hp
      · simp at hp
      · simp only [List.mem_singleton] at hp
        subst hp
        simp [bootstrapTask, Task.isNotify] at hn

theorem StartConnecting_grows (env : Env) (ssid pw : String) (m : WifiBootstrapManager) :
    Grows env m.posted (StartConnecting env ssid pw m) := by
  rw [StartConnecting_eq]
  refine ⟨_, by simp only [UpdateState_posted, List.append_assoc]; rfl, ?_⟩
  intro p hp hn
  simp only [List.mem_append, List.mem_singleton] at hp
  rcases hp with hp | hp
  · split at hp
    · simp only [List.mem_singleton] at hp
      subst hp
      simp [notifyTask, PostedTask.due]
    · simp at hp
  · subst hp
    simp [Task.isNotify] at hn

theorem runBound_grows {env : Env} {t : Task} {m m' : WifiBootstrapManager}
    (hr : runBound env t m = some m') : Grows env m.posted m' := by
  cases t with
  | OnBootstrapTimeout =>
      simp only [runBound, OnBootstrapTimeout, Option.some.injEq] at hr
      subst hr
      exact StartMonitoring_grows env m
  | OnConnectTimeout =>
      simp only [runBound, OnConnectTimeout] at hr
      have h := StartBootstrapping_grows hr
      exact h
  | OnMonitorTimeout =>
      simp only [runBound, OnMonitorTimeout] at hr
      exact StartBootstrapping_grows hr
  | StartConnecting s p =>
      simp only [runBound, Option.some.injEq] at hr
      subst hr
      exact StartConnecting_grows env s p m
  | NotifyStateListeners s =>
      simp only [runBound, Option.some.injEq] at hr
      subst hr
      exact ⟨[], by simp [NotifyStateListeners], by simp⟩

/-- After any event the queue is a sublist of the old queue followed by the
tasks the event posted. -/
theorem step_grows {env : Env} {ev : Event} {m m' : WifiBootstrapManager}
    (hstep : step env ev m = some m') :
    ∃ base, base.Sublist m.posted ∧ Grows env base m' := by
  cases ev with
  | OnConnectivityChange c =>
      simp only [step, Option.some.injEq] at hstep
      subst hstep
      refine ⟨m.posted, List.Sublist.refl _, ?_⟩
      unfold OnConnectivityChange
      simp only []
      have hu : (UpdateConnectionState env m).posted = m.posted := by
        rw [UpdateConnectionState_eq]
      split
      · have h := StartMonitoring_grows env (UpdateConnectionState env m)
        rw [hu] at h
        exact h
      · exact ⟨[], by simp [hu], by simp⟩
  | ConfigureCredentials s p =>
      simp only [step, Option.some.injEq] at hstep
      subst hstep
      refine ⟨m.posted, List.Sublist.refl _, _, rfl, ?_⟩
      intro q hq hn
      simp only [List.mem_singleton] at hq
      subst hq
      simp [Task.isNotify] at hn
  | RegisterStateListener l =>
      simp only [step, Option.some.injEq] at hstep
      subst hstep
      exact ⟨m.posted, List.Sublist.refl _, [], by simp [RegisterStateListener], by simp⟩
  | RunTask i =>
      simp only [step] at hstep
      split at hstep
      · exact absurd hstep (by simp)
      · split at hstep
        · split at hstep
          · exact ⟨m.posted.eraseIdx i, List.eraseIdx_sublist _ _, runBound_grows hstep⟩
          · simp only [Option.some.injEq] at hstep
            subst hstep
            exact ⟨m.posted.eraseIdx i, List.eraseIdx_sublist _ _, [], by simp, by simp⟩
        · exact absurd hstep (by simp)
  | ConnectSuccess i =>
      simp only [step] at hstep
      split at hstep
      · split at hstep
        · simp only [Option.some.injEq, OnConnectSuccess] at hstep
          subst hstep
          exact ⟨m.posted, List.Sublist.refl _, StartMonitoring_grows env _⟩
        · simp only [Option.some.injEq] at hstep
          subst hstep
          exact ⟨m.posted, List.Sublist.refl _, grows_self env m⟩
      · exact absurd hstep (by simp)

/-- The order of the queued notifications survives an event that happens no
earlier than the clock. -/
theorem notifyOrdered_of_grows {clock : Time} {env : Env} {m m' : WifiBootstrapManager}
    {base : List PostedTask} (h : NotifyOrdered clock m) (hc : clock ≤ env.now)
    (hsub : base.Sublist m.posted) (hg : Grows env base m') : NotifyOrdered env.now m' := by
  obtain ⟨hdue, hpw⟩ := h
  obtain ⟨extra, hposted, hextra⟩ := hg
  have hc' : (clock : Int) ≤ (env.now : Int) := by exact_mod_cast hc
  constructor
  · intro p hp hn
    rw [hposted, List.mem_append] at hp
    rcases hp with hp | hp
    · exact le_trans (hdue p (hsub.subset hp) hn) hc'
    · rw [hextra p hp hn]
  · rw [hposted, List.pairwise_append]
    refine ⟨hpw.sublist hsub, ?_, ?_⟩
    · refine List.pairwise_of_forall_mem_list ?_
      intro a ha b hb hna hnb
      rw [hextra a ha hna, hextra b hb hnb]
    · intro a ha b hb hna hnb
      rw [hextra b hb hnb]
      exact le_trans (hdue a (hsub.subset ha) hna) hc'

/-- The task `earliestIndex` names is in the queue, and every task queued
before it is due strictly later. -/
theorem earliestIndex_spec : ∀ (l : List PostedTask) (i : Nat), earliestIndex l = some i →
    ∃ p, l[i]? = some p ∧ ∀ (j : Nat) (q : PostedTask), j < i → l[j]? = some q → p.due < q.due := by
  intro l
  induction l with
  | nil => intro i h; simp [earliestIndex] at h
  | cons p rest ih =>
      intro i h
      simp only [earliestIndex] at h
      cases hr : earliestIndex rest with
      | none =>
          rw [hr] at h
          simp only [Option.some.injEq] at h
          subst h
          exact ⟨p, by simp, fun j q hj _ => absurd hj (Nat.not_lt_zero j)⟩
      | some j =>
          rw [hr] at h
          obtain ⟨q, hq, hmin⟩ := ih j hr
          simp only [hq] at h
          split at h
          · simp only [Option.some.injEq] at h
            subst h
            exact ⟨p, by simp, fun j q hj _ => absurd hj (Nat.not_lt_zero j)⟩
          · rename_i hle
            simp only [Option.some.injEq] at h
            subst h
            refine ⟨q, by simpa using hq, ?_⟩
            intro k r hk hkr
            cases k with
            | zero =>
                simp only [List.getElem?_cons_zero, Option.some.injEq] at hkr
                subst hkr
                exact lt_of_not_le hle
            | succ k =>
                simp only [List.getElem?_cons_succ] at hkr
                exact hmin k r (by omega) hkr

/-- A task runner that takes the task due first never runs a notification
while an earlier one is queued. -/
theorem keepsNotifyOrder_of_earliestFirst {clock : Time} {m : WifiBootstrapManager}
    {ev : Event} (h : NotifyOrdered clock m) (he : ev.earliestFirst m = true) :
    ev.keepsNotifyOrder m = true := by
  cases ev with
  | RunTask i =>
      simp only [Event.earliestFirst, decide_eq_true_eq] at he
      obtain ⟨p, hp, hmin⟩ := earliestIndex_spec m.posted i he
      simp only [Event.keepsNotifyOrder, hp]
      cases hn : p.task.isNotify with
      | false => simp
      | true =>
          simp only [Bool.not_true, Bool.false_or, List.all_eq_true]
          intro q hq
          cases hqn : q.task.isNotify with
          | false => rfl
          | true =>
              exfalso
              obtain ⟨j, hjq⟩ := List.mem_iff_getElem?.mp hq
              have hjlt : j < i := by
                by_contra hge
                rw [List.getElem?_take_eq_none (Nat.le_of_not_lt hge)] at hjq
                exact absurd hjq (by simp)
              rw [List.getElem?_take_of_lt hjlt] at hjq
              have hi : i < m.posted.length := by
                rcases Nat.lt_or_ge i m.posted.length with h1 | h1
                · exact h1
                · rw [List.getElem?_eq_none h1] at hp
                  exact absurd hp (by simp)
              have hj : j < m.posted.length := lt_trans hjlt hi
              have hpw := List.pairwise_iff_getElem.mp h.2 j i hj hi hjlt
              rw [List.getElem?_eq_getElem hj] at hjq
              rw [List.getElem?_eq_getElem hi] at hp
              have e1 : m.posted[j] = q := Option.some.inj hjq
              have e2 : m.posted[i] = p := Option.some.inj hp
              rw [e1, e2] at hpw
              have hle := hpw hqn hn
              have hlt := hmin j q hjlt (by rw [List.getElem?_eq_getElem hj, e1])
              omega
  | OnConnectivityChange c => rfl
  | ConfigureCredentials s p => rfl
  | RegisterStateListener l => rfl
  | ConnectSuccess i => rfl

theorem step_notifyOrdered {clock : Time} {env : Env} {ev : Event}
    {m m' : WifiBootstrapManager} (h : NotifyOrdered clock m) (hc : clock ≤ env.now)
    (hstep : step env ev m = some m') : NotifyOrdered env.now m' := by
  obtain ⟨base, hsub, hg⟩ := step_grows hstep
  exact notifyOrdered_of_grows h hc hsub hg

/-- Under a task runner that takes the task due first, the notifications run
in the order in which they were posted. -/
theorem runsInOrder_of_followsTaskRunner (evs : List (Env × Event)) :
    ∀ (clock : Time) (m : WifiBootstrapManager), NotifyOrdered clock m →
      followsTaskRunner clock evs m = true → runsNotificationsInOrder evs m = true := by
  induction evs with
  | nil => intro _ _ _ _; rfl
  | cons e rest ih =>
      intro clock m hord hf
      obtain ⟨env, ev⟩ := e
      simp only [followsTaskRunner, Bool.and_eq_true, decide_eq_true_eq] at hf
      obtain ⟨⟨hc, he⟩, hrest⟩ := hf
      simp only [runsNotificationsInOrder, Bool.and_eq_true]
      refine ⟨keepsNotifyOrder_of_earliestFirst hord he, ?_⟩
      cases hs : step env ev m with
      | none => rfl
      | some m1 =>
          rw [hs] at hrest
          exact ih env.now m1 (step_notifyOrdered hord hc hs) hrest

/-- The queued notifications are all due by the time of the last event. -/
theorem run_notifyOrdered (evs : List (Env × Event)) :
    ∀ (clock : Time) (m m' : WifiBootstrapManager), NotifyOrdered clock m →
      followsTaskRunner clock evs m = true → run evs m = some m' →
      NotifyOrdered (clockAfter clock evs) m' := by
  induction evs with
  | nil =>
      intro clock m m' hord _ hrun
      simp only [run, Option.some.injEq] at hrun
      subst hrun
      exact hord
  | cons e rest ih =>
      intro clock m m' hord hf hrun
      obtain ⟨env, ev⟩ := e
      simp only [followsTaskRunner, Bool.and_eq_true, decide_eq_true_eq] at hf
      obtain ⟨⟨hc, _⟩, hrest⟩ := hf
      simp only [run] at hrun
      cases hs : step env ev m with
      | none => simp [hs] at hrun
      | some m1 =>
          rw [hs] at hrun hrest
          exact ih env.now m1 m' (step_notifyOrdered hord hc hs) hrest hrun

theorem pending_of_queuesTransition (m : WifiBootstrapManager) {m1 m' : WifiBootstrapManager}
    (pre : List State) (h : QueuesTransition m1 m') (hs : m1.state_ = m.state_)
    (hp : pre ++ pendingNotifications m1 = pendingNotifications m) :
    pre ++ pendingNotifications m' =
      pendingNotifications m ++ (if m'.state_ ≠ m.state_ then [m'.state_] else []) := by
  rw [h.2.2, hs, ← hp, List.append_assoc]

/-- One event, seen from the queue: the notification it ran, if any, followed
by the notifications queued after it, is what was queued before followed by
the state entered, if the event changed the state. -/
theorem step_notify_ledger {env : Env} {ev : Event} {m m' : WifiBootstrapManager}
    (hwf : WellFormed m) (hord : ev.keepsNotifyOrder m = true)
    (hstep : step env ev m = some m') :
    notifiedBy m ev ++ pendingNotifications m' =
      pendingNotifications m ++ (if m'.state_ ≠ m.state_ then [m'.state_] else []) := by
  cases ev with
  | OnConnectivityChange c =>
      simp only [step, Option.some.injEq] at hstep
      subst hstep
      simp only [notifiedBy]
      unfold OnConnectivityChange
      simp only []
      split
      · exact pending_of_queuesTransition m []
          (StartMonitoring_queuesTransition env (UpdateConnectionState env m))
          (by rw [UpdateConnectionState_eq]) (by rw [UpdateConnectionState_eq]; rfl)
      · rw [UpdateConnectionState_eq]
        simp [pendingNotifications]
  | ConfigureCredentials s p =>
      simp only [step, Option.some.injEq] at hstep
      subst hstep
      simp [notifiedBy, ConfigureCredentials, PostDelayedTask, pendingNotifications,
        List.filterMap_append, Task.notifiedState]
  | RegisterStateListener l =>
      simp only [step, Option.some.injEq] at hstep
      subst hstep
      simp [notifiedBy, RegisterStateListener, pendingNotifications]
  | RunTask i =>
      simp only [step] at hstep
      split at hstep
      · exact absurd hstep (by simp)
      · rename_i p hpi
        simp only [Event.keepsNotifyOrder, hpi] at hord
        have hpwf := hwf.1 p (List.getElem?_mem hpi)
        unfold PostedTask.wellFormedAt at hpwf
        simp only [notifiedBy, hpi]
        split at hstep
        · split at hstep
          · rename_i hlive
            simp only [hlive, if_true]
            cases htask : p.task with
            | NotifyStateListeners s =>
                rw [htask] at hstep
                simp only [runBound, Option.some.injEq] at hstep
                subst hstep
                have hfirst : (m.posted.take i).all (fun q => !q.task.isNotify) = true := by
                  simpa [htask, Task.isNotify] using hord
                rw [pendingNotifications_eraseIdx_first hpi htask hfirst]
                simp [NotifyStateListeners, Task.notifiedState, pendingNotifications]
            | OnBootstrapTimeout =>
                rw [htask] at hstep
                simp only [runBound, OnBootstrapTimeout, Option.some.injEq] at hstep
                subst hstep
                exact pending_of_queuesTransition m _
                  (StartMonitoring_queuesTransition env { m with posted := m.posted.eraseIdx i })
                  rfl
                  (by
                    have e := pendingNotifications_eraseIdx_other hpi
                      (show p.task.notifiedState = none by rw [htask]; rfl)
                    exact e)
            | OnConnectTimeout =>
                rw [htask] at hstep
                simp only [runBound, OnConnectTimeout] at hstep
                exact pending_of_queuesTransition m _
                  (StartBootstrapping_queuesTransition hstep) rfl
                  (by
                    have e := pendingNotifications_eraseIdx_other hpi
                      (show p.task.notifiedState = none by rw [htask]; rfl)
                    exact e)
            | OnMonitorTimeout =>
                rw [htask] at hstep
                simp only [runBound, OnMonitorTimeout] at hstep
                exact pending_of_queuesTransition m _
                  (StartBootstrapping_queuesTransition hstep) rfl
                  (by
                    have e := pendingNotifications_eraseIdx_other hpi
                      (show p.task.notifiedState = none by rw [htask]; rfl)
                    exact e)
            | StartConnecting s pw =>
                rw [htask] at hstep
                simp only [runBound, Option.some.injEq] at hstep
                subst hstep
                exact pending_of_queuesTransition m _
                  (StartConnecting_queuesTransition env s pw
                    { m with posted := m.posted.eraseIdx i })
                  rfl
                  (by
                    have e := pendingNotifications_eraseIdx_other hpi
                      (show p.task.notifiedState = none by rw [htask]; rfl)
                    exact e)
          · rename_i hlive
            simp only [Option.some.injEq] at hstep
            subst hstep
            have hnot : p.task.notifiedState = none := by
              cases htok : p.token with
              | lifetime => simp [htok, WeakToken.live] at hlive
              | tasks g =>
                  rw [htok] at hpwf
                  simp only [Bool.and_eq_true] at hpwf
                  exact notifiedState_of_not_isNotify hpwf.1
            simp only [hlive]
            rw [pendingNotifications_eraseIdx_other hpi hnot]
            simp
        · exact absurd hstep (by simp)
  | ConnectSuccess i =>
      simp only [step] at hstep
      simp only [notifiedBy]
      split at hstep
      · split at hstep
        · simp only [Option.some.injEq, OnConnectSuccess] at hstep
          subst hstep
          rename_i ssid pw gen hc hg
          exact pending_of_queuesTransition m []
            (StartMonitoring_queuesTransition env
              { m with last_configured_ssid_ := ssid, setup_state_ := SetupState.kSuccess })
            rfl rfl
        · simp only [Option.some.injEq] at hstep
          subst hstep
          simp
      · exact absurd hstep (by simp)

/-- Along a run in which the notifications are run in posting order: the
notifications run, followed by those still queued, are those queued at the
start followed by the transitions of the run, in commit order. -/
theorem run_notify_ledger (evs : List (Env × Event)) :
    ∀ (m m' : WifiBootstrapManager), WellFormed m →
      runsNotificationsInOrder evs m = true → run evs m = some m' →
      notificationsRun evs m ++ pendingNotifications m' =
        pendingNotifications m ++ transitions evs m := by
  induction evs with
  | nil =>
      intro m m' _ _ hrun
      simp only [run, Option.some.injEq] at hrun
      subst hrun
      simp [transitions, notificationsRun]
  | cons e rest ih =>
      intro m m' hwf hord hrun
      obtain ⟨env, ev⟩ := e
      simp only [run] at hrun
      cases hs : step env ev m with
      | none => simp [hs] at hrun
      | some m1 =>
          rw [hs] at hrun
          simp only [runsNotificationsInOrder, hs, Bool.and_eq_true] at hord
          have h1 := step_notify_ledger hwf hord.1 hs
          have h := ih m1 m' (step_wellFormed hwf hs) hord.2 hrun
          simp only [notificationsRun, transitions, hs, List.append_assoc]
          rw [h, ← List.append_assoc, h1, List.append_assoc]

/-- Running a queued notification that is due succeeds, takes the task off the
queue and calls every listener registered at that point, in registration
order, with the state of the task. -/
theorem step_runTask_notification {env : Env} {m : WifiBootstrapManager} {i : Nat}
    {p : PostedTask} {s : State} (hwf : WellFormed m) (hp : m.posted[i]? = some p)
    (ht : p.task = Task.NotifyStateListeners s) (hdue : p.due ≤ (env.now : Int)) :
    step env (Event.RunTask i) m =
      some { m with posted := m.posted.eraseIdx i,
                    listener_calls := m.listener_calls ++
                      m.state_listeners_.map (fun l => (l, s)) } := by
  have hpwf := hwf.1 p (List.getElem?_mem hp)
  unfold PostedTask.wellFormedAt at hpwf
  have hlive : p.token.live m = true := by
    cases htok : p.token with
    | lifetime => rfl
    | tasks g =>
        rw [htok, ht] at hpwf
        simp [Task.isNotify] at hpwf
  simp only [step, hp, hdue, if_true, hlive, ht, runBound, NotifyStateListeners]

theorem Init_state_posted {env : Env} {m m' : WifiBootstrapManager}
    (hs : m.state_ = State.kDisabled) (hp : m.posted = []) (hi : Init env m = some m') :
    NotifyOrdered env.now m' ∧ pendingNotifications m' = [m'.state_] := by
  have hu : callNetwork NetworkCall.AddOnConnectionChangedCallback (UpdateConnectionState env m)
      = { m with connection_state_ := (UpdateConnectionState env m).connection_state_,
                 network_calls := m.network_calls ++
                   [NetworkCall.AddOnConnectionChangedCallback] } := by
    rw [UpdateConnectionState_eq]; rfl
  unfold Init at hi
  simp only [] at hi
  rw [hu] at hi
  have hord : NotifyOrdered env.now
      { m with connection_state_ := (UpdateConnectionState env m).connection_state_,
               network_calls := m.network_calls ++
                 [NetworkCall.AddOnConnectionChangedCallback] } := by
    constructor
    · intro p hmem; simp [hp] at hmem
    · simp [hp]
  have hpend : pendingNotifications
      { m with connection_state_ := (UpdateConnectionState env m).connection_state_,
               network_calls := m.network_calls ++
                 [NetworkCall.AddOnConnectionChangedCallback] } = [] := by
    simp [pendingNotifications, hp]
  split at hi
  · have hg := StartBootstrapping_grows hi
    have hq := StartBootstrapping_queuesTransition hi
    refine ⟨notifyOrdered_of_grows hord (le_refl _) (List.Sublist.refl _) hg, ?_⟩
    rw [hq.2.2, hpend]
    have hne : m'.state_ ≠ State.kDisabled := by
      rcases StartBootstrapping_cases hi with ⟨_, rfl⟩ | ⟨_, _, rfl⟩
      · simp
      · simp
    simp [hs, hne]
  · simp only [Option.some.injEq] at hi
    subst hi
    have hg := StartMonitoring_grows env
      { m with connection_state_ := (UpdateConnectionState env m).connection_state_,
               network_calls := m.network_calls ++
                 [NetworkCall.AddOnConnectionChangedCallback] }
    have hq := StartMonitoring_queuesTransition env
      { m with connection_state_ := (UpdateConnectionState env m).connection_state_,
               network_calls := m.network_calls ++
                 [NetworkCall.AddOnConnectionChangedCallback] }
    refine ⟨notifyOrdered_of_grows hord (le_refl _) (List.Sublist.refl _) hg, ?_⟩
    rw [hq.2.2, hpend]
    simp [hs]

/-- C18: on a constructed instance, after Init() and along every sequence of
events as a task runner produces it (time does not go back, a task run takes
the queued task that is due first), the notification tasks that have run,
followed by the notification tasks still queued, are exactly the state entered
by Init() and then the state of every later committed transition, in commit
order: the notifications run in the order their transitions were committed,
and no later transition, although it invalidates the per-state timers, takes
an earlier notification off the queue or moves it.  Every notification still
queued is due, and running it succeeds at any later time, takes it off the
queue and calls each listener registered at that point, in registration
order, with the state of its own transition, and does nothing else. -/
theorem C18_notifications_run_in_commit_order_and_call_listeners_in_insertion_order
    (last_configured_ssid test_privet_ssid : String) (ble_setup_enabled : Bool) (env0 : Env)
    (m0 m : WifiBootstrapManager) (evs : List (Env × Event))
    (hinit : Init env0 (WifiBootstrapManager.create last_configured_ssid test_privet_ssid
      ble_setup_enabled) = some m0)
    (hfollows : followsTaskRunner env0.now evs m0 = true)
    (hrun : run evs m0 = some m) :
    notificationsRun evs m0 ++ pendingNotifications m = m0.state_ :: transitions evs m0 ∧
    (∀ (i : Nat) (p : PostedTask) (s : State) (env : Env),
      m.posted[i]? = some p → p.task = Task.NotifyStateListeners s →
      clockAfter env0.now evs ≤ env.now →
      step env (Event.RunTask i) m =
        some { m with posted := m.posted.eraseIdx i,
                      listener_calls := m.listener_calls ++
                        m.state_listeners_.map (fun l => (l, s)) }) := by
  have hwfc : WellFormed (WifiBootstrapManager.create last_configured_ssid test_privet_ssid
      ble_setup_enabled) := by
    constructor
    · intro p hp; simp [WifiBootstrapManager.create] at hp
    · intro c hc; simp [WifiBootstrapManager.create] at hc
  have hwf0 : WellFormed m0 := Init_wellFormed hwfc hinit
  obtain ⟨hord0, hpend0⟩ := Init_state_posted rfl rfl hinit
  have hwf : WellFormed m := run_wellFormed evs m0 m hwf0 hrun
  have hinorder := runsInOrder_of_followsTaskRunner evs env0.now m0 hord0 hfollows
  have hledger := run_notify_ledger evs m0 m hwf0 hinorder hrun
  have hord := run_notifyOrdered evs env0.now m0 m hord0 hfollows hrun
  refine ⟨by rw [hledger, hpend0]; rfl, ?_⟩
  intro i p s env hp ht hclock
  have hdue : p.due ≤ (env.now : Int) := by
    have h1 := hord.1 p (List.getElem?_mem hp) (by rw [ht]; rfl)
    have h2 : (clockAfter env0.now evs : Int) ≤ (env.now : Int) := by exact_mod_cast hclock
    exact le_trans h1 h2
  exact step_runTask_notification hwf hp ht hdue

/-- Witness for C18: a fresh device with two listeners.  The success callback
commits Monitoring while the notification of Connecting is still queued; the
notifications of Bootstrapping and Connecting have run in that order, the one
of Monitoring is queued behind a cancelled connect timeout, and running it
calls listener 7 and then listener 8 with Monitoring. -/
theorem C18_notifications_run_in_commit_order_and_call_listeners_in_insertion_order_witness :
    Init (envAt NetworkState.kOffline 0) (WifiBootstrapManager.create "" "" false)
      = some setupStart ∧
    followsTaskRunner (envAt NetworkState.kOffline 0).now orderEvents setupStart = true ∧
    run orderEvents setupStart = some orderDeviceAfter ∧
    transitions orderEvents setupStart = [State.kConnecting, State.kMonitoring] ∧
    notificationsRun orderEvents setupStart = [State.kBootstrapping, State.kConnecting] ∧
    pendingNotifications orderDeviceAfter = [State.kMonitoring] ∧
    orderDeviceAfter.listener_calls =
      [(7, State.kBootstrapping), (8, State.kBootstrapping), (7, State.kBootstrapping),
       (8, State.kBootstrapping), (7, State.kConnecting), (8, State.kConnecting)] ∧
    orderDeviceAfter.posted[1]? = some (notifyTask (envAt NetworkState.kConnected 2)
      State.kMonitoring) ∧
    (notificationsRun orderEvents setupStart ++ pendingNotifications orderDeviceAfter =
      setupStart.state_ :: transitions orderEvents setupStart) ∧
    step (envAt NetworkState.kConnected 2) (Event.RunTask 1) orderDeviceAfter =
      some { orderDeviceAfter with
        posted := orderDeviceAfter.posted.eraseIdx 1,
        listener_calls := orderDeviceAfter.listener_calls ++
          orderDeviceAfter.state_listeners_.map (fun l => (l, State.kMonitoring)) } :=
  ⟨by decide, by decide, by decide, by decide, by decide, by decide, by decide, by decide,
    (C18_notifications_run_in_commit_order_and_call_listeners_in_insertion_order "" "" false
      (envAt NetworkState.kOffline 0) setupStart orderDeviceAfter orderEvents
      (by decide) (by decide) (by decide)).1,
    (C18_notifications_run_in_commit_order_and_call_listeners_in_insertion_order "" "" false
      (envAt NetworkState.kOffline 0) setupStart orderDeviceAfter orderEvents
      (by decide) (by decide) (by decide)).2 1
      (notifyTask (envAt NetworkState.kConnected 2) State.kMonitoring) State.kMonitoring
      (envAt NetworkState.kConnected 2) (by decide) (by decide) (by decide)⟩

/-! ## C21: UpdateState invalidates the per-state tasks -/

/-- A queued task of a well-formed object, looked at after a later state entry:
it is live exactly if it is a listener notification. -/
theorem live_eq_isNotify_of_lt {m m' : WifiBootstrapManager} {p : PostedTask}
    (h : p.wellFormedAt m.tasks_gen = true) (hlt : m.tasks_gen < m'.tasks_gen) :
    p.token.live m' = p.task.isNotify := by
  unfold PostedTask.wellFormedAt at h
  cases htok : p.token with
  | lifetime =>
      rw [htok] at h
      simp only [WeakToken.live]
      exact h.symm
  | tasks g =>
      rw [htok] at h
      simp only [Bool.and_eq_true, Bool.not_eq_true', decide_eq_true_eq] at h
      simp only [WeakToken.live, h.1, beq_eq_false_iff_ne, ne_eq]
      omega

/-- A success callback of a well-formed object is dead after a later state
entry. -/
theorem callback_dead_of_lt {m m' : WifiBootstrapManager} {ssid pw : String} {g : Nat}
    (h : (NetworkCall.ConnectToService ssid pw g).callbackKnownAt m.tasks_gen = true)
    (hlt : m.tasks_gen < m'.tasks_gen) : g ≠ m'.tasks_gen := by
  simp only [NetworkCall.callbackKnownAt, decide_eq_true_eq] at h
  omega

/-- C21: UpdateState, for every new state (the current one included),
invalidates the per-state weak pointers: every task queued before it stays in
the queue, and is live afterwards exactly if it is a listener notification;
every success callback handed out before it is stale; the only call it may
make on the provider is DisableAccessPoint, so the connectivity subscription
stays.  And after an event that ran a state entry (the per-state generation
changed), under every later sequence of events: a task queued before the entry
that is not a notification is dead, so that the task runner only takes it off
the queue, whatever it is (bootstrap, connect or monitor timeout, delayed
StartConnecting); a success callback handed out before the entry does nothing
when the provider runs it; a queued notification still runs every registered
listener; and a connectivity notification still reaches OnConnectivityChange. -/
theorem C21_update_state_invalidates_per_state_tasks
    (m m1 m' : WifiBootstrapManager) (env : Env) (ev : Event) (evs : List (Env × Event))
    (hwf : WellFormed m) (hstep : step env ev m = some m1)
    (hentry : m1.tasks_gen ≠ m.tasks_gen) (hrun : run evs m1 = some m') :
    (∀ (e : Env) (s : State),
      (UpdateState e s m).tasks_gen = m.tasks_gen + 1 ∧
      (∀ p ∈ m.posted, p ∈ (UpdateState e s m).posted ∧
        p.token.live (UpdateState e s m) = p.task.isNotify) ∧
      (∀ c ∈ m.network_calls, c ∈ (UpdateState e s m).network_calls ∧
        c.callbackStaleAt (UpdateState e s m).tasks_gen = true) ∧
      (UpdateState e s m).network_calls = m.network_calls ++
        (if m.state_ = State.kBootstrapping then [NetworkCall.DisableAccessPoint] else [])) ∧
    (∀ p ∈ m.posted, p.token.live m' = p.task.isNotify) ∧
    (∀ (k : Nat) (p : PostedTask) (e : Env), p ∈ m.posted → p.task.isNotify = false →
      m'.posted[k]? = some p → p.due ≤ (e.now : Int) →
      step e (Event.RunTask k) m' = some { m' with posted := m'.posted.eraseIdx k }) ∧
    (∀ (j : Nat) (ssid pw : String) (g : Nat) (e : Env),
      NetworkCall.ConnectToService ssid pw g ∈ m.network_calls →
      m'.network_calls[j]? = some (NetworkCall.ConnectToService ssid pw g) →
      step e (Event.ConnectSuccess j) m' = some m') ∧
    (∀ (k : Nat) (p : PostedTask) (s : State) (e : Env), m'.posted[k]? = some p →
      p.task = Task.NotifyStateListeners s → p.due ≤ (e.now : Int) →
      step e (Event.RunTask k) m' =
        some { m' with posted := m'.posted.eraseIdx k,
                       listener_calls := m'.listener_calls ++
                         m'.state_listeners_.map (fun l => (l, s)) }) ∧
    (∀ (e : Env) (is_connected : Bool),
      step e (Event.OnConnectivityChange is_connected) m' =
        some (OnConnectivityChange e is_connected m')) := by
  have h1 : m.tasks_gen < m1.tasks_gen := by
    have := step_tasks_gen_le hstep
    omega
  have h2 : m.tasks_gen < m'.tasks_gen := lt_of_lt_of_le h1 (run_tasks_gen_le evs m1 m' hrun)
  have hwf' : WellFormed m' := run_wellFormed evs m1 m' (step_wellFormed hwf hstep) hrun
  refine ⟨?_, ?_, ?_, ?_, ?_, ?_⟩
  · intro e s
    have hu : m.tasks_gen < (UpdateState e s m).tasks_gen := by simp
    refine ⟨by simp, ?_, ?_, by simp⟩
    · intro p hp
      exact ⟨by simp [hp], live_eq_isNotify_of_lt (hwf.1 p hp) hu⟩
    · intro c hc
      refine ⟨by simp [hc], ?_⟩
      have hk := hwf.2 c hc
      cases c with
      | ConnectToService s1 p1 g =>
          simp only [NetworkCall.callbackKnownAt, decide_eq_true_eq] at hk
          simp only [NetworkCall.callbackStaleAt, UpdateState_tasks_gen, decide_eq_true_eq]
          omega
      | AddOnConnectionChangedCallback => rfl
      | EnableAccessPoint s1 => rfl
      | DisableAccessPoint => rfl
  · intro p hp
    exact live_eq_isNotify_of_lt (hwf.1 p hp) h2
  · intro k p e hp hn hk hdue
    refine step_runTask_dead hk hdue ?_
    rw [live_eq_isNotify_of_lt (hwf.1 p hp) h2, hn]
  · intro j ssid pw g e hc hj
    exact step_connectSuccess_dead hj (callback_dead_of_lt (hwf.2 _ hc) h2)
  · intro k p s e hk ht hdue
    exact step_runTask_notification hwf' hk ht hdue
  · intro e c
    rfl

/-- Witness for C21: the success callback of the first setup enters Monitoring;
afterwards the connect timeout of the attempt is only taken off the queue and
a second run of the success callback does nothing. -/
theorem C21_update_state_invalidates_per_state_tasks_witness :
    WellFormed setupConnecting ∧
    step (envAt NetworkState.kConnected 2) (Event.ConnectSuccess 3) setupConnecting
      = some setupSucceeded ∧
    setupSucceeded.tasks_gen ≠ setupConnecting.tasks_gen ∧
    step (envAt NetworkState.kConnected 181) (Event.RunTask 2) setupSucceeded =
      some { setupSucceeded with posted := setupSucceeded.posted.eraseIdx 2 } ∧
    step (envAt NetworkState.kConnected 3) (Event.ConnectSuccess 3) setupSucceeded =
      some setupSucceeded :=
  ⟨by decide, by decide, by decide,
    (C21_update_state_invalidates_per_state_tasks setupConnecting setupSucceeded setupSucceeded
      (envAt NetworkState.kConnected 2) (Event.ConnectSuccess 3) []
      (by decide) (by decide) (by decide) (by decide)).2.2.1 2
      { task := Task.OnConnectTimeout, token := WeakToken.tasks 2, delay := FromMinutes 3,
        posted_at := 1000000 }
      (envAt NetworkState.kConnected 181) (by decide) (by decide) (by decide) (by decide),
    (C21_update_state_invalidates_per_state_tasks setupConnecting setupSucceeded setupSucceeded
      (envAt NetworkState.kConnected 2) (Event.ConnectSuccess 3) []
      (by decide) (by decide) (by decide) (by decide)).2.2.2.1 3 "net" "pw" 2
      (envAt NetworkState.kConnected 3) (by decide) (by decide)⟩

/-! ## C23: the monitor timeout is due at the stored deadline -/

/-- C23: a Monitoring entry that finds the provider not connected adds to the
queue, after the notification of the transition if there is one, exactly one
task: the monitor timeout, bound to the new per-state weak pointer, posted now
with a delay such that now + delay is the offline deadline stored by the
entry.  If a deadline was stored before, the entry keeps it and the delay is
that deadline minus now, not 2 minutes; if none was stored, the deadline is now
+ 2 minutes and the delay is 2 minutes. -/
theorem C23_monitor_timeout_fires_at_stored_deadline (env : Env) (m : WifiBootstrapManager)
    (hoff : env.net ≠ NetworkState.kConnected) :
    ∃ t : PostedTask,
      (StartMonitoring env m).posted =
        m.posted ++
          (if State.kMonitoring ≠ m.state_ then [notifyTask env State.kMonitoring] else []) ++
          [t] ∧
      ((StartMonitoring env m).posted.filter
          (fun p => decide (p.task = Task.OnMonitorTimeout))).length =
        (m.posted.filter (fun p => decide (p.task = Task.OnMonitorTimeout))).length + 1 ∧
      t.task = Task.OnMonitorTimeout ∧
      t.token = WeakToken.tasks (StartMonitoring env m).tasks_gen ∧
      t.posted_at = env.now ∧
      (env.now : Int) + t.delay = ((StartMonitoring env m).monitor_until_ : Int) ∧
      t.due = ((StartMonitoring env m).monitor_until_ : Int) ∧
      (m.monitor_until_ ≠ 0 →
        (StartMonitoring env m).monitor_until_ = m.monitor_until_ ∧
        t.delay = (m.monitor_until_ : Int) - (env.now : Int)) ∧
      (m.monitor_until_ = 0 →
        ((StartMonitoring env m).monitor_until_ : Int) = (env.now : Int) + FromMinutes 2 ∧
        t.delay = FromMinutes 2) := by
  refine ⟨monitorTask env m, ?_, ?_, rfl, ?_, rfl, ?_, ?_, ?_, ?_⟩
  · rw [StartMonitoring_posted]
    simp [hoff]
  · rw [StartMonitoring_posted]
    simp only [hoff, if_false, List.filter_append, List.length_append]
    have h1 : (List.filter (fun p => decide (p.task = Task.OnMonitorTimeout))
        (if State.kMonitoring ≠ m.state_ then [notifyTask env State.kMonitoring] else [])) = [] := by
      split <;> simp [notifyTask]
    rw [h1]
    simp [monitorTask]
  · simp [monitorTask]
  · rw [StartMonitoring_monitor_until]
    simp [monitorTask]
  · rw [StartMonitoring_monitor_until]
    simp [monitorTask, PostedTask.due]
  · intro hd
    rw [StartMonitoring_monitor_until]
    simp [monitorTask, nextDeadline, hoff, hd]
  · intro hd
    rw [StartMonitoring_monitor_until]
    simp [monitorTask, nextDeadline, hoff, hd, FromMinutes]

/-- Witness for C23: the device of `wentOffline` stored the deadline second 130
at second 10; a Monitoring entry at second 40 posts the monitor timeout with a
delay of 90 seconds. -/
theorem C23_monitor_timeout_fires_at_stored_deadline_witness :
    (envAt NetworkState.kOffline 40).net ≠ NetworkState.kConnected ∧
    wentOffline.monitor_until_ = 130000000 ∧
    (StartMonitoring (envAt NetworkState.kOffline 40) wentOffline).posted.getLast? =
      some { task := Task.OnMonitorTimeout, token := WeakToken.tasks 3, delay := 90000000,
             posted_at := 40000000 } ∧
    ∃ t : PostedTask,
      (StartMonitoring (envAt NetworkState.kOffline 40) wentOffline).posted =
        wentOffline.posted ++
          (if State.kMonitoring ≠ wentOffline.state_ then
            [notifyTask (envAt NetworkState.kOffline 40) State.kMonitoring] else []) ++
          [t] ∧
      ((StartMonitoring (envAt NetworkState.kOffline 40) wentOffline).posted.filter
          (fun p => decide (p.task = Task.OnMonitorTimeout))).length =
        (wentOffline.posted.filter
          (fun p => decide (p.task = Task.OnMonitorTimeout))).length + 1 ∧
      t.task = Task.OnMonitorTimeout ∧
      t.token = WeakToken.tasks
        (StartMonitoring (envAt NetworkState.kOffline 40) wentOffline).tasks_gen ∧
      t.posted_at = (envAt NetworkState.kOffline 40).now ∧
      ((envAt NetworkState.kOffline 40).now : Int) + t.delay =
        ((StartMonitoring (envAt NetworkState.kOffline 40) wentOffline).monitor_until_ : Int) ∧
      t.due =
        ((StartMonitoring (envAt NetworkState.kOffline 40) wentOffline).monitor_until_ : Int) ∧
      (wentOffline.monitor_until_ ≠ 0 →
        (StartMonitoring (envAt NetworkState.kOffline 40) wentOffline).monitor_until_ =
          wentOffline.monitor_until_ ∧
        t.delay = (wentOffline.monitor_until_ : Int) -
          ((envAt NetworkState.kOffline 40).now : Int)) ∧
      (wentOffline.monitor_until_ = 0 →
        ((StartMonitoring (envAt NetworkState.kOffline 40) wentOffline).monitor_until_ : Int) =
          ((envAt NetworkState.kOffline 40).now : Int) + FromMinutes 2 ∧
        t.delay = FromMinutes 2) :=
  ⟨by decide, by decide, by decide,
    C23_monitor_timeout_fires_at_stored_deadline (envAt NetworkState.kOffline 40) wentOffline
      (by decide)⟩

/-! ## C25: the SSID handed to EnableAccessPoint -/

/-- C25: when StartBootstrapping returns and has entered Bootstrapping (it did
not redirect to Monitoring), its last call on the provider is
EnableAccessPoint with the broadcast SSID it recorded (GetHostedSsid); before
it the entry made at most the DisableAccessPoint of leaving Bootstrapping.
That SSID is non-empty, and it is the test override when the override is
non-empty and the output of the SSID generator otherwise. -/
theorem C25_enable_access_point_gets_recorded_nonempty_ssid
    (env : Env) (m m' : WifiBootstrapManager)
    (henter : StartBootstrapping env m = some m') (hb : m'.state_ = State.kBootstrapping) :
    m'.network_calls.getLast? = some (NetworkCall.EnableAccessPoint (GetHostedSsid m')) ∧
    m'.network_calls = m.network_calls ++
      (if m.state_ = State.kBootstrapping then [NetworkCall.DisableAccessPoint] else []) ++
      [NetworkCall.EnableAccessPoint (GetHostedSsid m')] ∧
    GetHostedSsid m' ≠ "" ∧
    GetHostedSsid m' = GenerateSsid env m ∧
    (m.test_privet_ssid_ ≠ "" → GetHostedSsid m' = m.test_privet_ssid_) ∧
    (m.test_privet_ssid_ = "" → GetHostedSsid m' = env.generated_ssid) := by
  rcases StartBootstrapping_cases henter with ⟨_, rfl⟩ | ⟨_, hg, rfl⟩
  · simp at hb
  · refine ⟨by simp [GetHostedSsid], by simp [GetHostedSsid], hg, rfl, ?_, ?_⟩
    · intro h
      simp [GetHostedSsid, GenerateSsid, h]
    · intro h
      simp [GetHostedSsid, GenerateSsid, h]

/-- Witness for C25: Init() of a fresh device while offline enters
Bootstrapping and enables the access point "DEVICE_NAME.prv", the name the
generator yields, as no test override is set. -/
theorem C25_enable_access_point_gets_recorded_nonempty_ssid_witness :
    StartBootstrapping (envAt NetworkState.kOffline 0)
      (callNetwork NetworkCall.AddOnConnectionChangedCallback
        (UpdateConnectionState (envAt NetworkState.kOffline 0)
          (WifiBootstrapManager.create "" "" false))) = some setupStart ∧
    setupStart.state_ = State.kBootstrapping ∧
    GetHostedSsid setupStart = "DEVICE_NAME.prv" ∧
    setupStart.network_calls.getLast? =
      some (NetworkCall.EnableAccessPoint (GetHostedSsid setupStart)) :=
  ⟨by decide, by decide, by decide,
    (C25_enable_access_point_gets_recorded_nonempty_ssid (envAt NetworkState.kOffline 0)
      (callNetwork NetworkCall.AddOnConnectionChangedCallback
        (UpdateConnectionState (envAt NetworkState.kOffline 0)
          (WifiBootstrapManager.create "" "" false)))
      setupStart (by decide) (by decide)).1⟩

/-! ## C30: who writes SetupState -/

theorem Init_setup_state {env : Env} {m m' : WifiBootstrapManager}
    (h : Init env m = some m') : m'.setup_state_ = m.setup_state_ := by
  unfold Init at h
  simp only [] at h
  split at h
  · rw [StartBootstrapping_setup_state h, UpdateConnectionState_eq]
    rfl
  · simp only [Option.some.injEq] at h
    subst h
    rw [StartMonitoring_setup_state, UpdateConnectionState_eq]
    rfl

/-- What an event does to SetupState on a well-formed object: nothing, or it is
ConfigureCredentials and stores InProgress, or it is a live success callback
and stores Success, or it is the run of a live connect timeout and stores the
connect failure; after the last two nothing of an attempt is live. -/
theorem step_setup_state_cases {env : Env} {ev : Event} {m m' : WifiBootstrapManager}
    (hwf : WellFormed m) (hstep : step env ev m = some m') :
    (ev.isConfigure = false ∧ m'.setup_state_ = m.setup_state_) ∨
    (ev.isConfigure = true ∧ m'.setup_state_ = SetupState.kInProgress) ∨
    (NoLiveAttempt m' ∧ ∃ i, ev = Event.ConnectSuccess i ∧
      m'.setup_state_ = SetupState.kSuccess) ∨
    (NoLiveAttempt m' ∧ ∃ i p, ev = Event.RunTask i ∧ m.posted[i]? = some p ∧
      p.task = Task.OnConnectTimeout ∧ p.token.live m = true ∧
      m'.setup_state_ = connectFailed) := by
  cases ev with
  | OnConnectivityChange c =>
      simp only [step, Option.some.injEq] at hstep
      subst hstep
      refine Or.inl ⟨rfl, ?_⟩
      unfold OnConnectivityChange
      simp only []
      split
      · rw [StartMonitoring_setup_state, UpdateConnectionState_setup_state]
      · rw [UpdateConnectionState_setup_state]
  | ConfigureCredentials s p =>
      simp only [step, Option.some.injEq] at hstep
      subst hstep
      exact Or.inr (Or.inl ⟨rfl, rfl⟩)
  | RegisterStateListener l =>
      simp only [step, Option.some.injEq] at hstep
      subst hstep
      exact Or.inl ⟨rfl, rfl⟩
  | RunTask i =>
      have hwfe : WellFormed { m with posted := m.posted.eraseIdx i } :=
        ⟨fun q hmem => hwf.1 q (List.mem_of_mem_eraseIdx hmem), hwf.2⟩
      simp only [step] at hstep
      split at hstep
      · exact absurd hstep (by simp)
      · rename_i p hpi
        split at hstep
        · split at hstep
          · rename_i hlive
            cases htask : p.task with
            | NotifyStateListeners s =>
                rw [htask] at hstep
                simp only [runBound, Option.some.injEq] at hstep
                subst hstep
                exact Or.inl ⟨rfl, rfl⟩
            | OnBootstrapTimeout =>
                rw [htask] at hstep
                simp only [runBound, OnBootstrapTimeout, Option.some.injEq] at hstep
                subst hstep
                exact Or.inl ⟨rfl, by simp⟩
            | OnConnectTimeout =>
                rw [htask] at hstep
                simp only [runBound] at hstep
                obtain ⟨h1, _, _, h4, _, _⟩ := OnConnectTimeout_decides hwfe hstep
                exact Or.inr (Or.inr (Or.inr ⟨h4, i, p, rfl, hpi, htask, hlive, h1⟩))
            | OnMonitorTimeout =>
                rw [htask] at hstep
                simp only [runBound, OnMonitorTimeout] at hstep
                have hs := StartBootstrapping_setup_state hstep
                exact Or.inl ⟨rfl, hs⟩
            | StartConnecting s pw =>
                rw [htask] at hstep
                simp only [runBound, Option.some.injEq] at hstep
                subst hstep
                exact Or.inl ⟨rfl, (StartConnecting_started env s pw _).2.2.1⟩
          · simp only [Option.some.injEq] at hstep
            subst hstep
            exact Or.inl ⟨rfl, rfl⟩
        · exact absurd hstep (by simp)
  | ConnectSuccess i =>
      simp only [step] at hstep
      split at hstep
      · split at hstep
        · simp only [Option.some.injEq] at hstep
          subst hstep
          rename_i ssid pw gen hc hg
          obtain ⟨h1, _, _, _, h5, _⟩ := OnConnectSuccess_decides env ssid hwf
          exact Or.inr (Or.inr (Or.inl ⟨h5, i, rfl, h1⟩))
        · simp only [Option.some.injEq] at hstep
          subst hstep
          exact Or.inl ⟨rfl, rfl⟩
      · exact absurd hstep (by simp)

theorem step_settled {env : Env} {ev : Event} {m m' : WifiBootstrapManager}
    (hwf : WellFormed m) (h : Settled m) (hstep : step env ev m = some m') : Settled m' := by
  intro hne
  rcases step_setup_state_cases hwf hstep with ⟨hev, hs⟩ | ⟨_, hs⟩ | ⟨hn, _⟩ | ⟨hn, _⟩
  · exact (step_noLiveAttempt (h (by rw [← hs]; exact hne)) hev hstep).1
  · exact absurd hs hne
  · exact hn
  · exact hn

theorem run_settled (evs : List (Env × Event)) :
    ∀ (m m' : WifiBootstrapManager), WellFormed m → Settled m → run evs m = some m' →
      Settled m' := by
  induction evs with
  | nil =>
      intro m m' _ h hrun
      simp only [run, Option.some.injEq] at hrun
      subst hrun
      exact h
  | cons e rest ih =>
      intro m m' hwf h hrun
      obtain ⟨env, ev⟩ := e
      simp only [run] at hrun
      cases hs : step env ev m with
      | none => simp [hs] at hrun
      | some m1 =>
          rw [hs] at hrun
          exact ih m1 m' (step_wellFormed hwf hs) (step_settled hwf h hs) hrun

theorem create_wellFormed (last_configured_ssid test_privet_ssid : String)
    (ble_setup_enabled : Bool) :
    WellFormed (WifiBootstrapManager.create last_configured_ssid test_privet_ssid
      ble_setup_enabled) := by
  constructor
  · intro p hp; simp [WifiBootstrapManager.create] at hp
  · intro c hc; simp [WifiBootstrapManager.create] at hc

theorem Init_noLiveAttempt {env : Env} {m m' : WifiBootstrapManager}
    (hwf : WellFormed m) (hi : Init env m = some m') : NoLiveAttempt m' := by
  have h1 : WellFormed (callNetwork NetworkCall.AddOnConnectionChangedCallback
      (UpdateConnectionState env m)) := by
    rw [UpdateConnectionState_eq]
    refine ⟨hwf.1, ?_⟩
    intro c hmem
    simp only [callNetwork, List.mem_append, List.mem_singleton] at hmem
    rcases hmem with hmem | hmem
    · exact hwf.2 c hmem
    · subst hmem
      rfl
  unfold Init at hi
  simp only [] at hi
  split at hi
  · exact StartBootstrapping_noLiveAttempt_of_wellFormed h1 hi
  · simp only [Option.some.injEq] at hi
    subst hi
    exact StartMonitoring_noLiveAttempt_of_wellFormed h1

/-- C30: Init(), OnConnectivityChange, OnBootstrapTimeout, OnMonitorTimeout,
RegisterStateListener, NotifyStateListeners and StartConnecting return with
GetSetupState() as it was; ConfigureCredentials stores InProgress,
OnConnectSuccess stores Success and OnConnectTimeout stores the error "Failed
to connect to provided network".  On a well-formed object an event changes
GetSetupState() only if it is a ConfigureCredentials call, a success callback
or the run of a connect timeout.  And on a constructed instance, after Init()
and any sequence of events: if GetSetupState() is not InProgress (it is
Success or an error, or no request was made yet), it stays what it is under
every sequence of events without a ConfigureCredentials call. -/
theorem C30_setup_state_changes_only_at_configure_success_timeout
    (last_configured_ssid test_privet_ssid : String) (ble_setup_enabled : Bool) (env0 : Env)
    (m0 m m' : WifiBootstrapManager) (evs0 evs : List (Env × Event))
    (hinit : Init env0 (WifiBootstrapManager.create last_configured_ssid test_privet_ssid
      ble_setup_enabled) = some m0)
    (hrun0 : run evs0 m0 = some m)
    (hdecided : GetSetupState m ≠ SetupState.kInProgress)
    (hquiet : NoConfigure evs) (hrun : run evs m = some m') :
    (∀ (env : Env) (x x' : WifiBootstrapManager), Init env x = some x' →
      GetSetupState x' = GetSetupState x) ∧
    (∀ (env : Env) (is_connected : Bool) (x : WifiBootstrapManager),
      GetSetupState (OnConnectivityChange env is_connected x) = GetSetupState x) ∧
    (∀ (env : Env) (x : WifiBootstrapManager),
      GetSetupState (OnBootstrapTimeout env x) = GetSetupState x) ∧
    (∀ (env : Env) (x x' : WifiBootstrapManager), OnMonitorTimeout env x = some x' →
      GetSetupState x' = GetSetupState x) ∧
    (∀ (listener : Nat) (x : WifiBootstrapManager),
      GetSetupState (RegisterStateListener listener x) = GetSetupState x) ∧
    (∀ (s : State) (x : WifiBootstrapManager),
      GetSetupState (NotifyStateListeners s x) = GetSetupState x) ∧
    (∀ (env : Env) (ssid pw : String) (x : WifiBootstrapManager),
      GetSetupState (StartConnecting env ssid pw x) = GetSetupState x) ∧
    (∀ (env : Env) (ssid pw : String) (x : WifiBootstrapManager),
      GetSetupState (ConfigureCredentials env ssid pw x).2 = SetupState.kInProgress) ∧
    (∀ (env : Env) (ssid : String) (x : WifiBootstrapManager),
      GetSetupState (OnConnectSuccess env ssid x) = SetupState.kSuccess) ∧
    (∀ (env : Env) (x x' : WifiBootstrapManager), OnConnectTimeout env x = some x' →
      GetSetupState x' = SetupState.error
        (Error.AddTo errors.kDomain errors.kInvalidState
          "Failed to connect to provided network")) ∧
    (∀ (env : Env) (ev : Event) (x x' : WifiBootstrapManager), WellFormed x →
      step env ev x = some x' → GetSetupState x' ≠ GetSetupState x →
      (ev.isConfigure = true ∧ GetSetupState x' = SetupState.kInProgress) ∨
      (∃ i, ev = Event.ConnectSuccess i ∧ GetSetupState x' = SetupState.kSuccess) ∨
      (∃ i p, ev = Event.RunTask i ∧ x.posted[i]? = some p ∧
        p.task = Task.OnConnectTimeout ∧ GetSetupState x' = connectFailed)) ∧
    GetSetupState m' = GetSetupState m := by
  refine ⟨?_, ?_, ?_, ?_, ?_, ?_, ?_, ?_, ?_, ?_, ?_, ?_⟩
  · intro env x x' h
    exact Init_setup_state h
  · intro env c x
    unfold OnConnectivityChange GetSetupState
    simp only []
    split
    · rw [StartMonitoring_setup_state, UpdateConnectionState_setup_state]
    · rw [UpdateConnectionState_setup_state]
  · intro env x
    simp [OnBootstrapTimeout, GetSetupState]
  · intro env x x' h
    exact StartBootstrapping_setup_state h
  · intro l x
    rfl
  · intro s x
    rfl
  · intro env ssid pw x
    exact (StartConnecting_started env ssid pw x).2.2.1
  · intro env ssid pw x
    rfl
  · intro env ssid x
    simp [OnConnectSuccess, GetSetupState]
  · intro env x x' h
    simp only [OnConnectTimeout] at h
    have hs := StartBootstrapping_setup_state h
    exact hs
  · intro env ev x x' hwf hstep hne
    rcases step_setup_state_cases hwf hstep with ⟨_, hs⟩ | h | ⟨_, i, hi, hs⟩ |
      ⟨_, i, p, hi, hp, ht, _, hs⟩
    · exact absurd hs hne
    · exact Or.inl h
    · exact Or.inr (Or.inl ⟨i, hi, hs⟩)
    · exact Or.inr (Or.inr ⟨i, p, hi, hp, ht, hs⟩)
  · have hwfc := create_wellFormed last_configured_ssid test_privet_ssid ble_setup_enabled
    have hwf0 : WellFormed m0 := Init_wellFormed hwfc hinit
    have hs0 : Settled m0 := fun _ => Init_noLiveAttempt hwfc hinit
    have hs : Settled m := run_settled evs0 m0 m hwf0 hs0 hrun0
    exact (run_noLiveAttempt evs m m' (hs hdecided) hquiet hrun).2

/-- Witness for C30: after the first setup of a fresh device GetSetupState() is
Success, and it still is after a connectivity loss, the monitor timeout and
the bootstrap timeout that follow. -/
theorem C30_setup_state_changes_only_at_configure_success_timeout_witness :
    Init (envAt NetworkState.kOffline 0) (WifiBootstrapManager.create "" "" false)
      = some setupStart ∧
    run firstSetupEvents setupStart = some setupSucceeded ∧
    GetSetupState setupSucceeded = SetupState.kSuccess ∧
    run [(envAt NetworkState.kOffline 200, Event.OnConnectivityChange false),
         (envAt NetworkState.kOffline 320, Event.RunTask 4),
         (envAt NetworkState.kOffline 920, Event.RunTask 5)] setupSucceeded
      = some setupSucceededLater ∧
    setupSucceededLater.state_ = State.kMonitoring ∧
    GetSetupState setupSucceededLater = GetSetupState setupSucceeded :=
  ⟨by decide, by decide, by decide, by decide, by decide,
    (C30_setup_state_changes_only_at_configure_success_timeout "" "" false
      (envAt NetworkState.kOffline 0) setupStart setupSucceeded setupSucceededLater
      firstSetupEvents
      [(envAt NetworkState.kOffline 200, Event.OnConnectivityChange false),
       (envAt NetworkState.kOffline 320, Event.RunTask 4),
       (envAt NetworkState.kOffline 920, Event.RunTask 5)]
      (by decide) (by decide) (by decide) (by decide) (by decide)).2.2.2.2.2.2.2.2.2.2.2⟩

/-! ## C22: the bootstrap timeout -/

/-- C22: StartBootstrapping runs while the provider is not connected and
returns; afterwards any events follow that run no state entry.  Then the state
is Bootstrapping.  With an empty last-configured SSID the entry posts nothing
but the notification of the transition, so no bootstrap timeout.  With a
non-empty one it posts after it exactly one task, OnBootstrapTimeout with a
delay of 10 minutes, bound to the new per-state weak pointer; until that task
runs the access point stays as the entry enabled it; the task is still queued,
the task runner cannot run it before 10 minutes have passed since the entry
(so not within the first 5 minutes), and when it runs it calls
DisableAccessPoint, clears the broadcast SSID and leaves the state
Monitoring. -/
theorem C22_bootstrap_timeout_after_ten_minutes_enters_monitoring
    (env env2 : Env) (m m1 m2 : WifiBootstrapManager) (evs : List (Env × Event))
    (hoff : env.net ≠ NetworkState.kConnected)
    (henter : StartBootstrapping env m = some m1)
    (hwait : run evs m1 = some m2) (hcur : m2.tasks_gen = m1.tasks_gen) :
    m1.state_ = State.kBootstrapping ∧ m2.state_ = State.kBootstrapping ∧
    m2.network_calls = m1.network_calls ∧
    m2.network_calls.getLast? = some (NetworkCall.EnableAccessPoint (GetHostedSsid m2)) ∧
    GetHostedSsid m2 ≠ "" ∧
    (m.last_configured_ssid_ = "" →
      m1.posted = m.posted ++
        (if State.kBootstrapping ≠ m.state_ then [notifyTask env State.kBootstrapping]
          else [])) ∧
    (m.last_configured_ssid_ ≠ "" →
      ∃ (t : PostedTask) (k : Nat),
        m1.posted = m.posted ++
          (if State.kBootstrapping ≠ m.state_ then [notifyTask env State.kBootstrapping]
            else []) ++ [t] ∧
        t.task = Task.OnBootstrapTimeout ∧ t.delay = FromMinutes 10 ∧
        t.token = WeakToken.tasks m1.tasks_gen ∧ t.posted_at = env.now ∧
        m2.posted[k]? = some t ∧
        ((env2.now : Int) < (env.now : Int) + FromMinutes 10 →
          step env2 (Event.RunTask k) m2 = none) ∧
        ((env2.now : Int) ≤ (env.now : Int) + FromMinutes 5 →
          step env2 (Event.RunTask k) m2 = none) ∧
        ((env.now : Int) + FromMinutes 10 ≤ (env2.now : Int) →
          ∃ m3, step env2 (Event.RunTask k) m2 = some m3 ∧
            m3.state_ = State.kMonitoring ∧ GetHostedSsid m3 = "" ∧
            m3.network_calls = m2.network_calls ++ [NetworkCall.DisableAccessPoint])) := by
  obtain ⟨us, ug, ul, _, up, _, un, _, uq⟩ := run_undisturbed evs m1 m2 hwait hcur
  rcases StartBootstrapping_cases henter with ⟨hc, _⟩ | ⟨_, hg, rfl⟩
  · exact absurd hc hoff
  · have hs2 : m2.state_ = State.kBootstrapping := by rw [us]; simp
    have hh2 : GetHostedSsid m2 = GenerateSsid env m := by
      unfold GetHostedSsid
      rw [up]
    refine ⟨by simp, hs2, un, ?_, ?_, ?_, ?_⟩
    · rw [un, hh2]
      simp
    · rw [hh2]
      exact hg
    · intro hssid
      simp [hssid]
    · intro hssid
      have hmem : bootstrapTask env m ∈ m2.posted := by
        refine uq _ ?_ ?_ rfl
        · simp [hssid]
        · simp [bootstrapTask]
      obtain ⟨k, hk⟩ := List.mem_iff_getElem?.mp hmem
      have hdue : (bootstrapTask env m).due = (env.now : Int) + FromMinutes 10 := rfl
      have hnone : (env2.now : Int) < (env.now : Int) + FromMinutes 10 →
          step env2 (Event.RunTask k) m2 = none := by
        intro hlt
        have : ¬ (bootstrapTask env m).due ≤ (env2.now : Int) := by rw [hdue]; omega
        simp [step, hk, this]
      refine ⟨bootstrapTask env m, k, by simp [hssid], rfl, rfl, by simp [bootstrapTask], rfl,
        hk, hnone, ?_, ?_⟩
      · intro hle
        refine hnone ?_
        have h5 : @Eq Int (FromMinutes 5) 300000000 := by decide
        have h10 : @Eq Int (FromMinutes 10) 600000000 := by decide
        omega
      · intro hle
        have hlive : (bootstrapTask env m).token.live m2 = true := by
          simp [bootstrapTask, WeakToken.live, ug]
        have hstep : step env2 (Event.RunTask k) m2 =
            some (StartMonitoring env2 { m2 with posted := m2.posted.eraseIdx k }) := by
          have hd : (bootstrapTask env m).due ≤ (env2.now : Int) := by rw [hdue]; exact hle
          simp only [step, hk, hd, if_true, hlive]
          rfl
        refine ⟨_, hstep, by simp, ?_, ?_⟩
        · simp [GetHostedSsid, hs2]
        · simp [hs2]

/-- Witness for C22: the device of the unit test StartOnlineWithPrevSsid enters
Bootstrapping at minute 2; its bootstrap timeout cannot run at minute 11 and
runs at minute 12, which leaves the device Monitoring with the access point
disabled. -/
theorem C22_bootstrap_timeout_after_ten_minutes_enters_monitoring_witness :
    (envAt NetworkState.kOffline 120).net ≠ NetworkState.kConnected ∧
    StartBootstrapping (envAt NetworkState.kOffline 120) bootstrapEntryBase
      = some bootstrapEntered ∧
    bootstrapEntryBase.last_configured_ssid_ = "TEST_ssid" ∧
    bootstrapWaiting.posted =
      [{ task := Task.OnBootstrapTimeout, token := WeakToken.tasks 3, delay := FromMinutes 10,
         posted_at := 120000000 }] ∧
    step (envAt NetworkState.kOffline 660) (Event.RunTask 0) bootstrapWaiting = none ∧
    (step (envAt NetworkState.kOffline 720) (Event.RunTask 0) bootstrapWaiting).map
      (fun x => (x.state_, GetHostedSsid x, x.network_calls.getLast?)) =
      some (State.kMonitoring, "", some NetworkCall.DisableAccessPoint) ∧
    (bootstrapEntered.state_ = State.kBootstrapping ∧
      bootstrapWaiting.state_ = State.kBootstrapping ∧
      bootstrapWaiting.network_calls = bootstrapEntered.network_calls ∧
      bootstrapWaiting.network_calls.getLast? =
        some (NetworkCall.EnableAccessPoint (GetHostedSsid bootstrapWaiting)) ∧
      GetHostedSsid bootstrapWaiting ≠ "") :=
  ⟨by decide, by decide, by decide, by decide, by decide, by decide,
    have h := C22_bootstrap_timeout_after_ten_minutes_enters_monitoring
      (envAt NetworkState.kOffline 120) (envAt NetworkState.kOffline 720)
      bootstrapEntryBase bootstrapEntered bootstrapWaiting
      [(envAt NetworkState.kOffline 120, Event.RunTask 0),
       (envAt NetworkState.kOffline 120, Event.RunTask 0)]
      (by decide) (by decide) (by decide) (by decide)
    ⟨h.1, h.2.1, h.2.2.1, h.2.2.2.1, h.2.2.2.2.1⟩⟩

/-! ## C26: MigrateFromV1 -/

theorem DictionaryValue.Get_filter_ne {V : Type} (dict : DictionaryValue V) (key k : String) :
    DictionaryValue.Get (dict.filter (fun e => e.1 != key)) k =
      if k = key then none else DictionaryValue.Get dict k := by
  induction dict with
  | nil => simp [DictionaryValue.Get]
  | cons e rest ih =>
      obtain ⟨a, b⟩ := e
      unfold DictionaryValue.Get at ih ⊢
      by_cases h1 : a = key
      · have hf : List.filter (fun e => e.1 != key) ((a, b) :: rest) =
            List.filter (fun e => e.1 != key) rest := by
          simp [List.filter_cons, h1]
        rw [hf, ih]
        by_cases h2 : k = key
        · simp [h2]
        · have h3 : (k == a) = false := by
            rw [h1]; simpa using h2
          simp [h2, List.lookup, h3]
      · have hf : List.filter (fun e => e.1 != key) ((a, b) :: rest) =
            (a, b) :: List.filter (fun e => e.1 != key) rest := by
          simp [List.filter_cons, h1]
        rw [hf]
        cases h3 : (k == a) with
        | true =>
            have hka : k = a := by simpa using h3
            have h2 : k ≠ key := by rw [hka]; exact h1
            simp [List.lookup, h3, h2]
        | false =>
            simp only [List.lookup, h3]
            exact ih

theorem DictionaryValue.Get_Remove {V : Type} (dict : DictionaryValue V) (key k : String) :
    DictionaryValue.Get (dict.Remove key).2 k =
      if k = key then none else DictionaryValue.Get dict k :=
  DictionaryValue.Get_filter_ne dict key k

theorem DictionaryValue.Get_Set {V : Type} (dict : DictionaryValue V) (key k : String)
    (v : V) :
    DictionaryValue.Get (dict.Set key v) k =
      if k = key then some v else DictionaryValue.Get dict k := by
  have h := DictionaryValue.Get_filter_ne dict key k
  unfold DictionaryValue.Get at h ⊢
  unfold DictionaryValue.Set
  by_cases h2 : k = key
  · simp [h2]
  · have h3 : (k == key) = false := by simpa using h2
    simp only [List.lookup_cons, h3, h2, if_false] at h ⊢
    exact h

/-- What MigrateFromV1 leaves under each key. -/
theorem MigrateFromV1_Get {V : Type} (dict : DictionaryValue V) (k : String) :
    DictionaryValue.Get (MigrateFromV1 dict) k =
      if k = "local_pairing_enabled" then none
      else if k = "local_discovery_enabled" then none
      else if k = "local_access_enabled" then
        (match DictionaryValue.Get dict "local_discovery_enabled" with
          | some v => some v
          | none => DictionaryValue.Get dict "local_access_enabled")
      else DictionaryValue.Get dict k := by
  unfold MigrateFromV1
  simp only []
  rw [DictionaryValue.Get_Remove]
  by_cases h1 : k = "local_pairing_enabled"
  · simp [h1]
  · simp only [h1, if_false]
    cases hd : DictionaryValue.Get dict "local_discovery_enabled" with
    | none =>
        have hr : dict.Remove "local_discovery_enabled" =
            (none, (dict.Remove "local_discovery_enabled").2) := by
          unfold DictionaryValue.Remove
          unfold DictionaryValue.Get at hd
          rw [hd]
        rw [hr]
        simp only []
        rw [DictionaryValue.Get_Remove]
        by_cases h2 : k = "local_discovery_enabled"
        · simp [h2]
        · simp only [h2, if_false]
          by_cases h3 : k = "local_access_enabled"
          · simp [h3]
          · simp [h3]
    | some v =>
        have hr : dict.Remove "local_discovery_enabled" =
            (some v, (dict.Remove "local_discovery_enabled").2) := by
          unfold DictionaryValue.Remove
          unfold DictionaryValue.Get at hd
          rw [hd]
        rw [hr]
        simp only []
        rw [DictionaryValue.Get_Set, DictionaryValue.Get_Remove]
        by_cases h2 : k = "local_discovery_enabled"
        · have h3 : ¬ ("local_discovery_enabled" = config_keys.kLocalAccessEnabled) := by decide
          simp [h2, h3]
        · simp only [h2, if_false]
          by_cases h3 : k = "local_access_enabled"
          · simp [h3, config_keys.kLocalAccessEnabled]
          · simp [h3, config_keys.kLocalAccessEnabled]

/-- C26: MigrateFromV1 on any dictionary.  If "local_discovery_enabled" is
present, its value is afterwards the value of "local_access_enabled"; if it is
absent, "local_access_enabled" is as before.  Afterwards neither
"local_discovery_enabled" nor "local_pairing_enabled" is present.  Every other
key has the value it had, or none as before.  And the value of
"local_pairing_enabled" is not used: the result is the same whatever is
stored under it. -/
theorem C26_migrate_from_v1_merges_local_settings {V : Type} (dict : DictionaryValue V) :
    (∀ v, DictionaryValue.Get dict "local_discovery_enabled" = some v →
      DictionaryValue.Get (MigrateFromV1 dict) "local_access_enabled" = some v) ∧
    (DictionaryValue.Get dict "local_discovery_enabled" = none →
      DictionaryValue.Get (MigrateFromV1 dict) "local_access_enabled" =
        DictionaryValue.Get dict "local_access_enabled") ∧
    DictionaryValue.Get (MigrateFromV1 dict) "local_discovery_enabled" = none ∧
    DictionaryValue.Get (MigrateFromV1 dict) "local_pairing_enabled" = none ∧
    (∀ k : String, k ≠ "local_discovery_enabled" → k ≠ "local_pairing_enabled" →
      k ≠ "local_access_enabled" →
      DictionaryValue.Get (MigrateFromV1 dict) k = DictionaryValue.Get dict k) ∧
    (∀ (v : V) (k : String),
      DictionaryValue.Get (MigrateFromV1 (DictionaryValue.Set dict "local_pairing_enabled" v)) k =
        DictionaryValue.Get (MigrateFromV1 dict) k) := by
  refine ⟨?_, ?_, ?_, ?_, ?_, ?_⟩
  · intro v hv
    rw [MigrateFromV1_Get, hv]
    simp
  · intro hv
    rw [MigrateFromV1_Get, hv]
    simp
  · rw [MigrateFromV1_Get]
    simp
  · rw [MigrateFromV1_Get]
    simp
  · intro k h1 h2 h3
    rw [MigrateFromV1_Get]
    simp [h1, h2, h3]
  · intro v k
    rw [MigrateFromV1_Get, MigrateFromV1_Get]
    by_cases h1 : k = "local_pairing_enabled"
    · simp [h1]
    · simp only [h1, if_false]
      have hd : DictionaryValue.Get (DictionaryValue.Set dict "local_pairing_enabled" v)
          "local_discovery_enabled" = DictionaryValue.Get dict "local_discovery_enabled" := by
        rw [DictionaryValue.Get_Set]
        simp
      have ha : DictionaryValue.Get (DictionaryValue.Set dict "local_pairing_enabled" v)
          "local_access_enabled" = DictionaryValue.Get dict "local_access_enabled" := by
        rw [DictionaryValue.Get_Set]
        simp
      have hk : DictionaryValue.Get (DictionaryValue.Set dict "local_pairing_enabled" v) k =
          DictionaryValue.Get dict k := by
        rw [DictionaryValue.Get_Set]
        simp [h1]
      rw [hd, ha, hk]

/-! ## C29: EnableAccessPoint and DisableAccessPoint alternate -/

theorem lastOr_append_singleton (d x : Bool) (l : List Bool) : lastOr d (l ++ [x]) = x := by
  induction l generalizing d with
  | nil => rfl
  | cons b rest ih => exact ih b

theorem alternatesFrom_append_singleton (e x : Bool) (l : List Bool) :
    alternatesFrom e (l ++ [x]) = (alternatesFrom e l && (x == !(lastOr (!e) l))) := by
  induction l generalizing e with
  | nil => simp [alternatesFrom, lastOr]
  | cons b rest ih =>
      by_cases hb : b = e
      · subst hb
        simp only [List.cons_append, alternatesFrom, lastOr, beq_self_eq_true, Bool.true_and]
        have h := ih (!b)
        simp only [Bool.not_not] at h
        exact h
      · have : (b == e) = false := by simpa using hb
        simp [alternatesFrom, this]

theorem accessPointCalls_append (l l' : List NetworkCall) :
    accessPointCalls (l ++ l') = accessPointCalls l ++ accessPointCalls l' := by
  simp [accessPointCalls, List.filterMap_append]

/-- After UpdateState the access point is off, and the calls still alternate. -/
theorem UpdateState_apOff (env : Env) (s : State) {m : WifiBootstrapManager}
    (h : ApTracksState m) :
    alternatesFrom true (accessPointCalls (UpdateState env s m).network_calls) = true ∧
    accessPointOn (UpdateState env s m).network_calls = false := by
  obtain ⟨h1, h2⟩ := h
  rw [UpdateState_network_calls]
  by_cases hb : m.state_ = State.kBootstrapping
  · simp only [hb, if_true, accessPointCalls_append, accessPointOn]
    have hon : lastOr false (accessPointCalls m.network_calls) = true := by
      simpa [accessPointOn, hb] using h2
    have hd : accessPointCalls [NetworkCall.DisableAccessPoint] = [false] := rfl
    rw [hd, alternatesFrom_append_singleton, lastOr_append_singleton, h1]
    simp [hon]
  · simp only [hb, if_false, List.append_nil]
    refine ⟨h1, ?_⟩
    simpa [hb] using h2

theorem StartMonitoring_apTracks (env : Env) {m : WifiBootstrapManager}
    (h : ApTracksState m) : ApTracksState (StartMonitoring env m) := by
  obtain ⟨h1, h2⟩ := UpdateState_apOff env State.kMonitoring h
  rw [UpdateState_network_calls] at h1 h2
  constructor
  · rw [StartMonitoring_network_calls]
    exact h1
  · rw [StartMonitoring_network_calls, h2]
    simp

theorem StartConnecting_apTracks (env : Env) (ssid pw : String) {m : WifiBootstrapManager}
    (h : ApTracksState m) : ApTracksState (StartConnecting env ssid pw m) := by
  obtain ⟨h1, h2⟩ := UpdateState_apOff env State.kConnecting h
  rw [StartConnecting_eq]
  have hc : accessPointCalls [NetworkCall.ConnectToService ssid pw (m.tasks_gen + 1)] = [] := rfl
  constructor
  · simp only [accessPointCalls_append, hc, List.append_nil]
    exact h1
  · simp only [accessPointOn, accessPointCalls_append, hc, List.append_nil]
    unfold accessPointOn at h2
    rw [h2]
    simp

theorem StartBootstrapping_apTracks {env : Env} {m m' : WifiBootstrapManager}
    (h : ApTracksState m) (hs : StartBootstrapping env m = some m') : ApTracksState m' := by
  rcases StartBootstrapping_cases hs with ⟨_, rfl⟩ | ⟨_, _, rfl⟩
  · exact StartMonitoring_apTracks env h
  · obtain ⟨h1, h2⟩ := UpdateState_apOff env State.kBootstrapping h
    have hc : accessPointCalls [NetworkCall.EnableAccessPoint (GenerateSsid env m)] = [true] :=
      rfl
    unfold accessPointOn at h2
    constructor
    · simp only [accessPointCalls_append, hc]
      rw [alternatesFrom_append_singleton, h1]
      simp only [Bool.not_true, Bool.true_and]
      rw [h2]
      rfl
    · simp only [accessPointOn, accessPointCalls_append, hc, lastOr_append_singleton]
      simp

theorem apTracks_of_frame {m m' : WifiBootstrapManager} (h : ApTracksState m)
    (hs : m'.state_ = m.state_) (hn : m'.network_calls = m.network_calls) :
    ApTracksState m' := by
  unfold ApTracksState at h ⊢
  rw [hs, hn]
  exact h

theorem runBound_apTracks {env : Env} {t : Task} {m m' : WifiBootstrapManager}
    (h : ApTracksState m) (hr : runBound env t m = some m') : ApTracksState m' := by
  cases t with
  | OnBootstrapTimeout =>
      simp only [runBound, OnBootstrapTimeout, Option.some.injEq] at hr
      subst hr
      exact StartMonitoring_apTracks env h
  | OnConnectTimeout =>
      simp only [runBound, OnConnectTimeout] at hr
      refine StartBootstrapping_apTracks ?_ hr
      exact h
  | OnMonitorTimeout =>
      simp only [runBound, OnMonitorTimeout] at hr
      exact StartBootstrapping_apTracks h hr
  | StartConnecting s p =>
      simp only [runBound, Option.some.injEq] at hr
      subst hr
      exact StartConnecting_apTracks env s p h
  | NotifyStateListeners s =>
      simp only [runBound, Option.some.injEq] at hr
      subst hr
      exact h

theorem step_apTracks {env : Env} {ev : Event} {m m' : WifiBootstrapManager}
    (h : ApTracksState m) (hstep : step env ev m = some m') : ApTracksState m' := by
  cases ev with
  | OnConnectivityChange c =>
      simp only [step, Option.some.injEq] at hstep
      subst hstep
      have h1 : ApTracksState (UpdateConnectionState env m) := by
        rw [UpdateConnectionState_eq]; exact h
      unfold OnConnectivityChange
      simp only []
      split
      · exact StartMonitoring_apTracks env h1
      · exact h1
  | ConfigureCredentials s p =>
      simp only [step, Option.some.injEq] at hstep
      subst hstep
      exact h
  | RegisterStateListener l =>
      simp only [step, Option.some.injEq] at hstep
      subst hstep
      exact h
  | RunTask i =>
      have h1 : ApTracksState { m with posted := m.posted.eraseIdx i } := h
      simp only [step] at hstep
      split at hstep
      · exact absurd hstep (by simp)
      · split at hstep
        · split at hstep
          · exact runBound_apTracks h1 hstep
          · simp only [Option.some.injEq] at hstep
            subst hstep
            exact h1
        · exact absurd hstep (by simp)
  | ConnectSuccess i =>
      simp only [step] at hstep
      split at hstep
      · split at hstep
        · simp only [Option.some.injEq, OnConnectSuccess] at hstep
          subst hstep
          refine StartMonitoring_apTracks env ?_
          exact h
        · simp only [Option.some.injEq] at hstep
          subst hstep
          exact h
      · exact absurd hstep (by simp)

theorem run_apTracks (evs : List (Env × Event)) :
    ∀ (m m' : WifiBootstrapManager), ApTracksState m → run evs m = some m' →
      ApTracksState m' := by
  induction evs with
  | nil =>
      intro m m' h hrun
      simp only [run, Option.some.injEq] at hrun
      subst hrun
      exact h
  | cons e rest ih =>
      intro m m' h hrun
      obtain ⟨env, ev⟩ := e
      simp only [run] at hrun
      cases hs : step env ev m with
      | none => simp [hs] at hrun
      | some m1 =>
          rw [hs] at hrun
          exact ih m1 m' (step_apTracks h hs) hrun

theorem Init_apTracks {env : Env} {m m' : WifiBootstrapManager}
    (h : ApTracksState m) (hi : Init env m = some m') : ApTracksState m' := by
  have h1 : ApTracksState (callNetwork NetworkCall.AddOnConnectionChangedCallback
      (UpdateConnectionState env m)) := by
    rw [UpdateConnectionState_eq]
    unfold ApTracksState at h ⊢
    have hc : accessPointCalls [NetworkCall.AddOnConnectionChangedCallback] = [] := rfl
    simp only [callNetwork, accessPointOn, accessPointCalls_append, hc, List.append_nil]
    exact h
  unfold Init at hi
  simp only [] at hi
  split at hi
  · exact StartBootstrapping_apTracks h1 hi
  · simp only [Option.some.injEq] at hi
    subst hi
    exact StartMonitoring_apTracks env h1

/-- C29: on a constructed instance, after Init() and after every event that
follows, the EnableAccessPoint and DisableAccessPoint calls made on the
provider so far alternate strictly, beginning with EnableAccessPoint (so no
DisableAccessPoint comes first, and neither call is made twice in a row), and
the last of them is EnableAccessPoint exactly when the lifecycle state is
Bootstrapping.  DisableAccessPoint is called by UpdateState alone, and exactly
when the state it leaves is Bootstrapping. -/
theorem C29_access_point_calls_alternate_and_track_bootstrapping
    (last_configured_ssid test_privet_ssid : String) (ble_setup_enabled : Bool) (env0 : Env)
    (m0 m : WifiBootstrapManager) (evs : List (Env × Event))
    (hinit : Init env0 (WifiBootstrapManager.create last_configured_ssid test_privet_ssid
      ble_setup_enabled) = some m0)
    (hrun : run evs m0 = some m) :
    alternatesFrom true (accessPointCalls m0.network_calls) = true ∧
    (accessPointOn m0.network_calls = true ↔ m0.state_ = State.kBootstrapping) ∧
    alternatesFrom true (accessPointCalls m.network_calls) = true ∧
    (accessPointOn m.network_calls = true ↔ m.state_ = State.kBootstrapping) ∧
    (∀ (env : Env) (new_state : State) (x : WifiBootstrapManager),
      (UpdateState env new_state x).network_calls = x.network_calls ++
        (if x.state_ = State.kBootstrapping then [NetworkCall.DisableAccessPoint] else [])) := by
  have hc : ApTracksState (WifiBootstrapManager.create last_configured_ssid
      test_privet_ssid ble_setup_enabled) := by
    constructor
    · rfl
    · simp [WifiBootstrapManager.create, accessPointOn, accessPointCalls, lastOr]
  have h0 := Init_apTracks hc hinit
  have h := run_apTracks evs m0 m h0 hrun
  refine ⟨h0.1, ?_, h.1, ?_, fun env s x => by simp⟩
  · rw [h0.2]; simp
  · rw [h.2]; simp

/-- Witness for C29: a device with a configured network that goes offline for
good enables the access point at minute 2, disables it at minute 12 and
enables it again; it ends in Bootstrapping. -/
theorem C29_access_point_calls_alternate_and_track_bootstrapping_witness :
    Init (envAt NetworkState.kConnected 0) (WifiBootstrapManager.create "TEST_ssid" "" false)
      = some onlineWithPrevSsid ∧
    run accessPointCycleEvents onlineWithPrevSsid = some accessPointCycleDevice ∧
    accessPointCalls accessPointCycleDevice.network_calls = [true, false, true] ∧
    accessPointCycleDevice.state_ = State.kBootstrapping ∧
    alternatesFrom true (accessPointCalls accessPointCycleDevice.network_calls) = true ∧
    (accessPointOn accessPointCycleDevice.network_calls = true ↔
      accessPointCycleDevice.state_ = State.kBootstrapping) :=
  ⟨by decide, by decide, by decide, by decide,
    (C29_access_point_calls_alternate_and_track_bootstrapping "TEST_ssid" "" false
      (envAt NetworkState.kConnected 0) onlineWithPrevSsid accessPointCycleDevice
      accessPointCycleEvents (by decide) (by decide)).2.2.1,
    (C29_access_point_calls_alternate_and_track_bootstrapping "TEST_ssid" "" false
      (envAt NetworkState.kConnected 0) onlineWithPrevSsid accessPointCycleDevice
      accessPointCycleEvents (by decide) (by decide)).2.2.2.1⟩

/-! ## C27: live timeouts belong to the current state -/

/-- After UpdateState on a well-formed object no queued timeout and no success
callback is live. -/
theorem UpdateState_no_live_timer (env : Env) (s : State) {x : WifiBootstrapManager}
    (hwf : WellFormed x) :
    (∀ p ∈ (UpdateState env s x).posted, p.liveTimeoutAt (x.tasks_gen + 1) = false) ∧
    (∀ c ∈ (UpdateState env s x).network_calls, c.isCallbackAt (x.tasks_gen + 1) = false) := by
  constructor
  · intro p hp
    simp only [UpdateState_posted, List.mem_append] at hp
    rcases hp with hp | hp
    · have h := hwf.1 p hp
      unfold PostedTask.wellFormedAt at h
      unfold PostedTask.liveTimeoutAt
      cases htok : p.token with
      | lifetime => simp
      | tasks g =>
          rw [htok] at h
          simp only [Bool.and_eq_true, decide_eq_true_eq] at h
          have : g ≠ x.tasks_gen + 1 := by omega
          simp [this]
    · split at hp
      · simp only [List.mem_singleton] at hp
        subst hp
        rfl
      · simp at hp
  · intro c hc
    simp only [UpdateState_network_calls, List.mem_append] at hc
    rcases hc with hc | hc
    · have h := hwf.2 c hc
      cases c with
      | ConnectToService s1 p1 g =>
          simp only [NetworkCall.callbackKnownAt, decide_eq_true_eq] at h
          simp only [NetworkCall.isCallbackAt, decide_eq_false_iff_not]
          omega
      | AddOnConnectionChangedCallback => rfl
      | EnableAccessPoint s1 => rfl
      | DisableAccessPoint => rfl
    · split at hc
      · simp only [List.mem_singleton] at hc
        subst hc
        rfl
      · simp at hc

/-- The invariant after a state entry: the queue is that of UpdateState
followed by at most one task, and the provider calls are those of UpdateState
followed by calls of the entry. -/
theorem timers_of_entry {env : Env} {s : State} {x m' : WifiBootstrapManager}
    {extra : List PostedTask} {calls : List NetworkCall} (hwf : WellFormed x)
    (hgen : m'.tasks_gen = x.tasks_gen + 1)
    (hposted : m'.posted = (UpdateState env s x).posted ++ extra)
    (hcalls : m'.network_calls = (UpdateState env s x).network_calls ++ calls)
    (hlen : extra.length ≤ 1)
    (harmed : ∀ p ∈ extra, p.task.armedIn m' = true)
    (hcb : ∀ c ∈ calls, c.isCallbackAt m'.tasks_gen = true → m'.state_ = State.kConnecting) :
    TimersMatchState m' := by
  obtain ⟨h1, h2⟩ := UpdateState_no_live_timer env s hwf
  refine ⟨?_, ?_, ?_⟩
  · intro p hp hl
    rw [hposted, List.mem_append] at hp
    rcases hp with hp | hp
    · rw [hgen, h1 p hp] at hl
      exact absurd hl (by simp)
    · exact harmed p hp
  · rw [hposted, List.filter_append, List.length_append]
    have h0 : List.filter (fun p => p.liveTimeoutAt m'.tasks_gen) (UpdateState env s x).posted
        = [] := by
      rw [List.filter_eq_nil_iff]
      intro p hp
      rw [hgen, h1 p hp]
      simp
    rw [h0]
    have := List.length_filter_le (fun p => p.liveTimeoutAt m'.tasks_gen) extra
    simp only [List.length_nil, Nat.zero_add]
    omega
  · intro c hc hl
    rw [hcalls, List.mem_append] at hc
    rcases hc with hc | hc
    · rw [hgen, h2 c hc] at hl
      exact absurd hl (by simp)
    · exact hcb c hc hl

theorem StartMonitoring_timers (env : Env) {x : WifiBootstrapManager} (hwf : WellFormed x) :
    TimersMatchState (StartMonitoring env x) := by
  refine @timers_of_entry env State.kMonitoring x (StartMonitoring env x)
    (if env.net = NetworkState.kConnected then [] else [monitorTask env x]) [] hwf
    (by simp) ?_ (by simp) ?_ ?_ (by simp)
  · rw [StartMonitoring_eq]
  · split <;> simp
  · intro p hp
    split at hp
    · simp at hp
    · rename_i hoff
      simp only [List.mem_singleton] at hp
      subst hp
      have h2 : (FromMinutes 2).toNat = 120000000 := by decide
      simp only [monitorTask, Task.armedIn, StartMonitoring_state, StartMonitoring_monitor_until,
        nextDeadline, hoff, if_false, true_and, decide_eq_true_eq, h2]
      split
      · intro h
        have h' : @Eq Nat (env.now + 120000000) 0 := h
        omega
      · assumption

theorem StartBootstrapping_timers {env : Env} {x m' : WifiBootstrapManager}
    (hwf : WellFormed x) (hs : StartBootstrapping env x = some m') : TimersMatchState m' := by
  rcases StartBootstrapping_cases hs with ⟨_, rfl⟩ | ⟨_, _, rfl⟩
  · exact StartMonitoring_timers env hwf
  · refine @timers_of_entry env State.kBootstrapping x _
      (if x.last_configured_ssid_ = "" then [] else [bootstrapTask env x])
      [NetworkCall.EnableAccessPoint (GenerateSsid env x)] hwf
      (by simp) rfl rfl ?_ ?_ ?_
    · split <;> simp
    · intro p hp
      split at hp
      · simp at hp
      · rename_i hssid
        simp only [List.mem_singleton] at hp
        subst hp
        simp [bootstrapTask, Task.armedIn, hssid]
    · intro c hc hl
      simp only [List.mem_singleton] at hc
      subst hc
      simp [NetworkCall.isCallbackAt] at hl

theorem StartConnecting_timers (env : Env) (ssid pw : String) {x : WifiBootstrapManager}
    (hwf : WellFormed x) : TimersMatchState (StartConnecting env ssid pw x) := by
  rw [StartConnecting_eq]
  refine @timers_of_entry env State.kConnecting x _
    [{ task := Task.OnConnectTimeout, token := WeakToken.tasks (x.tasks_gen + 1),
       delay := FromMinutes 3, posted_at := env.now }]
    [NetworkCall.ConnectToService ssid pw (x.tasks_gen + 1)] hwf
    (by simp) rfl rfl (by simp) ?_ ?_
  · intro p hp
    simp only [List.mem_singleton] at hp
    subst hp
    simp [Task.armedIn]
  · intro c hc _
    simp

/-- The invariant is kept when the state, the generation, the SSID, the
deadline and the provider calls stay, and the queue loses tasks and gains only
tasks that are no timeouts. -/
theorem timers_of_frame {m m' : WifiBootstrapManager} {base extra : List PostedTask}
    (h : TimersMatchState m) (hs : m'.state_ = m.state_) (hg : m'.tasks_gen = m.tasks_gen)
    (hl : m'.last_configured_ssid_ = m.last_configured_ssid_)
    (hu : m'.monitor_until_ = m.monitor_until_) (hn : m'.network_calls = m.network_calls)
    (hposted : m'.posted = base ++ extra) (hsub : base.Sublist m.posted)
    (hextra : ∀ p ∈ extra, p.task.isTimeout = false) : TimersMatchState m' := by
  obtain ⟨h1, h2, h3⟩ := h
  have harm : ∀ t : Task, t.armedIn m' = t.armedIn m := by
    intro t
    cases t <;> simp [Task.armedIn, hs, hl, hu]
  have hno : ∀ p ∈ extra, p.liveTimeoutAt m.tasks_gen = false := by
    intro p hp
    simp [PostedTask.liveTimeoutAt, hextra p hp]
  refine ⟨?_, ?_, ?_⟩
  · intro p hp hlive
    rw [hg] at hlive
    rw [hposted, List.mem_append] at hp
    rcases hp with hp | hp
    · rw [harm]
      exact h1 p (hsub.subset hp) hlive
    · rw [hno p hp] at hlive
      exact absurd hlive (by simp)
  · rw [hg, hposted, List.filter_append, List.length_append]
    have h0 : List.filter (fun p => p.liveTimeoutAt m.tasks_gen) extra = [] := by
      rw [List.filter_eq_nil_iff]
      intro p hp
      rw [hno p hp]
      simp
    rw [h0]
    have := (hsub.filter (fun p => p.liveTimeoutAt m.tasks_gen)).length_le
    simp only [List.length_nil, Nat.add_zero]
    omega
  · intro c hc hlive
    rw [hs]
    rw [hg] at hlive
    rw [hn] at hc
    exact h3 c hc hlive

theorem runBound_timers {env : Env} {t : Task} {x m' : WifiBootstrapManager}
    (hwf : WellFormed x) (h : TimersMatchState x) (hr : runBound env t x = some m') :
    TimersMatchState m' := by
  cases t with
  | OnBootstrapTimeout =>
      simp only [runBound, OnBootstrapTimeout, Option.some.injEq] at hr
      subst hr
      exact StartMonitoring_timers env hwf
  | OnConnectTimeout =>
      simp only [runBound, OnConnectTimeout] at hr
      refine StartBootstrapping_timers ?_ hr
      exact hwf
  | OnMonitorTimeout =>
      simp only [runBound, OnMonitorTimeout] at hr
      exact StartBootstrapping_timers hwf hr
  | StartConnecting s p =>
      simp only [runBound, Option.some.injEq] at hr
      subst hr
      exact StartConnecting_timers env s p hwf
  | NotifyStateListeners s =>
      simp only [runBound, Option.some.injEq] at hr
      subst hr
      exact timers_of_frame h rfl rfl rfl rfl rfl (List.append_nil _).symm
        (List.Sublist.refl _) (by simp)

theorem step_timers {env : Env} {ev : Event} {m m' : WifiBootstrapManager}
    (hwf : WellFormed m) (h : TimersMatchState m) (hstep : step env ev m = some m') :
    TimersMatchState m' := by
  cases ev with
  | OnConnectivityChange c =>
      simp only [step, Option.some.injEq] at hstep
      subst hstep
      have h1 : WellFormed (UpdateConnectionState env m) := by
        rw [UpdateConnectionState_eq]; exact hwf
      unfold OnConnectivityChange
      simp only []
      split
      · exact StartMonitoring_timers env h1
      · rw [UpdateConnectionState_eq]
        exact timers_of_frame h rfl rfl rfl rfl rfl (List.append_nil _).symm
          (List.Sublist.refl _) (by simp)
  | ConfigureCredentials s p =>
      simp only [step, Option.some.injEq] at hstep
      subst hstep
      refine @timers_of_frame m _ m.posted
        [{ task := Task.StartConnecting s p, token := WeakToken.tasks m.tasks_gen,
           delay := FromSeconds 1, posted_at := env.now }] h rfl rfl rfl rfl rfl rfl
        (List.Sublist.refl _) ?_
      intro q hq
      simp only [List.mem_singleton] at hq
      subst hq
      rfl
  | RegisterStateListener l =>
      simp only [step, Option.some.injEq] at hstep
      subst hstep
      exact timers_of_frame h rfl rfl rfl rfl rfl (List.append_nil _).symm
        (List.Sublist.refl _) (by simp)
  | RunTask i =>
      have hwfe : WellFormed { m with posted := m.posted.eraseIdx i } :=
        ⟨fun q hmem => hwf.1 q (List.mem_of_mem_eraseIdx hmem), hwf.2⟩
      have he : TimersMatchState { m with posted := m.posted.eraseIdx i } :=
        @timers_of_frame m { m with posted := m.posted.eraseIdx i } (m.posted.eraseIdx i) []
          h rfl rfl rfl rfl rfl (List.append_nil _).symm (List.eraseIdx_sublist _ _) (by simp)
      simp only [step] at hstep
      split at hstep
      · exact absurd hstep (by simp)
      · split at hstep
        · split at hstep
          · exact runBound_timers hwfe he hstep
          · simp only [Option.some.injEq] at hstep
            subst hstep
            exact he
        · exact absurd hstep (by simp)
  | ConnectSuccess i =>
      simp only [step] at hstep
      split at hstep
      · split at hstep
        · simp only [Option.some.injEq, OnConnectSuccess] at hstep
          subst hstep
          refine StartMonitoring_timers env ?_
          exact hwf
        · simp only [Option.some.injEq] at hstep
          subst hstep
          exact h
      · exact absurd hstep (by simp)

theorem run_timers (evs : List (Env × Event)) :
    ∀ (m m' : WifiBootstrapManager), WellFormed m → TimersMatchState m →
      run evs m = some m' → TimersMatchState m' := by
  induction evs with
  | nil =>
      intro m m' _ h hrun
      simp only [run, Option.some.injEq] at hrun
      subst hrun
      exact h
  | cons e rest ih =>
      intro m m' hwf h hrun
      obtain ⟨env, ev⟩ := e
      simp only [run] at hrun
      cases hs : step env ev m with
      | none => simp [hs] at hrun
      | some m1 =>
          rw [hs] at hrun
          exact ih m1 m' (step_wellFormed hwf hs) (step_timers hwf h hs) hrun

theorem Init_timers {env : Env} {m m' : WifiBootstrapManager}
    (hwf : WellFormed m) (hi : Init env m = some m') : TimersMatchState m' := by
  have h1 : WellFormed (callNetwork NetworkCall.AddOnConnectionChangedCallback
      (UpdateConnectionState env m)) := by
    rw [UpdateConnectionState_eq]
    refine ⟨hwf.1, ?_⟩
    intro c hmem
    simp only [callNetwork, List.mem_append, List.mem_singleton] at hmem
    rcases hmem with hmem | hmem
    · exact hwf.2 c hmem
    · subst hmem
      rfl
  unfold Init at hi
  simp only [] at hi
  split at hi
  · exact StartBootstrapping_timers h1 hi
  · simp only [Option.some.injEq] at hi
    subst hi
    exact StartMonitoring_timers env h1

/-- The invariants of a constructed instance after Init() and any events. -/
theorem reachable_invariants (last_configured_ssid test_privet_ssid : String)
    (ble_setup_enabled : Bool) (env0 : Env) (m0 m : WifiBootstrapManager)
    (evs : List (Env × Event))
    (hinit : Init env0 (WifiBootstrapManager.create last_configured_ssid test_privet_ssid
      ble_setup_enabled) = some m0)
    (hrun : run evs m0 = some m) : WellFormed m ∧ TimersMatchState m := by
  have hwfc := create_wellFormed last_configured_ssid test_privet_ssid ble_setup_enabled
  have hwf0 : WellFormed m0 := Init_wellFormed hwfc hinit
  exact ⟨run_wellFormed evs m0 m hwf0 hrun,
    run_timers evs m0 m hwf0 (Init_timers hwfc hinit) hrun⟩

/-- C27: on a constructed instance, after Init() and after every event that
follows: a queued bootstrap timeout bound to the current per-state weak pointer
(so live) exists only while the state is Bootstrapping, a live connect timeout
only while it is Connecting, a live monitor timeout only while it is
Monitoring, and then the offline deadline is not null; a success callback
bound to the current per-state weak pointer exists only while the state is
Connecting; and at most one live timeout is queued at all, so at most one of
each kind.  A timeout handler runs only when its task is run live, hence only
in the state that armed it. -/
theorem C27_live_timeouts_belong_to_the_current_state
    (last_configured_ssid test_privet_ssid : String) (ble_setup_enabled : Bool) (env0 : Env)
    (m0 m : WifiBootstrapManager) (evs : List (Env × Event))
    (hinit : Init env0 (WifiBootstrapManager.create last_configured_ssid test_privet_ssid
      ble_setup_enabled) = some m0)
    (hrun : run evs m0 = some m) :
    (∀ p ∈ m.posted, p.token = WeakToken.tasks m.tasks_gen →
      (p.task = Task.OnBootstrapTimeout → m.state_ = State.kBootstrapping) ∧
      (p.task = Task.OnConnectTimeout → m.state_ = State.kConnecting) ∧
      (p.task = Task.OnMonitorTimeout →
        m.state_ = State.kMonitoring ∧ m.monitor_until_ ≠ 0)) ∧
    (∀ (ssid pw : String),
      NetworkCall.ConnectToService ssid pw m.tasks_gen ∈ m.network_calls →
      m.state_ = State.kConnecting) ∧
    (m.posted.filter
      (fun p => p.task.isTimeout && decide (p.token = WeakToken.tasks m.tasks_gen))).length ≤ 1 ∧
    (∀ (env : Env) (i : Nat) (p : PostedTask) (m' : WifiBootstrapManager),
      m.posted[i]? = some p → p.token.live m = true →
      step env (Event.RunTask i) m = some m' →
      (p.task = Task.OnBootstrapTimeout → m.state_ = State.kBootstrapping) ∧
      (p.task = Task.OnConnectTimeout → m.state_ = State.kConnecting) ∧
      (p.task = Task.OnMonitorTimeout → m.state_ = State.kMonitoring)) := by
  obtain ⟨hwf, h1, h2, h3⟩ := reachable_invariants last_configured_ssid test_privet_ssid
    ble_setup_enabled env0 m0 m evs hinit hrun
  have key : ∀ p ∈ m.posted, p.token = WeakToken.tasks m.tasks_gen →
      (p.task = Task.OnBootstrapTimeout → m.state_ = State.kBootstrapping) ∧
      (p.task = Task.OnConnectTimeout → m.state_ = State.kConnecting) ∧
      (p.task = Task.OnMonitorTimeout →
        m.state_ = State.kMonitoring ∧ m.monitor_until_ ≠ 0) := by
    intro p hp htok
    refine ⟨?_, ?_, ?_⟩
    · intro ht
      have h := h1 p hp (by simp [PostedTask.liveTimeoutAt, ht, htok, Task.isTimeout])
      rw [ht] at h
      simp only [Task.armedIn, decide_eq_true_eq] at h
      exact h.1
    · intro ht
      have h := h1 p hp (by simp [PostedTask.liveTimeoutAt, ht, htok, Task.isTimeout])
      rw [ht] at h
      simpa [Task.armedIn] using h
    · intro ht
      have h := h1 p hp (by simp [PostedTask.liveTimeoutAt, ht, htok, Task.isTimeout])
      rw [ht] at h
      simpa [Task.armedIn] using h
  refine ⟨key, ?_, h2, ?_⟩
  · intro ssid pw hc
    exact h3 _ hc (by simp [NetworkCall.isCallbackAt])
  · intro env i p m' hp hlive _
    have hmem := List.getElem?_mem hp
    have hpwf := hwf.1 p hmem
    unfold PostedTask.wellFormedAt at hpwf
    cases htok : p.token with
    | lifetime =>
        rw [htok] at hpwf
        refine ⟨?_, ?_, ?_⟩ <;> intro ht <;> rw [ht] at hpwf <;> simp [Task.isNotify] at hpwf
    | tasks g =>
        rw [htok] at hlive
        simp only [WeakToken.live, beq_iff_eq] at hlive
        subst hlive
        obtain ⟨k1, k2, k3⟩ := key p hmem htok
        exact ⟨k1, k2, fun ht => (k3 ht).1⟩

/-- Witness for C27: the device of `accessPointCycleDevice` is Bootstrapping
and exactly one timeout in its queue is live, the bootstrap timeout; the
monitor timeouts and the earlier bootstrap timeout are still queued or gone,
but dead. -/
theorem C27_live_timeouts_belong_to_the_current_state_witness :
    Init (envAt NetworkState.kConnected 0) (WifiBootstrapManager.create "TEST_ssid" "" false)
      = some onlineWithPrevSsid ∧
    run accessPointCycleEvents onlineWithPrevSsid = some accessPointCycleDevice ∧
    accessPointCycleDevice.state_ = State.kBootstrapping ∧
    (accessPointCycleDevice.posted.filter
      (fun p => p.task.isTimeout &&
        decide (p.token = WeakToken.tasks accessPointCycleDevice.tasks_gen))).map
      (fun p => p.task) = [Task.OnBootstrapTimeout] ∧
    (accessPointCycleDevice.posted.filter
      (fun p => p.task.isTimeout &&
        decide (p.token = WeakToken.tasks accessPointCycleDevice.tasks_gen))).length ≤ 1 :=
  ⟨by decide, by decide, by decide, by decide,
    (C27_live_timeouts_belong_to_the_current_state "TEST_ssid" "" false
      (envAt NetworkState.kConnected 0) onlineWithPrevSsid accessPointCycleDevice
      accessPointCycleEvents (by decide) (by decide)).2.2.1⟩

/-! ## C28: Bootstrapping without a configured network is left only by StartConnecting -/

/-- One event on a Bootstrapping device without a configured network: either
it runs no state entry, or it is the run of a live delayed StartConnecting and
the state becomes Connecting. -/
theorem step_unconfigured_bootstrapping {env : Env} {ev : Event}
    {m m' : WifiBootstrapManager} (hwf : WellFormed m) (ht : TimersMatchState m)
    (hb : m.state_ = State.kBootstrapping) (hssid : m.last_configured_ssid_ = "")
    (hstep : step env ev m = some m') :
    (ev.startsConnecting m = false ∧ m'.tasks_gen = m.tasks_gen) ∨
    (ev.startsConnecting m = true ∧ ∃ i p s pw, ev = Event.RunTask i ∧
      m.posted[i]? = some p ∧ p.task = Task.StartConnecting s pw ∧
      p.token = WeakToken.tasks m.tasks_gen ∧ m'.state_ = State.kConnecting) := by
  cases ev with
  | OnConnectivityChange c =>
      simp only [step, Option.some.injEq] at hstep
      subst hstep
      refine Or.inl ⟨rfl, ?_⟩
      unfold OnConnectivityChange
      have hs : (UpdateConnectionState env m).state_ = State.kBootstrapping := by
        rw [UpdateConnectionState_eq]; exact hb
      have hcond : ¬ ((UpdateConnectionState env m).state_ = State.kMonitoring ∨
          ((UpdateConnectionState env m).state_ = State.kDisabled ∧ c = true)) := by
        rw [hs]
        simp
      simp only [hcond, if_false]
      rw [UpdateConnectionState_eq]
  | ConfigureCredentials s p =>
      simp only [step, Option.some.injEq] at hstep
      subst hstep
      exact Or.inl ⟨rfl, rfl⟩
  | RegisterStateListener l =>
      simp only [step, Option.some.injEq] at hstep
      subst hstep
      exact Or.inl ⟨rfl, rfl⟩
  | RunTask i =>
      simp only [step] at hstep
      split at hstep
      · exact absurd hstep (by simp)
      · rename_i p hpi
        have hmem := List.getElem?_mem hpi
        have hpwf := hwf.1 p hmem
        unfold PostedTask.wellFormedAt at hpwf
        split at hstep
        · split at hstep
          · rename_i hlive
            have htok : p.task.isNotify = false → p.token = WeakToken.tasks m.tasks_gen := by
              intro hn
              cases htk : p.token with
              | lifetime =>
                  rw [htk, hn] at hpwf
                  exact absurd hpwf (by simp)
              | tasks g =>
                  rw [htk] at hlive
                  simp only [WeakToken.live, beq_iff_eq] at hlive
                  rw [hlive]
            have harmed : p.task.isTimeout = true → p.task.armedIn m = true := by
              intro hto
              refine ht.1 p hmem ?_
              have hn : p.task.isNotify = false := by
                cases htask : p.task <;> simp [htask, Task.isTimeout, Task.isNotify] at hto ⊢
              simp [PostedTask.liveTimeoutAt, hto, htok hn]
            cases htask : p.task with
            | NotifyStateListeners s =>
                rw [htask] at hstep
                simp only [runBound, Option.some.injEq] at hstep
                subst hstep
                refine Or.inl ⟨?_, rfl⟩
                simp [Event.startsConnecting, hpi, htask, Task.isStartConnecting]
            | OnBootstrapTimeout =>
                have h := harmed (by rw [htask]; rfl)
                rw [htask] at h
                simp [Task.armedIn, hssid] at h
            | OnConnectTimeout =>
                have h := harmed (by rw [htask]; rfl)
                rw [htask] at h
                simp [Task.armedIn, hb] at h
            | OnMonitorTimeout =>
                have h := harmed (by rw [htask]; rfl)
                rw [htask] at h
                simp [Task.armedIn, hb] at h
            | StartConnecting s pw =>
                rw [htask] at hstep
                simp only [runBound, Option.some.injEq] at hstep
                subst hstep
                refine Or.inr ⟨?_, i, p, s, pw, rfl, hpi, htask,
                  htok (by rw [htask]; rfl), (StartConnecting_started env s pw _).1⟩
                simp [Event.startsConnecting, hpi, htask, Task.isStartConnecting, hlive]
          · rename_i hlive
            simp only [Option.some.injEq] at hstep
            subst hstep
            refine Or.inl ⟨?_, rfl⟩
            simp [Event.startsConnecting, hpi, hlive]
        · exact absurd hstep (by simp)
  | ConnectSuccess i =>
      simp only [step] at hstep
      split at hstep
      · split at hstep
        · rename_i ssid pw gen hc hg
          have h := ht.2.2 _ (List.getElem?_mem hc) (by simp [NetworkCall.isCallbackAt, hg])
          rw [hb] at h
          exact absurd h (by decide)
        · simp only [Option.some.injEq] at hstep
          subst hstep
          exact Or.inl ⟨rfl, rfl⟩
      · exact absurd hstep (by simp)

/-- A Bootstrapping device without a configured network under events that
execute no StartConnecting: no state entry runs. -/
theorem run_unconfigured_bootstrapping (evs : List (Env × Event)) :
    ∀ (m m' : WifiBootstrapManager), WellFormed m → TimersMatchState m →
      m.state_ = State.kBootstrapping → m.last_configured_ssid_ = "" →
      noStartConnecting evs m = true → run evs m = some m' →
      m'.tasks_gen = m.tasks_gen := by
  induction evs with
  | nil =>
      intro m m' _ _ _ _ _ hrun
      simp only [run, Option.some.injEq] at hrun
      subst hrun
      rfl
  | cons e rest ih =>
      intro m m' hwf ht hb hssid hno hrun
      obtain ⟨env, ev⟩ := e
      simp only [run] at hrun
      cases hs : step env ev m with
      | none => simp [hs] at hrun
      | some m1 =>
          rw [hs] at hrun
          simp only [noStartConnecting, hs, Bool.and_eq_true, Bool.not_eq_true'] at hno
          rcases step_unconfigured_bootstrapping hwf ht hb hssid hs with ⟨_, hg⟩ | ⟨hc, _⟩
          · obtain ⟨us, _, ul, _, _, _, _, _, _⟩ := step_undisturbed hs hg
            have h := ih m1 m' (step_wellFormed hwf hs) (step_timers hwf ht hs)
              (us.trans hb) (ul.trans hssid) hno.2 hrun
            exact h.trans hg
          · rw [hno.1] at hc
            exact absurd hc (by simp)

/-- C28: on a constructed instance, after Init() and any events, let the state
be Bootstrapping and the last-configured SSID empty.  Then under every
sequence of events in which no delayed StartConnecting executes (connectivity
notifications with the provider connected or not, task runs, ConfigureCredentials
calls, success callbacks) the state stays Bootstrapping, no call is made on
the provider, the broadcast SSID stays what it was and is non-empty, the
access point stays requested on and the last-configured SSID stays empty.
And an event that leaves Bootstrapping from there is the run of a delayed
StartConnecting task, which only ConfigureCredentials posts, and leads to
Connecting. -/
theorem C28_unconfigured_bootstrapping_left_only_by_start_connecting
    (last_configured_ssid test_privet_ssid : String) (ble_setup_enabled : Bool) (env0 : Env)
    (m0 m m' : WifiBootstrapManager) (evs0 evs : List (Env × Event))
    (hinit : Init env0 (WifiBootstrapManager.create last_configured_ssid test_privet_ssid
      ble_setup_enabled) = some m0)
    (hrun0 : run evs0 m0 = some m)
    (hb : m.state_ = State.kBootstrapping) (hssid : GetCurrentlyConnectedSsid m = "")
    (hno : noStartConnecting evs m = true) (hrun : run evs m = some m') :
    m'.state_ = State.kBootstrapping ∧ GetCurrentlyConnectedSsid m' = "" ∧
    m'.network_calls = m.network_calls ∧
    GetHostedSsid m' = GetHostedSsid m ∧ GetHostedSsid m' ≠ "" ∧
    accessPointOn m'.network_calls = true ∧
    (∀ (env : Env) (ev : Event) (m1 : WifiBootstrapManager), step env ev m' = some m1 →
      m1.state_ ≠ State.kBootstrapping →
      ∃ i p s pw, ev = Event.RunTask i ∧ m'.posted[i]? = some p ∧
        p.task = Task.StartConnecting s pw ∧ m1.state_ = State.kConnecting) := by
  obtain ⟨hwf, ht⟩ := reachable_invariants last_configured_ssid test_privet_ssid
    ble_setup_enabled env0 m0 m evs0 hinit hrun0
  have hwf' : WellFormed m' := run_wellFormed evs m m' hwf hrun
  have ht' : TimersMatchState m' := run_timers evs m m' hwf ht hrun
  have hg := run_unconfigured_bootstrapping evs m m' hwf ht hb hssid hno hrun
  obtain ⟨us, _, ul, _, up, _, un, _, _⟩ := run_undisturbed evs m m' hrun hg
  have hb' : m'.state_ = State.kBootstrapping := us.trans hb
  have hssid' : m'.last_configured_ssid_ = "" := ul.trans hssid
  have hc : HostedIffBootstrapping (WifiBootstrapManager.create last_configured_ssid
      test_privet_ssid ble_setup_enabled) := by
    simp [HostedIffBootstrapping, GetHostedSsid, WifiBootstrapManager.create]
  have hh : HostedIffBootstrapping m' :=
    run_hostedIff evs m m' (run_hostedIff evs0 m0 m (Init_hostedIff hc hinit) hrun0) hrun
  have hap0 : ApTracksState (WifiBootstrapManager.create last_configured_ssid
      test_privet_ssid ble_setup_enabled) := by
    constructor
    · rfl
    · simp [WifiBootstrapManager.create, accessPointOn, accessPointCalls, lastOr]
  have hap : ApTracksState m' :=
    run_apTracks evs m m' (run_apTracks evs0 m0 m (Init_apTracks hap0 hinit) hrun0) hrun
  refine ⟨hb', hssid', un, up, hh.mpr hb', ?_, ?_⟩
  · rw [hap.2, hb']
    simp
  · intro env ev m1 hstep hne
    rcases step_unconfigured_bootstrapping hwf' ht' hb' hssid' hstep with ⟨_, hg1⟩ |
      ⟨_, i, p, s, pw, hev, hp, htask, _, hs1⟩
    · have hu := step_undisturbed hstep hg1
      exact absurd (hu.1.trans hb') hne
    · exact ⟨i, p, s, pw, hev, hp, htask, hs1⟩

/-- Witness for C28: the Bootstrapping device of a fresh setup stays so when the
provider reports connected, when its notification runs, when
ConfigureCredentials is called and an hour later; the delayed StartConnecting,
when it runs, leads to Connecting. -/
theorem C28_unconfigured_bootstrapping_left_only_by_start_connecting_witness :
    Init (envAt NetworkState.kOffline 0) (WifiBootstrapManager.create "" "" false)
      = some setupStart ∧
    run unconfiguredEvents setupStart = some unconfiguredDevice ∧
    GetHostedSsid unconfiguredDevice = "DEVICE_NAME.prv" ∧
    (step (envAt NetworkState.kOffline 3600) (Event.RunTask 0) unconfiguredDevice).map
      (fun x => x.state_) = some State.kConnecting ∧
    (unconfiguredDevice.state_ = State.kBootstrapping ∧
      GetCurrentlyConnectedSsid unconfiguredDevice = "" ∧
      unconfiguredDevice.network_calls = setupStart.network_calls) :=
  ⟨by decide, by decide, by decide, by decide,
    have h := C28_unconfigured_bootstrapping_left_only_by_start_connecting "" "" false
      (envAt NetworkState.kOffline 0) setupStart setupStart unconfiguredDevice []
      unconfiguredEvents (by decide) (by decide) (by decide) (by decide) (by decide)
      (by decide)
    ⟨h.1, h.2.1, h.2.2.1⟩⟩

/-! ## C24: one StartConnecting per ConfigureCredentials at most -/

theorem connectRequests_append (l l' : List NetworkCall) :
    connectRequests (l ++ l') = connectRequests l ++ connectRequests l' := by
  simp [connectRequests, List.filterMap_append]

theorem queuedStarts_append (l l' : List PostedTask) :
    queuedStarts (l ++ l') = queuedStarts l ++ queuedStarts l' := by
  simp [queuedStarts, List.filterMap_append]

theorem UpdateState_connect_ledger (env : Env) (s : State) (x : WifiBootstrapManager) :
    connectRequests (UpdateState env s x).network_calls = connectRequests x.network_calls ∧
    queuedStarts (UpdateState env s x).posted = queuedStarts x.posted := by
  constructor
  · rw [UpdateState_network_calls, connectRequests_append]
    split <;> simp [connectRequests]
  · rw [UpdateState_posted, queuedStarts_append]
    split <;> simp [queuedStarts, notifyTask, Task.credentials]

theorem StartMonitoring_connect_ledger (env : Env) (x : WifiBootstrapManager) :
    connectRequests (StartMonitoring env x).network_calls = connectRequests x.network_calls ∧
    queuedStarts (StartMonitoring env x).posted = queuedStarts x.posted := by
  obtain ⟨h1, h2⟩ := UpdateState_connect_ledger env State.kMonitoring x
  rw [StartMonitoring_eq]
  refine ⟨h1, ?_⟩
  simp only [queuedStarts_append, h2]
  split <;> simp [queuedStarts, monitorTask, Task.credentials]

theorem StartBootstrapping_connect_ledger {env : Env} {x m' : WifiBootstrapManager}
    (hs : StartBootstrapping env x = some m') :
    connectRequests m'.network_calls = connectRequests x.network_calls ∧
    queuedStarts m'.posted = queuedStarts x.posted := by
  rcases StartBootstrapping_cases hs with ⟨_, rfl⟩ | ⟨_, _, rfl⟩
  · exact StartMonitoring_connect_ledger env x
  · obtain ⟨h1, h2⟩ := UpdateState_connect_ledger env State.kBootstrapping x
    constructor
    · simp only [connectRequests_append, h1]
      simp [connectRequests]
    · simp only [queuedStarts_append, h2]
      split <;> simp [queuedStarts, bootstrapTask, Task.credentials]

theorem StartConnecting_connect_ledger (env : Env) (ssid pw : String)
    (x : WifiBootstrapManager) :
    connectRequests (StartConnecting env ssid pw x).network_calls =
      connectRequests x.network_calls ++ [(ssid, pw)] ∧
    queuedStarts (StartConnecting env ssid pw x).posted = queuedStarts x.posted := by
  obtain ⟨h1, h2⟩ := UpdateState_connect_ledger env State.kConnecting x
  rw [StartConnecting_eq]
  constructor
  · simp only [connectRequests_append, h1]
    simp [connectRequests]
  · simp only [queuedStarts_append, h2]
    simp [queuedStarts, Task.credentials]

/-- Taking a task off the queue takes its credentials, if it carries any, out
of the queued starts. -/
theorem queuedStarts_eraseIdx {l : List PostedTask} {i : Nat} {p : PostedTask}
    (hp : l[i]? = some p) (c : String × String) :
    List.countP (fun x => decide (x = c)) (queuedStarts (l.eraseIdx i)) + List.countP (fun x => decide (x = c)) p.task.credentials.toList =
      List.countP (fun x => decide (x = c)) (queuedStarts l) := by
  have hi : i < l.length := by
    rcases Nat.lt_or_ge i l.length with h | h
    · exact h
    · rw [List.getElem?_eq_none h] at hp
      exact absurd hp (by simp)
  have hget : l[i] = p := by
    rw [List.getElem?_eq_getElem hi] at hp
    exact Option.some.inj hp
  have hsplit : l = l.take i ++ p :: l.drop (i + 1) := by
    rw [← hget]
    exact (List.take_append_drop i l).symm.trans (by rw [List.drop_eq_getElem_cons hi])
  rw [List.eraseIdx_eq_take_drop_succ]
  conv_rhs => rw [hsplit]
  simp only [queuedStarts, List.filterMap_append, List.filterMap_cons, List.countP_append]
  cases hc : p.task.credentials with
  | none => simp
  | some d =>
      simp only [Option.toList, List.countP_cons, List.countP_nil]
      omega

/-- One event: the connect requests grow by exactly the StartConnecting
execution of the event, if it is one; and what is queued to start and what was
started by the event does not exceed what was queued and what the event
submitted. -/
theorem step_connect_ledger {env : Env} {ev : Event} {m m' : WifiBootstrapManager}
    (hstep : step env ev m = some m') :
    connectRequests m'.network_calls = connectRequests m.network_calls ++ startedBy m ev ∧
    ∀ c, List.countP (fun x => decide (x = c)) (queuedStarts m'.posted) + List.countP (fun x => decide (x = c)) (startedBy m ev) ≤
      List.countP (fun x => decide (x = c)) (queuedStarts m.posted) + List.countP (fun x => decide (x = c)) ev.credentials := by
  cases ev with
  | OnConnectivityChange b =>
      simp only [step, Option.some.injEq] at hstep
      subst hstep
      simp only [startedBy, Event.credentials, List.append_nil, List.countP_nil, Nat.add_zero]
      unfold OnConnectivityChange
      simp only []
      split
      · obtain ⟨h1, h2⟩ := StartMonitoring_connect_ledger env (UpdateConnectionState env m)
        rw [h1, h2, UpdateConnectionState_eq]
        exact ⟨rfl, fun c => le_refl _⟩
      · rw [UpdateConnectionState_eq]
        exact ⟨rfl, fun c => le_refl _⟩
  | ConfigureCredentials s p =>
      simp only [step, Option.some.injEq] at hstep
      subst hstep
      simp only [startedBy, Event.credentials, List.append_nil, List.countP_nil, Nat.add_zero]
      refine ⟨rfl, ?_⟩
      intro c
      simp [ConfigureCredentials, PostDelayedTask, queuedStarts, List.filterMap_append,
        Task.credentials]
  | RegisterStateListener l =>
      simp only [step, Option.some.injEq] at hstep
      subst hstep
      simp only [startedBy, Event.credentials, List.append_nil, List.countP_nil, Nat.add_zero]
      exact ⟨rfl, fun c => le_refl _⟩
  | RunTask i =>
      simp only [step] at hstep
      split at hstep
      · exact absurd hstep (by simp)
      · rename_i p hpi
        have herase := queuedStarts_eraseIdx hpi
        simp only [startedBy, hpi, Event.credentials, List.countP_nil, Nat.add_zero]
        split at hstep
        · split at hstep
          · rename_i hlive
            simp only [hlive, if_true]
            cases htask : p.task with
            | NotifyStateListeners s =>
                rw [htask] at hstep herase
                simp only [runBound, Option.some.injEq] at hstep
                subst hstep
                simp only [Task.credentials, Option.toList, List.append_nil, List.countP_nil,
                  Nat.add_zero] at herase ⊢
                exact ⟨rfl, fun c => le_of_eq (herase c)⟩
            | OnBootstrapTimeout =>
                rw [htask] at hstep herase
                simp only [runBound, OnBootstrapTimeout, Option.some.injEq] at hstep
                subst hstep
                obtain ⟨h1, h2⟩ := StartMonitoring_connect_ledger env
                  { m with posted := m.posted.eraseIdx i }
                simp only [Task.credentials, Option.toList, List.append_nil, List.countP_nil,
                  Nat.add_zero] at herase ⊢
                rw [h1, h2]
                exact ⟨rfl, fun c => le_of_eq (herase c)⟩
            | OnConnectTimeout =>
                rw [htask] at hstep herase
                simp only [runBound, OnConnectTimeout] at hstep
                obtain ⟨h1, h2⟩ := StartBootstrapping_connect_ledger hstep
                simp only [Task.credentials, Option.toList, List.append_nil, List.countP_nil,
                  Nat.add_zero] at herase ⊢
                rw [h1, h2]
                exact ⟨rfl, fun c => le_of_eq (herase c)⟩
            | OnMonitorTimeout =>
                rw [htask] at hstep herase
                simp only [runBound, OnMonitorTimeout] at hstep
                obtain ⟨h1, h2⟩ := StartBootstrapping_connect_ledger hstep
                simp only [Task.credentials, Option.toList, List.append_nil, List.countP_nil,
                  Nat.add_zero] at herase ⊢
                rw [h1, h2]
                exact ⟨rfl, fun c => le_of_eq (herase c)⟩
            | StartConnecting s pw =>
                rw [htask] at hstep herase
                simp only [runBound, Option.some.injEq] at hstep
                subst hstep
                obtain ⟨h1, h2⟩ := StartConnecting_connect_ledger env s pw
                  { m with posted := m.posted.eraseIdx i }
                simp only [Task.credentials, Option.toList] at herase ⊢
                rw [h1, h2]
                exact ⟨rfl, fun c => le_of_eq (herase c)⟩
          · rename_i hlive
            simp only [Option.some.injEq] at hstep
            subst hstep
            simp only [hlive, Bool.false_eq_true, if_false, List.append_nil, List.countP_nil,
              Nat.add_zero, true_and]
            intro c
            have := herase c
            show List.countP (fun x => decide (x = c)) (queuedStarts (m.posted.eraseIdx i)) ≤ _
            omega
        · exact absurd hstep (by simp)
  | ConnectSuccess i =>
      simp only [step] at hstep
      simp only [startedBy, Event.credentials, List.append_nil, List.countP_nil, Nat.add_zero]
      split at hstep
      · split at hstep
        · simp only [Option.some.injEq, OnConnectSuccess] at hstep
          subst hstep
          rename_i ssid pw gen hc hg
          obtain ⟨h1, h2⟩ := StartMonitoring_connect_ledger env
            { m with last_configured_ssid_ := ssid, setup_state_ := SetupState.kSuccess }
          rw [h1, h2]
          exact ⟨rfl, fun c => le_refl _⟩
        · simp only [Option.some.injEq] at hstep
          subst hstep
          exact ⟨rfl, fun c => le_refl _⟩
      · exact absurd hstep (by simp)

theorem run_connect_ledger (evs : List (Env × Event)) :
    ∀ (m m' : WifiBootstrapManager), run evs m = some m' →
      connectRequests m'.network_calls =
        connectRequests m.network_calls ++ startConnectingRuns evs m ∧
      ∀ c, List.countP (fun x => decide (x = c)) (queuedStarts m'.posted) + List.countP (fun x => decide (x = c)) (startConnectingRuns evs m) ≤
        List.countP (fun x => decide (x = c)) (queuedStarts m.posted) + List.countP (fun x => decide (x = c)) (credentialCalls evs) := by
  induction evs with
  | nil =>
      intro m m' hrun
      simp only [run, Option.some.injEq] at hrun
      subst hrun
      simp [startConnectingRuns, credentialCalls]
  | cons e rest ih =>
      intro m m' hrun
      obtain ⟨env, ev⟩ := e
      simp only [run] at hrun
      cases hs : step env ev m with
      | none => simp [hs] at hrun
      | some m1 =>
          rw [hs] at hrun
          obtain ⟨a1, a2⟩ := step_connect_ledger hs
          obtain ⟨b1, b2⟩ := ih m1 m' hrun
          simp only [startConnectingRuns, hs, credentialCalls, List.countP_append]
          refine ⟨by rw [b1, a1, List.append_assoc], ?_⟩
          intro c
          have := a2 c
          have := b2 c
          omega

/-- The state after an event: as before, Monitoring, Bootstrapping, or
Connecting through an execution of StartConnecting. -/
theorem step_state_cases {env : Env} {ev : Event} {m m' : WifiBootstrapManager}
    (hstep : step env ev m = some m') :
    m'.state_ = m.state_ ∨ m'.state_ = State.kMonitoring ∨
    m'.state_ = State.kBootstrapping ∨
    (m'.state_ = State.kConnecting ∧ (startedBy m ev).length = 1) := by
  cases ev with
  | OnConnectivityChange b =>
      simp only [step, Option.some.injEq] at hstep
      subst hstep
      unfold OnConnectivityChange
      simp only []
      split
      · exact Or.inr (Or.inl (by simp))
      · rw [UpdateConnectionState_eq]
        exact Or.inl rfl
  | ConfigureCredentials s p =>
      simp only [step, Option.some.injEq] at hstep
      subst hstep
      exact Or.inl rfl
  | RegisterStateListener l =>
      simp only [step, Option.some.injEq] at hstep
      subst hstep
      exact Or.inl rfl
  | RunTask i =>
      simp only [step] at hstep
      split at hstep
      · exact absurd hstep (by simp)
      · rename_i p hpi
        split at hstep
        · split at hstep
          · rename_i hlive
            cases htask : p.task with
            | NotifyStateListeners s =>
                rw [htask] at hstep
                simp only [runBound, Option.some.injEq] at hstep
                subst hstep
                exact Or.inl rfl
            | OnBootstrapTimeout =>
                rw [htask] at hstep
                simp only [runBound, OnBootstrapTimeout, Option.some.injEq] at hstep
                subst hstep
                exact Or.inr (Or.inl (by simp))
            | OnConnectTimeout =>
                rw [htask] at hstep
                simp only [runBound, OnConnectTimeout] at hstep
                rcases StartBootstrapping_cases hstep with ⟨_, rfl⟩ | ⟨_, _, rfl⟩
                · exact Or.inr (Or.inl (by simp))
                · exact Or.inr (Or.inr (Or.inl (by simp)))
            | OnMonitorTimeout =>
                rw [htask] at hstep
                simp only [runBound, OnMonitorTimeout] at hstep
                rcases StartBootstrapping_cases hstep with ⟨_, rfl⟩ | ⟨_, _, rfl⟩
                · exact Or.inr (Or.inl (by simp))
                · exact Or.inr (Or.inr (Or.inl (by simp)))
            | StartConnecting s pw =>
                rw [htask] at hstep
                simp only [runBound, Option.some.injEq] at hstep
                subst hstep
                refine Or.inr (Or.inr (Or.inr ⟨(StartConnecting_started env s pw _).1, ?_⟩))
                simp [startedBy, hpi, hlive, htask, Task.credentials]
          · simp only [Option.some.injEq] at hstep
            subst hstep
            exact Or.inl rfl
        · exact absurd hstep (by simp)
  | ConnectSuccess i =>
      simp only [step] at hstep
      split at hstep
      · split at hstep
        · simp only [Option.some.injEq, OnConnectSuccess] at hstep
          subst hstep
          exact Or.inr (Or.inl (by simp))
        · simp only [Option.some.injEq] at hstep
          subst hstep
          exact Or.inl rfl
      · exact absurd hstep (by simp)

/-- The transitions into Connecting along a run are no more than the
StartConnecting executions. -/
theorem run_connecting_entries (evs : List (Env × Event)) :
    ∀ (m m' : WifiBootstrapManager), run evs m = some m' →
      (transitions evs m).count State.kConnecting ≤ (startConnectingRuns evs m).length := by
  induction evs with
  | nil =>
      intro m m' _
      simp [transitions, startConnectingRuns]
  | cons e rest ih =>
      intro m m' hrun
      obtain ⟨env, ev⟩ := e
      simp only [run] at hrun
      cases hs : step env ev m with
      | none => simp [hs] at hrun
      | some m1 =>
          rw [hs] at hrun
          have h := ih m1 m' hrun
          simp only [transitions, startConnectingRuns, hs, List.count_append,
            List.length_append]
          have h1 : List.count State.kConnecting
              (if m1.state_ ≠ m.state_ then [m1.state_] else []) ≤ (startedBy m ev).length := by
            rcases step_state_cases hs with h0 | h0 | h0 | ⟨_, h0⟩
            · simp [h0]
            · split <;> simp [h0]
            · split <;> simp [h0]
            · rw [h0]
              split <;> simp [List.count_cons]
              split <;> omega
          omega

theorem Init_connect_ledger {env : Env} {m m' : WifiBootstrapManager}
    (hi : Init env m = some m') :
    connectRequests m'.network_calls = connectRequests m.network_calls ∧
    queuedStarts m'.posted = queuedStarts m.posted := by
  have hn : connectRequests (callNetwork NetworkCall.AddOnConnectionChangedCallback
      (UpdateConnectionState env m)).network_calls = connectRequests m.network_calls := by
    rw [UpdateConnectionState_eq]
    simp [callNetwork, connectRequests_append, connectRequests]
  have hp : queuedStarts (callNetwork NetworkCall.AddOnConnectionChangedCallback
      (UpdateConnectionState env m)).posted = queuedStarts m.posted := by
    rw [UpdateConnectionState_eq]
    rfl
  unfold Init at hi
  simp only [] at hi
  split at hi
  · obtain ⟨h1, h2⟩ := StartBootstrapping_connect_ledger hi
    exact ⟨h1.trans hn, h2.trans hp⟩
  · simp only [Option.some.injEq] at hi
    subst hi
    obtain ⟨h1, h2⟩ := StartMonitoring_connect_ledger env
      (callNetwork NetworkCall.AddOnConnectionChangedCallback (UpdateConnectionState env m))
    exact ⟨h1.trans hn, h2.trans hp⟩

/-- C24: on a constructed instance, after Init() and any sequence of events.
The credentials of the ConnectToService calls made on the provider are, in
order, exactly those of the StartConnecting executions of the run (every
execution enters Connecting and makes one call).  Those executions, together
with the delayed StartConnecting tasks still queued, can be matched one to one
with distinct ConfigureCredentials calls of the run that submitted the same
credentials.  So the number of StartConnecting executions, of ConnectToService
calls and of transitions into Connecting never exceeds the number of
ConfigureCredentials calls made so far. -/
theorem C24_at_most_one_start_connecting_per_configure_credentials
    (last_configured_ssid test_privet_ssid : String) (ble_setup_enabled : Bool) (env0 : Env)
    (m0 m : WifiBootstrapManager) (evs : List (Env × Event))
    (hinit : Init env0 (WifiBootstrapManager.create last_configured_ssid test_privet_ssid
      ble_setup_enabled) = some m0)
    (hrun : run evs m0 = some m) :
    connectRequests m.network_calls = startConnectingRuns evs m0 ∧
    (startConnectingRuns evs m0 ++ queuedStarts m.posted).Subperm (credentialCalls evs) ∧
    (startConnectingRuns evs m0).Subperm (credentialCalls evs) ∧
    (startConnectingRuns evs m0).length ≤ (credentialCalls evs).length ∧
    (connectRequests m.network_calls).length ≤ (credentialCalls evs).length ∧
    (transitions evs m0).count State.kConnecting ≤ (credentialCalls evs).length ∧
    (∀ (env : Env) (ssid pw : String) (x : WifiBootstrapManager),
      (StartConnecting env ssid pw x).state_ = State.kConnecting ∧
      connectRequests (StartConnecting env ssid pw x).network_calls =
        connectRequests x.network_calls ++ [(ssid, pw)]) := by
  obtain ⟨i1, i2⟩ := Init_connect_ledger hinit
  have c1 : connectRequests m0.network_calls = [] := by
    rw [i1]; rfl
  have c2 : queuedStarts m0.posted = [] := by
    rw [i2]; rfl
  obtain ⟨r1, r2⟩ := run_connect_ledger evs m0 m hrun
  rw [c1, List.nil_append] at r1
  have hall : (startConnectingRuns evs m0 ++ queuedStarts m.posted).Subperm
      (credentialCalls evs) := by
    rw [List.subperm_ext_iff]
    intro c _
    have := r2 c
    rw [c2] at this
    simp only [List.countP_nil, Nat.zero_add] at this
    show List.countP (fun x => decide (x = c))
        (startConnectingRuns evs m0 ++ queuedStarts m.posted) ≤
      List.countP (fun x => decide (x = c)) (credentialCalls evs)
    rw [List.countP_append]
    omega
  have hruns : (startConnectingRuns evs m0).Subperm (credentialCalls evs) :=
    (List.sublist_append_left _ _).subperm.trans hall
  have hlen := hruns.length_le
  refine ⟨r1, hall, hruns, hlen, by rw [r1]; exact hlen,
    le_trans (run_connecting_entries evs m0 m hrun) hlen, ?_⟩
  intro env ssid pw x
  exact ⟨(StartConnecting_started env ssid pw x).1,
    (StartConnecting_connect_ledger env ssid pw x).1⟩

/-- Witness for C24: three ConfigureCredentials calls on a fresh device, of
which two lead to a StartConnecting execution and a ConnectToService call; the
third delayed StartConnecting was invalidated by the second execution. -/
theorem C24_at_most_one_start_connecting_per_configure_credentials_witness :
    Init (envAt NetworkState.kOffline 0) (WifiBootstrapManager.create "" "" false)
      = some setupStart ∧
    run resubmitEvents setupStart = some resubmitDevice ∧
    credentialCalls resubmitEvents = [("net", "pw"), ("other", "pw2"), ("third", "pw3")] ∧
    startConnectingRuns resubmitEvents setupStart = [("net", "pw"), ("other", "pw2")] ∧
    transitions resubmitEvents setupStart = [State.kConnecting] ∧
    connectRequests resubmitDevice.network_calls = startConnectingRuns resubmitEvents setupStart ∧
    (connectRequests resubmitDevice.network_calls).length ≤
      (credentialCalls resubmitEvents).length :=
  ⟨by decide, by decide, by decide, by decide, by decide,
    (C24_at_most_one_start_connecting_per_configure_credentials "" "" false
      (envAt NetworkState.kOffline 0) setupStart resubmitDevice resubmitEvents
      (by decide) (by decide)).1,
    (C24_at_most_one_start_connecting_per_configure_credentials "" "" false
      (envAt NetworkState.kOffline 0) setupStart resubmitDevice resubmitEvents
      (by decide) (by decide)).2.2.2.2.1⟩

/-! ## C31: only OnConnectSuccess writes the last-configured SSID -/

/-- An event other than a live success callback leaves the last-configured
SSID as it was; a live success callback stores the SSID of its request. -/
theorem step_last_configured_ssid {env : Env} {ev : Event} {m m' : WifiBootstrapManager}
    (hstep : step env ev m = some m') :
    m'.last_configured_ssid_ = m.last_configured_ssid_ ∨
    ∃ i ssid pw, ev = Event.ConnectSuccess i ∧
      m.network_calls[i]? = some (NetworkCall.ConnectToService ssid pw m.tasks_gen) ∧
      m' = OnConnectSuccess env ssid m ∧ m'.last_configured_ssid_ = ssid := by
  cases ev with
  | OnConnectivityChange c =>
      simp only [step, Option.some.injEq] at hstep
      subst hstep
      left
      unfold OnConnectivityChange
      simp only []
      split
      · rw [StartMonitoring_last_configured_ssid, UpdateConnectionState_eq]
      · rw [UpdateConnectionState_eq]
  | ConfigureCredentials s p =>
      simp only [step, Option.some.injEq] at hstep
      subst hstep
      exact Or.inl rfl
  | RegisterStateListener l =>
      simp only [step, Option.some.injEq] at hstep
      subst hstep
      exact Or.inl rfl
  | RunTask i =>
      simp only [step] at hstep
      split at hstep
      · exact absurd hstep (by simp)
      · split at hstep
        · split at hstep
          · have h := runBound_last_configured_ssid hstep
            exact Or.inl h
          · simp only [Option.some.injEq] at hstep
            subst hstep
            exact Or.inl rfl
        · exact absurd hstep (by simp)
  | ConnectSuccess i =>
      simp only [step] at hstep
      split at hstep
      · split at hstep
        · rename_i ssid pw gen hc hg
          simp only [Option.some.injEq] at hstep
          subst hstep
          subst hg
          exact Or.inr ⟨i, ssid, pw, rfl, hc, rfl, by simp [OnConnectSuccess]⟩
        · simp only [Option.some.injEq] at hstep
          subst hstep
          exact Or.inl rfl
      · exact absurd hstep (by simp)

theorem run_last_configured_ssid (evs : List (Env × Event)) :
    ∀ (m m' : WifiBootstrapManager), NoConnectSuccess evs → run evs m = some m' →
      m'.last_configured_ssid_ = m.last_configured_ssid_ := by
  induction evs with
  | nil =>
      intro m m' _ hrun
      simp only [run, Option.some.injEq] at hrun
      subst hrun
      rfl
  | cons e rest ih =>
      intro m m' hno hrun
      obtain ⟨env, ev⟩ := e
      simp only [run] at hrun
      cases hs : step env ev m with
      | none => simp [hs] at hrun
      | some m1 =>
          rw [hs] at hrun
          have hev : ev.isConnectSuccess = false := hno (env, ev) (List.mem_cons_self _ _)
          have hrest : NoConnectSuccess rest := fun e he => hno e (List.mem_cons_of_mem _ he)
          have h := ih m1 m' hrest hrun
          rcases step_last_configured_ssid hs with h1 | ⟨i, _, _, hi, _⟩
          · exact h.trans h1
          · rw [hi] at hev
            exact absurd hev (by simp [Event.isConnectSuccess])

/-- C31: an event after which GetCurrentlyConnectedSsid() differs from before
is the provider running a success callback that is live, and the new value is
the SSID of that connect request (OnConnectSuccess).  So under every sequence
of events without a success callback the value stays: ConfigureCredentials,
the delayed StartConnecting, connectivity notifications, the bootstrap, monitor
and connect timeouts, listener registration and notification.  Function by
function: Init(), ConfigureCredentials, StartConnecting, OnConnectivityChange,
OnBootstrapTimeout, OnMonitorTimeout and OnConnectTimeout return with the value
they found; OnConnectSuccess stores its argument. -/
theorem C31_last_configured_ssid_changes_only_on_connect_success
    (env : Env) (ev : Event) (m m' : WifiBootstrapManager)
    (hstep : step env ev m = some m')
    (hchanged : GetCurrentlyConnectedSsid m' ≠ GetCurrentlyConnectedSsid m) :
    (∃ i ssid pw, ev = Event.ConnectSuccess i ∧
      m.network_calls[i]? = some (NetworkCall.ConnectToService ssid pw m.tasks_gen) ∧
      m' = OnConnectSuccess env ssid m ∧ GetCurrentlyConnectedSsid m' = ssid) ∧
    (∀ (evs : List (Env × Event)) (x x' : WifiBootstrapManager), NoConnectSuccess evs →
      run evs x = some x' → GetCurrentlyConnectedSsid x' = GetCurrentlyConnectedSsid x) ∧
    (∀ (e : Env) (x x' : WifiBootstrapManager), Init e x = some x' →
      GetCurrentlyConnectedSsid x' = GetCurrentlyConnectedSsid x) ∧
    (∀ (e : Env) (ssid pw : String) (x : WifiBootstrapManager),
      GetCurrentlyConnectedSsid (ConfigureCredentials e ssid pw x).2 =
        GetCurrentlyConnectedSsid x) ∧
    (∀ (e : Env) (ssid pw : String) (x : WifiBootstrapManager),
      GetCurrentlyConnectedSsid (StartConnecting e ssid pw x) =
        GetCurrentlyConnectedSsid x) ∧
    (∀ (e : Env) (is_connected : Bool) (x : WifiBootstrapManager),
      GetCurrentlyConnectedSsid (OnConnectivityChange e is_connected x) =
        GetCurrentlyConnectedSsid x) ∧
    (∀ (e : Env) (x : WifiBootstrapManager),
      GetCurrentlyConnectedSsid (OnBootstrapTimeout e x) = GetCurrentlyConnectedSsid x) ∧
    (∀ (e : Env) (x x' : WifiBootstrapManager), OnMonitorTimeout e x = some x' →
      GetCurrentlyConnectedSsid x' = GetCurrentlyConnectedSsid x) ∧
    (∀ (e : Env) (x x' : WifiBootstrapManager), OnConnectTimeout e x = some x' →
      GetCurrentlyConnectedSsid x' = GetCurrentlyConnectedSsid x) ∧
    (∀ (e : Env) (ssid : String) (x : WifiBootstrapManager),
      GetCurrentlyConnectedSsid (OnConnectSuccess e ssid x) = ssid) := by
  refine ⟨?_, ?_, ?_, ?_, ?_, ?_, ?_, ?_, ?_, ?_⟩
  · rcases step_last_configured_ssid hstep with h | h
    · exact absurd h hchanged
    · exact h
  · intro evs x x' hno hrun
    exact run_last_configured_ssid evs x x' hno hrun
  · intro e x x' h
    exact (Init_connection_state h).2
  · intro e ssid pw x
    rfl
  · intro e ssid pw x
    exact (StartConnecting_started e ssid pw x).2.2.2.1
  · intro e c x
    have h := @step_last_configured_ssid e (Event.OnConnectivityChange c) x _ rfl
    rcases h with h | ⟨_, _, _, hi, _⟩
    · exact h
    · exact absurd hi (by simp)
  · intro e x
    simp [OnBootstrapTimeout, GetCurrentlyConnectedSsid]
  · intro e x x' h
    exact StartBootstrapping_last_configured_ssid h
  · intro e x x' h
    simp only [OnConnectTimeout] at h
    have hs := StartBootstrapping_last_configured_ssid h
    exact hs
  · intro e ssid x
    simp [OnConnectSuccess, GetCurrentlyConnectedSsid]

/-- Witness for C31: the success callback of the first setup changes the
last-configured SSID from empty to "net"; and on a device configured for
"TEST_ssid" a request for "bad" that times out leaves "TEST_ssid". -/
theorem C31_last_configured_ssid_changes_only_on_connect_success_witness :
    step (envAt NetworkState.kConnected 2) (Event.ConnectSuccess 3) setupConnecting
      = some setupSucceeded ∧
    GetCurrentlyConnectedSsid setupConnecting = "" ∧
    GetCurrentlyConnectedSsid setupSucceeded = "net" ∧
    run failedSetupEvents onlineWithPrevSsid = some failedSetupDevice ∧
    GetSetupState failedSetupDevice = connectFailed ∧
    GetCurrentlyConnectedSsid failedSetupDevice = "TEST_ssid" ∧
    (∃ i ssid pw, Event.ConnectSuccess 3 = Event.ConnectSuccess i ∧
      setupConnecting.network_calls[i]? =
        some (NetworkCall.ConnectToService ssid pw setupConnecting.tasks_gen) ∧
      setupSucceeded = OnConnectSuccess (envAt NetworkState.kConnected 2) ssid setupConnecting ∧
      GetCurrentlyConnectedSsid setupSucceeded = ssid) :=
  ⟨by decide, by decide, by decide, by decide, by decide, by decide,
    (C31_last_configured_ssid_changes_only_on_connect_success
      (envAt NetworkState.kConnected 2) (Event.ConnectSuccess 3) setupConnecting setupSucceeded
      (by decide) (by decide)).1⟩

/-! ## C32: uw_macaroon_context_create_ -/

/-- C32: for all arguments, uw_macaroon_context_create_ returns false exactly
if ble_session_id is NULL with a non-zero length, or auth_challenge_str is NULL
with a non-zero length, or new_context is NULL; when it returns false the
output object, if there is one, holds what it held before.  When it returns
true there is an output object and afterwards it holds exactly the given
current_time, the two pointers and the two lengths, whatever it held before;
a NULL pointer with length 0 is accepted. -/
theorem C32_macaroon_context_create_checks_arguments_and_fills_context
    (current_time : Nat) (ble_session_id : Option Nat) (ble_session_id_len : Nat)
    (auth_challenge_str : Option Nat) (auth_challenge_str_len : Nat)
    (new_context : Option UwMacaroonContext) :
    ((uw_macaroon_context_create_ current_time ble_session_id ble_session_id_len
        auth_challenge_str auth_challenge_str_len new_context).1 = false ↔
      (ble_session_id = none ∧ ble_session_id_len ≠ 0) ∨
      (auth_challenge_str = none ∧ auth_challenge_str_len ≠ 0) ∨
      new_context = none) ∧
    ((uw_macaroon_context_create_ current_time ble_session_id ble_session_id_len
        auth_challenge_str auth_challenge_str_len new_context).1 = false →
      (uw_macaroon_context_create_ current_time ble_session_id ble_session_id_len
        auth_challenge_str auth_challenge_str_len new_context).2 = new_context) ∧
    ((uw_macaroon_context_create_ current_time ble_session_id ble_session_id_len
        auth_challenge_str auth_challenge_str_len new_context).1 = true →
      new_context ≠ none ∧
      (uw_macaroon_context_create_ current_time ble_session_id ble_session_id_len
        auth_challenge_str auth_challenge_str_len new_context).2 =
        some { current_time := current_time, ble_session_id := ble_session_id,
               ble_session_id_len := ble_session_id_len,
               auth_challenge_str := auth_challenge_str,
               auth_challenge_str_len := auth_challenge_str_len }) ∧
    (uw_macaroon_context_create_ current_time none 0 none 0
        (some UwMacaroonContext.zero)).1 = true := by
  unfold uw_macaroon_context_create_
  by_cases h : (ble_session_id = none ∧ ble_session_id_len ≠ 0) ∨
      (auth_challenge_str = none ∧ auth_challenge_str_len ≠ 0)
  · rw [if_pos h]
    refine ⟨?_, ?_, ?_, by simp⟩
    · simp only [true_iff]
      rcases h with h | h
      · exact Or.inl h
      · exact Or.inr (Or.inl h)
    · intro _
      rfl
    · intro hf
      exact absurd hf (by simp)
  · rw [if_neg h]
    cases new_context with
    | none =>
        refine ⟨?_, ?_, ?_, by simp⟩
        · simp
        · intro _
          rfl
        · intro hf
          exact absurd hf (by simp)
    | some old =>
        refine ⟨?_, ?_, ?_, by simp⟩
        · simp only [Bool.true_eq_false, false_iff]
          intro hc
          rcases hc with hc | hc | hc
          · exact h (Or.inl hc)
          · exact h (Or.inr hc)
          · exact absurd hc (by simp)
        · intro hf
          exact absurd hf (by simp)
        · intro _
          exact ⟨by simp, rfl⟩

/-! ## C34: MigrateFromV0 -/

/-- What MigrateFromV0 leaves under each key when the dictionary has no
non-empty string "cloud_id". -/
theorem MigrateFromV0_Get (dict : DictionaryValue Value) (k : String)
    (hno : ∀ s, DictionaryValue.GetString dict "cloud_id" = some s → s = "") :
    DictionaryValue.Get (MigrateFromV0 dict) k =
      match DictionaryValue.Get dict "device_id" with
      | some v => if k = "cloud_id" then some v else if k = "device_id" then none
          else DictionaryValue.Get dict k
      | none => DictionaryValue.Get dict k := by
  have hc : (match DictionaryValue.GetString dict config_keys.kCloudId with
      | some cloud_id => decide (cloud_id ≠ "")
      | none => false) = false := by
    cases hg : DictionaryValue.GetString dict config_keys.kCloudId with
    | none => rfl
    | some s =>
        have := hno s hg
        simp [this]
  unfold MigrateFromV0
  simp only [hc, Bool.false_eq_true, if_false]
  cases hd : DictionaryValue.Get dict "device_id" with
  | none =>
      have hr : dict.Remove config_keys.kDeviceId =
          (none, (dict.Remove config_keys.kDeviceId).2) := by
        unfold DictionaryValue.Remove
        unfold DictionaryValue.Get at hd
        simp only [config_keys.kDeviceId]
        rw [hd]
      rw [hr]
      simp only []
      rw [DictionaryValue.Get_Remove]
      by_cases h : k = config_keys.kDeviceId
      · rw [h]
        simp only [if_true]
        exact hd.symm
      · simp [h]
  | some v =>
      have hr : dict.Remove config_keys.kDeviceId =
          (some v, (dict.Remove config_keys.kDeviceId).2) := by
        unfold DictionaryValue.Remove
        unfold DictionaryValue.Get at hd
        simp only [config_keys.kDeviceId]
        rw [hd]
      rw [hr]
      simp only []
      rw [DictionaryValue.Get_Set, DictionaryValue.Get_Remove]
      simp only [config_keys.kCloudId, config_keys.kDeviceId]

/-- C34: MigrateFromV0 on any dictionary.  If "cloud_id" is a non-empty string
the dictionary is returned as it is.  Otherwise, if "device_id" is present,
its value is afterwards the value of "cloud_id" (replacing whatever was stored
there) and "device_id" is absent; and if "device_id" is absent every key has
the value it had.  In every case each key other than "cloud_id" and
"device_id" has the value it had, or none as before. -/
theorem C34_migrate_from_v0_moves_device_id_to_cloud_id (dict : DictionaryValue Value) :
    (∀ s, DictionaryValue.GetString dict "cloud_id" = some s → s ≠ "" →
      MigrateFromV0 dict = dict) ∧
    ((∀ s, DictionaryValue.GetString dict "cloud_id" = some s → s = "") →
      ∀ v, DictionaryValue.Get dict "device_id" = some v →
        DictionaryValue.Get (MigrateFromV0 dict) "cloud_id" = some v ∧
        DictionaryValue.Get (MigrateFromV0 dict) "device_id" = none) ∧
    ((∀ s, DictionaryValue.GetString dict "cloud_id" = some s → s = "") →
      DictionaryValue.Get dict "device_id" = none →
      ∀ k, DictionaryValue.Get (MigrateFromV0 dict) k = DictionaryValue.Get dict k) ∧
    (∀ k : String, k ≠ "cloud_id" → k ≠ "device_id" →
      DictionaryValue.Get (MigrateFromV0 dict) k = DictionaryValue.Get dict k) := by
  have hyes : ∀ s, DictionaryValue.GetString dict "cloud_id" = some s → s ≠ "" →
      MigrateFromV0 dict = dict := by
    intro s hs hne
    unfold MigrateFromV0
    have hs' : DictionaryValue.GetString dict config_keys.kCloudId = some s := hs
    simp [hs', hne]
  refine ⟨hyes, ?_, ?_, ?_⟩
  · intro hno v hv
    constructor
    · rw [MigrateFromV0_Get dict "cloud_id" hno, hv]
      simp
    · rw [MigrateFromV0_Get dict "device_id" hno, hv]
      simp
  · intro hno hd k
    rw [MigrateFromV0_Get dict k hno, hd]
  · intro k h1 h2
    by_cases hc : ∀ s, DictionaryValue.GetString dict "cloud_id" = some s → s = ""
    · rw [MigrateFromV0_Get dict k hc]
      cases hd : DictionaryValue.Get dict "device_id" with
      | none => rfl
      | some v => simp [h1, h2]
    · have : ∃ s, DictionaryValue.GetString dict "cloud_id" = some s ∧ s ≠ "" := by
        by_contra hcon
        apply hc
        intro s hs
        by_contra hne
        exact hcon ⟨s, hs, hne⟩
      obtain ⟨s, hs, hne⟩ := this
      rw [hyes s hs hne]

/-! ## C33: LoadState after Save -/

/-- What the dictionary built by Config::Save holds under each key. -/
theorem SaveDictionary_Get (ext : External) (s : Settings) (k : String) :
    DictionaryValue.Get (SaveDictionary ext s) k =
      if k = "local_access_enabled" then some (Value.boolean s.local_access_enabled)
      else if k = "local_anonymous_access_role" then
        some (Value.string (EnumToStringMap ext.kAuthScopeMap s.local_anonymous_access_role))
      else if k = "location" then some (Value.string s.location)
      else if k = "description" then some (Value.string s.description)
      else if k = "name" then some (Value.string s.name)
      else if k = "root_client_token_owner" then
        some (Value.string
          (EnumToStringMap kRootClientTokenOwnerMap s.root_client_token_owner))
      else if k = "secret" then some (Value.string (ext.Base64Encode s.secret))
      else if k = "last_configured_ssid" then some (Value.string s.last_configured_ssid)
      else if k = "robot_account" then some (Value.string s.robot_account)
      else if k = "device_id" then some (Value.string s.device_id)
      else if k = "cloud_id" then some (Value.string s.cloud_id)
      else if k = "refresh_token" then some (Value.string s.refresh_token)
      else if k = "xmpp_endpoint" then some (Value.string s.xmpp_endpoint)
      else if k = "service_url" then some (Value.string s.service_url)
      else if k = "oauth_url" then some (Value.string s.oauth_url)
      else if k = "api_key" then some (Value.string s.api_key)
      else if k = "client_secret" then some (Value.string s.client_secret)
      else if k = "client_id" then some (Value.string s.client_id)
      else if k = "version" then some (Value.integer 2)
      else none := by
  unfold SaveDictionary
  simp only [DictionaryValue.SetString, DictionaryValue.SetBoolean, DictionaryValue.SetInteger,
    DictionaryValue.Get_Set]
  rfl

theorem StringToEnum_rootClientTokenOwner (v : RootClientTokenOwner) :
    StringToEnum kRootClientTokenOwnerMap (EnumToStringMap kRootClientTokenOwnerMap v) =
      some v := by
  cases v <;> decide

/-- Reading back the dictionary that Config::Save builds for `s`: every setter
runs, with the value of `s` (the service URL after the replacement of the
deprecated URL). -/
theorem LoadStateFields_SaveDictionary (ext : External) (s s0 : Settings)
    (hsecret : ext.Base64Decode (ext.Base64Encode s.secret) = some s.secret)
    (hrole : StringToEnum ext.kAuthScopeMap
      (EnumToStringMap ext.kAuthScopeMap s.local_anonymous_access_role) =
        some s.local_anonymous_access_role) :
    Transaction.LoadStateFields ext (SaveDictionary ext s) s0 =
      (((((((((((((((((s0.set_client_id s.client_id).set_client_secret
        s.client_secret).set_api_key s.api_key).set_oauth_url s.oauth_url).set_service_url
        (if s.service_url = kDeprecatedUrl then kWeaveUrl else s.service_url)).set_xmpp_endpoint
        s.xmpp_endpoint).set_name s.name).set_description s.description).set_location
        s.location).set_local_anonymous_access_role
        s.local_anonymous_access_role).set_local_access_enabled
        s.local_access_enabled).set_cloud_id s.cloud_id).set_device_id
        s.device_id).set_refresh_token s.refresh_token).set_robot_account
        s.robot_account).set_last_configured_ssid s.last_configured_ssid).set_secret
        s.secret).set_root_client_token_owner s.root_client_token_owner := by
  have h1 : DictionaryValue.GetString (SaveDictionary ext s) config_keys.kClientId =
      some s.client_id := by
    simp [DictionaryValue.GetString, SaveDictionary_Get, config_keys.kClientId]
  have h2 : DictionaryValue.GetString (SaveDictionary ext s) config_keys.kClientSecret =
      some s.client_secret := by
    simp [DictionaryValue.GetString, SaveDictionary_Get, config_keys.kClientSecret]
  have h3 : DictionaryValue.GetString (SaveDictionary ext s) config_keys.kApiKey =
      some s.api_key := by
    simp [DictionaryValue.GetString, SaveDictionary_Get, config_keys.kApiKey]
  have h4 : DictionaryValue.GetString (SaveDictionary ext s) config_keys.kOAuthUrl =
      some s.oauth_url := by
    simp [DictionaryValue.GetString, SaveDictionary_Get, config_keys.kOAuthUrl]
  have h5 : DictionaryValue.GetString (SaveDictionary ext s) config_keys.kServiceUrl =
      some s.service_url := by
    simp [DictionaryValue.GetString, SaveDictionary_Get, config_keys.kServiceUrl]
  have h6 : DictionaryValue.GetString (SaveDictionary ext s) config_keys.kXmppEndpoint =
      some s.xmpp_endpoint := by
    simp [DictionaryValue.GetString, SaveDictionary_Get, config_keys.kXmppEndpoint]
  have h7 : DictionaryValue.GetString (SaveDictionary ext s) config_keys.kName =
      some s.name := by
    simp [DictionaryValue.GetString, SaveDictionary_Get, config_keys.kName]
  have h8 : DictionaryValue.GetString (SaveDictionary ext s) config_keys.kDescription =
      some s.description := by
    simp [DictionaryValue.GetString, SaveDictionary_Get, config_keys.kDescription]
  have h9 : DictionaryValue.GetString (SaveDictionary ext s) config_keys.kLocation =
      some s.location := by
    simp [DictionaryValue.GetString, SaveDictionary_Get, config_keys.kLocation]
  have h10 : DictionaryValue.GetString (SaveDictionary ext s)
      config_keys.kLocalAnonymousAccessRole =
      some (EnumToStringMap ext.kAuthScopeMap s.local_anonymous_access_role) := by
    simp [DictionaryValue.GetString, SaveDictionary_Get, config_keys.kLocalAnonymousAccessRole]
  have h11 : DictionaryValue.GetBoolean (SaveDictionary ext s)
      config_keys.kLocalAccessEnabled = some s.local_access_enabled := by
    simp [DictionaryValue.GetBoolean, SaveDictionary_Get, config_keys.kLocalAccessEnabled]
  have h12 : DictionaryValue.GetString (SaveDictionary ext s) config_keys.kCloudId =
      some s.cloud_id := by
    simp [DictionaryValue.GetString, SaveDictionary_Get, config_keys.kCloudId]
  have h13 : DictionaryValue.GetString (SaveDictionary ext s) config_keys.kDeviceId =
      some s.device_id := by
    simp [DictionaryValue.GetString, SaveDictionary_Get, config_keys.kDeviceId]
  have h14 : DictionaryValue.GetString (SaveDictionary ext s) config_keys.kRefreshToken =
      some s.refresh_token := by
    simp [DictionaryValue.GetString, SaveDictionary_Get, config_keys.kRefreshToken]
  have h15 : DictionaryValue.GetString (SaveDictionary ext s) config_keys.kRobotAccount =
      some s.robot_account := by
    simp [DictionaryValue.GetString, SaveDictionary_Get, config_keys.kRobotAccount]
  have h16 : DictionaryValue.GetString (SaveDictionary ext s)
      config_keys.kLastConfiguredSsid = some s.last_configured_ssid := by
    simp [DictionaryValue.GetString, SaveDictionary_Get, config_keys.kLastConfiguredSsid]
  have h17 : DictionaryValue.GetString (SaveDictionary ext s) config_keys.kSecret =
      some (ext.Base64Encode s.secret) := by
    simp [DictionaryValue.GetString, SaveDictionary_Get, config_keys.kSecret]
  have h18 : DictionaryValue.GetString (SaveDictionary ext s)
      config_keys.kRootClientTokenOwner =
      some (EnumToStringMap kRootClientTokenOwnerMap s.root_client_token_owner) := by
    simp [DictionaryValue.GetString, SaveDictionary_Get, config_keys.kRootClientTokenOwner]
  unfold Transaction.LoadStateFields
  simp only [h1, h2, h3, h4, h5, h6, h7, h8, h9, h10, h11, h12, h13, h14, h15, h16, h17, h18,
    hsecret, hrole, StringToEnum_rootClientTokenOwner]

theorem SaveDictionary_version (ext : External) (s : Settings) :
    DictionaryValue.GetInteger (SaveDictionary ext s) config_keys.kVersion = some 2 := by
  simp [DictionaryValue.GetInteger, SaveDictionary_Get, config_keys.kVersion]

/-- C33: let the store of a Config return, under the name "config", the text
that Config::Save wrote for the settings `s`, and let the JSON reader read that
text as the dictionary that Save built (both are outside the sources, as are
the Base64 codec and the names of AuthScope, of which it is assumed that the
secret and the role of `s` survive encoding and decoding).  Then after
LoadState every persisted setting has its value in `s`, except that a service
URL equal to the deprecated clouddevices URL is the Weave URL; the settings
that are not persisted are as before; the transaction is as before, so its
save flag is not set by the load; and nothing was saved.  Config::Save, with a
store, writes exactly one text, under the name "config": the JSON of that
dictionary. -/
theorem C33_load_state_restores_saved_settings
    (ext : External) (c : Config) (t : Transaction) (config_store : ConfigStore)
    (s : Settings)
    (hstore : c.config_store_ = some config_store)
    (hsaved : config_store.LoadSettings kConfigName = ext.WriteJson (SaveDictionary ext s))
    (hnonempty : ext.WriteJson (SaveDictionary ext s) ≠ "")
    (hread : ext.ReadJson (ext.WriteJson (SaveDictionary ext s)) = some (SaveDictionary ext s))
    (hsecret : ext.Base64Decode (ext.Base64Encode s.secret) = some s.secret)
    (hrole : StringToEnum ext.kAuthScopeMap
      (EnumToStringMap ext.kAuthScopeMap s.local_anonymous_access_role) =
        some s.local_anonymous_access_role) :
    (Transaction.LoadState ext c t).1.settings_.client_id = s.client_id ∧
    (Transaction.LoadState ext c t).1.settings_.client_secret = s.client_secret ∧
    (Transaction.LoadState ext c t).1.settings_.api_key = s.api_key ∧
    (Transaction.LoadState ext c t).1.settings_.oauth_url = s.oauth_url ∧
    (Transaction.LoadState ext c t).1.settings_.service_url =
      (if s.service_url = kDeprecatedUrl then kWeaveUrl else s.service_url) ∧
    (Transaction.LoadState ext c t).1.settings_.xmpp_endpoint = s.xmpp_endpoint ∧
    (Transaction.LoadState ext c t).1.settings_.name = s.name ∧
    (Transaction.LoadState ext c t).1.settings_.description = s.description ∧
    (Transaction.LoadState ext c t).1.settings_.location = s.location ∧
    (Transaction.LoadState ext c t).1.settings_.local_anonymous_access_role =
      s.local_anonymous_access_role ∧
    (Transaction.LoadState ext c t).1.settings_.local_access_enabled =
      s.local_access_enabled ∧
    (Transaction.LoadState ext c t).1.settings_.cloud_id = s.cloud_id ∧
    (Transaction.LoadState ext c t).1.settings_.device_id = s.device_id ∧
    (Transaction.LoadState ext c t).1.settings_.refresh_token = s.refresh_token ∧
    (Transaction.LoadState ext c t).1.settings_.robot_account = s.robot_account ∧
    (Transaction.LoadState ext c t).1.settings_.last_configured_ssid =
      s.last_configured_ssid ∧
    (Transaction.LoadState ext c t).1.settings_.secret = s.secret ∧
    (Transaction.LoadState ext c t).1.settings_.root_client_token_owner =
      s.root_client_token_owner ∧
    ((Transaction.LoadState ext c t).1.settings_.oem_name = c.settings_.oem_name ∧
      (Transaction.LoadState ext c t).1.settings_.model_name = c.settings_.model_name ∧
      (Transaction.LoadState ext c t).1.settings_.model_id = c.settings_.model_id ∧
      (Transaction.LoadState ext c t).1.settings_.embedded_code = c.settings_.embedded_code ∧
      (Transaction.LoadState ext c t).1.settings_.pairing_modes =
        c.settings_.pairing_modes) ∧
    (Transaction.LoadState ext c t).2 = t ∧
    (Transaction.LoadState ext c t).2.save_ = t.save_ ∧
    (Transaction.LoadState ext c t).1.save_settings_calls = c.save_settings_calls ∧
    (∀ (c0 : Config) (store0 : ConfigStore), c0.config_store_ = some store0 →
      (Config.Save ext c0).save_settings_calls =
        c0.save_settings_calls ++
          [(kConfigName, ext.WriteJson (SaveDictionary ext c0.settings_))]) := by
  have hv := SaveDictionary_version ext s
  have hL : Transaction.LoadState ext c t =
      ({ c with settings_ :=
          Transaction.LoadStateFields ext (SaveDictionary ext s) c.settings_ }, t) := by
    unfold Transaction.LoadState
    simp only [hstore, hsaved, hnonempty, if_false, hread, hv, Option.getD_some,
      kCurrentConfigVersion]
    simp
  have hlast : ∀ (c0 : Config) (store0 : ConfigStore), c0.config_store_ = some store0 →
      (Config.Save ext c0).save_settings_calls =
        c0.save_settings_calls ++
          [(kConfigName, ext.WriteJson (SaveDictionary ext c0.settings_))] := by
    intro c0 store0 h0
    simp [Config.Save, h0]
  rw [hL, LoadStateFields_SaveDictionary ext s c.settings_ hsecret hrole]
  simp only [Settings.set_client_id, Settings.set_client_secret, Settings.set_api_key,
    Settings.set_oauth_url, Settings.set_service_url, Settings.set_xmpp_endpoint,
    Settings.set_name, Settings.set_description, Settings.set_location,
    Settings.set_local_anonymous_access_role, Settings.set_local_access_enabled,
    Settings.set_cloud_id, Settings.set_device_id, Settings.set_refresh_token,
    Settings.set_robot_account, Settings.set_last_configured_ssid, Settings.set_secret,
    Settings.set_root_client_token_owner, true_and, and_self]
  exact hlast

/-- Witness for C33: a Config with default settings whose store holds what was
saved for `sampleSettings`; after LoadState the name is "lamp", the secret is
the three bytes saved, and the deprecated service URL has become the Weave
URL. -/
theorem C33_load_state_restores_saved_settings_witness :
    (Transaction.LoadState sampleExternal sampleConfig
      { config_ := true, save_ := false }).1.settings_.name = "lamp" ∧
    (Transaction.LoadState sampleExternal sampleConfig
      { config_ := true, save_ := false }).1.settings_.secret = [1, 2, 3] ∧
    (Transaction.LoadState sampleExternal sampleConfig
      { config_ := true, save_ := false }).1.settings_.service_url =
      "https://www.googleapis.com/weave/v1/" ∧
    (Transaction.LoadState sampleExternal sampleConfig
      { config_ := true, save_ := false }).2.save_ = false ∧
    (Transaction.LoadState sampleExternal sampleConfig
      { config_ := true, save_ := false }).1.settings_.client_id = sampleSettings.client_id :=
  ⟨by decide, by decide, by decide, by decide,
    (C33_load_state_restores_saved_settings sampleExternal sampleConfig
      { config_ := true, save_ := false } sampleStore sampleSettings
      rfl (by decide) (by decide) (by decide) (by decide) (by decide)).1⟩

/-! ## C35: Commit -/

/-- Commit of a transaction whose `config_` is null does nothing. -/
theorem Commit_detached (ext : External) (c : Config) (t : Transaction)
    (h : t.config_ = false) : Transaction.Commit ext c t = (c, t) := by
  simp [Transaction.Commit, h]

/-- C35: the first Commit of a transaction, one whose `config_` is not null.
It calls Config::Save exactly if the save flag is set (Save writes the
settings to the store, one text under the name "config", when the Config has a
store, and does nothing otherwise); then it runs every registered on-changed
callback once, in registration order, each with the current settings; it
changes neither the settings nor the registered callbacks; and it sets
`config_` to null.  Every later Commit of the same transaction, and the
destructor, which calls Commit, returns without doing anything, whatever the
state of the Config is then. -/
theorem C35_commit_saves_and_notifies_once
    (ext : External) (c : Config) (t : Transaction) (hlive : t.config_ = true) :
    (t.save_ = true →
      (Transaction.Commit ext c t).1.save_settings_calls =
        (Config.Save ext c).save_settings_calls ∧
      (Transaction.Commit ext c t).1.save_settings_calls =
        c.save_settings_calls ++
          (match c.config_store_ with
            | some _ => [(kConfigName, ext.WriteJson (SaveDictionary ext c.settings_))]
            | none => [])) ∧
    (t.save_ = false →
      (Transaction.Commit ext c t).1.save_settings_calls = c.save_settings_calls) ∧
    (Transaction.Commit ext c t).1.callback_runs =
      c.callback_runs ++ c.on_changed_.map (fun cb => (cb, c.settings_)) ∧
    (Transaction.Commit ext c t).1.settings_ = c.settings_ ∧
    (Transaction.Commit ext c t).1.on_changed_ = c.on_changed_ ∧
    (Transaction.Commit ext c t).2.config_ = false ∧
    (Transaction.Commit ext c t).2.save_ = t.save_ ∧
    (∀ c' : Config, Transaction.Commit ext c' (Transaction.Commit ext c t).2 =
      (c', (Transaction.Commit ext c t).2)) ∧
    (∀ c' : Config, Transaction.destroy ext c' (Transaction.Commit ext c t).2 =
      (c', (Transaction.Commit ext c t).2)) ∧
    Transaction.Commit ext (Transaction.Commit ext c t).1 (Transaction.Commit ext c t).2 =
      Transaction.Commit ext c t := by
  have hsave : (Config.Save ext c).settings_ = c.settings_ ∧
      (Config.Save ext c).on_changed_ = c.on_changed_ ∧
      (Config.Save ext c).callback_runs = c.callback_runs ∧
      (Config.Save ext c).save_settings_calls =
        c.save_settings_calls ++
          (match c.config_store_ with
            | some _ => [(kConfigName, ext.WriteJson (SaveDictionary ext c.settings_))]
            | none => []) := by
    unfold Config.Save
    cases c.config_store_ <;> simp
  have hdead : (Transaction.Commit ext c t).2.config_ = false := by
    simp [Transaction.Commit, hlive]
  have hagain : ∀ c' : Config, Transaction.Commit ext c' (Transaction.Commit ext c t).2 =
      (c', (Transaction.Commit ext c t).2) := by
    intro c'
    exact Commit_detached ext c' _ hdead
  obtain ⟨s1, s2, s3, s4⟩ := hsave
  refine ⟨?_, ?_, ?_, ?_, ?_, hdead, ?_, hagain, hagain, hagain _⟩
  · intro hs
    simp only [Transaction.Commit, hlive, hs, Bool.true_eq_false, if_false, if_true, true_and]
    exact s4
  · intro hs
    simp [Transaction.Commit, hlive, hs]
  · cases hs : t.save_ <;> simp [Transaction.Commit, hlive, hs, s1, s2, s3]
  · cases hs : t.save_ <;> simp [Transaction.Commit, hlive, hs, s1]
  · cases hs : t.save_ <;> simp [Transaction.Commit, hlive, hs, s2]
  · simp [Transaction.Commit, hlive]

/-- Witness for C35: a transaction on `sampleConfig` with the save flag set.
Its first Commit writes one text to the store and runs the callbacks 4 and 9
in that order; the second Commit changes nothing. -/
theorem C35_commit_saves_and_notifies_once_witness :
    (Transaction.Commit sampleExternal sampleConfig
      { config_ := true, save_ := true }).1.save_settings_calls = [("config", "settings")] ∧
    (Transaction.Commit sampleExternal sampleConfig
      { config_ := true, save_ := true }).1.callback_runs =
      [(4, sampleDefaults), (9, sampleDefaults)] ∧
    (Transaction.Commit sampleExternal
      (Transaction.Commit sampleExternal sampleConfig
        { config_ := true, save_ := true }).1
      (Transaction.Commit sampleExternal sampleConfig
        { config_ := true, save_ := true }).2).1.callback_runs =
      [(4, sampleDefaults), (9, sampleDefaults)] ∧
    (Transaction.Commit sampleExternal sampleConfig
      { config_ := true, save_ := true }).2.config_ = false :=
  ⟨by decide, by decide, by decide,
    (C35_commit_saves_and_notifies_once sampleExternal sampleConfig
      { config_ := true, save_ := true } (by decide)).2.2.2.2.2.1⟩

end Weave
